import Mathlib

/-!
# MSCG interaction class framework and geometry engine

A shallow embedding of `src/interaction_model.cpp` / `src/interaction_model.h` (range
reading, cutoff adjustment, column assignment, the nonbonded cutoff check, the header of
the table reader, the grids of force values, the three-body column indices), of
`src/geometry.cpp` (distances, angles, dihedrals, the Stillinger-Weber angle term, the
folding of a particle into the box) and of `src/fm_output.cpp` (the spline coefficient
writers, the table writers, the bootstrapping standard error, the dispatch over the
interaction classes).

Modelling conventions.
* In the interaction model `double` values are exact rationals (`ℚ`); `floor` is
  `Int.floor`, the C cast `(int)(x)` is truncation toward zero (`int_cast`).
* Where the rounding of `double` arithmetic changes what the code does (the cutoff
  adjustment, the nonbonded cutoff check, the force grids, the bootstrapping standard
  error, the folding of a particle into the box) a second definition with the suffix
  `_double` rounds the result of every operation with a parameter `rnd : ℚ → ℚ`.
  `round_double` is the rounding of IEEE 754 binary64: round to nearest, ties to even,
  53-bit significand; the exponent range is taken as unbounded, so overflow and subnormal
  numbers are not modelled. A general property of a `_double` function is stated for every
  `rnd` under the hypothesis that `rnd` leaves the results of the operations involved
  unchanged; instances are evaluated with `round_double`.
* `int` and `unsigned` values are unbounded integers / naturals: no wrap-around
  is modelled.
* Arrays and vectors are lists, read with `getD` and written with `set`.
* `exit(EXIT_FAILURE)` is the `Except.error` result, carrying the diagnostic
  and the class state at the moment of the exit.
* In the geometry code `double` and `real` values are elements of a linearly ordered
  field `K` (exact arithmetic, with `x / 0 = 0`); the functions of `<cmath>` and the
  constants `DEGREES_PER_RADIAN`, `VERYSMALL_F` of the absent `misc.h` are the fields of a
  parameter `MathEnv K`. Properties that depend on what `acos`, `sin` and `sqrt` compute
  are stated for `K = ℝ` with the exact real functions (`exact_reals`). Rounding is not
  modelled in the geometry code. Where the code divides by a quantity that can be zero
  (the cosine of the angle functions, the reciprocal square roots of the dihedral
  functions) a second definition with the suffix `_ieee` returns a `DoubleValue`: a finite
  number, an infinity or a NaN, by the rules of IEEE 754 for a zero divisor.
* Position and derivative arrays are functions of the index; reference arguments are
  passed in and returned with the flag. Locals the code reads without initialising
  (`calc_angle`) are arguments of the model, and so is the macro `MAXFLOAT`, whose value
  depends on the headers of the platform.
* Where the code writes a `std::vector` by index (the force grids, the three-body column
  indices) the model returns an `Option`: `none` stands for a write past the end of the
  vector.
* A function of `fm_output.cpp` that writes a file returns the numbers it prints, line by
  line; file names, type names and header text are left out. `write_interaction_data_to_file`
  returns the sequence of the calls it makes. Functions of absent code (`integrate_force`,
  `standardize_potential`, the spline evaluators, `sqrt`) are parameters. The one `unsigned`
  expression whose wrap-around shows in the output (the bin number in the `.b` file) is
  taken modulo `2^32`.
-/

namespace MSCG

/-- Modelled from the spec: the enum `BasisType` is declared in `splines.h`, which is
not among the sources; the spec lists the basis types "linear spline | B-spline", and
`kOtherBasis` stands for every other enumerator. -/
inductive BasisType where
  | kLinearSpline
  | kBSpline
  | kOtherBasis
  deriving DecidableEq, Repr

/-- The enum `InteractionClassType` of `interaction_model.h`. -/
inductive InteractionClassType where
  | kPairNonbonded
  | kPairBonded
  | kAngularBonded
  | kDihedralBonded
  | kThreeBodyNonbonded
  | kDensity
  deriving DecidableEq, Repr

open BasisType InteractionClassType

/-- The data members of `struct InteractionClassSpec` used by the setup pipeline. -/
structure InteractionClassSpec where
  basis_type : BasisType
  bspline_k : Int
  fm_binwidth : ℚ
  class_type : InteractionClassType
  class_subtype : Int
  output_binwidth : ℚ
  n_defined : Nat
  defined_to_matched_intrxn_index_map : List Nat
  defined_to_tabulated_intrxn_index_map : List Nat
  interaction_column_indices : List Int
  n_to_force_match : Nat
  n_tabulated : Nat
  lower_cutoffs : List ℚ
  upper_cutoffs : List ℚ
  cutoff : ℚ

/-- One record of the range file as `fscanf(range_in, "%lf%lf%s\n", ...)` reads it
(the type names before it are skipped). -/
structure RangeLine where
  lower : ℚ
  upper : ℚ
  mode : String

/-- The C conversion `(int)(x)` of a double: truncation toward zero. -/
def int_cast (x : ℚ) : Int := if 0 ≤ x then ⌊x⌋ else ⌈x⌉

/-- Line 121-122 of `adjust_cutoffs_for_basis`: the new lower cutoff of a linear-spline
interaction, `floor(lower / output_binwidth + 0.5) * output_binwidth`, replaced by 0
when negative. -/
def linear_lower (output_binwidth lower : ℚ) : ℚ :=
  let lo1 : ℚ := (⌊lower / output_binwidth + 1/2⌋ : ℚ) * output_binwidth
  if lo1 < 0 then 0 else lo1

/-- Line 123 of `adjust_cutoffs_for_basis`: the new upper cutoff of a linear-spline
interaction from the new lower cutoff and the declared upper bound. -/
def linear_upper (fm_binwidth new_lower upper : ℚ) : ℚ :=
  new_lower + (⌊(upper - new_lower) / fm_binwidth + 1/2⌋ : ℚ) * fm_binwidth

/-- Line 125 of `adjust_cutoffs_for_basis`: the new upper cutoff of a B-spline
interaction, in exact arithmetic; `bspline_upper_double` rounds the quotient and the
product. -/
def bspline_upper (output_binwidth upper : ℚ) : ℚ :=
  ((int_cast (upper / output_binwidth) + 1 : Int) : ℚ) * output_binwidth

/-- Line 126 of `adjust_cutoffs_for_basis`: the new lower cutoff of a B-spline
interaction from the new upper cutoff and the declared lower bound, in exact arithmetic;
`bspline_lower_double` rounds every operation. -/
def bspline_lower (fm_binwidth new_upper lower : ℚ) : ℚ :=
  new_upper - ((int_cast ((new_upper - lower) / fm_binwidth) + 1 : Int) : ℚ) * fm_binwidth

/-- `InteractionClassSpec::adjust_cutoffs_for_basis(int i)`. -/
def adjust_cutoffs_for_basis (s : InteractionClassSpec) (i : Nat) : InteractionClassSpec :=
  if s.basis_type = kLinearSpline then
    let lo : ℚ := linear_lower s.output_binwidth (s.lower_cutoffs.getD i 0)
    let up : ℚ := linear_upper s.fm_binwidth lo (s.upper_cutoffs.getD i 0)
    { s with lower_cutoffs := s.lower_cutoffs.set i lo, upper_cutoffs := s.upper_cutoffs.set i up }
  else if s.basis_type = kBSpline then
    let up : ℚ := bspline_upper s.output_binwidth (s.upper_cutoffs.getD i 0)
    let lo : ℚ := bspline_lower s.fm_binwidth up (s.lower_cutoffs.getD i 0)
    { s with lower_cutoffs := s.lower_cutoffs.set i lo, upper_cutoffs := s.upper_cutoffs.set i up }
  else s

/-- `InteractionClassSpec::adjust_cutoffs_for_type(int i)`; the constant `VERYSMALL_F`
of the absent `misc.h` is a parameter. -/
def adjust_cutoffs_for_type (VERYSMALL_F : ℚ) (s : InteractionClassSpec) (i : Nat) :
    InteractionClassSpec :=
  let s1 : InteractionClassSpec :=
    if s.basis_type = kLinearSpline ∧ s.class_type = kPairNonbonded ∧
        |s.upper_cutoffs.getD i 0 - s.cutoff - s.fm_binwidth| < VERYSMALL_F then
      { s with upper_cutoffs := s.upper_cutoffs.set i (s.upper_cutoffs.getD i 0 - s.fm_binwidth) }
    else s
  if s1.class_type = kDihedralBonded ∧ s1.class_subtype = 0 then
    { s1 with
      upper_cutoffs := s1.upper_cutoffs.set i (s1.upper_cutoffs.getD i 0 - 180),
      lower_cutoffs := s1.lower_cutoffs.set i (s1.lower_cutoffs.getD i 0 - 180) }
  else s1

/-- The loop state of `read_interaction_class_ranges`: the class and the two running
totals `total_to_fm`, `total_tabulated`. -/
structure ReadState where
  spec : InteractionClassSpec
  total_to_fm : Nat
  total_tabulated : Nat

/-- The validity test of `read_interaction_class_ranges` (line 90): the mode is one of
`none`, `fm`, `tab`, `fm+tab`. -/
def mode_recognized (mode : String) : Bool :=
  !(mode != "none" && mode != "fm" && mode != "tab" && mode != "fm+tab")

/-- Line 84 of `read_interaction_class_ranges`: `fscanf` stores the declared bounds of
the record in `lower_cutoffs[i]` and `upper_cutoffs[i]`. -/
def store_range (s : InteractionClassSpec) (i : Nat) (l : RangeLine) : InteractionClassSpec :=
  { s with
    lower_cutoffs := s.lower_cutoffs.set i l.lower,
    upper_cutoffs := s.upper_cutoffs.set i l.upper }

/-- Line 99: `defined_to_matched_intrxn_index_map[i] = total_to_fm`. -/
def mark_matched (s : InteractionClassSpec) (i total_to_fm : Nat) : InteractionClassSpec :=
  { s with defined_to_matched_intrxn_index_map :=
      s.defined_to_matched_intrxn_index_map.set i total_to_fm }

/-- Line 110: `defined_to_tabulated_intrxn_index_map[i] = total_tabulated`. -/
def mark_tabulated (s : InteractionClassSpec) (i total_tabulated : Nat) : InteractionClassSpec :=
  { s with defined_to_tabulated_intrxn_index_map :=
      s.defined_to_tabulated_intrxn_index_map.set i total_tabulated }

/-- One iteration of the `for` loop of `read_interaction_class_ranges`, for defined
index `i` and the record read for it. -/
def read_range_line (VERYSMALL_F : ℚ) (st : ReadState) (i : Nat) (l : RangeLine) :
    Except (String × InteractionClassSpec) ReadState :=
  let s0 : InteractionClassSpec := store_range st.spec i l
  if mode_recognized l.mode = false then
    Except.error ("Interaction mode " ++ l.mode ++ " is not recognized\n", s0)
  else
    let st1 : ReadState :=
      if l.mode = "fm" ∨ l.mode = "tab+fm" then
        let total_to_fm := st.total_to_fm + 1
        let s1 : InteractionClassSpec := mark_matched s0 i total_to_fm
        { spec := adjust_cutoffs_for_type VERYSMALL_F (adjust_cutoffs_for_basis s1 i) i,
          total_to_fm := total_to_fm, total_tabulated := st.total_tabulated }
      else { spec := s0, total_to_fm := st.total_to_fm, total_tabulated := st.total_tabulated }
    let st2 : ReadState :=
      if l.mode = "tab" ∨ l.mode = "tab+fm" then
        let total_tabulated := st1.total_tabulated + 1
        { spec := mark_tabulated st1.spec i total_tabulated,
          total_to_fm := st1.total_to_fm, total_tabulated := total_tabulated }
      else st1
    Except.ok st2

/-- The `for (int i = 0; i < n_defined; i++)` loop of `read_interaction_class_ranges`,
from index `i` on, over the records still to be read. -/
def read_range_loop (VERYSMALL_F : ℚ) :
    ReadState → Nat → List RangeLine → Except (String × InteractionClassSpec) ReadState
  | st, _, [] => Except.ok st
  | st, i, l :: ls =>
    match read_range_line VERYSMALL_F st i l with
    | Except.error e => Except.error e
    | Except.ok st1 => read_range_loop VERYSMALL_F st1 (i + 1) ls

/-- `InteractionClassSpec::read_interaction_class_ranges(FILE *range_in)`; the file is
the list of its records, of which the first `n_defined` are read. A file with fewer
records than `n_defined` is outside the model: there `fscanf` fails and leaves its
targets as they were. -/
def read_interaction_class_ranges (VERYSMALL_F : ℚ) (s : InteractionClassSpec)
    (range_in : List RangeLine) : Except (String × InteractionClassSpec) InteractionClassSpec :=
  match read_range_loop VERYSMALL_F
      { spec := s, total_to_fm := 0, total_tabulated := 0 } 0 (range_in.take s.n_defined) with
  | Except.error e => Except.error e
  | Except.ok st =>
    Except.ok { st.spec with n_to_force_match := st.total_to_fm, n_tabulated := st.total_tabulated }

/-- The bin count `grid_i` of `setup_indices_in_fm_matrix` (line 151) for defined
index `i`. -/
def grid_i (s : InteractionClassSpec) (i : Nat) : Int :=
  ⌊(s.upper_cutoffs.getD i 0 - s.lower_cutoffs.getD i 0) / s.fm_binwidth + 1/2⌋ + 1

/-- The body of the loop of `setup_indices_in_fm_matrix`: the state is the column
index vector and `counter`. -/
def setup_indices_step (s : InteractionClassSpec) (acc : List Int × Nat) (i : Nat) :
    List Int × Nat :=
  if s.defined_to_matched_intrxn_index_map.getD i 0 ≠ 0 then
    let ici1 := acc.1.set (acc.2 + 1) (acc.1.getD acc.2 0 + grid_i s i)
    let ici2 :=
      if s.basis_type = kBSpline then
        ici1.set (acc.2 + 1) (ici1.getD (acc.2 + 1) 0 + s.bspline_k - 2)
      else ici1
    (ici2, acc.2 + 1)
  else acc

/-- `InteractionClassSpec::setup_indices_in_fm_matrix(void)`. -/
def setup_indices_in_fm_matrix (s : InteractionClassSpec) : InteractionClassSpec :=
  { s with interaction_column_indices :=
      ((List.range s.n_defined).foldl (setup_indices_step s)
        (List.replicate (s.n_to_force_match + 1) 0, 0)).1 }

/-- `InteractionClassSpec::get_num_basis_func(void)`. -/
def get_num_basis_func (s : InteractionClassSpec) : Int :=
  s.interaction_column_indices.getD s.n_to_force_match 0

/-- `InteractionClassSpec::setup_for_defined_interactions`, with `n_defined` as
`determine_defined_intrxns` left it: both maps are zero-filled vectors of size
`n_defined`, the cutoff arrays are freshly allocated (taken as zero-filled), and the
two counts are reset. -/
def setup_for_defined_interactions (s : InteractionClassSpec) : InteractionClassSpec :=
  { s with
    defined_to_matched_intrxn_index_map := List.replicate s.n_defined 0,
    defined_to_tabulated_intrxn_index_map := List.replicate s.n_defined 0,
    lower_cutoffs := List.replicate s.n_defined 0,
    upper_cutoffs := List.replicate s.n_defined 0,
    n_to_force_match := 0,
    n_tabulated := 0 }

/-- The per-interaction basis-function count of a matched interaction: the bin count,
plus `bspline_k - 2` for a B-spline basis. -/
def basis_count (s : InteractionClassSpec) (i : Nat) : Int :=
  if s.basis_type = kBSpline then grid_i s i + s.bspline_k - 2 else grid_i s i

/-- The defined indices below `n` whose matched index is nonzero, in increasing order. -/
def matched_indices (s : InteractionClassSpec) (n : Nat) : List Nat :=
  (List.range n).filter (fun i => s.defined_to_matched_intrxn_index_map.getD i 0 ≠ 0)

/-- The matched map numbers the matched interactions `1..n_to_force_match` in increasing
defined-index order, as `read_interaction_class_ranges` produces it. -/
def matched_map_numbered (s : InteractionClassSpec) : Prop :=
  (matched_indices s s.n_defined).map (fun i => s.defined_to_matched_intrxn_index_map.getD i 0) =
    List.range' 1 s.n_to_force_match

instance (s : InteractionClassSpec) : Decidable (matched_map_numbered s) := by
  unfold matched_map_numbered
  infer_instance

/-- A linear-spline pair-nonbonded class with one defined interaction, matched, with
cutoffs 0 and 10 and `fm_binwidth` 0.5. -/
def example_linear_class : InteractionClassSpec :=
  { basis_type := kLinearSpline, bspline_k := 4, fm_binwidth := 1/2,
    class_type := kPairNonbonded, class_subtype := 1, output_binwidth := 1/2,
    n_defined := 1, defined_to_matched_intrxn_index_map := [1],
    defined_to_tabulated_intrxn_index_map := [0], interaction_column_indices := [],
    n_to_force_match := 1, n_tabulated := 0, lower_cutoffs := [0], upper_cutoffs := [10],
    cutoff := 10 }

/-- A linear-spline class whose `output_binwidth` 0.3 is not a multiple of its
`fm_binwidth` 0.5, with one interaction declared on `[0.3, 1.0]`. -/
def example_offgrid_class : InteractionClassSpec :=
  { basis_type := kLinearSpline, bspline_k := 4, fm_binwidth := 1/2,
    class_type := kPairBonded, class_subtype := 1, output_binwidth := 3/10,
    n_defined := 1, defined_to_matched_intrxn_index_map := [1],
    defined_to_tabulated_intrxn_index_map := [0], interaction_column_indices := [],
    n_to_force_match := 1, n_tabulated := 0, lower_cutoffs := [3/10], upper_cutoffs := [1],
    cutoff := 10 }

/-- A B-spline pair-nonbonded class (`bspline_k` 4, both bin widths 0.5) with one
interaction declared on `[0, 10]`. -/
def example_bspline_class : InteractionClassSpec :=
  { basis_type := kBSpline, bspline_k := 4, fm_binwidth := 1/2,
    class_type := kPairNonbonded, class_subtype := 1, output_binwidth := 1/2,
    n_defined := 1, defined_to_matched_intrxn_index_map := [1],
    defined_to_tabulated_intrxn_index_map := [0], interaction_column_indices := [],
    n_to_force_match := 1, n_tabulated := 0, lower_cutoffs := [0], upper_cutoffs := [10],
    cutoff := 10 }

/-- Two class states agree on every member the range-reading loop leaves alone: the
configuration, the column vector and the sizes of the per-interaction arrays. -/
def same_config (a b : InteractionClassSpec) : Prop :=
  a.basis_type = b.basis_type ∧ a.bspline_k = b.bspline_k ∧ a.fm_binwidth = b.fm_binwidth ∧
  a.class_type = b.class_type ∧ a.class_subtype = b.class_subtype ∧
  a.output_binwidth = b.output_binwidth ∧ a.n_defined = b.n_defined ∧
  a.interaction_column_indices = b.interaction_column_indices ∧ a.cutoff = b.cutoff ∧
  a.lower_cutoffs.length = b.lower_cutoffs.length ∧
  a.upper_cutoffs.length = b.upper_cutoffs.length ∧
  a.defined_to_matched_intrxn_index_map.length = b.defined_to_matched_intrxn_index_map.length ∧
  a.defined_to_tabulated_intrxn_index_map.length =
    b.defined_to_tabulated_intrxn_index_map.length

/-- Two class states agree on everything stored for defined index `j`. -/
def same_at (j : Nat) (a b : InteractionClassSpec) : Prop :=
  a.lower_cutoffs.getD j 0 = b.lower_cutoffs.getD j 0 ∧
  a.upper_cutoffs.getD j 0 = b.upper_cutoffs.getD j 0 ∧
  a.defined_to_matched_intrxn_index_map.getD j 0 =
    b.defined_to_matched_intrxn_index_map.getD j 0 ∧
  a.defined_to_tabulated_intrxn_index_map.getD j 0 =
    b.defined_to_tabulated_intrxn_index_map.getD j 0

/-- A linear-spline pair-bonded class with three defined interactions, before
`setup_for_defined_interactions`. -/
def example_three_class : InteractionClassSpec :=
  { basis_type := kLinearSpline, bspline_k := 4, fm_binwidth := 1, class_type := kPairBonded,
    class_subtype := 1, output_binwidth := 1, n_defined := 3,
    defined_to_matched_intrxn_index_map := [], defined_to_tabulated_intrxn_index_map := [],
    interaction_column_indices := [], n_to_force_match := 0, n_tabulated := 0,
    lower_cutoffs := [], upper_cutoffs := [], cutoff := 100 }

/-- A range file with one `fm`, one `tab` and one `none` record. -/
def example_three_ranges : List RangeLine :=
  [{ lower := 0, upper := 10, mode := "fm" }, { lower := 1, upper := 5, mode := "tab" },
   { lower := -1, upper := -1, mode := "none" }]

/-- A linear-spline pair-bonded class with both bin widths 0.5 and one defined
interaction, before `setup_for_defined_interactions`. -/
def example_narrow_class : InteractionClassSpec :=
  { basis_type := kLinearSpline, bspline_k := 4, fm_binwidth := 1/2, class_type := kPairBonded,
    class_subtype := 1, output_binwidth := 1/2, n_defined := 1,
    defined_to_matched_intrxn_index_map := [], defined_to_tabulated_intrxn_index_map := [],
    interaction_column_indices := [], n_to_force_match := 0, n_tabulated := 0,
    lower_cutoffs := [], upper_cutoffs := [], cutoff := 100 }

/-- What `read_interaction_class_ranges` leaves of `example_narrow_class` for the single
record `0 0.1 fm`. -/
def example_narrow_result : InteractionClassSpec :=
  { example_narrow_class with
    defined_to_matched_intrxn_index_map := [1], defined_to_tabulated_intrxn_index_map := [0],
    n_to_force_match := 1, n_tabulated := 0, lower_cutoffs := [0], upper_cutoffs := [0] }

/-- What `read_interaction_class_ranges` leaves of `example_three_class` for
`example_three_ranges`. -/
def example_three_result : InteractionClassSpec :=
  { example_three_class with
    defined_to_matched_intrxn_index_map := [1, 0, 0],
    defined_to_tabulated_intrxn_index_map := [0, 1, 0],
    n_to_force_match := 1, n_tabulated := 1,
    lower_cutoffs := [0, 1, -1], upper_cutoffs := [10, 5, -1] }

/-- The scenario of the spec: a pair-nonbonded B-spline class with `bspline_k` 4,
`fm_binwidth` 0.5 and one defined interaction, before `setup_for_defined_interactions`;
`output_binwidth` and the class cutoff are left open. -/
def bspline_scenario_class (output_binwidth cutoff : ℚ) : InteractionClassSpec :=
  { basis_type := kBSpline, bspline_k := 4, fm_binwidth := 1/2, class_type := kPairNonbonded,
    class_subtype := 1, output_binwidth := output_binwidth, n_defined := 1,
    defined_to_matched_intrxn_index_map := [], defined_to_tabulated_intrxn_index_map := [],
    interaction_column_indices := [], n_to_force_match := 0, n_tabulated := 0,
    lower_cutoffs := [], upper_cutoffs := [], cutoff := cutoff }

/-- What `read_interaction_class_ranges` leaves of `example_narrow_class` for the single
record `0 10.2 fm+tab`. -/
def example_fm_tab_result : InteractionClassSpec :=
  { example_narrow_class with
    defined_to_matched_intrxn_index_map := [0], defined_to_tabulated_intrxn_index_map := [0],
    n_to_force_match := 0, n_tabulated := 0, lower_cutoffs := [0], upper_cutoffs := [51/5] }

/-- A linear-spline pair-bonded class whose `output_binwidth` 1 is coarser than its
`fm_binwidth` 0.1, with two defined interactions, before
`setup_for_defined_interactions`. -/
def example_coarse_class : InteractionClassSpec :=
  { basis_type := kLinearSpline, bspline_k := 4, fm_binwidth := 1/10, class_type := kPairBonded,
    class_subtype := 1, output_binwidth := 1, n_defined := 2,
    defined_to_matched_intrxn_index_map := [], defined_to_tabulated_intrxn_index_map := [],
    interaction_column_indices := [], n_to_force_match := 0, n_tabulated := 0,
    lower_cutoffs := [], upper_cutoffs := [], cutoff := 100 }

/-- Two `fm` records, declared on `[0, 2]` and on `[0.6, 0.65]`. -/
def example_coarse_ranges : List RangeLine :=
  [{ lower := 0, upper := 2, mode := "fm" }, { lower := 3/5, upper := 13/20, mode := "fm" }]

/-- What `read_interaction_class_ranges` leaves of `example_coarse_class` for
`example_coarse_ranges`. -/
def example_coarse_result : InteractionClassSpec :=
  { example_coarse_class with
    defined_to_matched_intrxn_index_map := [1, 2],
    defined_to_tabulated_intrxn_index_map := [0, 0],
    n_to_force_match := 2, n_tabulated := 0,
    lower_cutoffs := [0, 1], upper_cutoffs := [2, 7/10] }

/-- What `read_interaction_class_ranges` leaves of the B-spline scenario with
`output_binwidth` 0.5 and class cutoff 10 for the single record `0 10 fm`: the range is
widened to `[-0.5, 10.5]`. -/
def example_bspline_result : InteractionClassSpec :=
  { bspline_scenario_class (1/2) 10 with
    defined_to_matched_intrxn_index_map := [1], defined_to_tabulated_intrxn_index_map := [0],
    n_to_force_match := 1, n_tabulated := 0, lower_cutoffs := [-1/2], upper_cutoffs := [21/2] }

/-- The number of records whose mode is `m`. -/
def count_mode (m : String) (ls : List RangeLine) : Nat :=
  ls.countP (fun l => l.mode = m)

/-- A linear-spline dihedral class of subtype 0 (both bin widths 1) with one matched
interaction declared on `[0, 360]`. -/
def example_dihedral_class : InteractionClassSpec :=
  { basis_type := kLinearSpline, bspline_k := 4, fm_binwidth := 1,
    class_type := kDihedralBonded, class_subtype := 0, output_binwidth := 1,
    n_defined := 1, defined_to_matched_intrxn_index_map := [1],
    defined_to_tabulated_intrxn_index_map := [0], interaction_column_indices := [],
    n_to_force_match := 1, n_tabulated := 0, lower_cutoffs := [0], upper_cutoffs := [360],
    cutoff := 10 }

/-- The class `example_linear_class` with its upper cutoff at 10.5, which is
`cutoff + fm_binwidth`. -/
def example_edge_class : InteractionClassSpec :=
  { example_linear_class with upper_cutoffs := [21/2] }

/-- The loop of `check_nonbonded_interaction_range_cutoffs` over the defined indices
still to visit; the fatal exit carries the diagnostic and the two numbers it prints,
`upper_cutoffs[i]` and `cutoff`. The constant `VERYSMALL` of the absent `misc.h` is a
parameter. -/
def check_nonbonded_loop (VERYSMALL : ℚ) (ispec : InteractionClassSpec) (cutoff : ℚ) :
    List Nat → Except (String × ℚ × ℚ) Unit
  | [] => Except.ok ()
  | i :: rest =>
    if ispec.defined_to_matched_intrxn_index_map.getD i 0 ≠ 0 ∧
        ispec.upper_cutoffs.getD i 0 > cutoff + ispec.output_binwidth + VERYSMALL then
      Except.error ("An upper cutoff specified in the range file is larger than the pair " ++
        "nonbonded cutoff specified in the control file.", ispec.upper_cutoffs.getD i 0, cutoff)
    else check_nonbonded_loop VERYSMALL ispec cutoff rest

/-- `check_nonbonded_interaction_range_cutoffs(ispec, cutoff)`. -/
def check_nonbonded_interaction_range_cutoffs (VERYSMALL : ℚ) (ispec : InteractionClassSpec)
    (cutoff : ℚ) : Except (String × ℚ × ℚ) Unit :=
  check_nonbonded_loop VERYSMALL ispec cutoff (List.range ispec.n_defined)

/-- The test of line 54-56 of `check_nonbonded_interaction_range_cutoffs` for defined
index `i`. -/
def exceeds_nonbonded_cutoff (VERYSMALL : ℚ) (ispec : InteractionClassSpec) (cutoff : ℚ)
    (i : Nat) : Prop :=
  ispec.defined_to_matched_intrxn_index_map.getD i 0 ≠ 0 ∧
    ispec.upper_cutoffs.getD i 0 > cutoff + ispec.output_binwidth + VERYSMALL

instance (VERYSMALL : ℚ) (ispec : InteractionClassSpec) (cutoff : ℚ) (i : Nat) :
    Decidable (exceeds_nonbonded_cutoff VERYSMALL ispec cutoff i) := by
  unfold exceeds_nonbonded_cutoff
  infer_instance

/-- The two fatal exits of the table reader, each with the line number it prints:
`report_tabulated_interaction_format_error` ("Wrong format in table.in") and
`report_tabulated_interaction_data_consistency_error` ("Numbers of tabulated
interactions ... are not consistent"). -/
inductive TableError where
  | format_error (line : Int)
  | data_consistency_error (line : Int)
  deriving DecidableEq, Repr

/-- `report_tabulated_interaction_format_error(line)`. -/
def report_tabulated_interaction_format_error {α : Type} (line : Int) : Except TableError α :=
  Except.error (TableError.format_error line)

/-- `report_tabulated_interaction_data_consistency_error(line)`. -/
def report_tabulated_interaction_data_consistency_error {α : Type} (line : Int) :
    Except TableError α :=
  Except.error (TableError.data_consistency_error line)

/-- One line of `table.in`, given by what each conversion the reader applies to a line
yields on it: `sscanf(buff, "%s%d%lf", ...)` gives `parameter_name`, `count` and
`binwidth`; the extraction of `get_n_body()` integers gives `types`;
`sscanf(buff, "%lf%lf", ...)` gives `first` and `second`; `sscanf(buff, "%lf", ...)`
gives `first`. -/
structure TableLine where
  parameter_name : String
  count : Int
  binwidth : ℚ
  types : List Int
  first : ℚ
  second : ℚ
  deriving Inhabited

/-- The class members the table reader works on: the class itself and the two members
`external_table_spline_binwidth` and `external_table_spline_coefficients`. -/
structure TableState where
  spec : InteractionClassSpec
  external_table_spline_binwidth : ℚ
  external_table_spline_coefficients : List (List ℚ)

/-- The virtual `get_table_name()` of the six interaction classes. -/
def get_table_name (s : InteractionClassSpec) : String :=
  match s.class_type with
  | kPairNonbonded => "short_range"
  | kPairBonded => "bond"
  | kAngularBonded => "angle"
  | kDihedralBonded => "dihedral"
  | kThreeBodyNonbonded => "three_body"
  | kDensity => "density"

/-- `InteractionClassSpec::read_bspline_table`. The stream is the list of lines not yet
read (a read past its end sees the empty line `default`); the result is the new state,
the rest of the stream and the new line count. -/
def read_bspline_table (st : TableState) (stream : List TableLine) (line : Int)
    (index_among_defined : Nat) : TableState × List TableLine × Int :=
  let bounds : TableLine := stream.headD default
  let s : InteractionClassSpec := st.spec
  let spec1 : InteractionClassSpec :=
    { s with lower_cutoffs := s.lower_cutoffs.set index_among_defined bounds.first,
             upper_cutoffs := s.upper_cutoffs.set index_among_defined bounds.second }
  let n_external_spline_control_points : Int :=
    ⌊(spec1.upper_cutoffs.getD index_among_defined 0 -
        spec1.lower_cutoffs.getD index_among_defined 0) / st.external_table_spline_binwidth
      + 1/2⌋ + 1
  let index_among_tabulated : Nat :=
    spec1.defined_to_tabulated_intrxn_index_map.getD index_among_defined 0 - 1
  let n : Nat := n_external_spline_control_points.toNat
  let values : List ℚ := (List.range n).map (fun j => (stream.tail.getD j default).first)
  ({ spec := spec1,
     external_table_spline_binwidth := st.external_table_spline_binwidth,
     external_table_spline_coefficients :=
       st.external_table_spline_coefficients.set index_among_tabulated values },
   stream.tail.drop n, line + 1 + (n : Int))

/-- The loop of lines 343-354 of `read_table` with `k` tables still to read. The lookup
`get_index_from_hash(calc_interaction_hash(types, n_cg_types))`, whose code is in the
absent `interaction_hashing`, is the parameter `index_of_types`. -/
def read_table_blocks (index_of_types : List Int → Nat) :
    Nat → TableState → List TableLine → Int → TableState × List TableLine × Int
  | 0, st, stream, line => (st, stream, line)
  | k + 1, st, stream, line =>
    let types : List Int := (stream.headD default).types
    let r := read_bspline_table st stream.tail (line + 1) (index_of_types types)
    read_table_blocks index_of_types k r.1 r.2.1 r.2.2

/-- `InteractionClassSpec::read_table`: the header line is checked against the table
name of the class and against `n_tabulated`, then the declared number of tables is
read. -/
def read_table (index_of_types : List Int → Nat) (st : TableState) (stream : List TableLine)
    (line : Int) : Except TableError (TableState × List TableLine × Int) :=
  let header : TableLine := stream.headD default
  let line1 : Int := line + 1
  let st1 : TableState := { st with external_table_spline_binwidth := header.binwidth }
  if header.parameter_name ≠ get_table_name st.spec then
    report_tabulated_interaction_format_error line1
  else if header.count ≠ (st.spec.n_tabulated : Int) then
    report_tabulated_interaction_data_consistency_error line1
  else if header.count ≤ 0 then Except.ok (st1, stream.tail, line1)
  else
    Except.ok (read_table_blocks index_of_types header.count.toNat
      { st1 with external_table_spline_coefficients := List.replicate header.count.toNat [] }
      stream.tail line1)

/-- A table-reader state for a pair-nonbonded class with two tabulated interactions. -/
def example_table_state : TableState :=
  { spec := { example_linear_class with n_tabulated := 2 },
    external_table_spline_binwidth := 0, external_table_spline_coefficients := [] }

/-- A `table.in` header line `short_range 3 0.05`. -/
def example_table_header : TableLine :=
  { parameter_name := "short_range", count := 3, binwidth := 1/20, types := [],
    first := 0, second := 0 }

/-- A `std::array<double, DIMENSION>`; `DIMENSION` is 3 throughout `geometry.cpp` (see
`cross_product`). The scalar type `K` stands for `double` and `real`. -/
structure Vec3 (K : Type) where
  c0 : K
  c1 : K
  c2 : K

/-- The vector the loops `for (i = 0; i < DIMENSION; i++) out[i] = f(a[i])` build. -/
def Vec3.map {K : Type} (f : K → K) (a : Vec3 K) : Vec3 K :=
  { c0 := f a.c0, c1 := f a.c1, c2 := f a.c2 }

/-- The vector the loops `for (i = 0; i < DIMENSION; i++) out[i] = f(a[i], b[i])` build. -/
def Vec3.map2 {K : Type} (f : K → K → K) (a b : Vec3 K) : Vec3 K :=
  { c0 := f a.c0 b.c0, c1 := f a.c1 b.c1, c2 := f a.c2 b.c2 }

/-- The content given to a local array before the code writes it; it is never read. -/
def Vec3.zero {K : Type} [LinearOrderedField K] : Vec3 K := { c0 := 0, c1 := 0, c2 := 0 }

/-- The functions of `<cmath>` and the constants of the absent `misc.h` that
`geometry.cpp` uses, as parameters of the model. -/
structure MathEnv (K : Type) where
  sqrt : K → K
  acos : K → K
  sin : K → K
  exp : K → K
  DEGREES_PER_RADIAN : K
  VERYSMALL_F : K

/-- One pass of the loop body of `subtract_min_image_vectors` after the subtraction: the
difference `d` of one coordinate is folded once by the box length `2 * h`. -/
def min_image_component {K : Type} [LinearOrderedField K] (d h : K) : K :=
  if d > h then d - 2 * h else if d < -h then d + 2 * h else d

/-- `subtract_min_image_vectors`: the displacement from particle `particle_ids[0]` to
particle `particle_ids[1]`, folded once per coordinate. -/
def subtract_min_image_vectors {K : Type} [LinearOrderedField K] (particle_ids : List Nat)
    (particle_positions : Nat → Vec3 K) (simulation_box_half_lengths : Vec3 K) : Vec3 K :=
  Vec3.map2 min_image_component
    (Vec3.map2 (fun a b => a - b) (particle_positions (particle_ids.getD 1 0))
      (particle_positions (particle_ids.getD 0 0)))
    simulation_box_half_lengths

/-- `cross_product(a, b, c)`, returning `c`. -/
def cross_product {K : Type} [LinearOrderedField K] (a b : Vec3 K) : Vec3 K :=
  { c0 := a.c1 * b.c2 - a.c2 * b.c1,
    c1 := a.c2 * b.c0 - a.c0 * b.c2,
    c2 := a.c0 * b.c1 - a.c1 * b.c0 }

/-- `dot_product(a, b)`: the sum accumulated from 0. -/
def dot_product {K : Type} [LinearOrderedField K] (a b : Vec3 K) : K :=
  0 + a.c0 * b.c0 + a.c1 * b.c1 + a.c2 * b.c2

/-- `check_cos(cos_theta)`, returning the new value of its reference argument. -/
def check_cos {K : Type} [LinearOrderedField K] (m : MathEnv K) (cos_theta : K) : K :=
  let max : K := 1 - m.VERYSMALL_F
  let min : K := -1 + m.VERYSMALL_F
  if cos_theta > max then max else if cos_theta < min then min else cos_theta

/-- `conditionally_calc_squared_distance_and_derivatives`: the result is the returned
flag with the final values of the reference arguments `param_val` and `derivatives`. -/
def conditionally_calc_squared_distance_and_derivatives {K : Type} [LinearOrderedField K]
    (particle_ids : List Nat) (particle_positions : Nat → Vec3 K)
    (simulation_box_half_lengths : Vec3 K) (cutoff2 : K) (param_val : K)
    (derivatives : Nat → Vec3 K) : Bool × K × (Nat → Vec3 K) :=
  let displacement : Vec3 K :=
    subtract_min_image_vectors particle_ids particle_positions simulation_box_half_lengths
  let rr2 : K := 0 + displacement.c0 * displacement.c0 + displacement.c1 * displacement.c1 +
    displacement.c2 * displacement.c2
  if rr2 > cutoff2 then (false, param_val, derivatives)
  else (true, rr2, Function.update derivatives 0 (Vec3.map (fun d => 2 * d) displacement))

/-- `conditionally_calc_angle_and_derivatives`: the result is the returned flag with the
final values of `param_val` and `derivatives`. The local arrays `dist_derivs_20`,
`dist_derivs_21` and the locals `rr2_20`, `rr2_21` start from `Vec3.zero` and 0. -/
def conditionally_calc_angle_and_derivatives {K : Type} [LinearOrderedField K] (m : MathEnv K)
    (particle_ids : List Nat) (particle_positions : Nat → Vec3 K)
    (simulation_box_half_lengths : Vec3 K) (cutoff2 : K) (param_val : K)
    (derivatives : Nat → Vec3 K) : Bool × K × (Nat → Vec3 K) :=
  let particle_ids_20 : List Nat := [particle_ids.getD 2 0, particle_ids.getD 0 0]
  let particle_ids_21 : List Nat := [particle_ids.getD 2 0, particle_ids.getD 1 0]
  let r20 := conditionally_calc_squared_distance_and_derivatives particle_ids_20
    particle_positions simulation_box_half_lengths cutoff2 0 (fun _ => Vec3.zero)
  let r21 := conditionally_calc_squared_distance_and_derivatives particle_ids_21
    particle_positions simulation_box_half_lengths cutoff2 0 (fun _ => Vec3.zero)
  if (!r20.1 || !r21.1) then (false, param_val, derivatives)
  else
    let rr_20 : K := m.sqrt r20.2.1
    let rr_21 : K := m.sqrt r21.2.1
    let cos_theta : K :=
      check_cos m (dot_product (r20.2.2 0) (r21.2.2 0) / (4 * rr_20 * rr_21))
    let theta : K := m.acos cos_theta
    let sin_theta : K := m.sin theta
    let rr_01_1 : K := 1 / (rr_20 * rr_21 * sin_theta)
    let rr_00c : K := cos_theta / (rr_20 * rr_20 * sin_theta)
    let rr_11c : K := cos_theta / (rr_21 * rr_21 * sin_theta)
    let d0 : Vec3 K := Vec3.map2
      (fun d21 d20 => (1/2) * m.DEGREES_PER_RADIAN * (d21 * rr_01_1 - rr_00c * d20))
      (r21.2.2 0) (r20.2.2 0)
    let d1 : Vec3 K := Vec3.map2
      (fun d20 d21 => (1/2) * m.DEGREES_PER_RADIAN * (d20 * rr_01_1 - rr_11c * d21))
      (r20.2.2 0) (r21.2.2 0)
    (true, theta * m.DEGREES_PER_RADIAN, Function.update (Function.update derivatives 0 d0) 1 d1)

/-- The reference arguments of `conditionally_calc_angle_and_intermediates`. -/
structure AngleIntermediates (K : Type) where
  dist_derivs_20 : Nat → Vec3 K
  dist_derivs_21 : Nat → Vec3 K
  derivatives : Nat → Vec3 K
  param_val : K
  rr_20 : K
  rr_21 : K

/-- `conditionally_calc_angle_and_intermediates`: the result is the returned flag with
the final values of the reference arguments. -/
def conditionally_calc_angle_and_intermediates {K : Type} [LinearOrderedField K]
    (m : MathEnv K) (particle_ids : List Nat) (particle_positions : Nat → Vec3 K)
    (simulation_box_half_lengths : Vec3 K) (cutoff2 : K) (a : AngleIntermediates K) :
    Bool × AngleIntermediates K :=
  let particle_ids_20 : List Nat := [particle_ids.getD 2 0, particle_ids.getD 0 0]
  let particle_ids_21 : List Nat := [particle_ids.getD 2 0, particle_ids.getD 1 0]
  let r20 := conditionally_calc_squared_distance_and_derivatives particle_ids_20
    particle_positions simulation_box_half_lengths cutoff2 0 a.dist_derivs_20
  let r21 := conditionally_calc_squared_distance_and_derivatives particle_ids_21
    particle_positions simulation_box_half_lengths cutoff2 0 a.dist_derivs_21
  if (!r20.1 || !r21.1) then
    (false, { a with dist_derivs_20 := r20.2.2, dist_derivs_21 := r21.2.2 })
  else
    let rr_20 : K := m.sqrt r20.2.1
    let rr_21 : K := m.sqrt r21.2.1
    let cos_theta : K :=
      check_cos m (dot_product (r20.2.2 0) (r21.2.2 0) / (4 * rr_20 * rr_21))
    let theta : K := m.acos cos_theta
    let sin_theta : K := m.sin theta
    let rr_01_1 : K := 1 / (rr_20 * rr_21 * sin_theta)
    let rr_00c : K := cos_theta / (rr_20 * rr_20 * sin_theta)
    let rr_11c : K := cos_theta / (rr_21 * rr_21 * sin_theta)
    let d0 : Vec3 K := Vec3.map2
      (fun d21 d20 => -(1/2) * (d21 * rr_01_1 + rr_00c * d20)) (r21.2.2 0) (r20.2.2 0)
    let d1 : Vec3 K := Vec3.map2
      (fun d20 d21 => -(1/2) * (d20 * rr_01_1 + rr_11c * d21)) (r20.2.2 0) (r21.2.2 0)
    (true, { dist_derivs_20 := r20.2.2, dist_derivs_21 := r21.2.2,
             derivatives := Function.update (Function.update a.derivatives 0 d0) 1 d1,
             param_val := theta * m.DEGREES_PER_RADIAN, rr_20 := rr_20, rr_21 := rr_21 })

/-- Lines 136-139 of `conditionally_calc_angle_and_derivatives` (174-177 of
`conditionally_calc_angle_and_intermediates`): the value of `cos_theta` after
`check_cos`, which is the argument of `acos`, when the divisor `4.0 * rr_20 * rr_21` is
not zero; `angle_cos_theta_ieee` gives the value for every divisor. -/
def angle_cos_theta {K : Type} [LinearOrderedField K] (m : MathEnv K)
    (particle_ids : List Nat) (particle_positions : Nat → Vec3 K)
    (simulation_box_half_lengths : Vec3 K) (cutoff2 : K) : K :=
  let particle_ids_20 : List Nat := [particle_ids.getD 2 0, particle_ids.getD 0 0]
  let particle_ids_21 : List Nat := [particle_ids.getD 2 0, particle_ids.getD 1 0]
  let r20 := conditionally_calc_squared_distance_and_derivatives particle_ids_20
    particle_positions simulation_box_half_lengths cutoff2 0 (fun _ => Vec3.zero)
  let r21 := conditionally_calc_squared_distance_and_derivatives particle_ids_21
    particle_positions simulation_box_half_lengths cutoff2 0 (fun _ => Vec3.zero)
  check_cos m (dot_product (r20.2.2 0) (r21.2.2 0) / (4 * m.sqrt r20.2.1 * m.sqrt r21.2.1))

/-- Lines 241-254 of `conditionally_calc_dihedral_and_derivatives` (350-364 of
`calc_dihedral`): the value of `cos_theta` before `check_cos`, from the three
displacements, when neither `pb2` nor `pc2` is zero; `dihedral_param_val_ieee` follows the
code through the divisions by zero. -/
def dihedral_cos_theta {K : Type} [LinearOrderedField K] (m : MathEnv K)
    (disp03 disp23 disp12 : Vec3 K) : K :=
  let pb : Vec3 K := cross_product disp03 disp23
  let pc : Vec3 K := cross_product disp12 disp23
  let pb2 : K := dot_product pb pb
  let rpb1 : K := 1 / m.sqrt pb2
  let pc2 : K := dot_product pc pc
  let rpc1 : K := 1 / m.sqrt pc2
  let pbpc : K := dot_product pb pc
  pbpc * rpb1 * rpc1

set_option linter.unusedVariables false in
/-- `conditionally_calc_dihedral_and_derivatives`: the result is the returned flag with
the final values of `param_val` and `derivatives`. The vector `cross_bc` the code
computes is never used and is left out; the arguments `cutoff2` and the incoming
`param_val` are never read. The values are those of the code when no divisor is zero;
`conditionally_calc_dihedral_param_val_ieee` gives the stored `param_val` for every input. -/
def conditionally_calc_dihedral_and_derivatives {K : Type} [LinearOrderedField K]
    (m : MathEnv K) (particle_ids : List Nat) (particle_positions : Nat → Vec3 K)
    (simulation_box_half_lengths : Vec3 K) (cutoff2 : K) (param_val : K)
    (derivatives : Nat → Vec3 K) : Bool × K × (Nat → Vec3 K) :=
  let particle_ids_03 : List Nat := [particle_ids.getD 3 0, particle_ids.getD 0 0]
  let particle_ids_23 : List Nat := [particle_ids.getD 3 0, particle_ids.getD 2 0]
  let particle_ids_12 : List Nat := [particle_ids.getD 2 0, particle_ids.getD 1 0]
  let disp03 : Vec3 K :=
    subtract_min_image_vectors particle_ids_03 particle_positions simulation_box_half_lengths
  let disp23 : Vec3 K :=
    subtract_min_image_vectors particle_ids_23 particle_positions simulation_box_half_lengths
  let disp12 : Vec3 K :=
    subtract_min_image_vectors particle_ids_12 particle_positions simulation_box_half_lengths
  let rrbc : K := 1 / m.sqrt (dot_product disp23 disp23)
  let pb : Vec3 K := cross_product disp03 disp23
  let pc : Vec3 K := cross_product disp12 disp23
  let pb2 : K := dot_product pb pb
  let rpb1 : K := 1 / m.sqrt pb2
  let pc2 : K := dot_product pc pc
  let rpc1 : K := 1 / m.sqrt pc2
  let pbpc : K := dot_product pb pc
  let cos_theta : K := check_cos m (pbpc * rpb1 * rpc1)
  let theta : K := m.acos cos_theta * m.DEGREES_PER_RADIAN
  let sign : K := - dot_product pb disp12 * rpb1 * rrbc
  let param_val1 : K := if sign < 0 then - theta else theta
  let dot03_23 : K := dot_product disp03 disp23
  let dot12_23 : K := dot_product disp12 disp23
  let r23_2 : K := dot_product disp23 disp23
  let fcoef : K := dot03_23 / r23_2
  let hcoef : K := 1 + dot12_23 / r23_2
  let dtf : Vec3 K := Vec3.map (fun x => x / (rrbc * pb2)) pb
  let dth : Vec3 K := Vec3.map (fun x => - x / (rrbc * pc2)) pc
  (true, param_val1,
    Function.update
      (Function.update (Function.update derivatives 0 (Vec3.map (fun x => - x) dtf)) 1
        (Vec3.map (fun x => - x) dth))
      2 (Vec3.map2 (fun f h => f * fcoef + h * hcoef) dtf dth))

/-- `calc_dihedral`, returning the value stored in `param_val`. The vector `cross_bc`
the code computes is never used and is left out. -/
def calc_dihedral {K : Type} [LinearOrderedField K] (m : MathEnv K) (particle_ids : List Nat)
    (particle_positions : Nat → Vec3 K) (simulation_box_half_lengths : Vec3 K) : K :=
  let particle_ids_03 : List Nat := [particle_ids.getD 3 0, particle_ids.getD 0 0]
  let particle_ids_23 : List Nat := [particle_ids.getD 3 0, particle_ids.getD 2 0]
  let particle_ids_12 : List Nat := [particle_ids.getD 2 0, particle_ids.getD 1 0]
  let disp03 : Vec3 K :=
    subtract_min_image_vectors particle_ids_03 particle_positions simulation_box_half_lengths
  let disp23 : Vec3 K :=
    subtract_min_image_vectors particle_ids_23 particle_positions simulation_box_half_lengths
  let disp12 : Vec3 K :=
    subtract_min_image_vectors particle_ids_12 particle_positions simulation_box_half_lengths
  let rrbc : K := 1 / m.sqrt (dot_product disp23 disp23)
  let pb : Vec3 K := cross_product disp03 disp23
  let pc : Vec3 K := cross_product disp12 disp23
  let pb2 : K := dot_product pb pb
  let rpb1 : K := 1 / m.sqrt pb2
  let pc2 : K := dot_product pc pc
  let rpc1 : K := 1 / m.sqrt pc2
  let pbpc : K := dot_product pb pc
  let cos_theta : K := check_cos m (pbpc * rpb1 * rpc1)
  let theta : K := m.acos cos_theta * m.DEGREES_PER_RADIAN
  let sign : K := - dot_product pb disp12 * rpb1 * rrbc
  if sign < 0 then - theta else theta

/-- The model parameters are the exact real functions: `acos` and `sin` are the real
arccosine and sine, `sqrt` the real square root, and `DEGREES_PER_RADIAN` is `180 / π`. -/
def exact_reals (m : MathEnv ℝ) : Prop :=
  m.sqrt = Real.sqrt ∧ m.acos = Real.arccos ∧ m.sin = Real.sin ∧ m.exp = Real.exp ∧
    m.DEGREES_PER_RADIAN = 180 / Real.pi

/-- Lines 258 of `conditionally_calc_dihedral_and_derivatives` (367 of `calc_dihedral`):
the value of `sign`, from the three displacements. -/
def dihedral_sign {K : Type} [LinearOrderedField K] (m : MathEnv K)
    (disp03 disp23 disp12 : Vec3 K) : K :=
  let rrbc : K := 1 / m.sqrt (dot_product disp23 disp23)
  let pb : Vec3 K := cross_product disp03 disp23
  let pb2 : K := dot_product pb pb
  let rpb1 : K := 1 / m.sqrt pb2
  let sign : K := - dot_product pb disp12 * rpb1 * rrbc
  sign

/-- The componentwise difference `a - b` of two position vectors. -/
def Vec3.sub {K : Type} [LinearOrderedField K] (a b : Vec3 K) : Vec3 K :=
  Vec3.map2 (fun x y => x - y) a b

/-- No coordinate of the displacement from position `a` to position `b` exceeds the half
box length in absolute value, so that `subtract_min_image_vectors` folds none. -/
def no_wrap {K : Type} [LinearOrderedField K] (a b half : Vec3 K) : Prop :=
  |b.c0 - a.c0| ≤ half.c0 ∧ |b.c1 - a.c1| ≤ half.c1 ∧ |b.c2 - a.c2| ≤ half.c2

/-- The four points lie in one plane: the determinant of the three edge vectors from
`p0` is zero. -/
def coplanar {K : Type} [LinearOrderedField K] (p0 p1 p2 p3 : Vec3 K) : Prop :=
  dot_product (Vec3.sub p1 p0) (cross_product (Vec3.sub p2 p0) (Vec3.sub p3 p0)) = 0

/-- Four particle positions in the plane `z = 0`: a unit square visited in the order
0, 3, 2, 1. -/
def example_positions {K : Type} [LinearOrderedField K] : Nat → Vec3 K :=
  fun i =>
    if i = 0 then { c0 := 0, c1 := 1, c2 := 0 }
    else if i = 1 then { c0 := 1, c1 := 1, c2 := 0 }
    else if i = 2 then { c0 := 1, c1 := 0, c2 := 0 }
    else { c0 := 0, c1 := 0, c2 := 0 }

/-- Half box lengths 10 in every direction. -/
def example_half_lengths {K : Type} [LinearOrderedField K] : Vec3 K :=
  { c0 := 10, c1 := 10, c2 := 10 }

/-- The componentwise sum `a + b`. -/
def Vec3.add {K : Type} [LinearOrderedField K] (a b : Vec3 K) : Vec3 K :=
  Vec3.map2 (fun x y => x + y) a b

/-- The componentwise negation `-a`. -/
def Vec3.neg {K : Type} [LinearOrderedField K] (a : Vec3 K) : Vec3 K :=
  Vec3.map (fun x => - x) a

/-- `conditionally_calc_distance_and_derivatives`: the result is the returned flag with
the final values of `param_val` and `derivatives`. -/
def conditionally_calc_distance_and_derivatives {K : Type} [LinearOrderedField K]
    (m : MathEnv K) (particle_ids : List Nat) (particle_positions : Nat → Vec3 K)
    (simulation_box_half_lengths : Vec3 K) (cutoff2 : K) (param_val : K)
    (derivatives : Nat → Vec3 K) : Bool × K × (Nat → Vec3 K) :=
  let r := conditionally_calc_squared_distance_and_derivatives particle_ids particle_positions
    simulation_box_half_lengths cutoff2 param_val derivatives
  if r.1 then
    let param_val1 : K := m.sqrt r.2.1
    (true, param_val1,
      Function.update r.2.2 0 (Vec3.map (fun d => (1/2) * d / param_val1) (r.2.2 0)))
  else (false, r.2.1, r.2.2)

/-- `calc_squared_distance`, returning the value stored in `param_val`. Each of the three
passes of the loop calls `subtract_min_image_vectors` again and adds the square of one
coordinate. -/
def calc_squared_distance {K : Type} [LinearOrderedField K] (particle_ids : List Nat)
    (particle_positions : Nat → Vec3 K) (simulation_box_half_lengths : Vec3 K) : K :=
  let displacement0 : Vec3 K :=
    subtract_min_image_vectors particle_ids particle_positions simulation_box_half_lengths
  let displacement1 : Vec3 K :=
    subtract_min_image_vectors particle_ids particle_positions simulation_box_half_lengths
  let displacement2 : Vec3 K :=
    subtract_min_image_vectors particle_ids particle_positions simulation_box_half_lengths
  0 + displacement0.c0 * displacement0.c0 + displacement1.c1 * displacement1.c1 +
    displacement2.c2 * displacement2.c2

/-- `calc_distance`, returning the value stored in `param_val`. -/
def calc_distance {K : Type} [LinearOrderedField K] (m : MathEnv K) (particle_ids : List Nat)
    (particle_positions : Nat → Vec3 K) (simulation_box_half_lengths : Vec3 K) : K :=
  m.sqrt (calc_squared_distance particle_ids particle_positions simulation_box_half_lengths)

/-- `calc_angle`, returning the value stored in `param_val`. The code declares `rr2_20`,
`rr2_21` and allocates `dist_derivs_20`, `dist_derivs_21` without initialising them and
ignores the flags of its two squared-distance calls; the contents these locals start
with are the last four arguments. The macro `MAXFLOAT`, the cutoff of the two calls, is an
argument: `geometry.cpp` defines it as `1.0E10` only if `<cmath>` has not defined it
(lines 11-13), and the `<cmath>` of glibc defines it as `3.40282347e+38F`. -/
def calc_angle {K : Type} [LinearOrderedField K] (m : MathEnv K) (MAXFLOAT : K)
    (particle_ids : List Nat)
    (particle_positions : Nat → Vec3 K) (simulation_box_half_lengths : Vec3 K)
    (rr2_20 rr2_21 : K) (dist_derivs_20 dist_derivs_21 : Nat → Vec3 K) : K :=
  let particle_ids_20 : List Nat := [particle_ids.getD 2 0, particle_ids.getD 0 0]
  let particle_ids_21 : List Nat := [particle_ids.getD 2 0, particle_ids.getD 1 0]
  let r20 := conditionally_calc_squared_distance_and_derivatives particle_ids_20
    particle_positions simulation_box_half_lengths MAXFLOAT rr2_20 dist_derivs_20
  let r21 := conditionally_calc_squared_distance_and_derivatives particle_ids_21
    particle_positions simulation_box_half_lengths MAXFLOAT rr2_21 dist_derivs_21
  let rr_20 : K := m.sqrt r20.2.1
  let rr_21 : K := m.sqrt r21.2.1
  let cos_theta : K :=
    check_cos m (dot_product (r20.2.2 0) (r21.2.2 0) / (4 * rr_20 * rr_21))
  let theta : K := m.acos cos_theta
  theta * m.DEGREES_PER_RADIAN

/-- Lines 131-160 of `conditionally_calc_angle_and_derivatives` as a function of the two
folded displacements `disp20` (from particle `ids[2]` to `ids[0]`) and `disp21` (from
`ids[2]` to `ids[1]`); `conditionally_calc_angle_and_derivatives_eq` shows it is what the
function computes. -/
def angle_from_displacements {K : Type} [LinearOrderedField K] (m : MathEnv K)
    (disp20 disp21 : Vec3 K) (cutoff2 param_val : K) (derivatives : Nat → Vec3 K) :
    Bool × K × (Nat → Vec3 K) :=
  if dot_product disp20 disp20 > cutoff2 ∨ dot_product disp21 disp21 > cutoff2 then
    (false, param_val, derivatives)
  else
    let rr_20 : K := m.sqrt (dot_product disp20 disp20)
    let rr_21 : K := m.sqrt (dot_product disp21 disp21)
    let cos_theta : K := check_cos m
      (dot_product (Vec3.map (fun d => 2 * d) disp20) (Vec3.map (fun d => 2 * d) disp21) /
        (4 * rr_20 * rr_21))
    let theta : K := m.acos cos_theta
    let sin_theta : K := m.sin theta
    let rr_01_1 : K := 1 / (rr_20 * rr_21 * sin_theta)
    let rr_00c : K := cos_theta / (rr_20 * rr_20 * sin_theta)
    let rr_11c : K := cos_theta / (rr_21 * rr_21 * sin_theta)
    let d0 : Vec3 K := Vec3.map2
      (fun d21 d20 => (1/2) * m.DEGREES_PER_RADIAN * (d21 * rr_01_1 - rr_00c * d20))
      (Vec3.map (fun d => 2 * d) disp21) (Vec3.map (fun d => 2 * d) disp20)
    let d1 : Vec3 K := Vec3.map2
      (fun d20 d21 => (1/2) * m.DEGREES_PER_RADIAN * (d20 * rr_01_1 - rr_11c * d21))
      (Vec3.map (fun d => 2 * d) disp20) (Vec3.map (fun d => 2 * d) disp21)
    (true, theta * m.DEGREES_PER_RADIAN, Function.update (Function.update derivatives 0 d0) 1 d1)

/-- Four particle positions out of plane: particle 1 lies below the plane of particles
0, 3, 2. -/
def example_twisted_positions {K : Type} [LinearOrderedField K] : Nat → Vec3 K :=
  fun i =>
    if i = 0 then { c0 := 0, c1 := 1, c2 := 0 }
    else if i = 1 then { c0 := 1, c1 := 0, c2 := -1 }
    else if i = 2 then { c0 := 1, c1 := 0, c2 := 0 }
    else { c0 := 0, c1 := 0, c2 := 0 }

/-- Three particles far apart: particle 2 at the origin, particle 0 at distance
`2 * 10^20` along x, particle 1 at distance `2 * 10^20` along y. -/
def example_far_positions_a {K : Type} [LinearOrderedField K] : Nat → Vec3 K :=
  fun i =>
    if i = 0 then { c0 := 200000000000000000000, c1 := 0, c2 := 0 }
    else if i = 1 then { c0 := 0, c1 := 200000000000000000000, c2 := 0 }
    else { c0 := 0, c1 := 0, c2 := 0 }

/-- Three particles far apart: particle 2 at the origin, particle 0 at distance
`2 * 10^20` along x, particle 1 at `(6 * 10^20, 8 * 10^20, 0)`. -/
def example_far_positions_b {K : Type} [LinearOrderedField K] : Nat → Vec3 K :=
  fun i =>
    if i = 0 then { c0 := 200000000000000000000, c1 := 0, c2 := 0 }
    else if i = 1 then { c0 := 600000000000000000000, c1 := 800000000000000000000, c2 := 0 }
    else { c0 := 0, c1 := 0, c2 := 0 }

/-- Half box lengths `10^22` in every direction. -/
def example_large_half_lengths {K : Type} [LinearOrderedField K] : Vec3 K :=
  { c0 := 10000000000000000000000, c1 := 10000000000000000000000, c2 := 10000000000000000000000 }

/-- The loop of lines 386-390 of `calc_grid_of_force_vals`. The output vectors have
`remaining` entries after index `counter`; a pass that would write past their end
(undefined behaviour) is the result `none`. The call
`fm_s_comp->evaluate_spline(index_among_defined, interaction_class_column_index,
spline_coeffs, axis)` is `evaluate axis`. The sum `axis += binwidth` is exact here;
`grid_of_force_loop_double` rounds it. -/
def grid_of_force_loop (evaluate : ℚ → ℚ) (max binwidth : ℚ) :
    Nat → ℚ → Nat → List ℚ → List ℚ → Option (List ℚ × List ℚ × Nat)
  | 0, axis, counter, axis_vals, force_vals =>
    if axis < max then none else some (axis_vals, force_vals, counter)
  | remaining + 1, axis, counter, axis_vals, force_vals =>
    if axis < max then
      grid_of_force_loop evaluate max binwidth remaining (axis + binwidth) (counter + 1)
        (axis_vals.set counter axis) (force_vals.set counter (evaluate axis))
    else some (axis_vals, force_vals, counter)

/-- `InteractionClassComputer::calc_grid_of_force_vals`, returning `axis_vals` and
`force_vals`. The spline evaluator of the absent spline code is the parameter
`evaluate_spline`; `ispec` and `interaction_class_column_index` are the members of the
computer. The entry count `int(...)` is taken as a natural number (it is not negative for
`lower <= upper` and a positive `binwidth`). Exact arithmetic;
`calc_grid_of_force_vals_double` rounds every operation. -/
def calc_grid_of_force_vals (evaluate_spline : Nat → Int → List ℚ → ℚ → ℚ)
    (ispec : InteractionClassSpec) (interaction_class_column_index : Int)
    (spline_coeffs : List ℚ) (index_among_defined : Nat) (binwidth : ℚ) :
    Option (List ℚ × List ℚ) :=
  let num_entries : Nat :=
    (int_cast ((ispec.upper_cutoffs.getD index_among_defined 0 -
      ispec.lower_cutoffs.getD index_among_defined 0) / binwidth + 1)).toNat
  let max : ℚ := ispec.upper_cutoffs.getD index_among_defined 0
  let start : ℚ :=
    ((int_cast (ispec.lower_cutoffs.getD index_among_defined 0 / binwidth) + 1 : Int) : ℚ) *
      binwidth
  match grid_of_force_loop
      (evaluate_spline index_among_defined interaction_class_column_index spline_coeffs)
      max binwidth num_entries start 0 (List.replicate num_entries 0)
      (List.replicate num_entries 0) with
  | none => none
  | some r => some (r.1.take r.2.2, r.2.1.take r.2.2)

/-- The loop of lines 407-412 of `calc_grid_of_force_and_deriv_vals`; see
`grid_of_force_loop`. The sum `axis += binwidth` is exact here;
`grid_of_force_and_deriv_loop_double` rounds it. -/
def grid_of_force_and_deriv_loop (evaluate evaluate_deriv : ℚ → ℚ) (max binwidth : ℚ) :
    Nat → ℚ → Nat → List ℚ → List ℚ → List ℚ → Option (List ℚ × List ℚ × List ℚ × Nat)
  | 0, axis, counter, axis_vals, force_vals, deriv_vals =>
    if axis < max then none else some (axis_vals, force_vals, deriv_vals, counter)
  | remaining + 1, axis, counter, axis_vals, force_vals, deriv_vals =>
    if axis < max then
      grid_of_force_and_deriv_loop evaluate evaluate_deriv max binwidth remaining
        (axis + binwidth) (counter + 1) (axis_vals.set counter axis)
        (force_vals.set counter (evaluate axis)) (deriv_vals.set counter (evaluate_deriv axis))
    else some (axis_vals, force_vals, deriv_vals, counter)

/-- `InteractionClassComputer::calc_grid_of_force_and_deriv_vals`, returning `axis_vals`,
`force_vals` and `deriv_vals`; unlike `calc_grid_of_force_vals` the function ends without
resizing the vectors. The two evaluators of the absent `BSplineAndDerivComputer` are
parameters. Exact arithmetic; `calc_grid_of_force_and_deriv_vals_double` rounds every
operation. -/
def calc_grid_of_force_and_deriv_vals (evaluate_spline : Nat → Int → List ℚ → ℚ → ℚ)
    (evaluate_spline_deriv : Nat → Int → List ℚ → ℚ → ℚ)
    (ispec : InteractionClassSpec) (interaction_class_column_index : Int)
    (spline_coeffs : List ℚ) (index_among_defined : Nat) (binwidth : ℚ) :
    Option (List ℚ × List ℚ × List ℚ) :=
  let num_entries : Nat :=
    (int_cast ((ispec.upper_cutoffs.getD index_among_defined 0 -
      ispec.lower_cutoffs.getD index_among_defined 0) / binwidth + 1)).toNat
  let max : ℚ := ispec.upper_cutoffs.getD index_among_defined 0
  let start : ℚ :=
    ((int_cast (ispec.lower_cutoffs.getD index_among_defined 0 / binwidth) + 1 : Int) : ℚ) *
      binwidth
  match grid_of_force_and_deriv_loop
      (evaluate_spline index_among_defined interaction_class_column_index spline_coeffs)
      (evaluate_spline_deriv index_among_defined interaction_class_column_index spline_coeffs)
      max binwidth num_entries start 0 (List.replicate num_entries 0)
      (List.replicate num_entries 0) (List.replicate num_entries 0) with
  | none => none
  | some r => some (r.1, r.2.1, r.2.2.1)

/-- A class with one interaction on the range `[0, 3]`. -/
def example_grid_class : InteractionClassSpec :=
  { example_linear_class with lower_cutoffs := [0], upper_cutoffs := [3] }

/-- A stand-in for the spline evaluator: the value at `axis` is `2 * axis + 1`. -/
def example_evaluate_spline : Nat → Int → List ℚ → ℚ → ℚ :=
  fun _ _ _ axis => 2 * axis + 1

/-- A stand-in for the evaluator of the spline derivative: the constant 2. -/
def example_evaluate_spline_deriv : Nat → Int → List ℚ → ℚ → ℚ :=
  fun _ _ _ _ => 2

/-- The write `v[i] = x` to a `std::vector`; a write past the end (undefined behaviour)
is the result `none`. -/
def vector_write (v : List Int) (i : Nat) (x : Int) : Option (List Int) :=
  if i < v.length then some (v.set i x) else none

/-- The loops `for (int i = 1; i < n + 1; i++) interaction_column_indices[i] = i * c` of
lines 299-307 of `read_all_interaction_ranges`, over the indices still to visit. -/
def three_body_column_loop (c : Int) : List Nat → List Int → Option (List Int)
  | [], v => some v
  | i :: rest, v =>
    match vector_write v i ((i : Int) * c) with
    | none => none
    | some v1 => three_body_column_loop c rest v1

/-- Lines 293-309 of `read_all_interaction_ranges`, for the three-body class `s`: the
result is the new `interaction_column_indices`, or `none` when a write falls outside the
vector. -/
def three_body_column_indices (s : InteractionClassSpec) : Option (List Int) :=
  if s.class_subtype > 0 then
    match vector_write (List.replicate s.n_defined 0) 0 0 with
    | none => none
    | some v =>
      if s.class_subtype = 3 then
        three_body_column_loop 1 (List.range' 1 s.n_defined) v
      else if s.basis_type = kBSpline then
        three_body_column_loop (s.bspline_k - 2 + ⌊180 / s.fm_binwidth + 1/2⌋ + 1)
          (List.range' 1 s.n_defined) v
      else if s.basis_type = kLinearSpline then
        three_body_column_loop (⌊180 / s.fm_binwidth + 1/2⌋ + 1) (List.range' 1 s.n_defined) v
      else some v
  else some s.interaction_column_indices

/-- A three-body class of subtype 1 with a linear-spline basis, `fm_binwidth` 1 and two
defined interactions. -/
def example_three_body_class : InteractionClassSpec :=
  { basis_type := kLinearSpline, bspline_k := 4, fm_binwidth := 1,
    class_type := kThreeBodyNonbonded, class_subtype := 1, output_binwidth := 1,
    n_defined := 2, defined_to_matched_intrxn_index_map := [1, 2],
    defined_to_tabulated_intrxn_index_map := [0, 0], interaction_column_indices := [],
    n_to_force_match := 0, n_tabulated := 0, lower_cutoffs := [0, 0],
    upper_cutoffs := [180, 180], cutoff := 10 }

/-- One pass of the loop body of `get_minimum_image` on coordinate `x` of the particle,
with `h` the half box length of that direction, in exact arithmetic;
`get_minimum_image_component_double` rounds every operation. -/
def get_minimum_image_component {K : Type} [LinearOrderedField K] (x h : K) : K :=
  if x < 0 then x + 2 * h else if x ≥ 2 * h then x - 2 * h else x

/-- `get_minimum_image`: the position array after the call, in which the three
coordinates of particle `l` have gone through the loop body. -/
def get_minimum_image {K : Type} [LinearOrderedField K] (l : Nat) (x : Nat → Vec3 K)
    (simulation_box_half_lengths : Vec3 K) : Nat → Vec3 K :=
  Function.update x l
    (Vec3.map2 get_minimum_image_component (x l) simulation_box_half_lengths)

/-- The reference arguments of `conditionally_calc_sw_angle_and_intermediates`. The
field `angle` holds the six it hands on to `conditionally_calc_angle_and_intermediates`:
`dist_derivs_01`, `dist_derivs_02`, `derivatives`, `param_val`, `rr1` and `rr2` are the
fields `dist_derivs_20`, `dist_derivs_21`, `derivatives`, `param_val`, `rr_20` and
`rr_21` there. -/
structure SwAngleIntermediates (K : Type) where
  angle : AngleIntermediates K
  angle_prefactor : K
  dr1_prefactor : K
  dr2_prefactor : K

/-- `conditionally_calc_sw_angle_and_intermediates`: the result is the returned flag with
the final values of the reference arguments. -/
def conditionally_calc_sw_angle_and_intermediates {K : Type} [LinearOrderedField K]
    (m : MathEnv K) (particle_ids : List Nat) (particle_positions : Nat → Vec3 K)
    (simulation_box_half_lengths : Vec3 K) (cutoff gamma : K)
    (a : SwAngleIntermediates K) : Bool × SwAngleIntermediates K :=
  let within_cutoff := conditionally_calc_angle_and_intermediates m particle_ids
    particle_positions simulation_box_half_lengths (cutoff * cutoff) a.angle
  if within_cutoff.1 = false then
    (false, { a with angle := within_cutoff.2 })
  else
    let r1_less_cutoff : K := within_cutoff.2.rr_20 - cutoff
    let r2_less_cutoff : K := within_cutoff.2.rr_21 - cutoff
    let sw_exp1 : K := m.exp (gamma / r1_less_cutoff)
    let sw_exp2 : K := m.exp (gamma / r2_less_cutoff)
    let sw_exp_dr1 : K := gamma / (r1_less_cutoff * r1_less_cutoff) * sw_exp1
    let sw_exp_dr2 : K := gamma / (r2_less_cutoff * r2_less_cutoff) * sw_exp2
    (true, { angle := within_cutoff.2,
             angle_prefactor := sw_exp1 * sw_exp2 * m.DEGREES_PER_RADIAN,
             dr1_prefactor := sw_exp2 * sw_exp_dr1,
             dr2_prefactor := sw_exp1 * sw_exp_dr2 })

/-- Reference arguments whose content the calls of the examples overwrite. -/
def example_sw_intermediates {K : Type} [LinearOrderedField K] : SwAngleIntermediates K :=
  { angle := { dist_derivs_20 := fun _ => Vec3.zero, dist_derivs_21 := fun _ => Vec3.zero,
               derivatives := fun _ => Vec3.zero, param_val := 0, rr_20 := 0, rr_21 := 0 },
    angle_prefactor := 0, dr1_prefactor := 0, dr2_prefactor := 0 }

/-- Positions in which particle 1 lies outside the box of `example_half_lengths` in two
directions. -/
def example_outside_positions {K : Type} [LinearOrderedField K] : Nat → Vec3 K :=
  fun i => if i = 1 then { c0 := -1, c1 := 25, c2 := 7 } else { c0 := 3, c1 := 4, c2 := 5 }

/-- A pair-nonbonded B-spline class with `output_binwidth = 1/2` and one matched
interaction whose declared upper bound is `19/2`, under a nonbonded cutoff of 10. -/
def example_bspline_nonbonded_class : InteractionClassSpec :=
  { example_bspline_class with
    class_type := kPairNonbonded, class_subtype := 0, output_binwidth := 1/2,
    n_defined := 1, defined_to_matched_intrxn_index_map := [1],
    lower_cutoffs := [2], upper_cutoffs := [19/2], cutoff := 10 }

/-- The inner loop of `calculate_bootstrapping_standard_error` for grid point `i`: the
final values of `sum` and `squared`, which start from the master value and its square
and take in `vals[j][i]` for `j < bootstrapping_num_estimates`. -/
def bootstrapping_sums {K : Type} [Field K] (master_vals : List K) (vals : List (List K))
    (bootstrapping_num_estimates : Nat) (i : Nat) : K × K :=
  (List.range bootstrapping_num_estimates).foldl
    (fun (acc : K × K) (j : Nat) =>
      (acc.1 + (vals.getD j []).getD i 0,
       acc.2 + (vals.getD j []).getD i 0 * (vals.getD j []).getD i 0))
    (master_vals.getD i 0, master_vals.getD i 0 * master_vals.getD i 0)

/-- The argument of `sqrt` in `calculate_bootstrapping_standard_error` for grid point
`i`: `squared - (sum * sum / (double)(bootstrapping_num_estimates + 1))`, in exact
arithmetic; `bootstrapping_radicand_double` rounds every operation. -/
def bootstrapping_radicand {K : Type} [Field K] (master_vals : List K)
    (vals : List (List K)) (bootstrapping_num_estimates : Nat) (i : Nat) : K :=
  (bootstrapping_sums master_vals vals bootstrapping_num_estimates i).2 -
    (bootstrapping_sums master_vals vals bootstrapping_num_estimates i).1 *
      (bootstrapping_sums master_vals vals bootstrapping_num_estimates i).1 /
      ((bootstrapping_num_estimates + 1 : Nat) : K)

/-- `calculate_bootstrapping_standard_error`, with `sqrt` of `<cmath>` a parameter; the
array of vectors `vals` is a list of lists. -/
def calculate_bootstrapping_standard_error {K : Type} [Field K] (sqrt : K → K)
    (master_vals : List K) (vals : List (List K)) (bootstrapping_num_estimates : Nat) :
    List K :=
  (List.range master_vals.length).map (fun i =>
    sqrt (bootstrapping_radicand master_vals vals bootstrapping_num_estimates i) /
      ((bootstrapping_num_estimates + 1 : Nat) : K))

/-- The values at grid point `i` that enter the standard error: the master value and the
`n` bootstrap estimates. -/
def bootstrapping_sample {K : Type} [Field K] (master_vals : List K) (vals : List (List K))
    (n : Nat) (i : Nat) : List K :=
  master_vals.getD i 0 :: (List.range n).map (fun j => (vals.getD j []).getD i 0)

/-- The population variance of a list of values: the mean of the squared deviations from
the mean. -/
def population_variance {K : Type} [Field K] (xs : List K) : K :=
  (xs.map (fun x => (x - xs.sum / (xs.length : K)) ^ 2)).sum / (xs.length : K)

/-- A stand-in for `sqrt` on the rationals that is exact on the squares up to 16. -/
def example_sqrt (x : ℚ) : ℚ :=
  if x = 0 then 0 else if x = 1 then 1 else if x = 4 then 2 else if x = 9 then 3
  else if x = 16 then 4 else x

/-- The members of `struct InteractionClassComputer` that `fm_output.cpp` reads: the
class `ispec` points to, the first column of the class in the solution vector, and the
scratch index the force-matching pass leaves behind. `output_spline_coeffs_flag` is the
member `ispec->output_spline_coeffs_flag`, which is not part of the setup pipeline. -/
structure InteractionClassComputer where
  ispec : InteractionClassSpec
  output_spline_coeffs_flag : Int
  interaction_class_column_index : Int
  index_among_defined_intrxns : Nat

/-- The members of `MATRIX_DATA` (declared in the absent `matrix.h`) that
`fm_output.cpp` reads, with the types their uses there give them. -/
structure MATRIX_DATA where
  fm_solution : List ℚ
  dense_fm_normal_rhs_vector : List ℚ
  bootstrap_solutions : List (List ℚ)
  bootstrapping_flag : Int
  bootstrapping_full_output_flag : Int
  bootstrapping_num_estimates : Nat
  output_normal_equations_rhs_flag : Int

/-- The numbers of one coefficient record of `b-spline.out`: the header
`"%d %d %.15le %.15le\n"` and the coefficients that follow it. The class character and
the type names printed before them come from absent code and are left out. -/
structure BSplineRecord where
  bspline_k : Int
  n_to_print_minus_bspline_k : Int
  lower_cutoff : ℚ
  upper_cutoff : ℚ
  coefficients : List ℚ
  deriving DecidableEq

/-- The subscripts of `mat->fm_solution` in the coefficient loop of
`write_one_param_bspline_file` (lines 231-233) for defined index
`index_among_defined_intrxns`:
`interaction_column_indices[index_among_matched_interactions - 1] + k` for
`k < interaction_column_indices[m] - interaction_column_indices[m - 1]`. The matched index
is at least 1 for the interactions the function is called for; the subscript `m - 1` is
taken in the naturals. -/
def bspline_coefficient_positions (icomp : InteractionClassComputer)
    (index_among_defined_intrxns : Nat) : List Int :=
  let index_among_matched_interactions : Nat :=
    icomp.ispec.defined_to_matched_intrxn_index_map.getD index_among_defined_intrxns 0
  let interaction_column_indices : Int :=
    icomp.ispec.interaction_column_indices.getD index_among_matched_interactions 0 -
      icomp.ispec.interaction_column_indices.getD (index_among_matched_interactions - 1) 0
  (List.range interaction_column_indices.toNat).map (fun (k : Nat) =>
    icomp.ispec.interaction_column_indices.getD (index_among_matched_interactions - 1) 0 +
      (k : Int))

/-- `write_one_param_bspline_file`: the record appended to `b-spline.out`. -/
def write_one_param_bspline_file (icomp : InteractionClassComputer) (mat : MATRIX_DATA)
    (index_among_defined_intrxns : Nat) : BSplineRecord :=
  let index_among_matched_interactions : Nat :=
    icomp.ispec.defined_to_matched_intrxn_index_map.getD index_among_defined_intrxns 0
  let interaction_column_indices : Int :=
    icomp.ispec.interaction_column_indices.getD index_among_matched_interactions 0 -
      icomp.ispec.interaction_column_indices.getD (index_among_matched_interactions - 1) 0
  { bspline_k := icomp.ispec.bspline_k,
    n_to_print_minus_bspline_k := interaction_column_indices - icomp.ispec.bspline_k + 2,
    lower_cutoff := icomp.ispec.lower_cutoffs.getD index_among_defined_intrxns 0,
    upper_cutoff := icomp.ispec.upper_cutoffs.getD index_among_defined_intrxns 0,
    coefficients := (bspline_coefficient_positions icomp index_among_defined_intrxns).map
      (fun p => mat.fm_solution.getD p.toNat 0) }

/-- The values of the loop variable `i` in the two loops of
`write_one_param_linear_spline_file` (lines 254 and 263): from
`interaction_class_column_index + interaction_column_indices[m - 1]` up to, not
including, `interaction_class_column_index + interaction_column_indices[m]`. -/
def linear_spline_columns (icomp : InteractionClassComputer)
    (index_among_defined_intrxns : Nat) : List Int :=
  let index_among_matched_interactions : Nat :=
    icomp.ispec.defined_to_matched_intrxn_index_map.getD index_among_defined_intrxns 0
  let first : Int := icomp.interaction_class_column_index +
    icomp.ispec.interaction_column_indices.getD (index_among_matched_interactions - 1) 0
  let last : Int := icomp.interaction_class_column_index +
    icomp.ispec.interaction_column_indices.getD index_among_matched_interactions 0
  (List.range (last - first).toNat).map (fun (k : Nat) => first + (k : Int))

/-- The lines of the two files `write_one_param_linear_spline_file` writes: each line of
`<name>.b` and of `<name>.dense_fm_normal_rhs_vector` is an abscissa and a value; the
second file is `none` when it is not written. -/
structure LinearSplineFiles where
  b_file : List (ℚ × ℚ)
  dense_fm_normal_rhs_vector_file : Option (List (ℚ × ℚ))
  deriving DecidableEq

/-- `write_one_param_linear_spline_file`; the result is `none` when
`output_spline_coeffs_flag` is not 1 and nothing is written. The bin number that
multiplies `get_fm_binwidth()` is an expression of type `unsigned` (the loop variable `i`
is `unsigned`), so its value is taken modulo `2^32`. -/
def write_one_param_linear_spline_file (icomp : InteractionClassComputer) (mat : MATRIX_DATA)
    (index_among_defined_intrxns : Nat) : Option LinearSplineFiles :=
  if icomp.output_spline_coeffs_flag = 1 then
    let index_among_matched_interactions : Nat :=
      icomp.ispec.defined_to_matched_intrxn_index_map.getD index_among_defined_intrxns 0
    let b_file : List (ℚ × ℚ) :=
      (linear_spline_columns icomp index_among_defined_intrxns).map (fun i =>
        (icomp.ispec.lower_cutoffs.getD index_among_defined_intrxns 0 +
          icomp.ispec.fm_binwidth *
            (((i - icomp.interaction_class_column_index -
              icomp.ispec.interaction_column_indices.getD index_among_matched_interactions 0) %
                4294967296 : Int) : ℚ),
         mat.fm_solution.getD i.toNat 0))
    let rhs_file : Option (List (ℚ × ℚ)) :=
      if mat.output_normal_equations_rhs_flag = 1 then
        some ((linear_spline_columns icomp index_among_defined_intrxns).map (fun i =>
          (icomp.ispec.lower_cutoffs.getD index_among_defined_intrxns 0 +
            icomp.ispec.fm_binwidth *
              (((i - icomp.interaction_class_column_index -
                icomp.ispec.interaction_column_indices.getD
                  (index_among_matched_interactions - 1) 0) % 4294967296 : Int) : ℚ),
           mat.dense_fm_normal_rhs_vector.getD i.toNat 0)))
      else none
    some { b_file := b_file, dense_fm_normal_rhs_vector_file := rhs_file }
  else none

/-- What `write_two_param_bspline_interaction_file` writes: the record appended to
`b-spline.out` and the lines `axis force derivative` of the table file `<name>.dat`
(`none` stands for a write past the end of a vector in the grid computation). -/
structure TwoParamBSplineOutput where
  coefficient_record : BSplineRecord
  table : Option (List (ℚ × ℚ × ℚ))
  deriving DecidableEq

/-- `write_two_param_bspline_interaction_file`; the two spline evaluators of the absent
spline code are parameters. -/
def write_two_param_bspline_interaction_file
    (evaluate_spline evaluate_spline_deriv : Nat → Int → List ℚ → ℚ → ℚ)
    (icomp : InteractionClassComputer) (mat : MATRIX_DATA) (index_among_defined : Nat) :
    TwoParamBSplineOutput :=
  let index_among_matched : Nat :=
    icomp.ispec.defined_to_matched_intrxn_index_map.getD index_among_defined 0
  let n_basis_funcs : Int :=
    icomp.ispec.interaction_column_indices.getD index_among_matched 0 -
      icomp.ispec.interaction_column_indices.getD (index_among_matched - 1) 0
  let coefficient_record : BSplineRecord :=
    { bspline_k := icomp.ispec.bspline_k,
      n_to_print_minus_bspline_k := n_basis_funcs - icomp.ispec.bspline_k + 2,
      lower_cutoff := icomp.ispec.lower_cutoffs.getD index_among_defined 0,
      upper_cutoff := icomp.ispec.upper_cutoffs.getD index_among_defined 0,
      coefficients := (List.range n_basis_funcs.toNat).map (fun (k : Nat) =>
        mat.fm_solution.getD
          (icomp.ispec.interaction_column_indices.getD (index_among_matched - 1) 0 +
            (k : Int)).toNat 0) }
  let table : Option (List (ℚ × ℚ × ℚ)) :=
    match calc_grid_of_force_and_deriv_vals evaluate_spline evaluate_spline_deriv icomp.ispec
        icomp.interaction_class_column_index mat.fm_solution icomp.index_among_defined_intrxns
        icomp.ispec.output_binwidth with
    | none => none
    | some r => some ((List.range r.1.length).map (fun (i : Nat) =>
        (r.1.getD i 0, r.2.1.getD i 0, r.2.2.getD i 0)))
  { coefficient_record := coefficient_record, table := table }

/-- The body of the table `write_LAMMPS_table_output_file` writes (lines 188-191): one
line `k + 1, axis_vals[k], potential_vals[k], force_vals[k]` per grid point, after the
potential of a bonded class (`i_type` one of `b`, `a`, `d`) has gone through
`standardize_potential`, a function of absent code and a parameter here. The header lines
are left out. -/
def write_LAMMPS_table_output_file (standardize_potential : List ℚ → List ℚ) (i_type : Char)
    (axis_vals potential_vals force_vals : List ℚ) : List (Nat × ℚ × ℚ × ℚ) :=
  let potential_vals1 : List ℚ :=
    if i_type = 'b' ∨ i_type = 'a' ∨ i_type = 'd' then standardize_potential potential_vals
    else potential_vals
  (List.range axis_vals.length).map (fun (k : Nat) =>
    (k + 1, axis_vals.getD k 0, potential_vals1.getD k 0, force_vals.getD k 0))

/-- The loop of lines 364-369 of `write_bootstrapping_one_param_table_files` over the
estimates still to visit: each pass overwrites `axis_vals` and appends the force values and
the potential values of one estimate. -/
def bootstrap_estimates_loop (evaluate_spline : Nat → Int → List ℚ → ℚ → ℚ)
    (integrate_force : List ℚ → List ℚ → List ℚ) (icomp : InteractionClassComputer)
    (spline_coeffs : List (List ℚ)) (index_among_defined_intrxns : Nat) :
    List Nat → List ℚ → List (List ℚ) → List (List ℚ) →
      Option (List ℚ × List (List ℚ) × List (List ℚ))
  | [], axis_vals, force_vals, potential_vals => some (axis_vals, force_vals, potential_vals)
  | i :: rest, _, force_vals, potential_vals =>
    match calc_grid_of_force_vals evaluate_spline icomp.ispec
        icomp.interaction_class_column_index (spline_coeffs.getD i [])
        index_among_defined_intrxns icomp.ispec.output_binwidth with
    | none => none
    | some r =>
      bootstrap_estimates_loop evaluate_spline integrate_force icomp spline_coeffs
        index_among_defined_intrxns rest r.1 (force_vals ++ [r.2])
        (potential_vals ++ [integrate_force r.1 r.2])

/-- What `write_bootstrapping_one_param_table_files` hands to the table writers: the
arguments of the MSCGFM writer it selects (`full_output` tells which of the two) and the
body of the LAMMPS table. -/
structure BootstrappingTableFiles where
  full_output : Bool
  axis_vals : List ℚ
  master_force_vals : List ℚ
  force_vals : List (List ℚ)
  lammps_table : List (Nat × ℚ × ℚ × ℚ)
  deriving DecidableEq

/-- `write_bootstrapping_one_param_table_files`. `integrate_force` is a function of absent
code and a parameter, `i_type` is the value of `icomp->ispec->get_char_id()`. The result is
`none` when a grid computation writes past the end of a vector or when the arrays
`force_vals`, `potential_vals` have no entry 0 (no estimate). -/
def write_bootstrapping_one_param_table_files
    (evaluate_spline : Nat → Int → List ℚ → ℚ → ℚ)
    (integrate_force : List ℚ → List ℚ → List ℚ) (standardize_potential : List ℚ → List ℚ)
    (i_type : Char) (icomp : InteractionClassComputer) (master_coeffs : List ℚ)
    (spline_coeffs : List (List ℚ)) (index_among_defined_intrxns : Nat)
    (bootstrapping_num_estimates : Nat) (bootstrapping_full_output_flag : Int) :
    Option BootstrappingTableFiles :=
  match calc_grid_of_force_vals evaluate_spline icomp.ispec
      icomp.interaction_class_column_index master_coeffs index_among_defined_intrxns
      icomp.ispec.output_binwidth with
  | none => none
  | some master =>
    match bootstrap_estimates_loop evaluate_spline integrate_force icomp spline_coeffs
        index_among_defined_intrxns (List.range bootstrapping_num_estimates) master.1 [] [] with
    | none => none
    | some r =>
      if 0 < bootstrapping_num_estimates then
        some { full_output := decide (bootstrapping_full_output_flag = 1),
               axis_vals := r.1,
               master_force_vals := master.2,
               force_vals := r.2.1,
               lammps_table := write_LAMMPS_table_output_file standardize_potential i_type r.1
                 (r.2.2.getD 0 []) (r.2.1.getD 0 []) }
      else none

/-- One call `write_interaction_data_to_file` makes, in the order of the calls:
the writer called with the position of the class in `icomp_list` and the defined index
of the interaction, or the `fprintf` to `tb_out` of the three-body block with the value
printed; `tb_out_opened` tells whether `tb_out` was opened (`class_subtype == 3`). -/
inductive OutputCall where
  | one_param_table_files (class_position i : Nat)
  | one_param_bspline_file (class_position i : Nat)
  | one_param_linear_spline_file (class_position i : Nat)
  | bootstrapping_one_param_table_files (class_position i : Nat)
  | bootstrapping_one_param_bspline_file (class_position i : Nat)
  | bootstrapping_one_param_linear_spline_file (class_position i : Nat)
  | two_param_bspline_interaction_file (i : Nat)
  | fprintf_tb_out (tb_out_opened : Bool) (value : ℚ)
  deriving DecidableEq

/-- The loop of lines 78-108 of `write_interaction_data_to_file` over the defined indices
of one class still to visit. The fatal exit carries the diagnostic and the calls made
before it. -/
def write_class_interactions (mat : MATRIX_DATA) (class_position : Nat)
    (icomp : InteractionClassComputer) :
    List Nat → List OutputCall → Except (String × List OutputCall) (List OutputCall)
  | [], calls => Except.ok calls
  | i :: rest, calls =>
    if icomp.ispec.defined_to_matched_intrxn_index_map.getD i 0 ≠ 0 then
      if mat.bootstrapping_flag = 1 then
        let calls1 := calls ++ [OutputCall.bootstrapping_one_param_table_files class_position i]
        if icomp.ispec.basis_type = kBSpline then
          write_class_interactions mat class_position icomp rest
            (calls1 ++ [OutputCall.bootstrapping_one_param_bspline_file class_position i])
        else if icomp.ispec.basis_type = kLinearSpline then
          write_class_interactions mat class_position icomp rest
            (calls1 ++ [OutputCall.bootstrapping_one_param_linear_spline_file class_position i])
        else Except.error ("Unrecognized basis type.", calls1)
      else
        let calls1 := calls ++ [OutputCall.one_param_table_files class_position i]
        if icomp.ispec.basis_type = kBSpline then
          write_class_interactions mat class_position icomp rest
            (calls1 ++ [OutputCall.one_param_bspline_file class_position i])
        else if icomp.ispec.basis_type = kLinearSpline then
          write_class_interactions mat class_position icomp rest
            (calls1 ++ [OutputCall.one_param_linear_spline_file class_position i])
        else Except.error ("Unrecognized basis type.", calls1)
    else write_class_interactions mat class_position icomp rest calls

/-- The loop of lines 76-109 of `write_interaction_data_to_file` over the computers of
`cg->icomp_list` still to visit. -/
def write_interaction_classes (mat : MATRIX_DATA) :
    Nat → List InteractionClassComputer → List OutputCall →
      Except (String × List OutputCall) (List OutputCall)
  | _, [], calls => Except.ok calls
  | class_position, icomp :: rest, calls =>
    match write_class_interactions mat class_position icomp
        (List.range icomp.ispec.defined_to_matched_intrxn_index_map.length) calls with
    | Except.error e => Except.error e
    | Except.ok calls1 => write_interaction_classes mat (class_position + 1) rest calls1

/-- The loop of lines 122-133 of `write_interaction_data_to_file` over the defined indices
of the three-body class still to visit. -/
def write_three_body_interactions (mat : MATRIX_DATA) (icomp : InteractionClassComputer) :
    List Nat → List OutputCall → List OutputCall
  | [], calls => calls
  | i :: rest, calls =>
    if icomp.ispec.defined_to_matched_intrxn_index_map.getD i 0 ≠ 0 then
      if icomp.ispec.basis_type = kBSpline then
        write_three_body_interactions mat icomp rest
          (calls ++ [OutputCall.two_param_bspline_interaction_file i])
      else
        let index_among_matched : Nat :=
          icomp.ispec.defined_to_matched_intrxn_index_map.getD i 0
        write_three_body_interactions mat icomp rest
          (calls ++ [OutputCall.fprintf_tb_out (decide (icomp.ispec.class_subtype = 3))
            (mat.fm_solution.getD (icomp.interaction_class_column_index +
              icomp.ispec.interaction_column_indices.getD (index_among_matched - 1) 0).toNat
              0)])
    else write_three_body_interactions mat icomp rest calls

/-- `write_interaction_data_to_file`: the calls it makes, or the fatal exit. The members
`icomp_list` and `three_body_nonbonded_computer` of `CG_MODEL_DATA` are the first two
arguments; `icomp_list` holds the computers of the pair nonbonded, pair bonded, angular,
dihedral and density classes. -/
def write_interaction_data_to_file (icomp_list : List InteractionClassComputer)
    (three_body_nonbonded_computer : InteractionClassComputer) (mat : MATRIX_DATA) :
    Except (String × List OutputCall) (List OutputCall) :=
  match write_interaction_classes mat 0 icomp_list [] with
  | Except.error e => Except.error e
  | Except.ok calls =>
    if three_body_nonbonded_computer.ispec.class_subtype > 0 then
      Except.ok (write_three_body_interactions mat three_body_nonbonded_computer
        (List.range
          three_body_nonbonded_computer.ispec.defined_to_matched_intrxn_index_map.length) calls)
    else Except.ok calls

/-- A solution vector with seven columns. -/
def example_matrix : MATRIX_DATA :=
  { fm_solution := [10, 11, 12, 13, 14, 15, 16],
    dense_fm_normal_rhs_vector := [20, 21, 22, 23, 24, 25, 26],
    bootstrap_solutions := [], bootstrapping_flag := 0, bootstrapping_full_output_flag := 0,
    bootstrapping_num_estimates := 0, output_normal_equations_rhs_flag := 1 }

/-- The computer of a class whose block starts at column 4 of the solution vector and
whose one matched interaction has three basis functions on a grid of width `1/2` from the
lower cutoff 1. -/
def example_second_class_computer : InteractionClassComputer :=
  { ispec := { example_linear_class with
      fm_binwidth := 1/2, n_defined := 1, defined_to_matched_intrxn_index_map := [1],
      interaction_column_indices := [0, 3], lower_cutoffs := [1], upper_cutoffs := [2] },
    output_spline_coeffs_flag := 1, interaction_class_column_index := 4,
    index_among_defined_intrxns := 0 }

/-- A stand-in for the spline evaluator whose value depends on the coefficients: the
value at `axis` is `spline_coeffs[0] * axis`. -/
def example_coefficient_spline : Nat → Int → List ℚ → ℚ → ℚ :=
  fun _ _ spline_coeffs axis => spline_coeffs.getD 0 0 * axis

/-- A stand-in for `integrate_force`: every potential value is ten times the force
value. -/
def example_integrate_force : List ℚ → List ℚ → List ℚ :=
  fun _ force_vals => force_vals.map (fun f => 10 * f)

/-- The computer of a pair-nonbonded class with one interaction on the range `[0, 3]` and
`output_binwidth` 1. -/
def example_table_computer : InteractionClassComputer :=
  { ispec := { example_grid_class with output_binwidth := 1 },
    output_spline_coeffs_flag := 1, interaction_class_column_index := 0,
    index_among_defined_intrxns := 0 }

/-- The computer of a three-body B-spline class with two matched interactions, on the
ranges `[0, 3]` and `[0, 2]`, with `output_binwidth` 1; the scratch index holds 0. -/
def example_two_param_computer : InteractionClassComputer :=
  { ispec := { example_bspline_class with
      class_type := kThreeBodyNonbonded, class_subtype := 1, output_binwidth := 1,
      n_defined := 2, defined_to_matched_intrxn_index_map := [1, 2],
      interaction_column_indices := [0, 2, 4], lower_cutoffs := [0, 0],
      upper_cutoffs := [3, 2] },
    output_spline_coeffs_flag := 1, interaction_class_column_index := 0,
    index_among_defined_intrxns := 0 }

/-- The computer of a three-body class of subtype 3 whose basis type is neither linear
spline nor B-spline, with one matched interaction; its block starts at column 4. -/
def example_three_body_other_computer : InteractionClassComputer :=
  { ispec := { example_linear_class with
      basis_type := kOtherBasis, class_type := kThreeBodyNonbonded, class_subtype := 3,
      n_defined := 1, defined_to_matched_intrxn_index_map := [1],
      interaction_column_indices := [0, 1] },
    output_spline_coeffs_flag := 0, interaction_class_column_index := 4,
    index_among_defined_intrxns := 0 }

/-- The computer of a pair-nonbonded class whose basis type is neither linear spline nor
B-spline, with one matched interaction. -/
def example_other_basis_computer : InteractionClassComputer :=
  { ispec := { example_linear_class with basis_type := kOtherBasis },
    output_spline_coeffs_flag := 0, interaction_class_column_index := 0,
    index_among_defined_intrxns := 0 }

/-- Rounding of a rational to the nearest integer, a tie going to the even neighbour. -/
def round_half_even (y : ℚ) : Int :=
  if y - (⌊y⌋ : ℚ) < 1/2 then ⌊y⌋
  else if y - (⌊y⌋ : ℚ) > 1/2 then ⌊y⌋ + 1
  else if ⌊y⌋ % 2 = 0 then ⌊y⌋ else ⌊y⌋ + 1

/-- The result of one `double` operation whose exact value is `x`: `x` rounded to the
nearest number with 53 significant bits, a tie going to the even significand (the default
rounding of IEEE 754 binary64). With `e` the binary exponent of `x`, the significand
`x * 2^(52 - e)` lies in `[2^52, 2^53)` and is rounded to an integer. The exponent range
is unbounded: overflow and subnormal numbers are not modelled. -/
def round_double (x : ℚ) : ℚ :=
  if x = 0 then 0
  else
    (round_half_even (x * (2 : ℚ) ^ (52 - Int.log 2 |x|)) : ℚ) / (2 : ℚ) ^ (52 - Int.log 2 |x|)

/-- The loop of lines 386-390 of `calc_grid_of_force_vals` in `double` arithmetic: as
`grid_of_force_loop`, with the sum of `axis += binwidth` rounded by `rnd` at every pass. -/
def grid_of_force_loop_double (rnd : ℚ → ℚ) (evaluate : ℚ → ℚ) (max binwidth : ℚ) :
    Nat → ℚ → Nat → List ℚ → List ℚ → Option (List ℚ × List ℚ × Nat)
  | 0, axis, counter, axis_vals, force_vals =>
    if axis < max then none else some (axis_vals, force_vals, counter)
  | remaining + 1, axis, counter, axis_vals, force_vals =>
    if axis < max then
      grid_of_force_loop_double rnd evaluate max binwidth remaining (rnd (axis + binwidth))
        (counter + 1) (axis_vals.set counter axis) (force_vals.set counter (evaluate axis))
    else some (axis_vals, force_vals, counter)

/-- `InteractionClassComputer::calc_grid_of_force_vals` in `double` arithmetic: as
`calc_grid_of_force_vals`, with the result of every floating-point operation rounded by
`rnd` (`round_double` for the program). The difference, the quotient and the sum of
`int((upper - lower) / binwidth + 1.0)` are three operations; the start point is the
quotient `lower / binwidth`, truncated, and one product. -/
def calc_grid_of_force_vals_double (rnd : ℚ → ℚ)
    (evaluate_spline : Nat → Int → List ℚ → ℚ → ℚ)
    (ispec : InteractionClassSpec) (interaction_class_column_index : Int)
    (spline_coeffs : List ℚ) (index_among_defined : Nat) (binwidth : ℚ) :
    Option (List ℚ × List ℚ) :=
  let num_entries : Nat :=
    (int_cast (rnd (rnd (rnd (ispec.upper_cutoffs.getD index_among_defined 0 -
      ispec.lower_cutoffs.getD index_among_defined 0) / binwidth) + 1))).toNat
  let max : ℚ := ispec.upper_cutoffs.getD index_among_defined 0
  let start : ℚ :=
    rnd (((int_cast (rnd (ispec.lower_cutoffs.getD index_among_defined 0 / binwidth)) + 1
      : Int) : ℚ) * binwidth)
  match grid_of_force_loop_double rnd
      (evaluate_spline index_among_defined interaction_class_column_index spline_coeffs)
      max binwidth num_entries start 0 (List.replicate num_entries 0)
      (List.replicate num_entries 0) with
  | none => none
  | some r => some (r.1.take r.2.2, r.2.1.take r.2.2)

/-- The loop of lines 407-412 of `calc_grid_of_force_and_deriv_vals` in `double`
arithmetic; see `grid_of_force_loop_double`. -/
def grid_of_force_and_deriv_loop_double (rnd : ℚ → ℚ) (evaluate evaluate_deriv : ℚ → ℚ)
    (max binwidth : ℚ) :
    Nat → ℚ → Nat → List ℚ → List ℚ → List ℚ → Option (List ℚ × List ℚ × List ℚ × Nat)
  | 0, axis, counter, axis_vals, force_vals, deriv_vals =>
    if axis < max then none else some (axis_vals, force_vals, deriv_vals, counter)
  | remaining + 1, axis, counter, axis_vals, force_vals, deriv_vals =>
    if axis < max then
      grid_of_force_and_deriv_loop_double rnd evaluate evaluate_deriv max binwidth remaining
        (rnd (axis + binwidth)) (counter + 1) (axis_vals.set counter axis)
        (force_vals.set counter (evaluate axis)) (deriv_vals.set counter (evaluate_deriv axis))
    else some (axis_vals, force_vals, deriv_vals, counter)

/-- `InteractionClassComputer::calc_grid_of_force_and_deriv_vals` in `double` arithmetic;
see `calc_grid_of_force_vals_double`. -/
def calc_grid_of_force_and_deriv_vals_double (rnd : ℚ → ℚ)
    (evaluate_spline evaluate_spline_deriv : Nat → Int → List ℚ → ℚ → ℚ)
    (ispec : InteractionClassSpec) (interaction_class_column_index : Int)
    (spline_coeffs : List ℚ) (index_among_defined : Nat) (binwidth : ℚ) :
    Option (List ℚ × List ℚ × List ℚ) :=
  let num_entries : Nat :=
    (int_cast (rnd (rnd (rnd (ispec.upper_cutoffs.getD index_among_defined 0 -
      ispec.lower_cutoffs.getD index_among_defined 0) / binwidth) + 1))).toNat
  let max : ℚ := ispec.upper_cutoffs.getD index_among_defined 0
  let start : ℚ :=
    rnd (((int_cast (rnd (ispec.lower_cutoffs.getD index_among_defined 0 / binwidth)) + 1
      : Int) : ℚ) * binwidth)
  match grid_of_force_and_deriv_loop_double rnd
      (evaluate_spline index_among_defined interaction_class_column_index spline_coeffs)
      (evaluate_spline_deriv index_among_defined interaction_class_column_index spline_coeffs)
      max binwidth num_entries start 0 (List.replicate num_entries 0)
      (List.replicate num_entries 0) (List.replicate num_entries 0) with
  | none => none
  | some r => some (r.1, r.2.1, r.2.2.1)

/-- No operation of `calc_grid_of_force_vals` on the range `[lower, upper]` with bin
width `binwidth` is changed by the rounding `rnd`: the difference, the quotient and the sum
of the entry count, the quotient and the product of the start point, and the sum
`axis += binwidth` at every grid point the vectors have room for. -/
def grid_arithmetic_exact (rnd : ℚ → ℚ) (lower upper binwidth : ℚ) : Prop :=
  rnd (upper - lower) = upper - lower ∧
  rnd ((upper - lower) / binwidth) = (upper - lower) / binwidth ∧
  rnd ((upper - lower) / binwidth + 1) = (upper - lower) / binwidth + 1 ∧
  rnd (lower / binwidth) = lower / binwidth ∧
  rnd (((int_cast (lower / binwidth) + 1 : Int) : ℚ) * binwidth) =
    ((int_cast (lower / binwidth) + 1 : Int) : ℚ) * binwidth ∧
  ∀ j : Nat, j < (int_cast ((upper - lower) / binwidth + 1)).toNat →
    rnd (((int_cast (lower / binwidth) + 1 : Int) : ℚ) * binwidth + (j : ℚ) * binwidth +
        binwidth) =
      ((int_cast (lower / binwidth) + 1 : Int) : ℚ) * binwidth + (j : ℚ) * binwidth + binwidth

/-- A class with one interaction whose cutoffs are the doubles nearest to 4.3 and 4.6, as
the range line `4.3 4.6 fm` leaves them in a linear-spline class with both bin widths
0.1. -/
def example_overflow_grid_class : InteractionClassSpec :=
  { example_linear_class with
    lower_cutoffs := [round_double (43 / 10)], upper_cutoffs := [round_double (46 / 10)] }

/-- Lines 121-122 of `adjust_cutoffs_for_basis` in `double` arithmetic: `linear_lower` with
the quotient, the sum and the product rounded by `rnd`. -/
def linear_lower_double (rnd : ℚ → ℚ) (output_binwidth lower : ℚ) : ℚ :=
  let lo1 : ℚ := rnd ((⌊rnd (rnd (lower / output_binwidth) + 1/2)⌋ : ℚ) * output_binwidth)
  if lo1 < 0 then 0 else lo1

/-- Line 123 of `adjust_cutoffs_for_basis` in `double` arithmetic: `linear_upper` with the
result of each of its five operations rounded by `rnd`. -/
def linear_upper_double (rnd : ℚ → ℚ) (fm_binwidth new_lower upper : ℚ) : ℚ :=
  rnd (new_lower +
    rnd ((⌊rnd (rnd (rnd (upper - new_lower) / fm_binwidth) + 1/2)⌋ : ℚ) * fm_binwidth))

/-- Line 125 of `adjust_cutoffs_for_basis` in `double` arithmetic: the quotient
`upper / output_binwidth` is rounded before the cast to `int`, and the product of the
integer and `output_binwidth` is rounded. -/
def bspline_upper_double (rnd : ℚ → ℚ) (output_binwidth upper : ℚ) : ℚ :=
  rnd (((int_cast (rnd (upper / output_binwidth)) + 1 : Int) : ℚ) * output_binwidth)

/-- Line 126 of `adjust_cutoffs_for_basis` in `double` arithmetic: `bspline_lower` with the
result of each of its four operations rounded by `rnd`. -/
def bspline_lower_double (rnd : ℚ → ℚ) (fm_binwidth new_upper lower : ℚ) : ℚ :=
  rnd (new_upper -
    rnd (((int_cast (rnd (rnd (new_upper - lower) / fm_binwidth)) + 1 : Int) : ℚ) *
      fm_binwidth))

/-- `InteractionClassSpec::adjust_cutoffs_for_basis(int i)` in `double` arithmetic: the
result of every floating-point operation is rounded by `rnd` (`round_double` for the
program). -/
def adjust_cutoffs_for_basis_double (rnd : ℚ → ℚ) (s : InteractionClassSpec) (i : Nat) :
    InteractionClassSpec :=
  if s.basis_type = kLinearSpline then
    let lo : ℚ := linear_lower_double rnd s.output_binwidth (s.lower_cutoffs.getD i 0)
    let up : ℚ := linear_upper_double rnd s.fm_binwidth lo (s.upper_cutoffs.getD i 0)
    { s with lower_cutoffs := s.lower_cutoffs.set i lo, upper_cutoffs := s.upper_cutoffs.set i up }
  else if s.basis_type = kBSpline then
    let up : ℚ := bspline_upper_double rnd s.output_binwidth (s.upper_cutoffs.getD i 0)
    let lo : ℚ := bspline_lower_double rnd s.fm_binwidth up (s.lower_cutoffs.getD i 0)
    { s with lower_cutoffs := s.lower_cutoffs.set i lo, upper_cutoffs := s.upper_cutoffs.set i up }
  else s

/-- `InteractionClassSpec::adjust_cutoffs_for_type(int i)` in `double` arithmetic. -/
def adjust_cutoffs_for_type_double (rnd : ℚ → ℚ) (VERYSMALL_F : ℚ) (s : InteractionClassSpec)
    (i : Nat) : InteractionClassSpec :=
  let s1 : InteractionClassSpec :=
    if s.basis_type = kLinearSpline ∧ s.class_type = kPairNonbonded ∧
        |rnd (rnd (s.upper_cutoffs.getD i 0 - s.cutoff) - s.fm_binwidth)| < VERYSMALL_F then
      { s with
        upper_cutoffs := s.upper_cutoffs.set i (rnd (s.upper_cutoffs.getD i 0 - s.fm_binwidth)) }
    else s
  if s1.class_type = kDihedralBonded ∧ s1.class_subtype = 0 then
    { s1 with
      upper_cutoffs := s1.upper_cutoffs.set i (rnd (s1.upper_cutoffs.getD i 0 - 180)),
      lower_cutoffs := s1.lower_cutoffs.set i (rnd (s1.lower_cutoffs.getD i 0 - 180)) }
  else s1

/-- The test of line 54-56 of `check_nonbonded_interaction_range_cutoffs` for defined
index `i` in `double` arithmetic: the two sums of
`cutoff + ispec->output_binwidth + VERYSMALL` are rounded by `rnd`. -/
def exceeds_nonbonded_cutoff_double (rnd : ℚ → ℚ) (VERYSMALL : ℚ) (ispec : InteractionClassSpec)
    (cutoff : ℚ) (i : Nat) : Prop :=
  ispec.defined_to_matched_intrxn_index_map.getD i 0 ≠ 0 ∧
    ispec.upper_cutoffs.getD i 0 > rnd (rnd (cutoff + ispec.output_binwidth) + VERYSMALL)

instance (rnd : ℚ → ℚ) (VERYSMALL : ℚ) (ispec : InteractionClassSpec) (cutoff : ℚ) (i : Nat) :
    Decidable (exceeds_nonbonded_cutoff_double rnd VERYSMALL ispec cutoff i) := by
  unfold exceeds_nonbonded_cutoff_double
  infer_instance

/-- The loop of `check_nonbonded_interaction_range_cutoffs` in `double` arithmetic; see
`check_nonbonded_loop`. -/
def check_nonbonded_loop_double (rnd : ℚ → ℚ) (VERYSMALL : ℚ) (ispec : InteractionClassSpec)
    (cutoff : ℚ) : List Nat → Except (String × ℚ × ℚ) Unit
  | [] => Except.ok ()
  | i :: rest =>
    if ispec.defined_to_matched_intrxn_index_map.getD i 0 ≠ 0 ∧
        ispec.upper_cutoffs.getD i 0 >
          rnd (rnd (cutoff + ispec.output_binwidth) + VERYSMALL) then
      Except.error ("An upper cutoff specified in the range file is larger than the pair " ++
        "nonbonded cutoff specified in the control file.", ispec.upper_cutoffs.getD i 0, cutoff)
    else check_nonbonded_loop_double rnd VERYSMALL ispec cutoff rest

/-- `check_nonbonded_interaction_range_cutoffs(ispec, cutoff)` in `double` arithmetic. -/
def check_nonbonded_interaction_range_cutoffs_double (rnd : ℚ → ℚ) (VERYSMALL : ℚ)
    (ispec : InteractionClassSpec) (cutoff : ℚ) : Except (String × ℚ × ℚ) Unit :=
  check_nonbonded_loop_double rnd VERYSMALL ispec cutoff (List.range ispec.n_defined)

/-- No operation of the B-spline branch of `adjust_cutoffs_for_basis` on the declared
range `[lower, upper]` is changed by the rounding `rnd`: the quotient and the product of the
new upper cutoff, and the difference, the quotient, the product and the difference of the
new lower cutoff. -/
def bspline_arithmetic_exact (rnd : ℚ → ℚ) (output_binwidth fm_binwidth lower upper : ℚ) :
    Prop :=
  rnd (upper / output_binwidth) = upper / output_binwidth ∧
  rnd (((int_cast (upper / output_binwidth) + 1 : Int) : ℚ) * output_binwidth) =
    ((int_cast (upper / output_binwidth) + 1 : Int) : ℚ) * output_binwidth ∧
  rnd (bspline_upper output_binwidth upper - lower) = bspline_upper output_binwidth upper - lower ∧
  rnd ((bspline_upper output_binwidth upper - lower) / fm_binwidth) =
    (bspline_upper output_binwidth upper - lower) / fm_binwidth ∧
  rnd (((int_cast ((bspline_upper output_binwidth upper - lower) / fm_binwidth) + 1 : Int) : ℚ) *
      fm_binwidth) =
    ((int_cast ((bspline_upper output_binwidth upper - lower) / fm_binwidth) + 1 : Int) : ℚ) *
      fm_binwidth ∧
  rnd (bspline_upper output_binwidth upper -
      ((int_cast ((bspline_upper output_binwidth upper - lower) / fm_binwidth) + 1 : Int) : ℚ) *
        fm_binwidth) =
    bspline_upper output_binwidth upper -
      ((int_cast ((bspline_upper output_binwidth upper - lower) / fm_binwidth) + 1 : Int) : ℚ) *
        fm_binwidth

/-- A B-spline class whose `output_binwidth` is the double nearest to 0.01, with one
interaction declared on `[0, 0.29]` (the double nearest to 0.29). -/
def example_hundredth_class : InteractionClassSpec :=
  { example_bspline_class with
    output_binwidth := round_double (1 / 100), lower_cutoffs := [0],
    upper_cutoffs := [round_double (29 / 100)] }

/-- A pair-nonbonded B-spline class whose `output_binwidth` is the double nearest to 0.1,
with one matched interaction declared on `[0, 10]` under the nonbonded cutoff 10. -/
def example_tenth_class : InteractionClassSpec :=
  { example_bspline_class with
    class_type := kPairNonbonded, class_subtype := 0, output_binwidth := round_double (1 / 10),
    n_defined := 1, defined_to_matched_intrxn_index_map := [1],
    lower_cutoffs := [0], upper_cutoffs := [10], cutoff := 10 }

/-- The class `example_tenth_class` with the interaction declared on `[0, 155.5]` under the
nonbonded cutoff 155.5. -/
def example_tenth_wide_class : InteractionClassSpec :=
  { example_tenth_class with upper_cutoffs := [311 / 2], cutoff := 311 / 2 }

/-- The inner loop of `calculate_bootstrapping_standard_error` in `double` arithmetic: as
`bootstrapping_sums`, with every sum and every product rounded by `rnd`. -/
def bootstrapping_sums_double (rnd : ℚ → ℚ) (master_vals : List ℚ) (vals : List (List ℚ))
    (bootstrapping_num_estimates : Nat) (i : Nat) : ℚ × ℚ :=
  (List.range bootstrapping_num_estimates).foldl
    (fun (acc : ℚ × ℚ) (j : Nat) =>
      (rnd (acc.1 + (vals.getD j []).getD i 0),
       rnd (acc.2 + rnd ((vals.getD j []).getD i 0 * (vals.getD j []).getD i 0))))
    (master_vals.getD i 0, rnd (master_vals.getD i 0 * master_vals.getD i 0))

/-- The argument of `sqrt` in `calculate_bootstrapping_standard_error` in `double`
arithmetic: the product `sum * sum`, the quotient by `(double)(n + 1)` and the difference
are rounded by `rnd`. -/
def bootstrapping_radicand_double (rnd : ℚ → ℚ) (master_vals : List ℚ) (vals : List (List ℚ))
    (bootstrapping_num_estimates : Nat) (i : Nat) : ℚ :=
  rnd ((bootstrapping_sums_double rnd master_vals vals bootstrapping_num_estimates i).2 -
    rnd (rnd ((bootstrapping_sums_double rnd master_vals vals bootstrapping_num_estimates i).1 *
      (bootstrapping_sums_double rnd master_vals vals bootstrapping_num_estimates i).1) /
      ((bootstrapping_num_estimates + 1 : Nat) : ℚ)))

/-- `calculate_bootstrapping_standard_error` in `double` arithmetic, with `sqrt` of
`<cmath>` a parameter (it is given the radicand whatever its sign). -/
def calculate_bootstrapping_standard_error_double (rnd : ℚ → ℚ) (sqrt : ℚ → ℚ)
    (master_vals : List ℚ) (vals : List (List ℚ)) (bootstrapping_num_estimates : Nat) :
    List ℚ :=
  (List.range master_vals.length).map (fun i =>
    rnd (sqrt (bootstrapping_radicand_double rnd master_vals vals bootstrapping_num_estimates
      i) / ((bootstrapping_num_estimates + 1 : Nat) : ℚ)))

/-- One pass of the loop body of `get_minimum_image` in `double` arithmetic: the product
`2.0 * simulation_box_half_lengths[i]` and the sum or difference are rounded by `rnd`. -/
def get_minimum_image_component_double (rnd : ℚ → ℚ) (x h : ℚ) : ℚ :=
  if x < 0 then rnd (x + rnd (2 * h))
  else if x ≥ rnd (2 * h) then rnd (x - rnd (2 * h)) else x

/-- `get_minimum_image` in `double` arithmetic. -/
def get_minimum_image_double (rnd : ℚ → ℚ) (l : Nat) (x : Nat → Vec3 ℚ)
    (simulation_box_half_lengths : Vec3 ℚ) : Nat → Vec3 ℚ :=
  Function.update x l
    (Vec3.map2 (get_minimum_image_component_double rnd) (x l) simulation_box_half_lengths)

/-- The operations `get_minimum_image` can apply to the coordinate `x` with half box
length `h` are not changed by the rounding `rnd`. -/
def min_image_arithmetic_exact (rnd : ℚ → ℚ) (x h : ℚ) : Prop :=
  rnd (2 * h) = 2 * h ∧ rnd (x + 2 * h) = x + 2 * h ∧ rnd (x - 2 * h) = x - 2 * h

/-- Positions in which the first coordinate of particle 1 is `-2^-54`, just below 0. -/
def example_below_zero_positions : Nat → Vec3 ℚ :=
  fun i => if i = 1 then { c0 := -(1 / 2 ^ 54), c1 := 3, c2 := 4 }
    else { c0 := 3, c1 := 4, c2 := 5 }

/-- A value of type `double` as IEEE 754 arithmetic produces it: a finite number, an
infinity with its sign, or a NaN. -/
inductive DoubleValue (K : Type) where
  | finite (x : K)
  | infinity (negative : Bool)
  | nan

/-- The quotient `x / y` of two finite doubles with the IEEE 754 results for a zero
divisor: `0 / 0` is a NaN and a nonzero `x` over zero is an infinity. The zero divisors
of `geometry.cpp` are square roots and products of square roots, hence `+0`, and the
infinity has the sign of `x`. -/
def ieee_div {K : Type} [LinearOrderedField K] (x y : K) : DoubleValue K :=
  if y = 0 then (if x = 0 then DoubleValue.nan else DoubleValue.infinity (decide (x < 0)))
  else DoubleValue.finite (x / y)

/-- The product of two doubles with the IEEE 754 results for infinities and NaN: zero
times an infinity is a NaN, and a NaN factor gives a NaN. -/
def ieee_mul {K : Type} [LinearOrderedField K] : DoubleValue K → DoubleValue K → DoubleValue K
  | DoubleValue.finite x, DoubleValue.finite y => DoubleValue.finite (x * y)
  | DoubleValue.finite x, DoubleValue.infinity n =>
      if x = 0 then DoubleValue.nan else DoubleValue.infinity (xor (decide (x < 0)) n)
  | DoubleValue.infinity n, DoubleValue.finite y =>
      if y = 0 then DoubleValue.nan else DoubleValue.infinity (xor n (decide (y < 0)))
  | DoubleValue.infinity n, DoubleValue.infinity k => DoubleValue.infinity (xor n k)
  | DoubleValue.nan, _ => DoubleValue.nan
  | _, DoubleValue.nan => DoubleValue.nan

/-- The negation `-x` of a double. -/
def ieee_neg {K : Type} [LinearOrderedField K] : DoubleValue K → DoubleValue K
  | DoubleValue.finite x => DoubleValue.finite (- x)
  | DoubleValue.infinity n => DoubleValue.infinity (!n)
  | DoubleValue.nan => DoubleValue.nan

/-- The comparison `x < 0.0` of a double; it is false for a NaN. -/
def ieee_lt_zero {K : Type} [LinearOrderedField K] : DoubleValue K → Bool
  | DoubleValue.finite x => decide (x < 0)
  | DoubleValue.infinity n => n
  | DoubleValue.nan => false

/-- `check_cos(cos_theta)` on a double: both comparisons are false for a NaN, which is
returned unchanged; an infinity is replaced by the bound on its side. -/
def check_cos_ieee {K : Type} [LinearOrderedField K] (m : MathEnv K) :
    DoubleValue K → DoubleValue K
  | DoubleValue.finite c => DoubleValue.finite (check_cos m c)
  | DoubleValue.infinity n =>
      DoubleValue.finite (if n then -1 + m.VERYSMALL_F else 1 - m.VERYSMALL_F)
  | DoubleValue.nan => DoubleValue.nan

/-- The value `acos(cos_theta) * DEGREES_PER_RADIAN` on a double: `acos` of a NaN or of
an infinity is a NaN. -/
def acos_degrees_ieee {K : Type} [LinearOrderedField K] (m : MathEnv K) :
    DoubleValue K → DoubleValue K
  | DoubleValue.finite c => DoubleValue.finite (m.acos c * m.DEGREES_PER_RADIAN)
  | DoubleValue.infinity _ => DoubleValue.nan
  | DoubleValue.nan => DoubleValue.nan

/-- Lines 139-140 of `conditionally_calc_angle_and_derivatives` (179-180 of
`conditionally_calc_angle_and_intermediates`) with the IEEE 754 result of the division:
the value of `cos_theta` after `check_cos`, which is the argument of `acos`. It is a NaN
when the numerator and the divisor `4.0 * rr_20 * rr_21` are both zero. -/
def angle_cos_theta_ieee {K : Type} [LinearOrderedField K] (m : MathEnv K)
    (particle_ids : List Nat) (particle_positions : Nat → Vec3 K)
    (simulation_box_half_lengths : Vec3 K) (cutoff2 : K) : DoubleValue K :=
  let particle_ids_20 : List Nat := [particle_ids.getD 2 0, particle_ids.getD 0 0]
  let particle_ids_21 : List Nat := [particle_ids.getD 2 0, particle_ids.getD 1 0]
  let r20 := conditionally_calc_squared_distance_and_derivatives particle_ids_20
    particle_positions simulation_box_half_lengths cutoff2 0 (fun _ => Vec3.zero)
  let r21 := conditionally_calc_squared_distance_and_derivatives particle_ids_21
    particle_positions simulation_box_half_lengths cutoff2 0 (fun _ => Vec3.zero)
  check_cos_ieee m
    (ieee_div (dot_product (r20.2.2 0) (r21.2.2 0)) (4 * m.sqrt r20.2.1 * m.sqrt r21.2.1))

/-- Lines 241-263 of `conditionally_calc_dihedral_and_derivatives` (351-373 of
`calc_dihedral`) with the IEEE 754 results of the three divisions `1.0 / sqrt(...)` and
of the products that use them: the value stored in `param_val`, from the three
displacements. -/
def dihedral_param_val_ieee {K : Type} [LinearOrderedField K] (m : MathEnv K)
    (disp03 disp23 disp12 : Vec3 K) : DoubleValue K :=
  let rrbc : DoubleValue K := ieee_div 1 (m.sqrt (dot_product disp23 disp23))
  let pb : Vec3 K := cross_product disp03 disp23
  let pc : Vec3 K := cross_product disp12 disp23
  let pb2 : K := dot_product pb pb
  let rpb1 : DoubleValue K := ieee_div 1 (m.sqrt pb2)
  let pc2 : K := dot_product pc pc
  let rpc1 : DoubleValue K := ieee_div 1 (m.sqrt pc2)
  let pbpc : K := dot_product pb pc
  let cos_theta : DoubleValue K :=
    check_cos_ieee m (ieee_mul (ieee_mul (DoubleValue.finite pbpc) rpb1) rpc1)
  let theta : DoubleValue K := acos_degrees_ieee m cos_theta
  let sign : DoubleValue K :=
    ieee_mul (ieee_mul (DoubleValue.finite (- dot_product pb disp12)) rpb1) rrbc
  if ieee_lt_zero sign then ieee_neg theta else theta

/-- The value `conditionally_calc_dihedral_and_derivatives` stores in `param_val`, with
the IEEE 754 results of its divisions. -/
def conditionally_calc_dihedral_param_val_ieee {K : Type} [LinearOrderedField K]
    (m : MathEnv K) (particle_ids : List Nat) (particle_positions : Nat → Vec3 K)
    (simulation_box_half_lengths : Vec3 K) : DoubleValue K :=
  dihedral_param_val_ieee m
    (subtract_min_image_vectors [particle_ids.getD 3 0, particle_ids.getD 0 0]
      particle_positions simulation_box_half_lengths)
    (subtract_min_image_vectors [particle_ids.getD 3 0, particle_ids.getD 2 0]
      particle_positions simulation_box_half_lengths)
    (subtract_min_image_vectors [particle_ids.getD 2 0, particle_ids.getD 1 0]
      particle_positions simulation_box_half_lengths)

/-- Three particle positions of which particles 0 and 2 coincide. -/
def example_coincident_positions {K : Type} [LinearOrderedField K] : Nat → Vec3 K :=
  fun i =>
    if i = 1 then { c0 := 1, c1 := 0, c2 := 0 }
    else { c0 := 0, c1 := 0, c2 := 0 }

/-- Four particle positions on one line: particle `i` at `(i, 0, 0)`. -/
def example_collinear_positions {K : Type} [LinearOrderedField K] : Nat → Vec3 K :=
  fun i => { c0 := (i : K), c1 := 0, c2 := 0 }

/-! ## List helpers -/

theorem getD_set_eq {α : Type} (l : List α) (i : Nat) (a d : α) (h : i < l.length) :
    (l.set i a).getD i d = a := by
  simp [List.getD_eq_getElem?_getD, List.getElem?_set, h]

theorem getD_set_ne {α : Type} (l : List α) (i j : Nat) (a d : α) (h : i ≠ j) :
    (l.set i a).getD j d = l.getD j d := by
  simp [List.getD_eq_getElem?_getD, List.getElem?_set, h]

theorem getD_replicate_zero {α : Type} (n j : Nat) (d : α) :
    (List.replicate n d).getD j d = d := by
  simp [List.getD_eq_getElem?_getD, List.getElem?_replicate]
  split <;> simp

theorem getD_set_ite {α : Type} (l : List α) (i : Nat) (a d : α) :
    (l.set i a).getD i d = if i < l.length then a else l.getD i d := by
  by_cases h : i < l.length
  · rw [if_pos h, getD_set_eq _ _ _ _ h]
  · rw [if_neg h, List.set_eq_of_length_le (by omega)]

/-! ## Rounding arithmetic -/

theorem int_cast_of_nonneg (x : ℚ) (h : 0 ≤ x) : int_cast x = ⌊x⌋ := by
  unfold int_cast
  rw [if_pos h]

/-- The nearest-multiple rounding `floor(x / w + 0.5) * w` is within `w / 2` of `x`. -/
theorem round_mul_bounds (w x : ℚ) (hw : 0 < w) :
    x - w / 2 < (⌊x / w + 1/2⌋ : ℚ) * w ∧ (⌊x / w + 1/2⌋ : ℚ) * w ≤ x + w / 2 := by
  have h1 := Int.floor_le (x / w + 1/2)
  have h2 := Int.lt_floor_add_one (x / w + 1/2)
  have e : x / w * w = x := div_mul_cancel₀ x (ne_of_gt hw)
  constructor
  · have := mul_lt_mul_of_pos_right h2 hw
    nlinarith
  · have := mul_le_mul_of_nonneg_right h1 (le_of_lt hw)
    nlinarith

theorem round_mul_nearest (w x : ℚ) (hw : 0 < w) (m : ℤ) :
    |(⌊x / w + 1/2⌋ : ℚ) * w - x| ≤ |(m : ℚ) * w - x| := by
  obtain ⟨h1, h2⟩ := round_mul_bounds w x hw
  have habs : |(⌊x / w + 1/2⌋ : ℚ) * w - x| ≤ w / 2 := by
    rw [abs_le]
    constructor <;> linarith
  by_cases hm : m = ⌊x / w + 1/2⌋
  · rw [hm]
  · have hne : (1 : ℚ) ≤ |((m - ⌊x / w + 1/2⌋ : ℤ) : ℚ)| := by
      have : (1 : ℤ) ≤ |m - ⌊x / w + 1/2⌋| := Int.one_le_abs (sub_ne_zero.mpr hm)
      exact_mod_cast this
    have hw' : w ≤ |((m : ℚ) - ⌊x / w + 1/2⌋) * w| := by
      rw [abs_mul, abs_of_pos hw]
      push_cast at hne
      nlinarith
    have tri : |((m : ℚ) - ⌊x / w + 1/2⌋) * w| ≤
        |(m : ℚ) * w - x| + |(⌊x / w + 1/2⌋ : ℚ) * w - x| := by
      have e : ((m : ℚ) - ⌊x / w + 1/2⌋) * w = ((m : ℚ) * w - x) - ((⌊x / w + 1/2⌋ : ℚ) * w - x) := by
        ring
      rw [e]
      exact abs_sub _ _
    linarith

theorem bspline_upper_spec (ob upper : ℚ) (hob : 0 < ob) (hup : 0 ≤ upper) :
    bspline_upper ob upper = ((⌊upper / ob⌋ + 1 : ℤ) : ℚ) * ob ∧
    upper < bspline_upper ob upper ∧
    ∀ m : ℤ, upper < (m : ℚ) * ob → bspline_upper ob upper ≤ (m : ℚ) * ob := by
  have hq : 0 ≤ upper / ob := div_nonneg hup (le_of_lt hob)
  have e : bspline_upper ob upper = ((⌊upper / ob⌋ + 1 : ℤ) : ℚ) * ob := by
    unfold bspline_upper
    rw [int_cast_of_nonneg _ hq]
  refine ⟨e, ?_, ?_⟩
  · rw [e]
    have h2 := Int.lt_floor_add_one (upper / ob)
    have := mul_lt_mul_of_pos_right h2 hob
    rw [div_mul_cancel₀ upper (ne_of_gt hob)] at this
    push_cast
    exact this
  · intro m hm
    rw [e]
    have h1 : upper / ob < (m : ℚ) := by
      rw [div_lt_iff₀ hob]
      exact hm
    have h2 : ⌊upper / ob⌋ < m := Int.floor_lt.mpr h1
    have h3 : ((⌊upper / ob⌋ + 1 : ℤ) : ℚ) ≤ (m : ℚ) := by exact_mod_cast h2
    exact mul_le_mul_of_nonneg_right h3 (le_of_lt hob)

theorem bspline_lower_spec (fm new_upper lower : ℚ) (hfm : 0 < fm) (h : lower ≤ new_upper) :
    bspline_lower fm new_upper lower =
      new_upper - ((⌊(new_upper - lower) / fm⌋ + 1 : ℤ) : ℚ) * fm ∧
    0 < ⌊(new_upper - lower) / fm⌋ + 1 ∧
    bspline_lower fm new_upper lower < lower ∧
    lower ≤ bspline_lower fm new_upper lower + fm := by
  have hq : 0 ≤ (new_upper - lower) / fm := div_nonneg (by linarith) (le_of_lt hfm)
  have e : bspline_lower fm new_upper lower =
      new_upper - ((⌊(new_upper - lower) / fm⌋ + 1 : ℤ) : ℚ) * fm := by
    unfold bspline_lower
    rw [int_cast_of_nonneg _ hq]
  have hfl : 0 ≤ ⌊(new_upper - lower) / fm⌋ := Int.floor_nonneg.mpr hq
  have h1 := Int.floor_le ((new_upper - lower) / fm)
  have h2 := Int.lt_floor_add_one ((new_upper - lower) / fm)
  have c : (new_upper - lower) / fm * fm = new_upper - lower := div_mul_cancel₀ _ (ne_of_gt hfm)
  have m1 := mul_le_mul_of_nonneg_right h1 (le_of_lt hfm)
  have m2 := mul_lt_mul_of_pos_right h2 hfm
  rw [c] at m1 m2
  refine ⟨e, by omega, ?_, ?_⟩
  · rw [e]
    push_cast
    linarith
  · rw [e]
    push_cast
    linarith

theorem linear_lower_nonneg (ob lower : ℚ) : 0 ≤ linear_lower ob lower := by
  unfold linear_lower
  simp only
  split
  · exact le_refl _
  · linarith

theorem linear_lower_le (ob lower : ℚ) (hob : 0 < ob) (h0 : 0 ≤ lower) :
    linear_lower ob lower ≤ lower + ob / 2 := by
  obtain ⟨_, h2⟩ := round_mul_bounds ob lower hob
  unfold linear_lower
  simp only
  split
  · linarith
  · exact h2

theorem linear_upper_gt (fm new_lower upper : ℚ) (hfm : 0 < fm) :
    upper - fm / 2 < linear_upper fm new_lower upper := by
  obtain ⟨h1, _⟩ := round_mul_bounds fm (upper - new_lower) hfm
  unfold linear_upper
  linarith

/-- A declared B-spline range with `0 <= lower < upper` is widened on both sides. -/
theorem bspline_adjust_contains (ob fm lower upper : ℚ) (hob : 0 < ob) (hfm : 0 < fm)
    (h0 : 0 ≤ lower) (hlt : lower ≤ upper) :
    bspline_lower fm (bspline_upper ob upper) lower < lower ∧
      upper < bspline_upper ob upper := by
  obtain ⟨_, e2, _⟩ := bspline_upper_spec ob upper hob (le_trans h0 hlt)
  obtain ⟨_, _, f3, _⟩ := bspline_lower_spec fm (bspline_upper ob upper) lower hfm
    (le_trans hlt (le_of_lt e2))
  exact ⟨f3, e2⟩

theorem floor_int_add_half (n : ℤ) : ⌊(n : ℚ) + 1/2⌋ = n := by
  rw [Int.floor_eq_iff]
  constructor <;> norm_num

theorem grid_of_multiple (fm : ℚ) (n : ℤ) (hfm : 0 < fm) :
    ⌊((n : ℚ) * fm) / fm + 1/2⌋ + 1 = n + 1 := by
  rw [mul_div_assoc, div_self (ne_of_gt hfm), mul_one, floor_int_add_half]

/-- The bin count of a B-spline interaction after the basis adjustment. -/
theorem bspline_grid (fm new_upper lower : ℚ) (hfm : 0 < fm) (h : lower ≤ new_upper) :
    ⌊(new_upper - bspline_lower fm new_upper lower) / fm + 1/2⌋ + 1 =
      ⌊(new_upper - lower) / fm⌋ + 2 := by
  obtain ⟨e, _⟩ := bspline_lower_spec fm new_upper lower hfm h
  have e2 : new_upper - bspline_lower fm new_upper lower =
      ((⌊(new_upper - lower) / fm⌋ + 1 : ℤ) : ℚ) * fm := by
    rw [e]
    ring
  rw [e2, grid_of_multiple _ _ hfm]
  ring

/-! ## Cutoff adjustment -/

theorem adjust_cutoffs_for_basis_linear_getD (s : InteractionClassSpec) (i : Nat)
    (hb : s.basis_type = kLinearSpline)
    (hil : i < s.lower_cutoffs.length) (hiu : i < s.upper_cutoffs.length) :
    (adjust_cutoffs_for_basis s i).lower_cutoffs.getD i 0 =
        linear_lower s.output_binwidth (s.lower_cutoffs.getD i 0) ∧
    (adjust_cutoffs_for_basis s i).upper_cutoffs.getD i 0 =
        linear_upper s.fm_binwidth (linear_lower s.output_binwidth (s.lower_cutoffs.getD i 0))
          (s.upper_cutoffs.getD i 0) := by
  unfold adjust_cutoffs_for_basis
  rw [if_pos hb]
  exact ⟨getD_set_eq _ _ _ _ hil, getD_set_eq _ _ _ _ hiu⟩

theorem adjust_cutoffs_for_basis_bspline_getD (s : InteractionClassSpec) (i : Nat)
    (hb : s.basis_type = kBSpline)
    (hil : i < s.lower_cutoffs.length) (hiu : i < s.upper_cutoffs.length) :
    (adjust_cutoffs_for_basis s i).upper_cutoffs.getD i 0 =
        bspline_upper s.output_binwidth (s.upper_cutoffs.getD i 0) ∧
    (adjust_cutoffs_for_basis s i).lower_cutoffs.getD i 0 =
        bspline_lower s.fm_binwidth (bspline_upper s.output_binwidth (s.upper_cutoffs.getD i 0))
          (s.lower_cutoffs.getD i 0) := by
  unfold adjust_cutoffs_for_basis
  rw [if_neg (by rw [hb]; decide), if_pos hb]
  exact ⟨getD_set_eq _ _ _ _ hiu, getD_set_eq _ _ _ _ hil⟩

theorem same_config_refl (a : InteractionClassSpec) : same_config a a := by
  simp [same_config]

theorem same_config_trans {a b c : InteractionClassSpec} (h1 : same_config a b)
    (h2 : same_config b c) : same_config a c := by
  unfold same_config at *
  obtain ⟨a1, a2, a3, a4, a5, a6, a7, a8, a9, a10, a11, a12, a13⟩ := h1
  obtain ⟨b1, b2, b3, b4, b5, b6, b7, b8, b9, b10, b11, b12, b13⟩ := h2
  exact ⟨a1.trans b1, a2.trans b2, a3.trans b3, a4.trans b4, a5.trans b5, a6.trans b6,
    a7.trans b7, a8.trans b8, a9.trans b9, a10.trans b10, a11.trans b11, a12.trans b12,
    a13.trans b13⟩

theorem same_at_refl (j : Nat) (a : InteractionClassSpec) : same_at j a a := by
  simp [same_at]

theorem same_at_trans {j : Nat} {a b c : InteractionClassSpec} (h1 : same_at j a b)
    (h2 : same_at j b c) : same_at j a c := by
  unfold same_at at *
  exact ⟨h1.1.trans h2.1, h1.2.1.trans h2.2.1, h1.2.2.1.trans h2.2.2.1,
    h1.2.2.2.trans h2.2.2.2⟩

/-- Frame of `adjust_cutoffs_for_basis`: only the two cutoffs of index `i` change. -/
theorem adjust_cutoffs_for_basis_frame (s : InteractionClassSpec) (i : Nat) :
    same_config (adjust_cutoffs_for_basis s i) s ∧
    (adjust_cutoffs_for_basis s i).defined_to_matched_intrxn_index_map =
      s.defined_to_matched_intrxn_index_map ∧
    (adjust_cutoffs_for_basis s i).defined_to_tabulated_intrxn_index_map =
      s.defined_to_tabulated_intrxn_index_map ∧
    ∀ j, j ≠ i → same_at j (adjust_cutoffs_for_basis s i) s := by
  unfold adjust_cutoffs_for_basis
  split
  · refine ⟨by simp [same_config], rfl, rfl, ?_⟩
    intro j hj
    exact ⟨getD_set_ne _ _ _ _ _ (Ne.symm hj), getD_set_ne _ _ _ _ _ (Ne.symm hj), rfl, rfl⟩
  · split
    · refine ⟨by simp [same_config], rfl, rfl, ?_⟩
      intro j hj
      exact ⟨getD_set_ne _ _ _ _ _ (Ne.symm hj), getD_set_ne _ _ _ _ _ (Ne.symm hj), rfl, rfl⟩
    · exact ⟨same_config_refl s, rfl, rfl, fun j _ => same_at_refl j s⟩

/-- Frame of `adjust_cutoffs_for_type`: only the two cutoffs of index `i` change. -/
theorem adjust_cutoffs_for_type_frame (eps : ℚ) (s : InteractionClassSpec) (i : Nat) :
    same_config (adjust_cutoffs_for_type eps s i) s ∧
    (adjust_cutoffs_for_type eps s i).defined_to_matched_intrxn_index_map =
      s.defined_to_matched_intrxn_index_map ∧
    (adjust_cutoffs_for_type eps s i).defined_to_tabulated_intrxn_index_map =
      s.defined_to_tabulated_intrxn_index_map ∧
    ∀ j, j ≠ i → same_at j (adjust_cutoffs_for_type eps s i) s := by
  unfold adjust_cutoffs_for_type
  simp only
  split
  · split
    · refine ⟨by simp [same_config], rfl, rfl, ?_⟩
      intro j hj
      refine ⟨getD_set_ne _ _ _ _ _ (Ne.symm hj), ?_, rfl, rfl⟩
      simp only
      rw [getD_set_ne _ _ _ _ _ (Ne.symm hj), getD_set_ne _ _ _ _ _ (Ne.symm hj)]
    · refine ⟨by simp [same_config], rfl, rfl, ?_⟩
      intro j hj
      exact ⟨rfl, getD_set_ne _ _ _ _ _ (Ne.symm hj), rfl, rfl⟩
  · split
    · refine ⟨by simp [same_config], rfl, rfl, ?_⟩
      intro j hj
      exact ⟨getD_set_ne _ _ _ _ _ (Ne.symm hj), getD_set_ne _ _ _ _ _ (Ne.symm hj), rfl, rfl⟩
    · exact ⟨same_config_refl s, rfl, rfl, fun j _ => same_at_refl j s⟩

/-- The cutoffs of index `i` after `adjust_cutoffs_for_type`: the upper cutoff loses
`fm_binwidth` when the pair-nonbonded test fires, and both lose 180 for a dihedral class
of subtype 0. -/
theorem adjust_cutoffs_for_type_getD (eps : ℚ) (s : InteractionClassSpec) (i : Nat)
    (hil : i < s.lower_cutoffs.length) (hiu : i < s.upper_cutoffs.length) :
    (adjust_cutoffs_for_type eps s i).lower_cutoffs.getD i 0 =
      s.lower_cutoffs.getD i 0 -
        (if s.class_type = kDihedralBonded ∧ s.class_subtype = 0 then 180 else 0) ∧
    (adjust_cutoffs_for_type eps s i).upper_cutoffs.getD i 0 =
      s.upper_cutoffs.getD i 0 -
        (if s.basis_type = kLinearSpline ∧ s.class_type = kPairNonbonded ∧
            |s.upper_cutoffs.getD i 0 - s.cutoff - s.fm_binwidth| < eps
          then s.fm_binwidth else 0) -
        (if s.class_type = kDihedralBonded ∧ s.class_subtype = 0 then 180 else 0) := by
  unfold adjust_cutoffs_for_type
  simp only
  by_cases h1 : s.basis_type = kLinearSpline ∧ s.class_type = kPairNonbonded ∧
      |s.upper_cutoffs.getD i 0 - s.cutoff - s.fm_binwidth| < eps
  · have hd : ¬ (s.class_type = kDihedralBonded ∧ s.class_subtype = 0) := by
      rw [h1.2.1]
      simp
    simp only [if_pos h1, if_neg hd]
    refine ⟨by ring, ?_⟩
    rw [getD_set_eq _ _ _ _ hiu]
    ring
  · simp only [if_neg h1]
    by_cases h2 : s.class_type = kDihedralBonded ∧ s.class_subtype = 0
    · simp only [if_pos h2]
      refine ⟨getD_set_eq _ _ _ _ hil, ?_⟩
      rw [getD_set_eq _ _ _ _ hiu]
      ring
    · simp only [if_neg h2]
      exact ⟨by ring, by ring⟩

/-! ## Reading one range record -/

theorem mode_recognized_iff (m : String) :
    mode_recognized m = true ↔ m = "none" ∨ m = "fm" ∨ m = "tab" ∨ m = "fm+tab" := by
  unfold mode_recognized
  simp only [Bool.not_eq_true', Bool.and_eq_false_iff, bne_eq_false_iff_eq]
  tauto

/-- A record whose mode is `fm` is matched: it takes the next matched index and its
cutoffs are adjusted for the basis and for the class type. -/
theorem read_range_line_fm (eps : ℚ) (st : ReadState) (i : Nat) (l : RangeLine)
    (hm : l.mode = "fm") :
    read_range_line eps st i l = Except.ok
      { spec := adjust_cutoffs_for_type eps (adjust_cutoffs_for_basis
          (mark_matched (store_range st.spec i l) i (st.total_to_fm + 1)) i) i,
        total_to_fm := st.total_to_fm + 1, total_tabulated := st.total_tabulated } := by
  have hr : ¬ mode_recognized l.mode = false := by
    rw [hm]
    decide
  have h1 : l.mode = "fm" ∨ l.mode = "tab+fm" := Or.inl hm
  have h2 : ¬ (l.mode = "tab" ∨ l.mode = "tab+fm") := by
    rw [hm]
    decide
  unfold read_range_line
  simp only [if_neg hr, if_pos h1, if_neg h2]

/-- A record whose mode is `tab` is tabulated: it takes the next tabulated index. -/
theorem read_range_line_tab (eps : ℚ) (st : ReadState) (i : Nat) (l : RangeLine)
    (hm : l.mode = "tab") :
    read_range_line eps st i l = Except.ok
      { spec := mark_tabulated (store_range st.spec i l) i (st.total_tabulated + 1),
        total_to_fm := st.total_to_fm, total_tabulated := st.total_tabulated + 1 } := by
  have hr : ¬ mode_recognized l.mode = false := by
    rw [hm]
    decide
  have h1 : ¬ (l.mode = "fm" ∨ l.mode = "tab+fm") := by
    rw [hm]
    decide
  have h2 : l.mode = "tab" ∨ l.mode = "tab+fm" := Or.inl hm
  unfold read_range_line
  simp only [if_neg hr, if_neg h1, if_pos h2]

/-- A record whose mode is `none` or `fm+tab` passes the validity test and only has
its declared bounds stored. -/
theorem read_range_line_inactive (eps : ℚ) (st : ReadState) (i : Nat) (l : RangeLine)
    (hm : l.mode = "none" ∨ l.mode = "fm+tab") :
    read_range_line eps st i l = Except.ok
      { spec := store_range st.spec i l,
        total_to_fm := st.total_to_fm, total_tabulated := st.total_tabulated } := by
  have hr : ¬ mode_recognized l.mode = false := by
    rcases hm with hm | hm <;> rw [hm] <;> decide
  have h1 : ¬ (l.mode = "fm" ∨ l.mode = "tab+fm") := by
    rcases hm with hm | hm <;> rw [hm] <;> decide
  have h2 : ¬ (l.mode = "tab" ∨ l.mode = "tab+fm") := by
    rcases hm with hm | hm <;> rw [hm] <;> decide
  unfold read_range_line
  simp only [if_neg hr, if_neg h1, if_neg h2]

/-- A record whose mode fails the validity test ends the run with the diagnostic,
after its bounds were stored. -/
theorem read_range_line_fatal (eps : ℚ) (st : ReadState) (i : Nat) (l : RangeLine)
    (hm : mode_recognized l.mode = false) :
    read_range_line eps st i l = Except.error
      ("Interaction mode " ++ l.mode ++ " is not recognized\n", store_range st.spec i l) := by
  unfold read_range_line
  simp only [if_pos hm]

theorem store_range_frame (s : InteractionClassSpec) (i : Nat) (l : RangeLine) :
    same_config (store_range s i l) s ∧
    (store_range s i l).defined_to_matched_intrxn_index_map =
      s.defined_to_matched_intrxn_index_map ∧
    (store_range s i l).defined_to_tabulated_intrxn_index_map =
      s.defined_to_tabulated_intrxn_index_map ∧
    ∀ j, j ≠ i → same_at j (store_range s i l) s := by
  refine ⟨by simp [same_config, store_range], rfl, rfl, ?_⟩
  intro j hj
  exact ⟨getD_set_ne _ _ _ _ _ (Ne.symm hj), getD_set_ne _ _ _ _ _ (Ne.symm hj), rfl, rfl⟩

theorem mark_matched_frame (s : InteractionClassSpec) (i m : Nat) :
    same_config (mark_matched s i m) s ∧
    (mark_matched s i m).defined_to_tabulated_intrxn_index_map =
      s.defined_to_tabulated_intrxn_index_map ∧
    ∀ j, j ≠ i → same_at j (mark_matched s i m) s := by
  refine ⟨by simp [same_config, mark_matched], rfl, ?_⟩
  intro j hj
  exact ⟨rfl, rfl, getD_set_ne _ _ _ _ _ (Ne.symm hj), rfl⟩

theorem mark_tabulated_frame (s : InteractionClassSpec) (i m : Nat) :
    same_config (mark_tabulated s i m) s ∧
    (mark_tabulated s i m).defined_to_matched_intrxn_index_map =
      s.defined_to_matched_intrxn_index_map ∧
    ∀ j, j ≠ i → same_at j (mark_tabulated s i m) s := by
  refine ⟨by simp [same_config, mark_tabulated], rfl, ?_⟩
  intro j hj
  exact ⟨rfl, rfl, rfl, getD_set_ne _ _ _ _ _ (Ne.symm hj)⟩

/-- What one completed iteration of the reading loop does: the mode passed the
validity test, only index `i` is touched, `fm` (and only `fm`) marks and counts the
record as matched, `tab` (and only `tab`) marks and counts it as tabulated. -/
theorem read_range_line_ok (eps : ℚ) (st st1 : ReadState) (i : Nat) (l : RangeLine)
    (h : read_range_line eps st i l = Except.ok st1) :
    mode_recognized l.mode = true ∧ same_config st1.spec st.spec ∧
    (∀ j, j ≠ i → same_at j st1.spec st.spec) ∧
    st1.total_to_fm = st.total_to_fm + (if l.mode = "fm" then 1 else 0) ∧
    st1.total_tabulated = st.total_tabulated + (if l.mode = "tab" then 1 else 0) ∧
    st1.spec.defined_to_matched_intrxn_index_map =
      (if l.mode = "fm" then st.spec.defined_to_matched_intrxn_index_map.set i (st.total_to_fm + 1)
        else st.spec.defined_to_matched_intrxn_index_map) ∧
    st1.spec.defined_to_tabulated_intrxn_index_map =
      (if l.mode = "tab" then
        st.spec.defined_to_tabulated_intrxn_index_map.set i (st.total_tabulated + 1)
        else st.spec.defined_to_tabulated_intrxn_index_map) := by
  have hrec : mode_recognized l.mode = true := by
    by_cases hr : mode_recognized l.mode = true
    · exact hr
    · rw [read_range_line_fatal eps st i l (by simpa using hr)] at h
      exact absurd h (by simp)
  refine ⟨hrec, ?_⟩
  obtain ⟨c0, m0, t0, f0⟩ := store_range_frame st.spec i l
  rcases (mode_recognized_iff l.mode).mp hrec with hm | hm | hm | hm
  · rw [read_range_line_inactive eps st i l (Or.inl hm)] at h
    have e := Except.ok.inj h
    subst e
    have n1 : ¬ l.mode = "fm" := by rw [hm]; decide
    have n2 : ¬ l.mode = "tab" := by rw [hm]; decide
    rw [if_neg n1, if_neg n2, if_neg n1, if_neg n2]
    exact ⟨c0, f0, rfl, rfl, m0, t0⟩
  · rw [read_range_line_fm eps st i l hm] at h
    have e := Except.ok.inj h
    subst e
    have n2 : ¬ l.mode = "tab" := by rw [hm]; decide
    rw [if_pos hm, if_neg n2, if_pos hm, if_neg n2]
    obtain ⟨c1, t1, f1⟩ := mark_matched_frame (store_range st.spec i l) i (st.total_to_fm + 1)
    obtain ⟨c2, m2, t2, f2⟩ := adjust_cutoffs_for_basis_frame
      (mark_matched (store_range st.spec i l) i (st.total_to_fm + 1)) i
    obtain ⟨c3, m3, t3, f3⟩ := adjust_cutoffs_for_type_frame eps (adjust_cutoffs_for_basis
      (mark_matched (store_range st.spec i l) i (st.total_to_fm + 1)) i) i
    refine ⟨same_config_trans c3 (same_config_trans c2 (same_config_trans c1 c0)), ?_, rfl, rfl,
      ?_, ?_⟩
    · intro j hj
      exact same_at_trans (f3 j hj) (same_at_trans (f2 j hj) (same_at_trans (f1 j hj) (f0 j hj)))
    · show (adjust_cutoffs_for_type eps (adjust_cutoffs_for_basis
        (mark_matched (store_range st.spec i l) i (st.total_to_fm + 1)) i)
        i).defined_to_matched_intrxn_index_map = _
      rw [m3, m2]
      rfl
    · show (adjust_cutoffs_for_type eps (adjust_cutoffs_for_basis
        (mark_matched (store_range st.spec i l) i (st.total_to_fm + 1)) i)
        i).defined_to_tabulated_intrxn_index_map = _
      rw [t3, t2, t1, t0]
  · rw [read_range_line_tab eps st i l hm] at h
    have e := Except.ok.inj h
    subst e
    have n1 : ¬ l.mode = "fm" := by rw [hm]; decide
    rw [if_neg n1, if_pos hm, if_neg n1, if_pos hm]
    obtain ⟨c1, m1, f1⟩ := mark_tabulated_frame (store_range st.spec i l) i
      (st.total_tabulated + 1)
    refine ⟨same_config_trans c1 c0, ?_, rfl, rfl, ?_, rfl⟩
    · intro j hj
      exact same_at_trans (f1 j hj) (f0 j hj)
    · show (mark_tabulated (store_range st.spec i l) i
        (st.total_tabulated + 1)).defined_to_matched_intrxn_index_map = _
      rw [m1, m0]
  · rw [read_range_line_inactive eps st i l (Or.inr hm)] at h
    have e := Except.ok.inj h
    subst e
    have n1 : ¬ l.mode = "fm" := by rw [hm]; decide
    have n2 : ¬ l.mode = "tab" := by rw [hm]; decide
    rw [if_neg n1, if_neg n2, if_neg n1, if_neg n2]
    exact ⟨c0, f0, rfl, rfl, m0, t0⟩

theorem read_range_line_total (eps : ℚ) (st : ReadState) (i : Nat) (l : RangeLine)
    (h : mode_recognized l.mode = true) :
    ∃ st1, read_range_line eps st i l = Except.ok st1 := by
  rcases (mode_recognized_iff l.mode).mp h with hm | hm | hm | hm
  · exact ⟨_, read_range_line_inactive eps st i l (Or.inl hm)⟩
  · exact ⟨_, read_range_line_fm eps st i l hm⟩
  · exact ⟨_, read_range_line_tab eps st i l hm⟩
  · exact ⟨_, read_range_line_inactive eps st i l (Or.inr hm)⟩

theorem read_range_line_error (eps : ℚ) (st : ReadState) (i : Nat) (l : RangeLine)
    (e : String × InteractionClassSpec) (h : read_range_line eps st i l = Except.error e) :
    mode_recognized l.mode = false ∧
      e = ("Interaction mode " ++ l.mode ++ " is not recognized\n", store_range st.spec i l) := by
  by_cases hr : mode_recognized l.mode = true
  · obtain ⟨st1, h1⟩ := read_range_line_total eps st i l hr
    rw [h1] at h
    exact absurd h (by simp)
  · have hf : mode_recognized l.mode = false := by simpa using hr
    rw [read_range_line_fatal eps st i l hf] at h
    exact ⟨hf, (Except.error.inj h).symm⟩

/-- The cutoffs an `fm` record leaves at its own index: the declared bounds adjusted for
the basis (lines 120-127) and then for the class type (lines 132-138). -/
theorem read_range_line_fm_cutoffs (eps : ℚ) (a b : ReadState) (i : Nat) (l : RangeLine)
    (hm : l.mode = "fm") (h : read_range_line eps a i l = Except.ok b)
    (hil : i < a.spec.lower_cutoffs.length) (hiu : i < a.spec.upper_cutoffs.length) :
    (a.spec.basis_type = kBSpline →
      b.spec.upper_cutoffs.getD i 0 =
        bspline_upper a.spec.output_binwidth l.upper -
          (if a.spec.class_type = kDihedralBonded ∧ a.spec.class_subtype = 0 then 180 else 0) ∧
      b.spec.lower_cutoffs.getD i 0 =
        bspline_lower a.spec.fm_binwidth (bspline_upper a.spec.output_binwidth l.upper) l.lower -
          (if a.spec.class_type = kDihedralBonded ∧ a.spec.class_subtype = 0 then 180 else 0)) ∧
    (a.spec.basis_type = kLinearSpline →
      b.spec.lower_cutoffs.getD i 0 =
        linear_lower a.spec.output_binwidth l.lower -
          (if a.spec.class_type = kDihedralBonded ∧ a.spec.class_subtype = 0 then 180 else 0) ∧
      b.spec.upper_cutoffs.getD i 0 =
        linear_upper a.spec.fm_binwidth (linear_lower a.spec.output_binwidth l.lower) l.upper -
          (if a.spec.class_type = kPairNonbonded ∧
              |linear_upper a.spec.fm_binwidth (linear_lower a.spec.output_binwidth l.lower)
                l.upper - a.spec.cutoff - a.spec.fm_binwidth| < eps
            then a.spec.fm_binwidth else 0) -
          (if a.spec.class_type = kDihedralBonded ∧ a.spec.class_subtype = 0 then 180 else 0)) := by
  rw [read_range_line_fm eps a i l hm] at h
  have e := Except.ok.inj h
  subst e
  have hl1 : i < (mark_matched (store_range a.spec i l) i (a.total_to_fm + 1)).lower_cutoffs.length := by
    simp [mark_matched, store_range, hil]
  have hu1 : i < (mark_matched (store_range a.spec i l) i (a.total_to_fm + 1)).upper_cutoffs.length := by
    simp [mark_matched, store_range, hiu]
  have vl : (mark_matched (store_range a.spec i l) i (a.total_to_fm + 1)).lower_cutoffs.getD i 0
      = l.lower := getD_set_eq _ _ _ _ hil
  have vu : (mark_matched (store_range a.spec i l) i (a.total_to_fm + 1)).upper_cutoffs.getD i 0
      = l.upper := getD_set_eq _ _ _ _ hiu
  obtain ⟨c2, _, _, _⟩ := adjust_cutoffs_for_basis_frame
    (mark_matched (store_range a.spec i l) i (a.total_to_fm + 1)) i
  obtain ⟨k1, k2, k3, k4, k5, k6, k7, k8, k9, k10, k11, _, _⟩ := c2
  obtain ⟨tl, tu⟩ := adjust_cutoffs_for_type_getD eps (adjust_cutoffs_for_basis
    (mark_matched (store_range a.spec i l) i (a.total_to_fm + 1)) i) i
    (by rw [k10]; exact hl1) (by rw [k11]; exact hu1)
  have b1 : (mark_matched (store_range a.spec i l) i (a.total_to_fm + 1)).basis_type =
      a.spec.basis_type := rfl
  have b3 : (mark_matched (store_range a.spec i l) i (a.total_to_fm + 1)).fm_binwidth =
      a.spec.fm_binwidth := rfl
  have b4 : (mark_matched (store_range a.spec i l) i (a.total_to_fm + 1)).class_type =
      a.spec.class_type := rfl
  have b5 : (mark_matched (store_range a.spec i l) i (a.total_to_fm + 1)).class_subtype =
      a.spec.class_subtype := rfl
  have b6 : (mark_matched (store_range a.spec i l) i (a.total_to_fm + 1)).output_binwidth =
      a.spec.output_binwidth := rfl
  have b9 : (mark_matched (store_range a.spec i l) i (a.total_to_fm + 1)).cutoff =
      a.spec.cutoff := rfl
  rw [k1, k3, k4, k5, k9, b1, b3, b4, b5, b9] at tu
  rw [k4, k5, b4, b5] at tl
  constructor
  · intro hb
    obtain ⟨gu, gl⟩ := adjust_cutoffs_for_basis_bspline_getD
      (mark_matched (store_range a.spec i l) i (a.total_to_fm + 1)) i (b1.trans hb) hl1 hu1
    rw [vl, vu, b3, b6] at gl
    rw [vu, b6] at gu
    have hnl : ¬ (a.spec.basis_type = kLinearSpline ∧ a.spec.class_type = kPairNonbonded ∧
        |(adjust_cutoffs_for_basis (mark_matched (store_range a.spec i l) i
          (a.total_to_fm + 1)) i).upper_cutoffs.getD i 0 - a.spec.cutoff - a.spec.fm_binwidth|
          < eps) := by
      rw [hb]
      simp
    rw [if_neg hnl, gu] at tu
    rw [gl] at tl
    exact ⟨by rw [tu]; ring, tl⟩
  · intro hb
    obtain ⟨gl, gu⟩ := adjust_cutoffs_for_basis_linear_getD
      (mark_matched (store_range a.spec i l) i (a.total_to_fm + 1)) i (b1.trans hb) hl1 hu1
    rw [vl, vu, b3, b6] at gu
    rw [vl, b6] at gl
    rw [gu] at tu
    rw [gl] at tl
    refine ⟨tl, ?_⟩
    rw [tu]
    congr 2
    simp only [hb, true_and]

/-! ## Numbering of the index maps -/

theorem list_eq_map_range_getD (l : List Nat) :
    l = (List.range l.length).map (fun i => l.getD i 0) := by
  apply List.ext_getElem?
  intro i
  by_cases h : i < l.length
  · simp [h, List.getD_eq_getElem?_getD]
  · rw [List.getElem?_eq_none (by omega), List.getElem?_eq_none (by simp; omega)]

theorem count_mode_take_succ (m : String) (ls : List RangeLine) (p : Nat) (l : RangeLine)
    (h : ls[p]? = some l) :
    count_mode m (ls.take (p + 1)) = count_mode m (ls.take p) + (if l.mode = m then 1 else 0) := by
  unfold count_mode
  rw [List.take_succ, h, List.countP_append]
  simp [List.countP_cons]

theorem numbering_filter (M : List Nat) (ls : List RangeLine) (m : String)
    (h1 : ∀ t l, ls[t]? = some l →
      M.getD t 0 = if l.mode = m then count_mode m (ls.take (t + 1)) else 0)
    (h2 : ∀ j, ls.length ≤ j → M.getD j 0 = 0) :
    ∀ p, (M.take p).filter (fun x => x ≠ 0) = List.range' 1 (count_mode m (ls.take p)) := by
  intro p
  induction p with
  | zero => simp [count_mode]
  | succ p ih =>
    rw [List.take_succ, List.filter_append, ih]
    by_cases hp : p < M.length
    · have hM : M[p]? = some (M.getD p 0) := by
        simp [List.getD_eq_getElem?_getD, hp]
      rw [hM]
      by_cases hl : p < ls.length
      · have hls : ls[p]? = some ls[p] := by simp [hl]
        rw [h1 p _ hls, count_mode_take_succ m ls p _ hls]
        by_cases hm : ls[p].mode = m
        · simp only [if_pos hm]
          rw [List.range'_1_concat]
          simp
          omega
        · simp [if_neg hm]
      · rw [h2 p (by omega), List.take_of_length_le (by omega), List.take_of_length_le (by omega)]
        simp
    · have hM : M[p]? = none := by simp; omega
      rw [hM]
      by_cases hl : p < ls.length
      · have hls : ls[p]? = some ls[p] := by simp [hl]
        have hz : M.getD p 0 = 0 := by simp [List.getD_eq_getElem?_getD, hM]
        have := h1 p _ hls
        rw [hz, count_mode_take_succ m ls p _ hls] at this
        rw [count_mode_take_succ m ls p _ hls]
        by_cases hm : ls[p].mode = m
        · simp only [if_pos hm] at this
          omega
        · simp [if_neg hm]
      · rw [List.take_of_length_le (by omega), List.take_of_length_le (by omega)]
        simp

/-! ## The reading loop -/

theorem read_range_loop_cons (eps : ℚ) (st st' : ReadState) (k : Nat) (l : RangeLine)
    (ls : List RangeLine) (h : read_range_loop eps st k (l :: ls) = Except.ok st') :
    ∃ st1, read_range_line eps st k l = Except.ok st1 ∧
      read_range_loop eps st1 (k + 1) ls = Except.ok st' := by
  rw [read_range_loop] at h
  split at h
  · exact absurd h (by simp)
  · rename_i st1 heq
    exact ⟨st1, heq, h⟩

theorem count_mode_cons (m : String) (l : RangeLine) (ls : List RangeLine) :
    count_mode m (l :: ls) = count_mode m ls + (if l.mode = m then 1 else 0) := by
  unfold count_mode
  rw [List.countP_cons]
  simp

/-- The loop keeps the configuration, counts the `fm` and `tab` records, only meets
recognized modes, and touches no index outside `k .. k + length`. -/
theorem read_range_loop_frame (eps : ℚ) :
    ∀ (ls : List RangeLine) (st st' : ReadState) (k : Nat),
      read_range_loop eps st k ls = Except.ok st' →
      same_config st'.spec st.spec ∧
      st'.total_to_fm = st.total_to_fm + count_mode "fm" ls ∧
      st'.total_tabulated = st.total_tabulated + count_mode "tab" ls ∧
      (∀ l, l ∈ ls → mode_recognized l.mode = true) ∧
      ∀ j, (j < k ∨ k + ls.length ≤ j) → same_at j st'.spec st.spec := by
  intro ls
  induction ls with
  | nil =>
    intro st st' k h
    rw [read_range_loop] at h
    have e := Except.ok.inj h
    subst e
    exact ⟨same_config_refl _, by simp [count_mode], by simp [count_mode], by simp,
      fun j _ => same_at_refl j _⟩
  | cons l ls ih =>
    intro st st' k h
    obtain ⟨st1, h1, h2⟩ := read_range_loop_cons eps st st' k l ls h
    obtain ⟨r1, c1, f1, n1, t1, _, _⟩ := read_range_line_ok eps st st1 k l h1
    obtain ⟨c2, n2, t2, r2, f2⟩ := ih st1 st' (k + 1) h2
    refine ⟨same_config_trans c2 c1, ?_, ?_, ?_, ?_⟩
    · rw [n2, n1, count_mode_cons]
      omega
    · rw [t2, t1, count_mode_cons]
      omega
    · intro l' hl'
      rcases List.mem_cons.mp hl' with e | e
      · rw [e]
        exact r1
      · exact r2 l' e
    · intro j hj
      have hne : j ≠ k := by
        simp only [List.length_cons] at hj
        omega
      have hj' : j < k + 1 ∨ k + 1 + ls.length ≤ j := by
        simp only [List.length_cons] at hj
        omega
      exact same_at_trans (f2 j hj') (f1 j hne)

/-- Every record read by a completed loop was processed by `read_range_line` in a state
with the initial configuration, and what the final state stores for its index is what
that iteration left there. -/
theorem read_range_loop_line (eps : ℚ) :
    ∀ (ls : List RangeLine) (st st' : ReadState) (k : Nat),
      read_range_loop eps st k ls = Except.ok st' →
      ∀ t l, ls[t]? = some l →
        ∃ a b, read_range_line eps a (k + t) l = Except.ok b ∧
          same_config a.spec st.spec ∧ same_at (k + t) a.spec st.spec ∧
          same_at (k + t) st'.spec b.spec := by
  intro ls
  induction ls with
  | nil =>
    intro st st' k _ t l hl
    simp at hl
  | cons l0 ls ih =>
    intro st st' k h t l hl
    obtain ⟨st1, h1, h2⟩ := read_range_loop_cons eps st st' k l0 ls h
    obtain ⟨_, c1, f1, _⟩ := read_range_line_ok eps st st1 k l0 h1
    obtain ⟨_, _, _, _, f2⟩ := read_range_loop_frame eps ls st1 st' (k + 1) h2
    cases t with
    | zero =>
      simp only [List.getElem?_cons_zero, Option.some.injEq] at hl
      subst hl
      exact ⟨st, st1, h1, same_config_refl _, same_at_refl _ _, f2 k (Or.inl (by omega))⟩
    | succ t =>
      simp only [List.getElem?_cons_succ] at hl
      obtain ⟨a, b, hab, ca, fa, fb⟩ := ih st1 st' (k + 1) h2 t l hl
      have e : k + (t + 1) = k + 1 + t := by omega
      rw [e]
      exact ⟨a, b, hab, same_config_trans ca c1,
        same_at_trans fa (f1 (k + 1 + t) (by omega)), fb⟩

/-- The index maps after a completed loop: the record at offset `t` carries the running
count of `fm` (resp. `tab`) records up to and including it when its mode is `fm`
(resp. `tab`), and keeps its previous entry otherwise. -/
theorem read_range_loop_maps (eps : ℚ) :
    ∀ (ls : List RangeLine) (st st' : ReadState) (k : Nat),
      read_range_loop eps st k ls = Except.ok st' →
      ∀ t l, ls[t]? = some l →
        st'.spec.defined_to_matched_intrxn_index_map.getD (k + t) 0 =
          (if l.mode = "fm" ∧ k + t < st.spec.defined_to_matched_intrxn_index_map.length
            then st.total_to_fm + count_mode "fm" (ls.take (t + 1))
            else st.spec.defined_to_matched_intrxn_index_map.getD (k + t) 0) ∧
        st'.spec.defined_to_tabulated_intrxn_index_map.getD (k + t) 0 =
          (if l.mode = "tab" ∧ k + t < st.spec.defined_to_tabulated_intrxn_index_map.length
            then st.total_tabulated + count_mode "tab" (ls.take (t + 1))
            else st.spec.defined_to_tabulated_intrxn_index_map.getD (k + t) 0) := by
  intro ls
  induction ls with
  | nil =>
    intro st st' k _ t l hl
    simp at hl
  | cons l0 ls ih =>
    intro st st' k h t l hl
    obtain ⟨st1, h1, h2⟩ := read_range_loop_cons eps st st' k l0 ls h
    obtain ⟨_, c1, f1, n1, t1, m1, b1⟩ := read_range_line_ok eps st st1 k l0 h1
    obtain ⟨_, _, _, _, f2⟩ := read_range_loop_frame eps ls st1 st' (k + 1) h2
    cases t with
    | zero =>
      simp only [List.getElem?_cons_zero, Option.some.injEq] at hl
      subst hl
      obtain ⟨_, _, g1, g2⟩ := f2 k (Or.inl (by omega))
      rw [Nat.add_zero, g1, g2, m1, b1]
      have ct : ∀ m, count_mode m (List.take (0 + 1) (l0 :: ls)) =
          if l0.mode = m then 1 else 0 := by
        intro m
        simp [count_mode, List.countP_cons]
      constructor
      · by_cases hm : l0.mode = "fm"
        · rw [if_pos hm, getD_set_ite, ct, if_pos hm]
          by_cases hk : k < st.spec.defined_to_matched_intrxn_index_map.length
          · rw [if_pos hk, if_pos ⟨hm, hk⟩]
          · rw [if_neg hk, if_neg (fun hh => hk hh.2)]
        · rw [if_neg hm, if_neg (fun hh => hm hh.1)]
      · by_cases hm : l0.mode = "tab"
        · rw [if_pos hm, getD_set_ite, ct, if_pos hm]
          by_cases hk : k < st.spec.defined_to_tabulated_intrxn_index_map.length
          · rw [if_pos hk, if_pos ⟨hm, hk⟩]
          · rw [if_neg hk, if_neg (fun hh => hk hh.2)]
        · rw [if_neg hm, if_neg (fun hh => hm hh.1)]
    | succ t =>
      simp only [List.getElem?_cons_succ] at hl
      obtain ⟨i1, i2⟩ := ih st1 st' (k + 1) h2 t l hl
      have e : k + (t + 1) = k + 1 + t := by omega
      obtain ⟨_, _, g1, g2⟩ := f1 (k + 1 + t) (by omega)
      have hlen1 := c1.2.2.2.2.2.2.2.2.2.2.2.1
      have hlen2 := c1.2.2.2.2.2.2.2.2.2.2.2.2
      have ct : ∀ m, count_mode m (List.take (t + 1 + 1) (l0 :: ls)) =
          count_mode m (List.take (t + 1) ls) + if l0.mode = m then 1 else 0 := by
        intro m
        rw [List.take_succ_cons, count_mode_cons]
      rw [e, i1, i2, g1, g2, hlen1, hlen2, n1, t1, ct, ct]
      constructor
      · split
        · omega
        · rfl
      · split
        · omega
        · rfl

/-- The loop completes when every record has a recognized mode. -/
theorem read_range_loop_total (eps : ℚ) :
    ∀ (ls : List RangeLine) (st : ReadState) (k : Nat),
      (∀ l, l ∈ ls → mode_recognized l.mode = true) →
      ∃ st', read_range_loop eps st k ls = Except.ok st' := by
  intro ls
  induction ls with
  | nil =>
    intro st k _
    exact ⟨st, by rw [read_range_loop]⟩
  | cons l0 ls ih =>
    intro st k h
    obtain ⟨st1, h1⟩ := read_range_line_total eps st k l0 (h l0 (List.mem_cons_self _ _))
    obtain ⟨st', h2⟩ := ih st1 (k + 1) (fun l hl => h l (List.mem_cons_of_mem _ hl))
    refine ⟨st', ?_⟩
    rw [read_range_loop, h1]
    exact h2

/-- A loop that ends in the fatal exit stopped at the first record whose mode fails
the validity test, right after storing its bounds. -/
theorem read_range_loop_error (eps : ℚ) :
    ∀ (ls : List RangeLine) (st : ReadState) (k : Nat) (e : String × InteractionClassSpec),
      read_range_loop eps st k ls = Except.error e →
      ∃ (t : Nat) (l : RangeLine) (a : ReadState), ls[t]? = some l ∧
        mode_recognized l.mode = false ∧
        same_config a.spec st.spec ∧ same_at (k + t) a.spec st.spec ∧
        e = ("Interaction mode " ++ l.mode ++ " is not recognized\n",
          store_range a.spec (k + t) l) := by
  intro ls
  induction ls with
  | nil =>
    intro st k e h
    rw [read_range_loop] at h
    exact absurd h (by simp)
  | cons l0 ls ih =>
    intro st k e h
    rw [read_range_loop] at h
    cases heq : read_range_line eps st k l0 with
    | error e0 =>
      rw [heq] at h
      obtain ⟨hf, he⟩ := read_range_line_error eps st k l0 e0 heq
      have ee : e0 = e := Except.error.inj h
      subst ee
      exact ⟨0, l0, st, by simp, hf, same_config_refl _, same_at_refl _ _, he⟩
    | ok st1 =>
      rw [heq] at h
      obtain ⟨_, c1, f1, _⟩ := read_range_line_ok eps st st1 k l0 heq
      obtain ⟨t, l, a, hl, hf, ca, fa, he⟩ := ih st1 (k + 1) e h
      have e' : k + (t + 1) = k + 1 + t := by omega
      refine ⟨t + 1, l, a, by simpa using hl, hf, same_config_trans ca c1, ?_, ?_⟩
      · rw [e']
        exact same_at_trans fa (f1 (k + 1 + t) (by omega))
      · rw [e']
        exact he

/-- A completed `read_interaction_class_ranges` is a completed loop over the first
`n_defined` records followed by the two assignments to `n_to_force_match` and
`n_tabulated`. -/
theorem read_interaction_class_ranges_ok (eps : ℚ) (s s' : InteractionClassSpec)
    (range_in : List RangeLine)
    (h : read_interaction_class_ranges eps s range_in = Except.ok s') :
    ∃ st', read_range_loop eps { spec := s, total_to_fm := 0, total_tabulated := 0 } 0
        (range_in.take s.n_defined) = Except.ok st' ∧
      s' = { st'.spec with n_to_force_match := st'.total_to_fm,
                           n_tabulated := st'.total_tabulated } := by
  unfold read_interaction_class_ranges at h
  cases heq : read_range_loop eps { spec := s, total_to_fm := 0, total_tabulated := 0 } 0
      (range_in.take s.n_defined) with
  | error e =>
    rw [heq] at h
    exact absurd h (by simp)
  | ok st' =>
    rw [heq] at h
    exact ⟨st', rfl, (Except.ok.inj h).symm⟩

/-- The state after a completed read that started from `setup_for_defined_interactions`:
configuration kept, the two counts, the entries of both index maps, and the iteration
that produced what is stored for each record. -/
theorem read_after_setup (eps : ℚ) (s0 s' : InteractionClassSpec) (range_in : List RangeLine)
    (h : read_interaction_class_ranges eps (setup_for_defined_interactions s0) range_in =
      Except.ok s') :
    same_config s' (setup_for_defined_interactions s0) ∧
    s'.n_to_force_match = count_mode "fm" (range_in.take s0.n_defined) ∧
    s'.n_tabulated = count_mode "tab" (range_in.take s0.n_defined) ∧
    (∀ l, l ∈ range_in.take s0.n_defined → mode_recognized l.mode = true) ∧
    (∀ t l, (range_in.take s0.n_defined)[t]? = some l →
      s'.defined_to_matched_intrxn_index_map.getD t 0 =
        (if l.mode = "fm" then count_mode "fm" ((range_in.take s0.n_defined).take (t + 1))
          else 0) ∧
      s'.defined_to_tabulated_intrxn_index_map.getD t 0 =
        (if l.mode = "tab" then count_mode "tab" ((range_in.take s0.n_defined).take (t + 1))
          else 0)) ∧
    (∀ j, (range_in.take s0.n_defined).length ≤ j →
      s'.defined_to_matched_intrxn_index_map.getD j 0 = 0 ∧
      s'.defined_to_tabulated_intrxn_index_map.getD j 0 = 0) ∧
    ∀ t l, (range_in.take s0.n_defined)[t]? = some l →
      ∃ a b, read_range_line eps a t l = Except.ok b ∧
        same_config a.spec (setup_for_defined_interactions s0) ∧
        s'.lower_cutoffs.getD t 0 = b.spec.lower_cutoffs.getD t 0 ∧
        s'.upper_cutoffs.getD t 0 = b.spec.upper_cutoffs.getD t 0 := by
  obtain ⟨st', hloop, hs'⟩ := read_interaction_class_ranges_ok eps _ s' range_in h
  have hn : (setup_for_defined_interactions s0).n_defined = s0.n_defined := rfl
  rw [hn] at hloop
  obtain ⟨c, n1, n2, r, f⟩ := read_range_loop_frame eps _ _ st' 0 hloop
  have hmaps := read_range_loop_maps eps _ _ st' 0 hloop
  have hline := read_range_loop_line eps _ _ st' 0 hloop
  have hz : ∀ j, (setup_for_defined_interactions s0).defined_to_matched_intrxn_index_map.getD j 0
      = 0 ∧ (setup_for_defined_interactions s0).defined_to_tabulated_intrxn_index_map.getD j 0
      = 0 := by
    intro j
    exact ⟨getD_replicate_zero _ _ _, getD_replicate_zero _ _ _⟩
  subst hs'
  refine ⟨c, ?_, ?_, r, ?_, ?_, ?_⟩
  · show st'.total_to_fm = _
    rw [n1]
    simp
  · show st'.total_tabulated = _
    rw [n2]
    simp
  · intro t l hl
    have hlt : t < s0.n_defined := by
      have h1 := (List.getElem?_eq_some_iff.mp hl).1
      simp only [List.length_take] at h1
      omega
    obtain ⟨m1, m2⟩ := hmaps t l hl
    simp only [Nat.zero_add] at m1 m2
    rw [(hz t).1] at m1
    rw [(hz t).2] at m2
    have len1 : (setup_for_defined_interactions s0).defined_to_matched_intrxn_index_map.length
        = s0.n_defined := by simp [setup_for_defined_interactions]
    have len2 : (setup_for_defined_interactions s0).defined_to_tabulated_intrxn_index_map.length
        = s0.n_defined := by simp [setup_for_defined_interactions]
    rw [len1] at m1
    rw [len2] at m2
    constructor
    · show st'.spec.defined_to_matched_intrxn_index_map.getD t 0 = _
      rw [m1]
      by_cases hm : l.mode = "fm"
      · rw [if_pos ⟨hm, hlt⟩, if_pos hm]
      · rw [if_neg (fun hh => hm hh.1), if_neg hm]
    · show st'.spec.defined_to_tabulated_intrxn_index_map.getD t 0 = _
      rw [m2]
      by_cases hm : l.mode = "tab"
      · rw [if_pos ⟨hm, hlt⟩, if_pos hm]
      · rw [if_neg (fun hh => hm hh.1), if_neg hm]
  · intro j hj
    obtain ⟨_, _, g1, g2⟩ := f j (Or.inr (by omega))
    exact ⟨g1.trans (hz j).1, g2.trans (hz j).2⟩
  · intro t l hl
    obtain ⟨a, b, hab, ca, _, fb⟩ := hline t l hl
    rw [Nat.zero_add] at hab fb
    exact ⟨a, b, hab, ca, fb.1, fb.2.1⟩

/-- After a completed read that started from `setup_for_defined_interactions`, a defined
index is matched exactly when its record has mode `fm`, and then its cutoffs are the
declared bounds of that record, adjusted for the basis and for the class type. -/
theorem read_matched_cutoffs (eps : ℚ) (s0 s' : InteractionClassSpec)
    (range_in : List RangeLine)
    (h : read_interaction_class_ranges eps (setup_for_defined_interactions s0) range_in =
      Except.ok s')
    (t : Nat) (hm : s'.defined_to_matched_intrxn_index_map.getD t 0 ≠ 0) :
    ∃ l, (range_in.take s0.n_defined)[t]? = some l ∧ l.mode = "fm" ∧
      (s0.basis_type = kBSpline →
        s'.upper_cutoffs.getD t 0 =
          bspline_upper s0.output_binwidth l.upper -
            (if s0.class_type = kDihedralBonded ∧ s0.class_subtype = 0 then 180 else 0) ∧
        s'.lower_cutoffs.getD t 0 =
          bspline_lower s0.fm_binwidth (bspline_upper s0.output_binwidth l.upper) l.lower -
            (if s0.class_type = kDihedralBonded ∧ s0.class_subtype = 0 then 180 else 0)) ∧
      (s0.basis_type = kLinearSpline →
        s'.lower_cutoffs.getD t 0 =
          linear_lower s0.output_binwidth l.lower -
            (if s0.class_type = kDihedralBonded ∧ s0.class_subtype = 0 then 180 else 0) ∧
        s'.upper_cutoffs.getD t 0 =
          linear_upper s0.fm_binwidth (linear_lower s0.output_binwidth l.lower) l.upper -
            (if s0.class_type = kPairNonbonded ∧
                |linear_upper s0.fm_binwidth (linear_lower s0.output_binwidth l.lower)
                  l.upper - s0.cutoff - s0.fm_binwidth| < eps
              then s0.fm_binwidth else 0) -
            (if s0.class_type = kDihedralBonded ∧ s0.class_subtype = 0 then 180 else 0)) := by
  obtain ⟨_, _, _, _, hmaps, hz, hline⟩ := read_after_setup eps s0 s' range_in h
  have hlt : t < (range_in.take s0.n_defined).length := by
    by_contra hge
    exact hm (hz t (by omega)).1
  have hl : (range_in.take s0.n_defined)[t]? = some (range_in.take s0.n_defined)[t] :=
    List.getElem?_eq_getElem hlt
  have hmode : (range_in.take s0.n_defined)[t].mode = "fm" := by
    by_contra hne
    have := (hmaps t _ hl).1
    rw [if_neg hne] at this
    exact hm this
  obtain ⟨a, b, hab, ca, el, eu⟩ := hline t _ hl
  obtain ⟨k1, k2, k3, k4, k5, k6, k7, k8, k9, k10, k11, _, _⟩ := ca
  have hn : t < s0.n_defined := by
    simp only [List.length_take] at hlt
    omega
  have hil : t < a.spec.lower_cutoffs.length := by
    rw [k10]
    simp [setup_for_defined_interactions, hn]
  have hiu : t < a.spec.upper_cutoffs.length := by
    rw [k11]
    simp [setup_for_defined_interactions, hn]
  have key := read_range_line_fm_cutoffs eps a b t _ hmode hab hil hiu
  rw [k1, k3, k4, k5, k6, k9, ← el, ← eu] at key
  exact ⟨_, hl, hmode, key⟩

/-- The read completes when every record it reads has a recognized mode. -/
theorem read_interaction_class_ranges_total (eps : ℚ) (s : InteractionClassSpec)
    (range_in : List RangeLine)
    (h : ∀ l, l ∈ range_in.take s.n_defined → mode_recognized l.mode = true) :
    ∃ s', read_interaction_class_ranges eps s range_in = Except.ok s' := by
  obtain ⟨st', h1⟩ := read_range_loop_total eps (range_in.take s.n_defined)
    { spec := s, total_to_fm := 0, total_tabulated := 0 } 0 h
  unfold read_interaction_class_ranges
  rw [h1]
  exact ⟨_, rfl⟩

/-! ## Column assignment -/

theorem matched_indices_succ (s : InteractionClassSpec) (k : Nat) :
    matched_indices s (k + 1) =
      if s.defined_to_matched_intrxn_index_map.getD k 0 ≠ 0 then matched_indices s k ++ [k]
      else matched_indices s k := by
  unfold matched_indices
  rw [List.range_succ, List.filter_append]
  by_cases h : s.defined_to_matched_intrxn_index_map.getD k 0 = 0
  · rw [if_neg (not_not.mpr h), List.filter_cons_of_neg (by simpa using h)]
    simp
  · rw [if_pos h, List.filter_cons_of_pos (by simpa using h)]
    simp

/-- On a matched index the loop body writes `ici[counter] + basis_count` at
`counter + 1` and increments the counter. -/
theorem setup_indices_step_matched (s : InteractionClassSpec) (acc : List Int × Nat) (i : Nat)
    (h : s.defined_to_matched_intrxn_index_map.getD i 0 ≠ 0) :
    setup_indices_step s acc i =
      (acc.1.set (acc.2 + 1) (acc.1.getD acc.2 0 + basis_count s i), acc.2 + 1) := by
  unfold setup_indices_step basis_count
  rw [if_pos h]
  by_cases hb : s.basis_type = kBSpline
  · simp only [hb, if_true]
    by_cases hlen : acc.2 + 1 < acc.1.length
    · rw [getD_set_eq _ _ _ _ hlen, List.set_set]
      congr 2
      ring
    · rw [List.set_eq_of_length_le (by simp; omega), List.set_eq_of_length_le (by omega),
        List.set_eq_of_length_le (by omega)]
  · simp only [hb, if_false]

theorem setup_indices_step_unmatched (s : InteractionClassSpec) (acc : List Int × Nat) (i : Nat)
    (h : s.defined_to_matched_intrxn_index_map.getD i 0 = 0) :
    setup_indices_step s acc i = acc := by
  unfold setup_indices_step
  rw [if_neg (not_not.mpr h)]

/-- Loop invariant of `setup_indices_in_fm_matrix` after the first `k` defined indices:
the vector keeps its size, the counter is the number of matched indices seen, and entry
`j` is the sum of the basis counts of the first `j` matched indices (0 beyond the
counter). -/
theorem setup_indices_loop_inv (s : InteractionClassSpec) (N k : Nat) :
    let r := (List.range k).foldl (setup_indices_step s) (List.replicate (N + 1) 0, 0)
    r.1.length = N + 1 ∧ r.2 = (matched_indices s k).length ∧
      ∀ j, r.1.getD j 0 =
        if j ≤ r.2 ∧ j ≤ N then (((matched_indices s k).take j).map (basis_count s)).sum else 0 := by
  induction k with
  | zero =>
    refine ⟨by simp, by simp [matched_indices], ?_⟩
    intro j
    simp only [List.range_zero, List.foldl_nil]
    rw [getD_replicate_zero]
    simp [matched_indices]
  | succ k ih =>
    obtain ⟨ih1, ih2, ih3⟩ := ih
    simp only [List.range_succ, List.foldl_append, List.foldl_cons, List.foldl_nil]
    generalize (List.range k).foldl (setup_indices_step s) (List.replicate (N + 1) 0, 0) = r
      at ih1 ih2 ih3
    rw [matched_indices_succ]
    by_cases h : s.defined_to_matched_intrxn_index_map.getD k 0 = 0
    · rw [setup_indices_step_unmatched s r k h]
      simp only [h, ne_eq, not_true_eq_false, if_false]
      exact ⟨ih1, ih2, ih3⟩
    · rw [setup_indices_step_matched s r k h]
      simp only [h, ne_eq, not_false_eq_true, if_true]
      refine ⟨by simp [ih1], by simp [ih2], ?_⟩
      intro j
      by_cases hj : j = r.2 + 1
      · subst hj
        by_cases hN : r.2 + 1 ≤ N
        · rw [getD_set_eq _ _ _ _ (by omega), ih3 r.2]
          have h1 : r.2 ≤ r.2 ∧ r.2 ≤ N := ⟨le_refl _, by omega⟩
          have h2 : r.2 + 1 ≤ r.2 + 1 ∧ r.2 + 1 ≤ N := ⟨le_refl _, hN⟩
          rw [if_pos h1, if_pos h2]
          rw [List.take_of_length_le (by simp [ih2]), List.take_of_length_le (by simp [ih2])]
          simp
        · rw [List.set_eq_of_length_le (by omega), ih3]
          have h1 : ¬ (r.2 + 1 ≤ r.2 ∧ r.2 + 1 ≤ N) := by omega
          have h2 : ¬ (r.2 + 1 ≤ r.2 + 1 ∧ r.2 + 1 ≤ N) := by omega
          rw [if_neg h1, if_neg h2]
      · rw [getD_set_ne _ _ _ _ _ (Ne.symm hj), ih3]
        by_cases hle : j ≤ r.2 ∧ j ≤ N
        · have h2 : j ≤ r.2 + 1 ∧ j ≤ N := ⟨by omega, hle.2⟩
          rw [if_pos hle, if_pos h2, List.take_append_of_le_length (by omega)]
        · have h2 : ¬ (j ≤ r.2 + 1 ∧ j ≤ N) := by omega
          rw [if_neg hle, if_neg h2]

theorem matched_indices_split (s : InteractionClassSpec) (i d : Nat)
    (hm : s.defined_to_matched_intrxn_index_map.getD i 0 ≠ 0) :
    ∃ rest, matched_indices s (i + 1 + d) = matched_indices s i ++ i :: rest := by
  induction d with
  | zero => exact ⟨[], by rw [Nat.add_zero, matched_indices_succ, if_pos hm]⟩
  | succ d ih =>
    obtain ⟨rest, hr⟩ := ih
    rw [← Nat.add_assoc, matched_indices_succ, hr]
    split
    · exact ⟨rest ++ [i + 1 + d], by simp⟩
    · exact ⟨rest, rfl⟩

theorem matched_indices_lt (s : InteractionClassSpec) (n i : Nat)
    (h : i ∈ matched_indices s n) : i < n := by
  unfold matched_indices at h
  exact List.mem_range.mp (List.mem_filter.mp h).1

/-- Closed form of the column vector: entry `j` is the sum of the basis counts of the
first `j` matched interactions. -/
theorem setup_indices_in_fm_matrix_getD (s : InteractionClassSpec) (j : Nat)
    (h1 : j ≤ (matched_indices s s.n_defined).length) (h2 : j ≤ s.n_to_force_match) :
    (setup_indices_in_fm_matrix s).interaction_column_indices.getD j 0 =
      (((matched_indices s s.n_defined).take j).map (basis_count s)).sum := by
  obtain ⟨_, hc, hj⟩ := setup_indices_loop_inv s s.n_to_force_match s.n_defined
  unfold setup_indices_in_fm_matrix
  simp only at hc hj ⊢
  rw [hj j, if_pos ⟨by rw [hc]; exact h1, h2⟩]

theorem setup_indices_in_fm_matrix_length (s : InteractionClassSpec) :
    (setup_indices_in_fm_matrix s).interaction_column_indices.length = s.n_to_force_match + 1 :=
  (setup_indices_loop_inv s s.n_to_force_match s.n_defined).1

/-- Under the numbering hypothesis, a matched defined index `i` carries the matched
index `c + 1`, where `c` is the number of matched indices before it. -/
theorem matched_map_numbered_at (s : InteractionClassSpec) (h : matched_map_numbered s)
    (i : Nat) (hi : i < s.n_defined)
    (hm : s.defined_to_matched_intrxn_index_map.getD i 0 ≠ 0) :
    s.defined_to_matched_intrxn_index_map.getD i 0 = (matched_indices s i).length + 1 ∧
      (matched_indices s i).length + 1 ≤ s.n_to_force_match ∧
      ∃ rest, matched_indices s s.n_defined = matched_indices s i ++ i :: rest := by
  obtain ⟨rest, hr⟩ := matched_indices_split s i (s.n_defined - (i + 1)) hm
  have hn : i + 1 + (s.n_defined - (i + 1)) = s.n_defined := by omega
  rw [hn] at hr
  unfold matched_map_numbered at h
  rw [hr] at h
  have hget := congrArg (fun l => l[(matched_indices s i).length]?) h
  simp only [List.map_append, List.map_cons] at hget
  rw [List.getElem?_append_right (by simp)] at hget
  simp only [List.length_map, Nat.sub_self, List.getElem?_cons_zero] at hget
  by_cases hlt : (matched_indices s i).length < s.n_to_force_match
  · rw [List.getElem?_range' 1 1 hlt] at hget
    have := Option.some.inj hget
    exact ⟨by omega, by omega, rest, hr⟩
  · rw [List.getElem?_eq_none (by simp; omega)] at hget
    exact absurd hget (by simp)

/-! ## Worked examples -/

theorem example_three_read :
    read_interaction_class_ranges (1/1000000)
      (setup_for_defined_interactions example_three_class) example_three_ranges =
      Except.ok example_three_result := by
  have f1 : ⌊(2⁻¹ : ℚ)⌋ = 0 := by
    rw [Int.floor_eq_iff]
    norm_num
  have f2 : ⌊(10 + 2⁻¹ : ℚ)⌋ = 10 := by
    rw [Int.floor_eq_iff]
    norm_num
  simp [read_interaction_class_ranges, setup_for_defined_interactions, example_three_class,
    example_three_result, example_three_ranges, read_range_loop, read_range_line,
    mode_recognized, store_range, mark_matched, mark_tabulated, adjust_cutoffs_for_basis,
    adjust_cutoffs_for_type, linear_lower, linear_upper, List.replicate, f1, f2]

theorem example_narrow_read :
    read_interaction_class_ranges (1/1000000)
      (setup_for_defined_interactions example_narrow_class)
      [{ lower := 0, upper := 1/10, mode := "fm" }] = Except.ok example_narrow_result := by
  have f1 : ⌊(2⁻¹ : ℚ)⌋ = 0 := by
    rw [Int.floor_eq_iff]
    norm_num
  simp [read_interaction_class_ranges, setup_for_defined_interactions, example_narrow_class,
    example_narrow_result, read_range_loop, read_range_line,
    mode_recognized, store_range, mark_matched, mark_tabulated, adjust_cutoffs_for_basis,
    adjust_cutoffs_for_type, linear_lower, linear_upper, List.replicate, f1]
  norm_num

theorem example_fm_tab_read :
    read_interaction_class_ranges (1/1000000)
      (setup_for_defined_interactions example_narrow_class)
      [{ lower := 0, upper := 51/5, mode := "fm+tab" }] = Except.ok example_fm_tab_result := by
  simp [read_interaction_class_ranges, setup_for_defined_interactions, example_narrow_class,
    example_fm_tab_result, read_range_loop, read_range_line,
    mode_recognized, store_range, mark_matched, mark_tabulated, List.replicate]

theorem example_bspline_read :
    read_interaction_class_ranges (1/1000000)
      (setup_for_defined_interactions (bspline_scenario_class (1/2) 10))
      [{ lower := 0, upper := 10, mode := "fm" }] = Except.ok example_bspline_result := by
  have f1 : bspline_upper (2 : ℚ)⁻¹ 10 = 21/2 := by
    have f : ⌊(10 : ℚ) / (2 : ℚ)⁻¹⌋ = 20 := by
      rw [Int.floor_eq_iff]
      norm_num
    unfold bspline_upper
    rw [int_cast_of_nonneg _ (by norm_num), f]
    norm_num
  have f2 : bspline_lower (2 : ℚ)⁻¹ (21/2) 0 = -1/2 := by
    have f : ⌊((21/2 : ℚ) - 0) / (2 : ℚ)⁻¹⌋ = 21 := by
      rw [Int.floor_eq_iff]
      norm_num
    unfold bspline_lower
    rw [int_cast_of_nonneg _ (by norm_num), f]
    norm_num
  simp [read_interaction_class_ranges, setup_for_defined_interactions, bspline_scenario_class,
    example_bspline_result, read_range_loop, read_range_line,
    mode_recognized, store_range, mark_matched, mark_tabulated, adjust_cutoffs_for_basis,
    adjust_cutoffs_for_type, List.replicate, f1, f2]

theorem example_bspline_columns :
    (setup_indices_in_fm_matrix example_bspline_result).interaction_column_indices =
      [0, 25] := by
  have g0 : grid_i example_bspline_result 0 = 23 := by
    have f : ⌊((21/2 : ℚ) - (-1/2)) / (1/2) + 1/2⌋ = 22 := by
      rw [Int.floor_eq_iff]
      norm_num
    show ⌊((21/2 : ℚ) - (-1/2)) / (1/2) + 1/2⌋ + 1 = 23
    rw [f]
    rfl
  simp [setup_indices_in_fm_matrix, setup_indices_step, example_bspline_result,
    bspline_scenario_class, List.range_succ] at g0 ⊢
  simp [g0]

theorem bspline_scenario_half : ⌊bspline_upper (1/2) 10 / (1/2)⌋ + 4 = 25 := by
  have e : bspline_upper (1/2) 10 = 21/2 := by
    have f : ⌊(10 : ℚ) / (1/2)⌋ = 20 := by
      rw [Int.floor_eq_iff]
      norm_num
    have h := (bspline_upper_spec (1/2) 10 (by norm_num) (by norm_num)).1
    rw [h, f]
    norm_num
  rw [e]
  have f2 : ⌊(21/2 : ℚ) / (1/2)⌋ = 21 := by
    rw [Int.floor_eq_iff]
    norm_num
  rw [f2]
  rfl

/-! ## Column assignment after a completed read -/

theorem matched_indices_map_eq_filter (s : InteractionClassSpec)
    (h : s.defined_to_matched_intrxn_index_map.length = s.n_defined) :
    (matched_indices s s.n_defined).map (fun i => s.defined_to_matched_intrxn_index_map.getD i 0) =
      s.defined_to_matched_intrxn_index_map.filter (fun x => x ≠ 0) := by
  conv_rhs => rw [list_eq_map_range_getD s.defined_to_matched_intrxn_index_map]
  rw [List.filter_map, h]
  rfl

theorem matched_indices_mem (s : InteractionClassSpec) (n i : Nat)
    (h : i ∈ matched_indices s n) : s.defined_to_matched_intrxn_index_map.getD i 0 ≠ 0 := by
  unfold matched_indices at h
  have := (List.mem_filter.mp h).2
  simpa using this

/-- The state a completed read leaves satisfies the numbering hypothesis of the column
assignment. -/
theorem read_matched_map_numbered (eps : ℚ) (s0 s' : InteractionClassSpec)
    (range_in : List RangeLine)
    (h : read_interaction_class_ranges eps (setup_for_defined_interactions s0) range_in =
      Except.ok s') : matched_map_numbered s' := by
  obtain ⟨c, n1, _, _, hm, hz, _⟩ := read_after_setup eps s0 s' range_in h
  have a1 := numbering_filter s'.defined_to_matched_intrxn_index_map
    (range_in.take s0.n_defined) "fm" (fun t l hl => (hm t l hl).1) (fun j hj => (hz j hj).1)
    s'.defined_to_matched_intrxn_index_map.length
  have l1 : s'.defined_to_matched_intrxn_index_map.length = s0.n_defined := by
    rw [c.2.2.2.2.2.2.2.2.2.2.2.1]
    simp [setup_for_defined_interactions]
  have hnd : s'.n_defined = s0.n_defined := c.2.2.2.2.2.2.1
  rw [List.take_length] at a1
  rw [l1, List.take_of_length_le (by simp)] at a1
  unfold matched_map_numbered
  rw [matched_indices_map_eq_filter s' (l1.trans hnd.symm), a1, n1]

theorem matched_indices_length (s : InteractionClassSpec) (h : matched_map_numbered s) :
    (matched_indices s s.n_defined).length = s.n_to_force_match := by
  have := congrArg List.length h
  simpa using this

/-- Consecutive entries of the column vector differ by the basis count of a matched
defined index. -/
theorem setup_indices_in_fm_matrix_step (s : InteractionClassSpec) (h : matched_map_numbered s)
    (j : Nat) (hj : j < s.n_to_force_match) :
    ∃ i, i < s.n_defined ∧ s.defined_to_matched_intrxn_index_map.getD i 0 ≠ 0 ∧
      (setup_indices_in_fm_matrix s).interaction_column_indices.getD (j + 1) 0 =
        (setup_indices_in_fm_matrix s).interaction_column_indices.getD j 0 + basis_count s i := by
  have hlen := matched_indices_length s h
  have hj' : j < (matched_indices s s.n_defined).length := by omega
  have hmem : (matched_indices s s.n_defined)[j] ∈ matched_indices s s.n_defined :=
    List.getElem_mem _
  refine ⟨(matched_indices s s.n_defined)[j], matched_indices_lt s _ _ hmem, ?_, ?_⟩
  · exact matched_indices_mem s _ _ hmem
  · rw [setup_indices_in_fm_matrix_getD s (j + 1) (by omega) (by omega),
      setup_indices_in_fm_matrix_getD s j (by omega) (by omega),
      List.map_take, List.map_take,
      List.sum_take_succ _ j (by simpa using hj')]
    simp

/-- After a completed read, a matched B-spline interaction declared with
`0 <= lower < upper` has at least `bspline_k` basis functions; a matched linear-spline
interaction whose declared bounds satisfy `lower + output_binwidth/2 <= upper +
fm_binwidth/2` has a nonnegative number of them. -/
theorem read_basis_count_nonneg (eps : ℚ) (s0 s' : InteractionClassSpec)
    (range_in : List RangeLine)
    (h : read_interaction_class_ranges eps (setup_for_defined_interactions s0) range_in =
      Except.ok s')
    (hob : 0 < s0.output_binwidth) (hfm : 0 < s0.fm_binwidth) (hk : 2 ≤ s0.bspline_k)
    (hdecl : ∀ l, l ∈ range_in.take s0.n_defined → l.mode = "fm" →
      0 ≤ l.lower ∧ l.lower < l.upper)
    (hbasis : s0.basis_type = kBSpline ∨ (s0.basis_type = kLinearSpline ∧
      ∀ l, l ∈ range_in.take s0.n_defined → l.mode = "fm" →
        l.lower + s0.output_binwidth / 2 ≤ l.upper + s0.fm_binwidth / 2))
    (t : Nat) (hm : s'.defined_to_matched_intrxn_index_map.getD t 0 ≠ 0) :
    0 ≤ basis_count s' t := by
  obtain ⟨l, hl, hmode, hbs, hlin⟩ := read_matched_cutoffs eps s0 s' range_in h t hm
  obtain ⟨c, _⟩ := read_after_setup eps s0 s' range_in h
  obtain ⟨k1, k2, k3, _⟩ := c
  have hbt : s'.basis_type = s0.basis_type := k1
  have hbk : s'.bspline_k = s0.bspline_k := k2
  have hbf : s'.fm_binwidth = s0.fm_binwidth := k3
  have hmem : l ∈ range_in.take s0.n_defined := List.getElem?_mem hl
  obtain ⟨h0, hlt⟩ := hdecl l hmem hmode
  unfold basis_count grid_i
  rw [hbt, hbk, hbf]
  rcases hbasis with hb | ⟨hb, hgap⟩
  · obtain ⟨eu, el⟩ := hbs hb
    obtain ⟨_, e2, _⟩ := bspline_upper_spec s0.output_binwidth l.upper hob (by linarith)
    have hle : l.lower ≤ bspline_upper s0.output_binwidth l.upper := by linarith
    have hg := bspline_grid s0.fm_binwidth (bspline_upper s0.output_binwidth l.upper) l.lower
      hfm hle
    have hq : 0 ≤ ⌊(bspline_upper s0.output_binwidth l.upper - l.lower) / s0.fm_binwidth⌋ :=
      Int.floor_nonneg.mpr (div_nonneg (by linarith) (le_of_lt hfm))
    have hdiff : s'.upper_cutoffs.getD t 0 - s'.lower_cutoffs.getD t 0 =
        bspline_upper s0.output_binwidth l.upper -
          bspline_lower s0.fm_binwidth (bspline_upper s0.output_binwidth l.upper) l.lower := by
      rw [eu, el]
      ring
    rw [if_pos hb, hdiff, hg]
    omega
  · obtain ⟨el, eu⟩ := hlin hb
    have hne : ¬ s0.basis_type = kBSpline := by
      rw [hb]
      decide
    rw [if_neg hne]
    have hK : 0 ≤ ⌊(l.upper - linear_lower s0.output_binwidth l.lower) / s0.fm_binwidth + 1/2⌋ := by
      apply Int.floor_nonneg.mpr
      have g1 := linear_lower_le s0.output_binwidth l.lower hob h0
      have g2 := hgap l hmem hmode
      have : -(1/2 : ℚ) ≤ (l.upper - linear_lower s0.output_binwidth l.lower) / s0.fm_binwidth := by
        rw [le_div_iff₀ hfm]
        linarith
      linarith
    have hdiv : ∀ K : ℤ, ((K : ℚ) * s0.fm_binwidth) / s0.fm_binwidth = (K : ℚ) := by
      intro K
      rw [mul_div_assoc, div_self (ne_of_gt hfm), mul_one]
    by_cases hn : s0.class_type = kPairNonbonded ∧
        |linear_upper s0.fm_binwidth (linear_lower s0.output_binwidth l.lower) l.upper -
          s0.cutoff - s0.fm_binwidth| < eps
    · rw [if_pos hn] at eu
      have hdiff : s'.upper_cutoffs.getD t 0 - s'.lower_cutoffs.getD t 0 =
          ((⌊(l.upper - linear_lower s0.output_binwidth l.lower) / s0.fm_binwidth + 1/2⌋ - 1 : ℤ)
            : ℚ) * s0.fm_binwidth := by
        rw [eu, el]
        unfold linear_upper
        push_cast
        ring
      rw [hdiff, hdiv, floor_int_add_half]
      omega
    · rw [if_neg hn] at eu
      have hdiff : s'.upper_cutoffs.getD t 0 - s'.lower_cutoffs.getD t 0 =
          ((⌊(l.upper - linear_lower s0.output_binwidth l.lower) / s0.fm_binwidth + 1/2⌋ : ℤ)
            : ℚ) * s0.fm_binwidth := by
        rw [eu, el]
        unfold linear_upper
        ring
      rw [hdiff, hdiv, floor_int_add_half]
      omega

theorem example_coarse_read :
    read_interaction_class_ranges (1/1000000)
      (setup_for_defined_interactions example_coarse_class) example_coarse_ranges =
      Except.ok example_coarse_result := by
  have f1 : linear_lower 1 0 = 0 := by
    have f : ⌊(0 : ℚ) / 1 + 1/2⌋ = 0 := by
      rw [Int.floor_eq_iff]
      norm_num
    unfold linear_lower
    rw [f]
    norm_num
  have f2 : linear_upper (10 : ℚ)⁻¹ 0 2 = 2 := by
    have f : ⌊((2 : ℚ) - 0) / (10 : ℚ)⁻¹ + 1/2⌋ = 20 := by
      rw [Int.floor_eq_iff]
      norm_num
    unfold linear_upper
    rw [f]
    norm_num
  have f3 : linear_lower 1 (3/5) = 1 := by
    have f : ⌊(3/5 : ℚ) / 1 + 1/2⌋ = 1 := by
      rw [Int.floor_eq_iff]
      norm_num
    unfold linear_lower
    rw [f]
    norm_num
  have f4 : linear_upper (10 : ℚ)⁻¹ 1 (13/20) = 7/10 := by
    have f : ⌊((13/20 : ℚ) - 1) / (10 : ℚ)⁻¹ + 1/2⌋ = -3 := by
      rw [Int.floor_eq_iff]
      norm_num
    unfold linear_upper
    rw [f]
    norm_num
  simp [read_interaction_class_ranges, setup_for_defined_interactions, example_coarse_class,
    example_coarse_result, example_coarse_ranges, read_range_loop, read_range_line,
    mode_recognized, store_range, mark_matched, mark_tabulated, adjust_cutoffs_for_basis,
    adjust_cutoffs_for_type, List.replicate, f1, f3]
  exact ⟨f2, f4⟩

theorem example_coarse_columns :
    (setup_indices_in_fm_matrix example_coarse_result).interaction_column_indices =
      [0, 21, 19] := by
  have g0 : grid_i example_coarse_result 0 = 21 := by
    have f : ⌊((2 : ℚ) - 0) / (1/10) + 1/2⌋ = 20 := by
      rw [Int.floor_eq_iff]
      norm_num
    show ⌊((2 : ℚ) - 0) / (1/10) + 1/2⌋ + 1 = 21
    rw [f]
    rfl
  have g1 : grid_i example_coarse_result 1 = -2 := by
    have f : ⌊((7/10 : ℚ) - 1) / (1/10) + 1/2⌋ = -3 := by
      rw [Int.floor_eq_iff]
      norm_num
    show ⌊((7/10 : ℚ) - 1) / (1/10) + 1/2⌋ + 1 = -2
    rw [f]
    rfl
  simp [setup_indices_in_fm_matrix, setup_indices_step, example_coarse_result,
    example_coarse_class, List.range_succ] at g0 g1 ⊢
  simp [g0, g1]

/-! ## Bin counts after the cutoff adjustments -/

/-- After the basis adjustment the width of the range of index `i` is an integer number
of bins of width `fm_binwidth`. -/
theorem adjust_cutoffs_for_basis_width (s : InteractionClassSpec) (i : Nat)
    (hb : s.basis_type = kLinearSpline ∨ s.basis_type = kBSpline)
    (hil : i < s.lower_cutoffs.length) (hiu : i < s.upper_cutoffs.length) :
    ∃ n : ℤ, (adjust_cutoffs_for_basis s i).upper_cutoffs.getD i 0 -
      (adjust_cutoffs_for_basis s i).lower_cutoffs.getD i 0 = (n : ℚ) * s.fm_binwidth := by
  rcases hb with hb | hb
  · obtain ⟨hl, hu⟩ := adjust_cutoffs_for_basis_linear_getD s i hb hil hiu
    rw [hl, hu]
    refine ⟨⌊(s.upper_cutoffs.getD i 0 -
      linear_lower s.output_binwidth (s.lower_cutoffs.getD i 0)) / s.fm_binwidth + 1/2⌋, ?_⟩
    unfold linear_upper
    ring
  · obtain ⟨hu, hl⟩ := adjust_cutoffs_for_basis_bspline_getD s i hb hil hiu
    rw [hu, hl]
    refine ⟨int_cast ((bspline_upper s.output_binwidth (s.upper_cutoffs.getD i 0) -
      s.lower_cutoffs.getD i 0) / s.fm_binwidth) + 1, ?_⟩
    unfold bspline_lower
    ring

/-- The type adjustment keeps the width of the range an integer number of bins, and
keeps the width itself unless the pair-nonbonded test fires. -/
theorem adjust_cutoffs_for_type_width (eps : ℚ) (s : InteractionClassSpec) (i : Nat)
    (hil : i < s.lower_cutoffs.length) (hiu : i < s.upper_cutoffs.length) (n : ℤ)
    (h : s.upper_cutoffs.getD i 0 - s.lower_cutoffs.getD i 0 = (n : ℚ) * s.fm_binwidth) :
    ∃ m : ℤ, (adjust_cutoffs_for_type eps s i).upper_cutoffs.getD i 0 -
        (adjust_cutoffs_for_type eps s i).lower_cutoffs.getD i 0 = (m : ℚ) * s.fm_binwidth ∧
      (s.class_type ≠ kPairNonbonded → m = n) := by
  obtain ⟨hl, hu⟩ := adjust_cutoffs_for_type_getD eps s i hil hiu
  rw [hl, hu]
  by_cases h1 : s.basis_type = kLinearSpline ∧ s.class_type = kPairNonbonded ∧
      |s.upper_cutoffs.getD i 0 - s.cutoff - s.fm_binwidth| < eps
  · refine ⟨n - 1, ?_, fun hne => absurd h1.2.1 hne⟩
    rw [if_pos h1]
    push_cast
    linarith
  · refine ⟨n, ?_, fun _ => rfl⟩
    rw [if_neg h1]
    linarith

/-- The bin count of a range whose width is `n` bins is `n + 1`. -/
theorem grid_i_of_width (s : InteractionClassSpec) (i : Nat) (n : ℤ) (hfm : 0 < s.fm_binwidth)
    (h : s.upper_cutoffs.getD i 0 - s.lower_cutoffs.getD i 0 = (n : ℚ) * s.fm_binwidth) :
    (s.upper_cutoffs.getD i 0 - s.lower_cutoffs.getD i 0) / s.fm_binwidth = (n : ℚ) ∧
    grid_i s i = n + 1 := by
  constructor
  · rw [h, mul_div_assoc, div_self (ne_of_gt hfm), mul_one]
  · unfold grid_i
    rw [h]
    exact grid_of_multiple _ _ hfm

/-! ## The nonbonded cutoff check -/

/-- The loop of the check fails exactly when one of the visited indices fails the test,
and otherwise returns normally. -/
theorem check_nonbonded_loop_spec (VERYSMALL : ℚ) (ispec : InteractionClassSpec) (cutoff : ℚ)
    (l : List Nat) :
    ((∃ e, check_nonbonded_loop VERYSMALL ispec cutoff l = Except.error e) ↔
      ∃ i, i ∈ l ∧ exceeds_nonbonded_cutoff VERYSMALL ispec cutoff i) ∧
    (check_nonbonded_loop VERYSMALL ispec cutoff l = Except.ok () ↔
      ∀ i, i ∈ l → ¬ exceeds_nonbonded_cutoff VERYSMALL ispec cutoff i) := by
  induction l with
  | nil => simp [check_nonbonded_loop]
  | cons a rest ih =>
    unfold check_nonbonded_loop
    by_cases h : ispec.defined_to_matched_intrxn_index_map.getD a 0 ≠ 0 ∧
        ispec.upper_cutoffs.getD a 0 > cutoff + ispec.output_binwidth + VERYSMALL
    · rw [if_pos h]
      constructor
      · constructor
        · intro _
          exact ⟨a, List.mem_cons_self _ _, h⟩
        · intro _
          exact ⟨_, rfl⟩
      · constructor
        · intro hx
          exact absurd hx (by simp)
        · intro hx
          exact absurd h (hx a (List.mem_cons_self _ _))
    · rw [if_neg h]
      constructor
      · rw [ih.1]
        constructor
        · rintro ⟨i, hi, hc⟩
          exact ⟨i, List.mem_cons_of_mem _ hi, hc⟩
        · rintro ⟨i, hi, hc⟩
          rcases List.mem_cons.mp hi with e | hi
          · rw [e] at hc
            exact absurd hc h
          · exact ⟨i, hi, hc⟩
      · rw [ih.2]
        constructor
        · intro hx i hi
          rcases List.mem_cons.mp hi with e | hi
          · rw [e]
            exact h
          · exact hx i hi
        · intro hx i hi
          exact hx i (List.mem_cons_of_mem _ hi)

/-! ## Geometry: distances and angles -/

/-- The value and the first derivative a successful squared-distance call stores, and
what a failed call leaves. -/
theorem conditionally_calc_squared_distance_and_derivatives_eq {K : Type} [LinearOrderedField K]
    (particle_ids : List Nat) (particle_positions : Nat → Vec3 K) (half : Vec3 K)
    (cutoff2 param_val : K) (derivatives : Nat → Vec3 K) :
    conditionally_calc_squared_distance_and_derivatives particle_ids particle_positions half
        cutoff2 param_val derivatives =
      if dot_product (subtract_min_image_vectors particle_ids particle_positions half)
          (subtract_min_image_vectors particle_ids particle_positions half) > cutoff2 then
        (false, param_val, derivatives)
      else
        (true, dot_product (subtract_min_image_vectors particle_ids particle_positions half)
            (subtract_min_image_vectors particle_ids particle_positions half),
          Function.update derivatives 0
            (Vec3.map (fun d => 2 * d)
              (subtract_min_image_vectors particle_ids particle_positions half))) := by
  rfl

/-- The flag of the squared-distance call. -/
theorem conditionally_calc_squared_distance_and_derivatives_flag {K : Type}
    [LinearOrderedField K] (particle_ids : List Nat) (particle_positions : Nat → Vec3 K)
    (half : Vec3 K) (cutoff2 param_val : K) (derivatives : Nat → Vec3 K) :
    (conditionally_calc_squared_distance_and_derivatives particle_ids particle_positions half
        cutoff2 param_val derivatives).1 = true ↔
      dot_product (subtract_min_image_vectors particle_ids particle_positions half)
        (subtract_min_image_vectors particle_ids particle_positions half) ≤ cutoff2 := by
  rw [conditionally_calc_squared_distance_and_derivatives_eq]
  split
  · rename_i h
    simp only [Bool.false_eq_true, false_iff, not_le]
    exact h
  · rename_i h
    simp only [true_iff]
    exact not_lt.mp h

/-- The flag of the angle call is the conjunction of the flags of its two squared-distance
calls. -/
theorem conditionally_calc_angle_and_derivatives_flag {K : Type} [LinearOrderedField K]
    (m : MathEnv K) (particle_ids : List Nat) (particle_positions : Nat → Vec3 K)
    (half : Vec3 K) (cutoff2 param_val : K) (derivatives : Nat → Vec3 K) :
    (conditionally_calc_angle_and_derivatives m particle_ids particle_positions half cutoff2
        param_val derivatives).1 =
      ((conditionally_calc_squared_distance_and_derivatives
          [particle_ids.getD 2 0, particle_ids.getD 0 0] particle_positions half cutoff2 0
          (fun _ => Vec3.zero)).1 &&
        (conditionally_calc_squared_distance_and_derivatives
          [particle_ids.getD 2 0, particle_ids.getD 1 0] particle_positions half cutoff2 0
          (fun _ => Vec3.zero)).1) := by
  unfold conditionally_calc_angle_and_derivatives
  simp only
  generalize conditionally_calc_squared_distance_and_derivatives
    [particle_ids.getD 2 0, particle_ids.getD 0 0] particle_positions half cutoff2 0
    (fun _ => Vec3.zero) = r20
  generalize conditionally_calc_squared_distance_and_derivatives
    [particle_ids.getD 2 0, particle_ids.getD 1 0] particle_positions half cutoff2 0
    (fun _ => Vec3.zero) = r21
  cases h1 : r20.1 <;> cases h2 : r21.1 <;> simp

/-! ## Geometry: the clamp of the cosine -/

/-- The value `check_cos` returns lies between the two clamp bounds. -/
theorem check_cos_bounds {K : Type} [LinearOrderedField K] (m : MathEnv K) (x : K)
    (h1 : m.VERYSMALL_F ≤ 1) :
    -1 + m.VERYSMALL_F ≤ check_cos m x ∧ check_cos m x ≤ 1 - m.VERYSMALL_F := by
  unfold check_cos
  simp only
  split
  · constructor
    · linarith
    · exact le_refl _
  · rename_i hmax
    split
    · constructor
      · exact le_refl _
      · linarith
    · rename_i hmin
      exact ⟨not_lt.mp hmin, not_lt.mp hmax⟩

/-- The value of `check_cos` on an argument above the upper bound, below the lower bound,
and between the bounds. -/
theorem check_cos_cases {K : Type} [LinearOrderedField K] (m : MathEnv K) (x : K)
    (h1 : m.VERYSMALL_F ≤ 1) :
    (1 - m.VERYSMALL_F < x → check_cos m x = 1 - m.VERYSMALL_F) ∧
    (x < -1 + m.VERYSMALL_F → check_cos m x = -1 + m.VERYSMALL_F) ∧
    (-1 + m.VERYSMALL_F ≤ x → x ≤ 1 - m.VERYSMALL_F → check_cos m x = x) := by
  unfold check_cos
  simp only
  refine ⟨fun h => if_pos h, fun h => ?_, fun ha hb => ?_⟩
  · rw [if_neg (by linarith), if_pos h]
  · rw [if_neg (not_lt.mpr hb), if_neg (not_lt.mpr ha)]

/-- The arccosine of a clamped cosine, in degrees, is strictly between 0 and 180. -/
theorem arccos_degrees_bounds (c eps : ℝ) (h0 : 0 < eps) (hl : -1 + eps ≤ c)
    (hu : c ≤ 1 - eps) :
    0 < Real.arccos c * (180 / Real.pi) ∧ Real.arccos c * (180 / Real.pi) < 180 := by
  have hpos : 0 < Real.arccos c := Real.arccos_pos.mpr (by linarith)
  have hlt : Real.arccos c < Real.pi := by
    apply lt_of_le_of_ne (Real.arccos_le_pi c)
    intro h
    have := Real.arccos_eq_pi.mp h
    linarith
  have hpi : 0 < Real.pi := Real.pi_pos
  constructor
  · positivity
  · rw [← mul_div_assoc, div_lt_iff₀ hpi]
    nlinarith

/-- The sine of the arccosine of a clamped cosine is bounded away from 0. -/
theorem sin_arccos_lower (c eps : ℝ) (h0 : 0 < eps) (h1 : eps < 1) (hl : -1 + eps ≤ c)
    (hu : c ≤ 1 - eps) :
    Real.sqrt (1 - (1 - eps) ^ 2) ≤ Real.sin (Real.arccos c) ∧
    0 < Real.sqrt (1 - (1 - eps) ^ 2) := by
  constructor
  · rw [Real.sin_arccos]
    apply Real.sqrt_le_sqrt
    have : c ^ 2 ≤ (1 - eps) ^ 2 := by
      apply sq_le_sq'
      · linarith
      · exact hu
    linarith
  · apply Real.sqrt_pos.mpr
    nlinarith

/-- The flag of a squared-distance call, and on success the value and the first
derivative it stores, do not depend on the incoming `param_val` and `derivatives`. -/
theorem conditionally_calc_squared_distance_and_derivatives_init {K : Type}
    [LinearOrderedField K] (particle_ids : List Nat) (particle_positions : Nat → Vec3 K)
    (half : Vec3 K) (cutoff2 pv pw : K) (dv dw : Nat → Vec3 K) :
    (conditionally_calc_squared_distance_and_derivatives particle_ids particle_positions half
        cutoff2 pv dv).1 =
      (conditionally_calc_squared_distance_and_derivatives particle_ids particle_positions half
        cutoff2 pw dw).1 ∧
    ((conditionally_calc_squared_distance_and_derivatives particle_ids particle_positions half
        cutoff2 pv dv).1 = true →
      (conditionally_calc_squared_distance_and_derivatives particle_ids particle_positions half
          cutoff2 pv dv).2.1 =
        (conditionally_calc_squared_distance_and_derivatives particle_ids particle_positions
          half cutoff2 pw dw).2.1 ∧
      (conditionally_calc_squared_distance_and_derivatives particle_ids particle_positions half
          cutoff2 pv dv).2.2 0 =
        (conditionally_calc_squared_distance_and_derivatives particle_ids particle_positions
          half cutoff2 pw dw).2.2 0) := by
  rw [conditionally_calc_squared_distance_and_derivatives_eq,
    conditionally_calc_squared_distance_and_derivatives_eq]
  split
  · exact ⟨rfl, fun hx => absurd hx (by simp)⟩
  · refine ⟨rfl, fun _ => ⟨rfl, ?_⟩⟩
    exact (Function.update_same (0 : Nat) _ dv).trans (Function.update_same (0 : Nat) _ dw).symm

/-- On success `conditionally_calc_angle_and_derivatives` stores the arccosine of
`angle_cos_theta`, scaled to degrees. -/
theorem conditionally_calc_angle_and_derivatives_value {K : Type} [LinearOrderedField K]
    (m : MathEnv K) (particle_ids : List Nat) (particle_positions : Nat → Vec3 K)
    (half : Vec3 K) (cutoff2 param_val : K) (derivatives : Nat → Vec3 K)
    (h : (conditionally_calc_angle_and_derivatives m particle_ids particle_positions half
      cutoff2 param_val derivatives).1 = true) :
    (conditionally_calc_angle_and_derivatives m particle_ids particle_positions half cutoff2
        param_val derivatives).2.1 =
      m.acos (angle_cos_theta m particle_ids particle_positions half cutoff2) *
        m.DEGREES_PER_RADIAN := by
  unfold conditionally_calc_angle_and_derivatives at h ⊢
  simp only at h ⊢
  split
  · rename_i hc
    rw [if_pos hc] at h
    exact absurd h (by simp)
  · rfl

/-- On success `conditionally_calc_angle_and_intermediates` stores the arccosine of
`angle_cos_theta`, scaled to degrees. -/
theorem conditionally_calc_angle_and_intermediates_value {K : Type} [LinearOrderedField K]
    (m : MathEnv K) (particle_ids : List Nat) (particle_positions : Nat → Vec3 K)
    (half : Vec3 K) (cutoff2 : K) (a : AngleIntermediates K)
    (h : (conditionally_calc_angle_and_intermediates m particle_ids particle_positions half
      cutoff2 a).1 = true) :
    (conditionally_calc_angle_and_intermediates m particle_ids particle_positions half cutoff2
        a).2.param_val =
      m.acos (angle_cos_theta m particle_ids particle_positions half cutoff2) *
        m.DEGREES_PER_RADIAN := by
  obtain ⟨f20, g20⟩ := conditionally_calc_squared_distance_and_derivatives_init
    [particle_ids.getD 2 0, particle_ids.getD 0 0] particle_positions half cutoff2 0 0
    a.dist_derivs_20 (fun _ => Vec3.zero)
  obtain ⟨f21, g21⟩ := conditionally_calc_squared_distance_and_derivatives_init
    [particle_ids.getD 2 0, particle_ids.getD 1 0] particle_positions half cutoff2 0 0
    a.dist_derivs_21 (fun _ => Vec3.zero)
  unfold conditionally_calc_angle_and_intermediates at h ⊢
  simp only at h ⊢
  split
  · rename_i hc
    rw [if_pos hc] at h
    exact absurd h (by simp)
  · rename_i hc
    simp only [Bool.or_eq_true, Bool.not_eq_true', not_or, Bool.not_eq_false] at hc
    obtain ⟨e1, e2⟩ := g20 hc.1
    obtain ⟨e3, e4⟩ := g21 hc.2
    show m.acos _ * _ = _
    rw [e1, e2, e3, e4]
    rfl

/-! ## Geometry: dihedral angles -/

/-- The value `conditionally_calc_dihedral_and_derivatives` stores, in terms of
`dihedral_cos_theta` and `dihedral_sign`; the flag is always true. -/
theorem conditionally_calc_dihedral_and_derivatives_value {K : Type} [LinearOrderedField K]
    (m : MathEnv K) (particle_ids : List Nat) (particle_positions : Nat → Vec3 K)
    (half : Vec3 K) (cutoff2 param_val : K) (derivatives : Nat → Vec3 K) :
    (conditionally_calc_dihedral_and_derivatives m particle_ids particle_positions half cutoff2
        param_val derivatives).1 = true ∧
    (conditionally_calc_dihedral_and_derivatives m particle_ids particle_positions half cutoff2
        param_val derivatives).2.1 =
      if dihedral_sign m
          (subtract_min_image_vectors [particle_ids.getD 3 0, particle_ids.getD 0 0]
            particle_positions half)
          (subtract_min_image_vectors [particle_ids.getD 3 0, particle_ids.getD 2 0]
            particle_positions half)
          (subtract_min_image_vectors [particle_ids.getD 2 0, particle_ids.getD 1 0]
            particle_positions half) < 0 then
        - (m.acos (check_cos m (dihedral_cos_theta m
          (subtract_min_image_vectors [particle_ids.getD 3 0, particle_ids.getD 0 0]
            particle_positions half)
          (subtract_min_image_vectors [particle_ids.getD 3 0, particle_ids.getD 2 0]
            particle_positions half)
          (subtract_min_image_vectors [particle_ids.getD 2 0, particle_ids.getD 1 0]
            particle_positions half))) * m.DEGREES_PER_RADIAN)
      else
        m.acos (check_cos m (dihedral_cos_theta m
          (subtract_min_image_vectors [particle_ids.getD 3 0, particle_ids.getD 0 0]
            particle_positions half)
          (subtract_min_image_vectors [particle_ids.getD 3 0, particle_ids.getD 2 0]
            particle_positions half)
          (subtract_min_image_vectors [particle_ids.getD 2 0, particle_ids.getD 1 0]
            particle_positions half))) * m.DEGREES_PER_RADIAN :=
  ⟨rfl, rfl⟩

/-- The value `calc_dihedral` stores is the one
`conditionally_calc_dihedral_and_derivatives` stores. -/
theorem calc_dihedral_value {K : Type} [LinearOrderedField K]
    (m : MathEnv K) (particle_ids : List Nat) (particle_positions : Nat → Vec3 K)
    (half : Vec3 K) (cutoff2 param_val : K) (derivatives : Nat → Vec3 K) :
    calc_dihedral m particle_ids particle_positions half =
      (conditionally_calc_dihedral_and_derivatives m particle_ids particle_positions half
        cutoff2 param_val derivatives).2.1 :=
  rfl

/-- A coordinate difference within the half box length is not folded. -/
theorem min_image_component_of_abs_le {K : Type} [LinearOrderedField K] (d h : K)
    (hd : |d| ≤ h) : min_image_component d h = d := by
  obtain ⟨h1, h2⟩ := abs_le.mp hd
  unfold min_image_component
  rw [if_neg (not_lt.mpr h2), if_neg (not_lt.mpr h1)]

/-- Without folding the displacement is the plain difference of the two positions. -/
theorem subtract_min_image_vectors_no_wrap {K : Type} [LinearOrderedField K] (i j : Nat)
    (particle_positions : Nat → Vec3 K) (half : Vec3 K)
    (h : no_wrap (particle_positions i) (particle_positions j) half) :
    subtract_min_image_vectors [i, j] particle_positions half =
      Vec3.sub (particle_positions j) (particle_positions i) := by
  obtain ⟨h0, h1, h2⟩ := h
  show Vec3.map2 min_image_component
    (Vec3.map2 (fun a b => a - b) (particle_positions j) (particle_positions i)) half = _
  unfold Vec3.sub Vec3.map2
  simp only
  rw [min_image_component_of_abs_le _ _ h0, min_image_component_of_abs_le _ _ h1,
    min_image_component_of_abs_le _ _ h2]

/-- The Lagrange identity for the two plane normals: the defect of the Cauchy-Schwarz
inequality is the squared triple product times the squared central bond. -/
theorem normals_lagrange {K : Type} [LinearOrderedField K] (a b c : Vec3 K) :
    dot_product (cross_product a b) (cross_product a b) *
        dot_product (cross_product c b) (cross_product c b) -
      dot_product (cross_product a b) (cross_product c b) ^ 2 =
    dot_product (cross_product a b) c ^ 2 * dot_product b b := by
  unfold dot_product cross_product
  simp only
  ring

/-- A vector with a zero squared length is the zero vector. -/
theorem dot_product_self_pos (v : Vec3 ℝ) (h : v ≠ Vec3.zero) : 0 < dot_product v v := by
  have h0 : 0 ≤ dot_product v v := by
    unfold dot_product
    nlinarith [sq_nonneg v.c0, sq_nonneg v.c1, sq_nonneg v.c2]
  rcases lt_or_eq_of_le h0 with hlt | heq
  · exact hlt
  · exfalso
    apply h
    unfold dot_product at heq
    have e0 : v.c0 = 0 := by nlinarith [sq_nonneg v.c0, sq_nonneg v.c1, sq_nonneg v.c2]
    have e1 : v.c1 = 0 := by nlinarith [sq_nonneg v.c0, sq_nonneg v.c1, sq_nonneg v.c2]
    have e2 : v.c2 = 0 := by nlinarith [sq_nonneg v.c0, sq_nonneg v.c1, sq_nonneg v.c2]
    cases v
    simp only at e0 e1 e2
    rw [e0, e1, e2]
    rfl

/-- For displacements with a zero triple product and nonzero normals the cosine of the
dihedral before the clamp is 1 or -1 and `sign` is 0. -/
theorem dihedral_cos_theta_coplanar (m : MathEnv ℝ) (hs : m.sqrt = Real.sqrt)
    (a b c : Vec3 ℝ) (hT : dot_product (cross_product a b) c = 0)
    (hpb : cross_product a b ≠ Vec3.zero) (hpc : cross_product c b ≠ Vec3.zero) :
    (dihedral_cos_theta m a b c = 1 ∨ dihedral_cos_theta m a b c = -1) ∧
    dihedral_sign m a b c = 0 := by
  have hb2 := dot_product_self_pos _ hpb
  have hc2 := dot_product_self_pos _ hpc
  have hl := normals_lagrange a b c
  rw [hT] at hl
  have hsq : dot_product (cross_product a b) (cross_product c b) ^ 2 =
      dot_product (cross_product a b) (cross_product a b) *
        dot_product (cross_product c b) (cross_product c b) := by
    linarith
  have sb : 0 < Real.sqrt (dot_product (cross_product a b) (cross_product a b)) :=
    Real.sqrt_pos.mpr hb2
  have sc : 0 < Real.sqrt (dot_product (cross_product c b) (cross_product c b)) :=
    Real.sqrt_pos.mpr hc2
  have qb := Real.sq_sqrt (le_of_lt hb2)
  have qc := Real.sq_sqrt (le_of_lt hc2)
  constructor
  · have h1 : dihedral_cos_theta m a b c ^ 2 = 1 := by
      unfold dihedral_cos_theta
      simp only
      rw [hs]
      rw [mul_pow, mul_pow, hsq, one_div, one_div, inv_pow, inv_pow, qb, qc]
      field_simp
    have h2 : (dihedral_cos_theta m a b c - 1) * (dihedral_cos_theta m a b c + 1) = 0 := by
      nlinarith
    rcases mul_eq_zero.mp h2 with h | h
    · left
      linarith
    · right
      linarith
  · unfold dihedral_sign
    simp only
    rw [hT]
    ring

/-! ## Geometry: the folded displacement -/

/-- `conditionally_calc_angle_and_derivatives` computes `angle_from_displacements` of its
two folded displacements. -/
theorem conditionally_calc_angle_and_derivatives_eq {K : Type} [LinearOrderedField K]
    (m : MathEnv K) (particle_ids : List Nat) (particle_positions : Nat → Vec3 K)
    (half : Vec3 K) (cutoff2 param_val : K) (derivatives : Nat → Vec3 K) :
    conditionally_calc_angle_and_derivatives m particle_ids particle_positions half cutoff2
        param_val derivatives =
      angle_from_displacements m
        (subtract_min_image_vectors [particle_ids.getD 2 0, particle_ids.getD 0 0]
          particle_positions half)
        (subtract_min_image_vectors [particle_ids.getD 2 0, particle_ids.getD 1 0]
          particle_positions half) cutoff2 param_val derivatives := by
  unfold conditionally_calc_angle_and_derivatives angle_from_displacements
  simp only
  rw [conditionally_calc_squared_distance_and_derivatives_eq,
    conditionally_calc_squared_distance_and_derivatives_eq]
  by_cases h1 : dot_product
      (subtract_min_image_vectors [particle_ids.getD 2 0, particle_ids.getD 0 0]
        particle_positions half)
      (subtract_min_image_vectors [particle_ids.getD 2 0, particle_ids.getD 0 0]
        particle_positions half) > cutoff2
  · rw [if_pos h1, if_pos (Or.inl h1)]
    rfl
  · by_cases h2 : dot_product
        (subtract_min_image_vectors [particle_ids.getD 2 0, particle_ids.getD 1 0]
          particle_positions half)
        (subtract_min_image_vectors [particle_ids.getD 2 0, particle_ids.getD 1 0]
          particle_positions half) > cutoff2
    · rw [if_pos h2, if_pos (Or.inr h2)]
      simp
    · rw [if_neg h1, if_neg h2, if_neg (not_or.mpr ⟨h1, h2⟩)]
      simp only [Bool.not_true, Bool.or_self, Bool.false_eq_true, ↓reduceIte,
        Function.update_same]

/-- A uniform translation of all positions leaves every folded displacement unchanged. -/
theorem subtract_min_image_vectors_translate {K : Type} [LinearOrderedField K]
    (particle_ids : List Nat) (particle_positions : Nat → Vec3 K) (t half : Vec3 K) :
    subtract_min_image_vectors particle_ids (fun i => Vec3.add (particle_positions i) t) half =
      subtract_min_image_vectors particle_ids particle_positions half := by
  unfold subtract_min_image_vectors Vec3.add Vec3.map2
  simp only [add_sub_add_right_eq_sub]

/-- The fold of one coordinate is an odd function of the difference when the half box
length is not negative. -/
theorem min_image_component_neg {K : Type} [LinearOrderedField K] (d h : K) (hh : 0 ≤ h) :
    min_image_component (-d) h = - min_image_component d h := by
  unfold min_image_component
  by_cases h1 : d > h
  · rw [if_pos h1, if_neg (by linarith), if_pos (by linarith)]
    ring
  · by_cases h2 : d < -h
    · rw [if_neg h1, if_pos h2, if_pos (by linarith)]
      ring
    · rw [if_neg h1, if_neg h2, if_neg (by linarith), if_neg (by linarith)]

/-- Reflecting all positions through the origin negates every folded displacement. -/
theorem subtract_min_image_vectors_reflect {K : Type} [LinearOrderedField K]
    (particle_ids : List Nat) (particle_positions : Nat → Vec3 K) (half : Vec3 K)
    (h0 : 0 ≤ half.c0) (h1 : 0 ≤ half.c1) (h2 : 0 ≤ half.c2) :
    subtract_min_image_vectors particle_ids (fun i => Vec3.neg (particle_positions i)) half =
      Vec3.neg (subtract_min_image_vectors particle_ids particle_positions half) := by
  unfold subtract_min_image_vectors Vec3.neg Vec3.map2 Vec3.map
  simp only
  rw [← min_image_component_neg _ _ h0, ← min_image_component_neg _ _ h1,
    ← min_image_component_neg _ _ h2]
  congr 2 <;> ring

/-- The angle computed from the two negated displacements: same flag, same angle,
negated derivative vectors. -/
theorem angle_from_displacements_neg {K : Type} [LinearOrderedField K] (m : MathEnv K)
    (disp20 disp21 : Vec3 K) (cutoff2 param_val : K) (derivatives : Nat → Vec3 K) :
    (angle_from_displacements m (Vec3.neg disp20) (Vec3.neg disp21) cutoff2 param_val
        derivatives).1 =
      (angle_from_displacements m disp20 disp21 cutoff2 param_val derivatives).1 ∧
    (angle_from_displacements m (Vec3.neg disp20) (Vec3.neg disp21) cutoff2 param_val
        derivatives).2.1 =
      (angle_from_displacements m disp20 disp21 cutoff2 param_val derivatives).2.1 ∧
    ((angle_from_displacements m disp20 disp21 cutoff2 param_val derivatives).1 = true →
      (angle_from_displacements m (Vec3.neg disp20) (Vec3.neg disp21) cutoff2 param_val
          derivatives).2.2 0 =
        Vec3.neg ((angle_from_displacements m disp20 disp21 cutoff2 param_val
          derivatives).2.2 0) ∧
      (angle_from_displacements m (Vec3.neg disp20) (Vec3.neg disp21) cutoff2 param_val
          derivatives).2.2 1 =
        Vec3.neg ((angle_from_displacements m disp20 disp21 cutoff2 param_val
          derivatives).2.2 1)) ∧
    (∀ j, 2 ≤ j →
      (angle_from_displacements m (Vec3.neg disp20) (Vec3.neg disp21) cutoff2 param_val
          derivatives).2.2 j =
        (angle_from_displacements m disp20 disp21 cutoff2 param_val derivatives).2.2 j) := by
  have e20 : dot_product (Vec3.neg disp20) (Vec3.neg disp20) = dot_product disp20 disp20 := by
    unfold dot_product Vec3.neg Vec3.map
    ring
  have e21 : dot_product (Vec3.neg disp21) (Vec3.neg disp21) = dot_product disp21 disp21 := by
    unfold dot_product Vec3.neg Vec3.map
    ring
  have ed : dot_product (Vec3.map (fun d => 2 * d) (Vec3.neg disp20))
      (Vec3.map (fun d => 2 * d) (Vec3.neg disp21)) =
      dot_product (Vec3.map (fun d => 2 * d) disp20) (Vec3.map (fun d => 2 * d) disp21) := by
    unfold dot_product Vec3.neg Vec3.map
    ring
  unfold angle_from_displacements
  simp only
  rw [e20, e21, ed]
  by_cases hc : dot_product disp20 disp20 > cutoff2 ∨ dot_product disp21 disp21 > cutoff2
  · rw [if_pos hc, if_pos hc]
    exact ⟨rfl, rfl, fun h => absurd h (by simp), fun _ _ => rfl⟩
  · rw [if_neg hc, if_neg hc]
    refine ⟨rfl, rfl, fun _ => ⟨?_, ?_⟩, fun j hj => ?_⟩
    · dsimp only
      rw [Function.update_noteq (by decide), Function.update_same,
        Function.update_noteq (by decide), Function.update_same]
      unfold Vec3.neg Vec3.map Vec3.map2
      simp only [Vec3.mk.injEq]
      refine ⟨?_, ?_, ?_⟩ <;> ring
    · dsimp only
      rw [Function.update_same, Function.update_same]
      unfold Vec3.neg Vec3.map Vec3.map2
      simp only [Vec3.mk.injEq]
      refine ⟨?_, ?_, ?_⟩ <;> ring
    · dsimp only
      rw [Function.update_noteq (by omega), Function.update_noteq (by omega),
        Function.update_noteq (by omega), Function.update_noteq (by omega)]

/-- The fold of one coordinate is within the half box length, and differs from the
difference by a multiple of the box length, when the difference is within three half
box lengths. -/
theorem min_image_component_range {K : Type} [LinearOrderedField K] (d h : K)
    (hd : |d| ≤ 3 * h) :
    |min_image_component d h| ≤ h ∧
    (min_image_component d h = d ∨ min_image_component d h = d - 2 * h ∨
      min_image_component d h = d + 2 * h) := by
  obtain ⟨h1, h2⟩ := abs_le.mp hd
  unfold min_image_component
  by_cases c1 : d > h
  · rw [if_pos c1]
    refine ⟨abs_le.mpr ⟨by linarith, by linarith⟩, Or.inr (Or.inl rfl)⟩
  · rw [if_neg c1]
    by_cases c2 : d < -h
    · rw [if_pos c2]
      refine ⟨abs_le.mpr ⟨by linarith, by linarith⟩, Or.inr (Or.inr rfl)⟩
    · rw [if_neg c2]
      refine ⟨abs_le.mpr ⟨by linarith, by linarith⟩, Or.inl rfl⟩

/-- Folding a coordinate twice is the same as folding it once exactly when the difference
is within three half box lengths. -/
theorem min_image_component_idem_iff {K : Type} [LinearOrderedField K] (d h : K)
    (hh : 0 < h) :
    min_image_component (min_image_component d h) h = min_image_component d h ↔
      |d| ≤ 3 * h := by
  constructor
  · intro hi
    rw [abs_le]
    unfold min_image_component at hi
    by_cases c1 : d > h
    · rw [if_pos c1] at hi
      by_cases c3 : d - 2 * h > h
      · rw [if_pos c3] at hi
        linarith
      · rw [if_neg c3] at hi
        constructor <;> linarith
    · rw [if_neg c1] at hi
      by_cases c2 : d < -h
      · rw [if_pos c2] at hi
        by_cases c3 : d + 2 * h > h
        · rw [if_pos c3] at hi
          linarith
        · rw [if_neg c3] at hi
          by_cases c4 : d + 2 * h < -h
          · rw [if_pos c4] at hi
            linarith
          · constructor <;> linarith
      · constructor <;> linarith
  · intro hd
    exact min_image_component_of_abs_le _ _ (min_image_component_range d h hd).1

/-- A value within the half box length is no farther from 0 than any of its periodic
replicas. -/
theorem abs_le_replica {K : Type} [LinearOrderedField K] (w h : K) (hh : 0 < h)
    (hw : |w| ≤ h) (j : ℤ) : |w| ≤ |w + 2 * (j : K) * h| := by
  obtain ⟨h1, h2⟩ := abs_le.mp hw
  rcases lt_trichotomy j 0 with hj | hj | hj
  · have hj1 : (j : K) ≤ -1 := by
      have : j ≤ -1 := by omega
      exact_mod_cast this
    have : w + 2 * (j : K) * h ≤ -h := by nlinarith
    rw [abs_of_nonpos (by linarith : w + 2 * (j : K) * h ≤ 0)]
    linarith
  · rw [hj]
    simp
  · have hj1 : (1 : K) ≤ (j : K) := by
      have : 1 ≤ j := by omega
      exact_mod_cast this
    have : h ≤ w + 2 * (j : K) * h := by nlinarith
    rw [abs_of_nonneg (by linarith : 0 ≤ w + 2 * (j : K) * h)]
    linarith

/-- For two coordinates in the primary box the folded difference is within the half box
length and is the replica of the difference nearest to 0. -/
theorem min_image_component_nearest {K : Type} [LinearOrderedField K] (a b h : K)
    (hh : 0 < h) (ha0 : 0 ≤ a) (ha1 : a < 2 * h) (hb0 : 0 ≤ b) (hb1 : b < 2 * h) :
    -h ≤ min_image_component (b - a) h ∧ min_image_component (b - a) h ≤ h ∧
    ∀ k : ℤ, |min_image_component (b - a) h| ≤ |(b - a) + 2 * (k : K) * h| := by
  have hd : |b - a| ≤ 3 * h := abs_le.mpr ⟨by linarith, by linarith⟩
  obtain ⟨hr, hcases⟩ := min_image_component_range (b - a) h hd
  obtain ⟨r1, r2⟩ := abs_le.mp hr
  refine ⟨r1, r2, fun k => ?_⟩
  rcases hcases with e | e | e
  · have := abs_le_replica (min_image_component (b - a) h) h hh hr k
    rw [e] at this ⊢
    exact this
  · have := abs_le_replica (min_image_component (b - a) h) h hh hr (k + 1)
    rw [e] at this ⊢
    have e2 : b - a - 2 * h + 2 * ((k + 1 : ℤ) : K) * h = b - a + 2 * (k : K) * h := by
      push_cast
      ring
    rw [e2] at this
    exact this
  · have := abs_le_replica (min_image_component (b - a) h) h hh hr (k - 1)
    rw [e] at this ⊢
    have e2 : b - a + 2 * h + 2 * ((k - 1 : ℤ) : K) * h = b - a + 2 * (k : K) * h := by
      push_cast
      ring
    rw [e2] at this
    exact this

/-- A squared-distance call sees the positions only through the folded displacement. -/
theorem conditionally_calc_squared_distance_and_derivatives_translate {K : Type}
    [LinearOrderedField K] (particle_ids : List Nat) (particle_positions : Nat → Vec3 K)
    (t half : Vec3 K) (cutoff2 param_val : K) (derivatives : Nat → Vec3 K) :
    conditionally_calc_squared_distance_and_derivatives particle_ids
        (fun i => Vec3.add (particle_positions i) t) half cutoff2 param_val derivatives =
      conditionally_calc_squared_distance_and_derivatives particle_ids particle_positions half
        cutoff2 param_val derivatives := by
  rw [conditionally_calc_squared_distance_and_derivatives_eq,
    conditionally_calc_squared_distance_and_derivatives_eq,
    subtract_min_image_vectors_translate]

/-- When both squared separations from the vertex are at most `MAXFLOAT` and the
conditional function returns true, `calc_angle` stores the value the conditional function
stores, whatever its locals held before. -/
theorem calc_angle_eq_conditional {K : Type} [LinearOrderedField K] (m : MathEnv K)
    (MAXFLOAT : K)
    (particle_ids : List Nat) (particle_positions : Nat → Vec3 K) (half : Vec3 K)
    (cutoff2 param_val : K) (derivatives : Nat → Vec3 K)
    (rr2_20 rr2_21 : K) (dist_derivs_20 dist_derivs_21 : Nat → Vec3 K)
    (h20 : dot_product
      (subtract_min_image_vectors [particle_ids.getD 2 0, particle_ids.getD 0 0]
        particle_positions half)
      (subtract_min_image_vectors [particle_ids.getD 2 0, particle_ids.getD 0 0]
        particle_positions half) ≤ MAXFLOAT)
    (h21 : dot_product
      (subtract_min_image_vectors [particle_ids.getD 2 0, particle_ids.getD 1 0]
        particle_positions half)
      (subtract_min_image_vectors [particle_ids.getD 2 0, particle_ids.getD 1 0]
        particle_positions half) ≤ MAXFLOAT)
    (hflag : (conditionally_calc_angle_and_derivatives m particle_ids particle_positions half
      cutoff2 param_val derivatives).1 = true) :
    calc_angle m MAXFLOAT particle_ids particle_positions half rr2_20 rr2_21 dist_derivs_20
        dist_derivs_21 =
      (conditionally_calc_angle_and_derivatives m particle_ids particle_positions half cutoff2
        param_val derivatives).2.1 := by
  rw [conditionally_calc_angle_and_derivatives_eq] at hflag ⊢
  unfold angle_from_displacements at hflag ⊢
  simp only at hflag ⊢
  split at hflag
  · exact absurd hflag (by simp)
  · rename_i hc
    rw [if_neg hc]
    unfold calc_angle
    simp only
    rw [conditionally_calc_squared_distance_and_derivatives_eq,
      conditionally_calc_squared_distance_and_derivatives_eq,
      if_neg (not_lt.mpr h20), if_neg (not_lt.mpr h21)]
    simp only [Function.update_same]

/-! ## Grids of force values -/

/-- A list is the list of its entries read by index. -/
theorem list_eq_map_range_getD_of {α : Type} (l : List α) (d : α) :
    l = (List.range l.length).map (fun i => l.getD i d) := by
  apply List.ext_getElem?
  intro i
  by_cases h : i < l.length
  · simp [h, List.getD_eq_getElem?_getD]
  · rw [List.getElem?_eq_none (by omega), List.getElem?_eq_none (by simp; omega)]

/-- The loop of `calc_grid_of_force_vals` when exactly `n` grid points lie below `max` and
at least `n` entries remain: it ends normally after `n` passes, having written the grid
points and the spline values at the entries `counter .. counter + n - 1`. -/
theorem grid_of_force_loop_spec (evaluate : ℚ → ℚ) (max binwidth : ℚ) (n : Nat) :
    ∀ (remaining : Nat) (axis : ℚ) (counter : Nat) (av fv : List ℚ),
      (∀ j : Nat, j < n → axis + (j : ℚ) * binwidth < max) →
      ¬ (axis + (n : ℚ) * binwidth < max) → n ≤ remaining →
      ∃ av1 fv1, grid_of_force_loop evaluate max binwidth remaining axis counter av fv =
          some (av1, fv1, counter + n) ∧
        av1.length = av.length ∧ fv1.length = fv.length ∧
        (∀ i, av1.getD i 0 =
          if counter ≤ i ∧ i < counter + n ∧ i < av.length then
            axis + ((i - counter : Nat) : ℚ) * binwidth
          else av.getD i 0) ∧
        (∀ i, fv1.getD i 0 =
          if counter ≤ i ∧ i < counter + n ∧ i < fv.length then
            evaluate (axis + ((i - counter : Nat) : ℚ) * binwidth)
          else fv.getD i 0) := by
  induction n with
  | zero =>
    intro remaining axis counter av fv _ hstop _
    have hs : ¬ axis < max := by
      intro h
      apply hstop
      simpa using h
    refine ⟨av, fv, ?_, rfl, rfl, fun i => ?_, fun i => ?_⟩
    · cases remaining with
      | zero =>
        unfold grid_of_force_loop
        rw [if_neg hs]
        rfl
      | succ r =>
        unfold grid_of_force_loop
        rw [if_neg hs]
        rfl
    · rw [if_neg (by omega)]
    · rw [if_neg (by omega)]
  | succ n ih =>
    intro remaining axis counter av fv hlt hstop hrem
    have h0 : axis < max := by
      have := hlt 0 (by omega)
      simpa using this
    obtain ⟨r, hr⟩ : ∃ r, remaining = r + 1 := ⟨remaining - 1, by omega⟩
    rw [hr]
    unfold grid_of_force_loop
    rw [if_pos h0]
    obtain ⟨av1, fv1, e, l1, l2, g1, g2⟩ := ih r (axis + binwidth) (counter + 1)
      (av.set counter axis) (fv.set counter (evaluate axis))
      (by
        intro j hj
        have := hlt (j + 1) (by omega)
        push_cast at this
        linarith)
      (by
        intro h
        apply hstop
        push_cast
        linarith)
      (by omega)
    refine ⟨av1, fv1, ?_, by rw [l1, List.length_set], by rw [l2, List.length_set],
      fun i => ?_, fun i => ?_⟩
    · rw [e]
      congr 3
      omega
    · rw [g1 i, List.length_set]
      by_cases hi : i = counter
      · rw [hi, if_neg (by omega), getD_set_ite]
        by_cases hl : counter < av.length
        · rw [if_pos hl, if_pos ⟨le_refl _, by omega, hl⟩]
          simp
        · rw [if_neg hl, if_neg (by omega)]
      · rw [getD_set_ne _ _ _ _ _ (Ne.symm hi)]
        by_cases hc : counter + 1 ≤ i ∧ i < counter + 1 + n ∧ i < av.length
        · rw [if_pos hc, if_pos ⟨by omega, by omega, hc.2.2⟩]
          have e1 : ((i - (counter + 1) : Nat) : ℚ) = (i : ℚ) - (counter : ℚ) - 1 := by
            rw [Nat.cast_sub hc.1]
            push_cast
            ring
          have e2 : ((i - counter : Nat) : ℚ) = (i : ℚ) - (counter : ℚ) := by
            rw [Nat.cast_sub (by omega)]
          rw [e1, e2]
          ring
        · rw [if_neg hc, if_neg (by omega)]
    · rw [g2 i, List.length_set]
      by_cases hi : i = counter
      · rw [hi, if_neg (by omega), getD_set_ite]
        by_cases hl : counter < fv.length
        · rw [if_pos hl, if_pos ⟨le_refl _, by omega, hl⟩]
          simp
        · rw [if_neg hl, if_neg (by omega)]
      · rw [getD_set_ne _ _ _ _ _ (Ne.symm hi)]
        by_cases hc : counter + 1 ≤ i ∧ i < counter + 1 + n ∧ i < fv.length
        · rw [if_pos hc, if_pos ⟨by omega, by omega, hc.2.2⟩]
          have e1 : ((i - (counter + 1) : Nat) : ℚ) = (i : ℚ) - (counter : ℚ) - 1 := by
            rw [Nat.cast_sub hc.1]
            push_cast
            ring
          have e2 : ((i - counter : Nat) : ℚ) = (i : ℚ) - (counter : ℚ) := by
            rw [Nat.cast_sub (by omega)]
          rw [e1, e2]
          congr 1
          ring
        · rw [if_neg hc, if_neg (by omega)]

/-- The two grid loops take the same passes: dropping `deriv_vals` from the result of the
loop of `calc_grid_of_force_and_deriv_vals` gives the result of the loop of
`calc_grid_of_force_vals`. -/
theorem grid_loops_agree (evaluate evaluate_deriv : ℚ → ℚ) (max binwidth : ℚ)
    (remaining : Nat) :
    ∀ (axis : ℚ) (counter : Nat) (av fv dv : List ℚ),
      (grid_of_force_and_deriv_loop evaluate evaluate_deriv max binwidth remaining axis counter
          av fv dv).map (fun r => (r.1, r.2.1, r.2.2.2)) =
        grid_of_force_loop evaluate max binwidth remaining axis counter av fv := by
  induction remaining with
  | zero =>
    intro axis counter av fv dv
    unfold grid_of_force_and_deriv_loop grid_of_force_loop
    split <;> rfl
  | succ r ih =>
    intro axis counter av fv dv
    unfold grid_of_force_and_deriv_loop grid_of_force_loop
    split
    · exact ih _ _ _ _ _
    · rfl

/-- The truncating cast is at least the floor. -/
theorem floor_le_int_cast (x : ℚ) : ⌊x⌋ ≤ int_cast x := by
  unfold int_cast
  split
  · exact le_refl _
  · exact Int.floor_le_ceil x

/-- The first grid point `((int)(lower / binwidth) + 1) * binwidth` lies strictly above
`lower`. -/
theorem grid_start_gt (lower binwidth : ℚ) (hbw : 0 < binwidth) :
    lower < ((int_cast (lower / binwidth) + 1 : Int) : ℚ) * binwidth := by
  have h1 : lower / binwidth < ((int_cast (lower / binwidth) + 1 : Int) : ℚ) := by
    have := Int.lt_floor_add_one (lower / binwidth)
    have h2 : ((⌊lower / binwidth⌋ : Int) : ℚ) ≤ ((int_cast (lower / binwidth) : Int) : ℚ) := by
      exact_mod_cast floor_le_int_cast _
    push_cast
    linarith
  rw [div_lt_iff₀ hbw] at h1
  exact h1

/-- The number of grid points from `start` below `max`, and the bound on it. -/
theorem grid_count (start max binwidth : ℚ) (hbw : 0 < binwidth) :
    (∀ j : Nat, j < (⌈(max - start) / binwidth⌉).toNat → start + (j : ℚ) * binwidth < max) ∧
    ¬ (start + (((⌈(max - start) / binwidth⌉).toNat : Nat) : ℚ) * binwidth < max) := by
  constructor
  · intro j hj
    have h1 : (j : Int) < ⌈(max - start) / binwidth⌉ := by omega
    have h2 := Int.lt_ceil.mp h1
    rw [lt_div_iff₀ hbw] at h2
    have : ((j : Int) : ℚ) = (j : ℚ) := by norm_cast
    rw [this] at h2
    linarith
  · intro h
    have h1 : (((⌈(max - start) / binwidth⌉).toNat : Nat) : ℚ) < (max - start) / binwidth := by
      rw [lt_div_iff₀ hbw]
      linarith
    have h2 : (max - start) / binwidth ≤ ((⌈(max - start) / binwidth⌉ : Int) : ℚ) :=
      Int.le_ceil _
    have h3 : (⌈(max - start) / binwidth⌉ : Int) ≤ ((⌈(max - start) / binwidth⌉).toNat : Int) :=
      Int.self_le_toNat _
    have h4 : ((⌈(max - start) / binwidth⌉ : Int) : ℚ) ≤
        (((⌈(max - start) / binwidth⌉).toNat : Nat) : ℚ) := by
      exact_mod_cast h3
    linarith

/-- The number of grid points is at most the number of entries the output vectors are
given. -/
theorem grid_count_le (lower upper start binwidth : ℚ) (hle : lower ≤ upper)
    (hbw : 0 < binwidth) (hstart : lower < start) :
    (⌈(upper - start) / binwidth⌉).toNat ≤
      (int_cast ((upper - lower) / binwidth + 1)).toNat := by
  have hq : 0 ≤ (upper - lower) / binwidth := div_nonneg (by linarith) (le_of_lt hbw)
  rw [int_cast_of_nonneg _ (by linarith)]
  apply Int.toNat_le_toNat
  rw [Int.ceil_le]
  have h1 : (upper - start) / binwidth < (upper - lower) / binwidth :=
    div_lt_div_of_pos_right (by linarith) hbw
  have h2 := Int.lt_floor_add_one ((upper - lower) / binwidth + 1)
  linarith

/-- The entries of a list below the cut are the entries of the cut list. -/
theorem getD_take_of_lt (l : List ℚ) (n i : Nat) (h : i < n) :
    (l.take n).getD i 0 = l.getD i 0 := by
  simp [List.getD_eq_getElem?_getD, List.getElem?_take, h]

/-- The result of `calc_grid_of_force_vals`: the grid points
`(k0 + 1 + j) * binwidth`, `j < n`, with `k0 = (int)(lower / binwidth)` and `n` the number
of them below `upper`, and the spline values at them. -/
theorem calc_grid_of_force_vals_eq (evaluate_spline : Nat → Int → List ℚ → ℚ → ℚ)
    (ispec : InteractionClassSpec) (interaction_class_column_index : Int)
    (spline_coeffs : List ℚ) (index_among_defined : Nat) (binwidth : ℚ)
    (hle : ispec.lower_cutoffs.getD index_among_defined 0 ≤
      ispec.upper_cutoffs.getD index_among_defined 0)
    (hbw : 0 < binwidth) :
    ∃ n : Nat,
      calc_grid_of_force_vals evaluate_spline ispec interaction_class_column_index spline_coeffs
          index_among_defined binwidth =
        some ((List.range n).map (fun j : Nat =>
            ((int_cast (ispec.lower_cutoffs.getD index_among_defined 0 / binwidth) + 1 + (j : Int)
              : Int) : ℚ) * binwidth),
          ((List.range n).map (fun j : Nat =>
            ((int_cast (ispec.lower_cutoffs.getD index_among_defined 0 / binwidth) + 1 + (j : Int)
              : Int) : ℚ) * binwidth)).map
            (evaluate_spline index_among_defined interaction_class_column_index spline_coeffs)) ∧
      (∀ j : Nat, j < n →
        ((int_cast (ispec.lower_cutoffs.getD index_among_defined 0 / binwidth) + 1 + (j : Int)
          : Int) : ℚ) * binwidth < ispec.upper_cutoffs.getD index_among_defined 0) ∧
      ¬ (((int_cast (ispec.lower_cutoffs.getD index_among_defined 0 / binwidth) + 1 + (n : Int)
          : Int) : ℚ) * binwidth < ispec.upper_cutoffs.getD index_among_defined 0) ∧
      n ≤ (int_cast ((ispec.upper_cutoffs.getD index_among_defined 0 -
        ispec.lower_cutoffs.getD index_among_defined 0) / binwidth + 1)).toNat := by
  obtain ⟨c1, c2⟩ := grid_count
    (((int_cast (ispec.lower_cutoffs.getD index_among_defined 0 / binwidth) + 1 : Int) : ℚ) *
      binwidth) (ispec.upper_cutoffs.getD index_among_defined 0) binwidth hbw
  have hN := grid_count_le (ispec.lower_cutoffs.getD index_among_defined 0)
    (ispec.upper_cutoffs.getD index_among_defined 0)
    (((int_cast (ispec.lower_cutoffs.getD index_among_defined 0 / binwidth) + 1 : Int) : ℚ) *
      binwidth) binwidth hle hbw (grid_start_gt _ _ hbw)
  generalize hNdef : (⌈(ispec.upper_cutoffs.getD index_among_defined 0 -
    ((int_cast (ispec.lower_cutoffs.getD index_among_defined 0 / binwidth) + 1 : Int) : ℚ) *
      binwidth) / binwidth⌉).toNat = N at c1 c2 hN
  have hpt : ∀ j : Nat,
      ((int_cast (ispec.lower_cutoffs.getD index_among_defined 0 / binwidth) + 1 + (j : Int)
        : Int) : ℚ) * binwidth =
      ((int_cast (ispec.lower_cutoffs.getD index_among_defined 0 / binwidth) + 1 : Int) : ℚ) *
        binwidth + (j : ℚ) * binwidth := by
    intro j
    push_cast
    ring
  obtain ⟨av1, fv1, e, l1, l2, g1, g2⟩ := grid_of_force_loop_spec
    (evaluate_spline index_among_defined interaction_class_column_index spline_coeffs)
    (ispec.upper_cutoffs.getD index_among_defined 0) binwidth N
    (int_cast ((ispec.upper_cutoffs.getD index_among_defined 0 -
      ispec.lower_cutoffs.getD index_among_defined 0) / binwidth + 1)).toNat
    (((int_cast (ispec.lower_cutoffs.getD index_among_defined 0 / binwidth) + 1 : Int) : ℚ) *
      binwidth) 0
    (List.replicate (int_cast ((ispec.upper_cutoffs.getD index_among_defined 0 -
      ispec.lower_cutoffs.getD index_among_defined 0) / binwidth + 1)).toNat 0)
    (List.replicate (int_cast ((ispec.upper_cutoffs.getD index_among_defined 0 -
      ispec.lower_cutoffs.getD index_among_defined 0) / binwidth + 1)).toNat 0)
    c1 c2 hN
  rw [List.length_replicate] at l1 l2
  refine ⟨N, ?_, fun j hj => by rw [hpt]; exact c1 j hj, by rw [hpt]; exact c2, hN⟩
  unfold calc_grid_of_force_vals
  simp only
  rw [e]
  simp only [zero_add]
  have hA : av1.take N = (List.range N).map (fun j : Nat =>
      ((int_cast (ispec.lower_cutoffs.getD index_among_defined 0 / binwidth) + 1 + (j : Int)
        : Int) : ℚ) * binwidth) := by
    have hlen : (av1.take N).length = N := by
      rw [List.length_take, l1]
      omega
    rw [list_eq_map_range_getD_of (av1.take N) 0, hlen]
    apply List.map_congr_left
    intro j hj
    have hj1 : j < N := List.mem_range.mp hj
    rw [getD_take_of_lt _ _ _ hj1, g1 j, List.length_replicate,
      if_pos ⟨Nat.zero_le _, by omega, by omega⟩, hpt]
    simp
  have hF : fv1.take N = ((List.range N).map (fun j : Nat =>
      ((int_cast (ispec.lower_cutoffs.getD index_among_defined 0 / binwidth) + 1 + (j : Int)
        : Int) : ℚ) * binwidth)).map
        (evaluate_spline index_among_defined interaction_class_column_index spline_coeffs) := by
    have hlen : (fv1.take N).length = N := by
      rw [List.length_take, l2]
      omega
    rw [list_eq_map_range_getD_of (fv1.take N) 0, hlen, List.map_map]
    apply List.map_congr_left
    intro j hj
    have hj1 : j < N := List.mem_range.mp hj
    rw [getD_take_of_lt _ _ _ hj1, g2 j, List.length_replicate,
      if_pos ⟨Nat.zero_le _, by omega, by omega⟩]
    simp only [Function.comp_apply, Nat.sub_zero]
    rw [hpt]
  rw [hA, hF]

/-- The grid of the range `[0, 3]` with `binwidth` 1: the points 1 and 2. -/
theorem example_grid_force_vals :
    calc_grid_of_force_vals example_evaluate_spline example_grid_class 0 [] 0 1 =
      some ([1, 2], [3, 5]) := by
  have h4 : int_cast (4 : ℚ) = 4 := by
    rw [int_cast_of_nonneg _ (by norm_num), Int.floor_eq_iff]
    norm_num
  have h0 : int_cast (0 : ℚ) = 0 := by
    rw [int_cast_of_nonneg _ (by norm_num), Int.floor_eq_iff]
    norm_num
  have e1 : (example_grid_class.upper_cutoffs.getD 0 0 -
      example_grid_class.lower_cutoffs.getD 0 0) / 1 + 1 = (4 : ℚ) := by
    norm_num [example_grid_class]
  have e2 : example_grid_class.lower_cutoffs.getD 0 0 / 1 = (0 : ℚ) := by
    norm_num [example_grid_class]
  have e3 : example_grid_class.upper_cutoffs.getD 0 0 = (3 : ℚ) := by
    norm_num [example_grid_class]
  have t4 : (4 : Int).toNat = 4 := rfl
  unfold calc_grid_of_force_vals
  simp only
  rw [e1, e2, e3, h4, h0, t4]
  norm_num [grid_of_force_loop, example_evaluate_spline, List.replicate_succ]

/-- Under `lower <= upper` and `binwidth > 0`, `calc_grid_of_force_and_deriv_vals` returns
vectors `axis_vals` and `force_vals` with as many entries as were allocated; the vectors
`calc_grid_of_force_vals` returns are their first `n` entries, `n` the number of grid
points, and the entries from `n` on are 0. -/
theorem calc_grid_of_force_and_deriv_vals_prefix
    (evaluate_spline evaluate_spline_deriv : Nat → Int → List ℚ → ℚ → ℚ)
    (ispec : InteractionClassSpec) (interaction_class_column_index : Int)
    (spline_coeffs : List ℚ) (index_among_defined : Nat) (binwidth : ℚ)
    (hle : ispec.lower_cutoffs.getD index_among_defined 0 ≤
      ispec.upper_cutoffs.getD index_among_defined 0)
    (hbw : 0 < binwidth) :
    ∃ (n : Nat) (axis_vals force_vals deriv_vals : List ℚ),
      calc_grid_of_force_and_deriv_vals evaluate_spline evaluate_spline_deriv ispec
          interaction_class_column_index spline_coeffs index_among_defined binwidth =
        some (axis_vals, force_vals, deriv_vals) ∧
      calc_grid_of_force_vals evaluate_spline ispec interaction_class_column_index spline_coeffs
          index_among_defined binwidth = some (axis_vals.take n, force_vals.take n) ∧
      axis_vals.length = (int_cast ((ispec.upper_cutoffs.getD index_among_defined 0 -
        ispec.lower_cutoffs.getD index_among_defined 0) / binwidth + 1)).toNat ∧
      force_vals.length = (int_cast ((ispec.upper_cutoffs.getD index_among_defined 0 -
        ispec.lower_cutoffs.getD index_among_defined 0) / binwidth + 1)).toNat ∧
      n ≤ axis_vals.length ∧
      ∀ i, n ≤ i → axis_vals.getD i 0 = 0 ∧ force_vals.getD i 0 = 0 := by
  obtain ⟨c1, c2⟩ := grid_count
    (((int_cast (ispec.lower_cutoffs.getD index_among_defined 0 / binwidth) + 1 : Int) : ℚ) *
      binwidth) (ispec.upper_cutoffs.getD index_among_defined 0) binwidth hbw
  have hN := grid_count_le (ispec.lower_cutoffs.getD index_among_defined 0)
    (ispec.upper_cutoffs.getD index_among_defined 0)
    (((int_cast (ispec.lower_cutoffs.getD index_among_defined 0 / binwidth) + 1 : Int) : ℚ) *
      binwidth) binwidth hle hbw (grid_start_gt _ _ hbw)
  generalize hNdef : (⌈(ispec.upper_cutoffs.getD index_among_defined 0 -
    ((int_cast (ispec.lower_cutoffs.getD index_among_defined 0 / binwidth) + 1 : Int) : ℚ) *
      binwidth) / binwidth⌉).toNat = N at c1 c2 hN
  obtain ⟨av1, fv1, e, l1, l2, g1, g2⟩ := grid_of_force_loop_spec
    (evaluate_spline index_among_defined interaction_class_column_index spline_coeffs)
    (ispec.upper_cutoffs.getD index_among_defined 0) binwidth N
    (int_cast ((ispec.upper_cutoffs.getD index_among_defined 0 -
      ispec.lower_cutoffs.getD index_among_defined 0) / binwidth + 1)).toNat
    (((int_cast (ispec.lower_cutoffs.getD index_among_defined 0 / binwidth) + 1 : Int) : ℚ) *
      binwidth) 0
    (List.replicate (int_cast ((ispec.upper_cutoffs.getD index_among_defined 0 -
      ispec.lower_cutoffs.getD index_among_defined 0) / binwidth + 1)).toNat 0)
    (List.replicate (int_cast ((ispec.upper_cutoffs.getD index_among_defined 0 -
      ispec.lower_cutoffs.getD index_among_defined 0) / binwidth + 1)).toNat 0)
    c1 c2 hN
  rw [List.length_replicate] at l1 l2
  simp only [zero_add] at e
  have ha := grid_loops_agree
    (evaluate_spline index_among_defined interaction_class_column_index spline_coeffs)
    (evaluate_spline_deriv index_among_defined interaction_class_column_index spline_coeffs)
    (ispec.upper_cutoffs.getD index_among_defined 0) binwidth
    (int_cast ((ispec.upper_cutoffs.getD index_among_defined 0 -
      ispec.lower_cutoffs.getD index_among_defined 0) / binwidth + 1)).toNat
    (((int_cast (ispec.lower_cutoffs.getD index_among_defined 0 / binwidth) + 1 : Int) : ℚ) *
      binwidth) 0
    (List.replicate (int_cast ((ispec.upper_cutoffs.getD index_among_defined 0 -
      ispec.lower_cutoffs.getD index_among_defined 0) / binwidth + 1)).toNat 0)
    (List.replicate (int_cast ((ispec.upper_cutoffs.getD index_among_defined 0 -
      ispec.lower_cutoffs.getD index_among_defined 0) / binwidth + 1)).toNat 0)
    (List.replicate (int_cast ((ispec.upper_cutoffs.getD index_among_defined 0 -
      ispec.lower_cutoffs.getD index_among_defined 0) / binwidth + 1)).toNat 0)
  rw [e] at ha
  cases hd : grid_of_force_and_deriv_loop
      (evaluate_spline index_among_defined interaction_class_column_index spline_coeffs)
      (evaluate_spline_deriv index_among_defined interaction_class_column_index spline_coeffs)
      (ispec.upper_cutoffs.getD index_among_defined 0) binwidth
      (int_cast ((ispec.upper_cutoffs.getD index_among_defined 0 -
        ispec.lower_cutoffs.getD index_among_defined 0) / binwidth + 1)).toNat
      (((int_cast (ispec.lower_cutoffs.getD index_among_defined 0 / binwidth) + 1 : Int) : ℚ) *
        binwidth) 0
      (List.replicate (int_cast ((ispec.upper_cutoffs.getD index_among_defined 0 -
        ispec.lower_cutoffs.getD index_among_defined 0) / binwidth + 1)).toNat 0)
      (List.replicate (int_cast ((ispec.upper_cutoffs.getD index_among_defined 0 -
        ispec.lower_cutoffs.getD index_among_defined 0) / binwidth + 1)).toNat 0)
      (List.replicate (int_cast ((ispec.upper_cutoffs.getD index_among_defined 0 -
        ispec.lower_cutoffs.getD index_among_defined 0) / binwidth + 1)).toNat 0) with
  | none =>
    rw [hd] at ha
    exact absurd ha (by simp)
  | some r =>
    rw [hd] at ha
    simp only [Option.map_some', Option.some.injEq, Prod.mk.injEq] at ha
    obtain ⟨r1, r2, r3⟩ := ha
    refine ⟨N, av1, fv1, r.2.2.1, ?_, ?_, l1, l2, by omega, fun i hi => ⟨?_, ?_⟩⟩
    · unfold calc_grid_of_force_and_deriv_vals
      simp only
      rw [hd]
      simp only [r1, r2]
    · unfold calc_grid_of_force_vals
      simp only
      rw [e]
    · rw [g1 i, if_neg (by omega)]
      exact getD_replicate_zero _ _ _
    · rw [g2 i, if_neg (by omega)]
      exact getD_replicate_zero _ _ _

/-! ## Three-body column indices -/

/-- A write keeps the length of the vector. -/
theorem vector_write_length (v v1 : List Int) (i : Nat) (x : Int)
    (h : vector_write v i x = some v1) : v1.length = v.length := by
  unfold vector_write at h
  split at h
  · simp only [Option.some.injEq] at h
    rw [← h, List.length_set]
  · exact absurd h (by simp)

/-- The loop fails as soon as one of its indices is past the end of the vector. -/
theorem three_body_column_loop_none (c : Int) (l : List Nat) :
    ∀ v : List Int, (∃ i, i ∈ l ∧ v.length ≤ i) → three_body_column_loop c l v = none := by
  induction l with
  | nil =>
    rintro v ⟨i, hi, _⟩
    exact absurd hi (List.not_mem_nil i)
  | cons a rest ih =>
    rintro v ⟨i, hi, hlen⟩
    unfold three_body_column_loop
    cases hw : vector_write v a ((a : Int) * c) with
    | none => rfl
    | some v1 =>
      simp only
      have hl := vector_write_length v v1 a _ hw
      rcases List.mem_cons.mp hi with e | hmem
      · exfalso
        unfold vector_write at hw
        rw [if_neg (by omega)] at hw
        exact absurd hw (by simp)
      · exact ih v1 ⟨i, hmem, by omega⟩

/-- On a vector all of whose indices `start .. start + k - 1` are inside, the loop over
these indices succeeds, keeps the length, writes `i * c` at each of them and leaves the
other entries. -/
theorem three_body_column_loop_some (c : Int) (k : Nat) :
    ∀ (start : Nat) (v : List Int), start + k ≤ v.length →
      ∃ v1, three_body_column_loop c (List.range' start k) v = some v1 ∧
        v1.length = v.length ∧
        ∀ j, v1.getD j 0 = if start ≤ j ∧ j < start + k then (j : Int) * c else v.getD j 0 := by
  induction k with
  | zero =>
    intro start v _
    refine ⟨v, rfl, rfl, fun j => ?_⟩
    rw [if_neg (by omega)]
  | succ k ih =>
    intro start v hlen
    rw [List.range'_succ]
    unfold three_body_column_loop vector_write
    rw [if_pos (by omega)]
    simp only
    obtain ⟨v1, h1, h2, h3⟩ := ih (start + 1) (v.set start ((start : Int) * c))
      (by rw [List.length_set]; omega)
    refine ⟨v1, h1, by rw [h2, List.length_set], fun j => ?_⟩
    rw [h3 j]
    by_cases hj : j = start
    · rw [hj, if_neg (by omega), if_pos (by omega), getD_set_eq _ _ _ _ (by omega)]
    · rw [getD_set_ne _ _ _ _ _ (Ne.symm hj)]
      by_cases hc : start + 1 ≤ j ∧ j < start + 1 + k
      · rw [if_pos hc, if_pos (by omega)]
      · rw [if_neg hc, if_neg (by omega)]

/-! ## Geometry: the particle folded into the box -/

/-- One coordinate of `get_minimum_image`: from `[-2h, 4h)` the result lies in `[0, 2h)`,
differs from the input by `-2h`, `0` or `2h`, and is left alone by a second pass. -/
theorem get_minimum_image_component_spec {K : Type} [LinearOrderedField K] (x h : K)
    (hlo : -(2 * h) ≤ x) (hhi : x < 4 * h) :
    (0 ≤ get_minimum_image_component x h ∧ get_minimum_image_component x h < 2 * h) ∧
    (∃ n : Int, get_minimum_image_component x h = x + (n : K) * (2 * h)) ∧
    get_minimum_image_component (get_minimum_image_component x h) h =
      get_minimum_image_component x h := by
  unfold get_minimum_image_component
  by_cases h1 : x < 0
  · rw [if_pos h1]
    have h2 : ¬ (x + 2 * h < 0) := by linarith
    have h3 : ¬ (x + 2 * h ≥ 2 * h) := by linarith
    refine ⟨⟨by linarith, by linarith⟩, ⟨1, by push_cast; ring⟩, ?_⟩
    rw [if_neg h2, if_neg h3]
  · rw [if_neg h1]
    by_cases h2 : x ≥ 2 * h
    · rw [if_pos h2]
      have h3 : ¬ (x - 2 * h < 0) := by linarith
      have h4 : ¬ (x - 2 * h ≥ 2 * h) := by linarith
      refine ⟨⟨by linarith, by linarith⟩, ⟨-1, by push_cast; ring⟩, ?_⟩
      rw [if_neg h3, if_neg h4]
    · rw [if_neg h2]
      refine ⟨⟨by linarith, by linarith⟩, ⟨0, by push_cast; ring⟩, ?_⟩
      rw [if_neg h1, if_neg h2]

/-- The call `get_minimum_image` changes no particle but `l`. -/
theorem get_minimum_image_other {K : Type} [LinearOrderedField K] (l : Nat)
    (x : Nat → Vec3 K) (half : Vec3 K) (j : Nat) (hj : j ≠ l) :
    get_minimum_image l x half j = x j := by
  unfold get_minimum_image
  exact Function.update_noteq hj _ _

/-- The position `get_minimum_image` stores for particle `l`. -/
theorem get_minimum_image_self {K : Type} [LinearOrderedField K] (l : Nat)
    (x : Nat → Vec3 K) (half : Vec3 K) :
    get_minimum_image l x half l = Vec3.map2 get_minimum_image_component (x l) half := by
  unfold get_minimum_image
  exact Function.update_same l _ x

/-! ## The bootstrapping standard error -/

/-- The sum of the squared deviations of a list from any value `c`. -/
theorem sum_sq_dev {K : Type} [Field K] (xs : List K) (c : K) :
    (xs.map (fun x => (x - c) ^ 2)).sum =
      (xs.map (fun x => x * x)).sum - 2 * c * xs.sum + (xs.length : K) * c ^ 2 := by
  induction xs with
  | nil => simp
  | cons x xs ih =>
    simp only [List.map_cons, List.sum_cons, List.length_cons, ih]
    push_cast
    ring

/-- The inner loop of `calculate_bootstrapping_standard_error` ends with the sum and the
sum of squares of the sample. -/
theorem bootstrapping_sums_eq {K : Type} [Field K] (master_vals : List K)
    (vals : List (List K)) (n i : Nat) :
    (bootstrapping_sums master_vals vals n i).1 =
      (bootstrapping_sample master_vals vals n i).sum ∧
    (bootstrapping_sums master_vals vals n i).2 =
      ((bootstrapping_sample master_vals vals n i).map (fun x => x * x)).sum := by
  unfold bootstrapping_sums bootstrapping_sample
  induction n with
  | zero => simp
  | succ n ih =>
    rw [List.range_succ, List.foldl_append, List.map_append, List.foldl_cons, List.foldl_nil]
    simp only [List.map_cons, List.map_nil, List.sum_cons, List.sum_append, List.sum_nil,
      List.map_append, List.map_map] at ih ⊢
    rw [ih.1, ih.2]
    constructor
    · ring
    · ring

/-- The sample at a grid point has one entry more than there are estimates. -/
theorem bootstrapping_sample_length {K : Type} [Field K] (master_vals : List K)
    (vals : List (List K)) (n i : Nat) :
    (bootstrapping_sample master_vals vals n i).length = n + 1 := by
  simp [bootstrapping_sample]

/-- The radicand is the sum of the squared deviations from the mean, that is `n + 1`
times the population variance of the sample; over an ordered field it is at most the sum of
the squared deviations from any other value. -/
theorem bootstrapping_radicand_eq {K : Type} [LinearOrderedField K] (master_vals : List K)
    (vals : List (List K)) (n i : Nat) :
    bootstrapping_radicand master_vals vals n i =
      ((n + 1 : Nat) : K) * population_variance (bootstrapping_sample master_vals vals n i) ∧
    0 ≤ bootstrapping_radicand master_vals vals n i ∧
    ∀ c : K, bootstrapping_radicand master_vals vals n i ≤
      ((bootstrapping_sample master_vals vals n i).map (fun x => (x - c) ^ 2)).sum := by
  obtain ⟨e1, e2⟩ := bootstrapping_sums_eq master_vals vals n i
  have hl := bootstrapping_sample_length master_vals vals n i
  have hn : (((n + 1 : Nat) : K)) ≠ 0 := by
    have : (0 : K) < ((n + 1 : Nat) : K) := by exact_mod_cast Nat.succ_pos n
    exact ne_of_gt this
  have hpos : (0 : K) < ((n + 1 : Nat) : K) := by exact_mod_cast Nat.succ_pos n
  generalize hxs : bootstrapping_sample master_vals vals n i = xs at e1 e2 hl
  have hdev : ∀ c : K, bootstrapping_radicand master_vals vals n i =
      (xs.map (fun x => (x - c) ^ 2)).sum -
        ((n + 1 : Nat) : K) * (c - xs.sum / ((n + 1 : Nat) : K)) ^ 2 := by
    intro c
    unfold bootstrapping_radicand
    rw [e1, e2, sum_sq_dev xs c, hl]
    field_simp
    ring
  have hnonneg : ∀ l : List K, ∀ c : K, 0 ≤ (l.map (fun x => (x - c) ^ 2)).sum := by
    intro l c
    apply List.sum_nonneg
    intro y hy
    obtain ⟨x, _, rfl⟩ := List.mem_map.mp hy
    exact sq_nonneg _
  have hmean := hdev (xs.sum / ((n + 1 : Nat) : K))
  rw [sub_self] at hmean
  simp only [ne_eq, OfNat.ofNat_ne_zero, not_false_eq_true, zero_pow, mul_zero, sub_zero]
    at hmean
  refine ⟨?_, ?_, ?_⟩
  · unfold population_variance
    rw [hl, hmean]
    field_simp
  · rw [hmean]
    exact hnonneg xs _
  · intro c
    rw [hdev c]
    have : 0 ≤ ((n + 1 : Nat) : K) * (c - xs.sum / ((n + 1 : Nat) : K)) ^ 2 :=
      mul_nonneg (le_of_lt hpos) (sq_nonneg _)
    linarith

/-- An instance with exact values: the master values `[1, 5]` and the two estimates
`[3, 5]` and `[5, 5]` give the radicands 8 and 0; the variance of `1, 3, 5` is `8/3`. -/
theorem calculate_bootstrapping_standard_error_example :
    bootstrapping_radicand [1, 5] [[3, 5], [5, 5]] 2 0 = (8 : ℚ) ∧
    bootstrapping_radicand [1, 5] [[3, 5], [5, 5]] 2 1 = (0 : ℚ) ∧
    population_variance (bootstrapping_sample [1, 5] [[3, 5], [5, 5]] 2 0) = (8 / 3 : ℚ) ∧
    (calculate_bootstrapping_standard_error example_sqrt [1, 5] [[3, 5], [5, 5]] 2).getD 1 1 =
      0 := by
  norm_num [bootstrapping_radicand, bootstrapping_sums, population_variance,
    bootstrapping_sample, calculate_bootstrapping_standard_error, example_sqrt,
    List.range_succ]

/-! ## Output of the force-matching results -/

/-- The coefficient loop of `write_one_param_bspline_file` reads the columns of the
loops of `write_one_param_linear_spline_file` shifted down by
`interaction_class_column_index`. -/
theorem bspline_coefficient_positions_eq (icomp : InteractionClassComputer) (d : Nat) :
    bspline_coefficient_positions icomp d =
      (linear_spline_columns icomp d).map
        (fun i => i - icomp.interaction_class_column_index) := by
  unfold bspline_coefficient_positions linear_spline_columns
  simp only [List.map_map]
  have e : ∀ a b c : Int, c + b - (c + a) = b - a := by
    intro a b c
    ring
  rw [e]
  apply List.map_congr_left
  intro k _
  simp only [Function.comp_apply]
  ring

/-- The unsigned bin number of the `.b` file, `k - n` modulo `2^32` for `k < n`. -/
theorem unsigned_bin_number_b (c a b : Int) (k : Nat) (hk : (k : Int) < b - a)
    (hn : b - a ≤ 4294967296) :
    (c + a + (k : Int) - c - b) % 4294967296 = 4294967296 - (b - a) + (k : Int) := by
  have e : c + a + (k : Int) - c - b = (4294967296 - (b - a) + (k : Int)) + (-1) * 4294967296 := by
    ring
  rw [e, Int.add_mul_emod_self]
  apply Int.emod_eq_of_lt
  · have : (0 : Int) ≤ (k : Int) := Int.natCast_nonneg k
    linarith
  · linarith

/-- The unsigned bin number of the right-hand-side file, `k` itself. -/
theorem unsigned_bin_number_rhs (c a b : Int) (k : Nat) (hk : (k : Int) < b - a)
    (hn : b - a ≤ 4294967296) :
    (c + a + (k : Int) - c - a) % 4294967296 = (k : Int) := by
  have e : c + a + (k : Int) - c - a = (k : Int) := by ring
  rw [e]
  apply Int.emod_eq_of_lt (Int.natCast_nonneg k)
  linarith

/-- An error of the loop over one class is the unrecognized-basis exit. -/
theorem write_class_interactions_error (mat : MATRIX_DATA) (p : Nat)
    (icomp : InteractionClassComputer) (l : List Nat) :
    ∀ (calls : List OutputCall) (e : String × List OutputCall),
      write_class_interactions mat p icomp l calls = Except.error e →
      e.1 = "Unrecognized basis type." := by
  induction l with
  | nil =>
    intro calls e h
    simp [write_class_interactions] at h
  | cons i rest ih =>
    intro calls e h
    unfold write_class_interactions at h
    split at h
    · split at h
      · split at h
        · exact ih _ e h
        · split at h
          · exact ih _ e h
          · injection h with h
            rw [← h]
      · split at h
        · exact ih _ e h
        · split at h
          · exact ih _ e h
          · injection h with h
            rw [← h]
    · exact ih _ e h

/-- The loop over a class with an unrecognized basis type exits when it visits a matched
interaction. -/
theorem write_class_interactions_unrecognized (mat : MATRIX_DATA) (p : Nat)
    (icomp : InteractionClassComputer)
    (hb : icomp.ispec.basis_type ≠ kBSpline ∧ icomp.ispec.basis_type ≠ kLinearSpline)
    (l : List Nat) :
    ∀ (calls : List OutputCall),
      (∃ i, i ∈ l ∧ icomp.ispec.defined_to_matched_intrxn_index_map.getD i 0 ≠ 0) →
      ∃ e, write_class_interactions mat p icomp l calls = Except.error e := by
  induction l with
  | nil =>
    intro calls h
    obtain ⟨i, hi, _⟩ := h
    exact absurd hi (List.not_mem_nil i)
  | cons i rest ih =>
    intro calls h
    unfold write_class_interactions
    by_cases hm : icomp.ispec.defined_to_matched_intrxn_index_map.getD i 0 ≠ 0
    · rw [if_pos hm]
      by_cases hboot : mat.bootstrapping_flag = 1
      · rw [if_pos hboot]
        simp only
        rw [if_neg hb.1, if_neg hb.2]
        exact ⟨_, rfl⟩
      · rw [if_neg hboot]
        simp only
        rw [if_neg hb.1, if_neg hb.2]
        exact ⟨_, rfl⟩
    · rw [if_neg hm]
      apply ih
      obtain ⟨j, hj, hjm⟩ := h
      rcases List.mem_cons.mp hj with e | hj
      · rw [e] at hjm
        exact absurd hjm hm
      · exact ⟨j, hj, hjm⟩

/-- The loop over `icomp_list` exits with the unrecognized-basis diagnostic when one of
the classes still to visit has a matched interaction and an unrecognized basis type. -/
theorem write_interaction_classes_unrecognized (mat : MATRIX_DATA)
    (l : List InteractionClassComputer) :
    ∀ (p : Nat) (calls : List OutputCall),
      (∃ icomp, icomp ∈ l ∧
        (∃ i, i < icomp.ispec.defined_to_matched_intrxn_index_map.length ∧
          icomp.ispec.defined_to_matched_intrxn_index_map.getD i 0 ≠ 0) ∧
        icomp.ispec.basis_type ≠ kBSpline ∧ icomp.ispec.basis_type ≠ kLinearSpline) →
      ∃ made, write_interaction_classes mat p l calls =
        Except.error ("Unrecognized basis type.", made) := by
  induction l with
  | nil =>
    intro p calls h
    obtain ⟨icomp, hi, _⟩ := h
    exact absurd hi (List.not_mem_nil icomp)
  | cons icomp rest ih =>
    intro p calls h
    unfold write_interaction_classes
    cases hr : write_class_interactions mat p icomp
        (List.range icomp.ispec.defined_to_matched_intrxn_index_map.length) calls with
    | error e =>
      have hmsg := write_class_interactions_error mat p icomp _ calls e hr
      refine ⟨e.2, ?_⟩
      simp only
      rw [← hmsg]
    | ok calls1 =>
      simp only
      apply ih
      obtain ⟨ic, hic, hmatched, hbasis⟩ := h
      rcases List.mem_cons.mp hic with e | hic
      · rw [e] at hmatched hbasis
        obtain ⟨i, hi, him⟩ := hmatched
        obtain ⟨e2, he2⟩ := write_class_interactions_unrecognized mat p icomp hbasis
          (List.range icomp.ispec.defined_to_matched_intrxn_index_map.length) calls
          ⟨i, List.mem_range.mpr hi, him⟩
        rw [hr] at he2
        exact absurd he2 (by simp)
      · exact ⟨ic, hic, hmatched, hbasis⟩

/-- The grid of a range `[0, 3]` with bin width 1: the points 1 and 2, with the values of
the evaluator at them. -/
theorem grid_zero_three (evaluate_spline : Nat → Int → List ℚ → ℚ → ℚ)
    (ispec : InteractionClassSpec) (c : Int) (spline_coeffs : List ℚ) (d : Nat)
    (hl : ispec.lower_cutoffs.getD d 0 = 0) (hu : ispec.upper_cutoffs.getD d 0 = 3) :
    calc_grid_of_force_vals evaluate_spline ispec c spline_coeffs d 1 =
      some ([1, 2], [evaluate_spline d c spline_coeffs 1, evaluate_spline d c spline_coeffs 2]) := by
  have h4 : int_cast (4 : ℚ) = 4 := by
    rw [int_cast_of_nonneg _ (by norm_num), Int.floor_eq_iff]
    norm_num
  have h0 : int_cast (0 : ℚ) = 0 := by
    rw [int_cast_of_nonneg _ (by norm_num), Int.floor_eq_iff]
    norm_num
  have e1 : ((3 : ℚ) - 0) / 1 + 1 = 4 := by norm_num
  have e2 : (0 : ℚ) / 1 = 0 := by norm_num
  have t4 : (4 : Int).toNat = 4 := rfl
  unfold calc_grid_of_force_vals
  simp only
  rw [hl, hu, e1, e2, h4, h0, t4]
  norm_num [grid_of_force_loop, List.replicate_succ]

/-- The vectors `calc_grid_of_force_and_deriv_vals` returns for a range `[0, u]` with
`u` 2 or 3 and bin width 1: `u + 1` entries each, of which the first `u - 1` are
written. -/
theorem grid_deriv_zero_upper (evaluate_spline evaluate_spline_deriv : Nat → Int → List ℚ → ℚ → ℚ)
    (ispec : InteractionClassSpec) (c : Int) (spline_coeffs : List ℚ) (d : Nat)
    (hl : ispec.lower_cutoffs.getD d 0 = 0) :
    (ispec.upper_cutoffs.getD d 0 = 3 →
      calc_grid_of_force_and_deriv_vals evaluate_spline evaluate_spline_deriv ispec c
          spline_coeffs d 1 =
        some ([1, 2, 0, 0],
          [evaluate_spline d c spline_coeffs 1, evaluate_spline d c spline_coeffs 2, 0, 0],
          [evaluate_spline_deriv d c spline_coeffs 1, evaluate_spline_deriv d c spline_coeffs 2,
            0, 0])) ∧
    (ispec.upper_cutoffs.getD d 0 = 2 →
      calc_grid_of_force_and_deriv_vals evaluate_spline evaluate_spline_deriv ispec c
          spline_coeffs d 1 =
        some ([1, 0, 0], [evaluate_spline d c spline_coeffs 1, 0, 0],
          [evaluate_spline_deriv d c spline_coeffs 1, 0, 0])) := by
  have h4 : int_cast (4 : ℚ) = 4 := by
    rw [int_cast_of_nonneg _ (by norm_num), Int.floor_eq_iff]
    norm_num
  have h3 : int_cast (3 : ℚ) = 3 := by
    rw [int_cast_of_nonneg _ (by norm_num), Int.floor_eq_iff]
    norm_num
  have h0 : int_cast (0 : ℚ) = 0 := by
    rw [int_cast_of_nonneg _ (by norm_num), Int.floor_eq_iff]
    norm_num
  have e1 : ((3 : ℚ) - 0) / 1 + 1 = 4 := by norm_num
  have e1b : ((2 : ℚ) - 0) / 1 + 1 = 3 := by norm_num
  have e2 : (0 : ℚ) / 1 = 0 := by norm_num
  have t4 : (4 : Int).toNat = 4 := rfl
  have t3 : (3 : Int).toNat = 3 := rfl
  constructor
  · intro hu
    unfold calc_grid_of_force_and_deriv_vals
    simp only
    rw [hl, hu, e1, e2, h4, h0, t4]
    norm_num [grid_of_force_and_deriv_loop, List.replicate_succ]
  · intro hu
    unfold calc_grid_of_force_and_deriv_vals
    simp only
    rw [hl, hu, e1b, e2, h3, h0, t3]
    norm_num [grid_of_force_and_deriv_loop, List.replicate_succ]

/-! ## Geometry: the Stillinger-Weber angle term -/

/-- The two distances a successful call of `conditionally_calc_angle_and_intermediates`
stores: the square roots of the two squared distances, neither of which exceeds
`cutoff2`. -/
theorem conditionally_calc_angle_and_intermediates_distances {K : Type}
    [LinearOrderedField K] (m : MathEnv K) (particle_ids : List Nat)
    (particle_positions : Nat → Vec3 K) (half : Vec3 K) (cutoff2 : K)
    (a : AngleIntermediates K)
    (h : (conditionally_calc_angle_and_intermediates m particle_ids particle_positions half
      cutoff2 a).1 = true) :
    ((conditionally_calc_angle_and_intermediates m particle_ids particle_positions half cutoff2
        a).2.rr_20 =
      m.sqrt (dot_product
        (subtract_min_image_vectors [particle_ids.getD 2 0, particle_ids.getD 0 0]
          particle_positions half)
        (subtract_min_image_vectors [particle_ids.getD 2 0, particle_ids.getD 0 0]
          particle_positions half)) ∧
     dot_product
        (subtract_min_image_vectors [particle_ids.getD 2 0, particle_ids.getD 0 0]
          particle_positions half)
        (subtract_min_image_vectors [particle_ids.getD 2 0, particle_ids.getD 0 0]
          particle_positions half) ≤ cutoff2) ∧
    ((conditionally_calc_angle_and_intermediates m particle_ids particle_positions half cutoff2
        a).2.rr_21 =
      m.sqrt (dot_product
        (subtract_min_image_vectors [particle_ids.getD 2 0, particle_ids.getD 1 0]
          particle_positions half)
        (subtract_min_image_vectors [particle_ids.getD 2 0, particle_ids.getD 1 0]
          particle_positions half)) ∧
     dot_product
        (subtract_min_image_vectors [particle_ids.getD 2 0, particle_ids.getD 1 0]
          particle_positions half)
        (subtract_min_image_vectors [particle_ids.getD 2 0, particle_ids.getD 1 0]
          particle_positions half) ≤ cutoff2) := by
  have e20 := conditionally_calc_squared_distance_and_derivatives_eq
    [particle_ids.getD 2 0, particle_ids.getD 0 0] particle_positions half cutoff2 0
    a.dist_derivs_20
  have e21 := conditionally_calc_squared_distance_and_derivatives_eq
    [particle_ids.getD 2 0, particle_ids.getD 1 0] particle_positions half cutoff2 0
    a.dist_derivs_21
  unfold conditionally_calc_angle_and_intermediates at h ⊢
  simp only at h ⊢
  rw [e20, e21] at h ⊢
  by_cases c20 : dot_product
      (subtract_min_image_vectors [particle_ids.getD 2 0, particle_ids.getD 0 0]
        particle_positions half)
      (subtract_min_image_vectors [particle_ids.getD 2 0, particle_ids.getD 0 0]
        particle_positions half) > cutoff2
  · rw [if_pos c20] at h
    simp at h
  · by_cases c21 : dot_product
        (subtract_min_image_vectors [particle_ids.getD 2 0, particle_ids.getD 1 0]
          particle_positions half)
        (subtract_min_image_vectors [particle_ids.getD 2 0, particle_ids.getD 1 0]
          particle_positions half) > cutoff2
    · rw [if_pos c21] at h
      simp at h
    · rw [if_neg c20, if_neg c21]
      simp only [Bool.not_true, Bool.or_self, Bool.false_eq_true, if_false]
      exact ⟨⟨trivial, not_lt.mp c20⟩, ⟨trivial, not_lt.mp c21⟩⟩

/-! ## Rounding to a double -/

/-- The integer within less than `1/2` of `y`, or the even one at distance `1/2`, is
`round_half_even y`. -/
theorem round_half_even_eq (y : ℚ) (n : Int)
    (h : |y - (n : ℚ)| < 1/2 ∨ (|y - (n : ℚ)| = 1/2 ∧ n % 2 = 0)) :
    round_half_even y = n := by
  unfold round_half_even
  rcases h with h | ⟨h, hev⟩
  · rw [abs_lt] at h
    by_cases hn : (n : ℚ) ≤ y
    · have hf : ⌊y⌋ = n := by
        rw [Int.floor_eq_iff]
        constructor
        · exact hn
        · linarith [h.2]
      rw [hf, if_pos (by linarith [h.2])]
    · have hf : ⌊y⌋ = n - 1 := by
        rw [Int.floor_eq_iff]
        push_cast
        constructor
        · linarith [h.1]
        · push_neg at hn
          linarith
      rw [hf]
      push_cast
      rw [if_neg (by linarith [h.1]), if_pos (by linarith [h.1])]
      ring
  · by_cases hn : (n : ℚ) ≤ y
    · have hy : y - n = 1/2 := by
        rw [abs_of_nonneg (by linarith)] at h
        exact h
      have hf : ⌊y⌋ = n := by
        rw [Int.floor_eq_iff]
        constructor
        · exact hn
        · linarith
      rw [hf, if_neg (by linarith), if_neg (by linarith), if_pos hev]
    · push_neg at hn
      have hy : y - n = -(1/2) := by
        rw [abs_of_neg (by linarith)] at h
        linarith
      have hf : ⌊y⌋ = n - 1 := by
        rw [Int.floor_eq_iff]
        push_cast
        constructor
        · linarith
        · linarith
      rw [hf]
      push_cast
      have hodd : ¬ ((n - 1) % 2 = 0) := by omega
      rw [if_neg (by linarith), if_neg (by linarith), if_neg hodd]
      ring

/-- The value of `round_double x` from the binary exponent `e` of `x` and the integer `n`
nearest to the significand `x * 2^(52 - e)`. -/
theorem round_double_eq (x : ℚ) (e n : Int) (hlo : (2 : ℚ) ^ e ≤ |x|)
    (hhi : |x| < (2 : ℚ) ^ (e + 1))
    (h : |x * (2 : ℚ) ^ (52 - e) - (n : ℚ)| < 1/2 ∨
      (|x * (2 : ℚ) ^ (52 - e) - (n : ℚ)| = 1/2 ∧ n % 2 = 0)) :
    round_double x = (n : ℚ) / (2 : ℚ) ^ (52 - e) := by
  have hpos : 0 < |x| := lt_of_lt_of_le (zpow_pos (by norm_num) e) hlo
  have hx : x ≠ 0 := abs_pos.mp hpos
  have hlog : Int.log 2 |x| = e := by
    apply le_antisymm
    · have := (Int.lt_zpow_iff_log_lt (by norm_num : 1 < 2) hpos (x := e + 1)).mp
        (by exact_mod_cast hhi)
      omega
    · exact (Int.zpow_le_iff_le_log (by norm_num : 1 < 2) hpos).mp (by exact_mod_cast hlo)
  unfold round_double
  rw [if_neg hx, hlog, round_half_even_eq _ n h]

/-- `round_double_eq` for a positive `x` whose significand is not a tie. -/
theorem round_double_pos_eq (x : ℚ) (e n : Int) (hlo : (2 : ℚ) ^ e ≤ x)
    (hhi : x < (2 : ℚ) ^ (e + 1))
    (h1 : (n : ℚ) - 1/2 < x * (2 : ℚ) ^ (52 - e))
    (h2 : x * (2 : ℚ) ^ (52 - e) < (n : ℚ) + 1/2) :
    round_double x = (n : ℚ) / (2 : ℚ) ^ (52 - e) := by
  have hpos : 0 < x := lt_of_lt_of_le (zpow_pos (by norm_num) e) hlo
  apply round_double_eq x e n
  · rw [abs_of_pos hpos]
    exact hlo
  · rw [abs_of_pos hpos]
    exact hhi
  · left
    rw [abs_lt]
    constructor <;> linarith

/-- `round_double_eq` for a negative `x` whose significand is not a tie. -/
theorem round_double_neg_eq (x : ℚ) (e n : Int) (hlo : (2 : ℚ) ^ e ≤ -x)
    (hhi : -x < (2 : ℚ) ^ (e + 1))
    (h1 : (n : ℚ) - 1/2 < x * (2 : ℚ) ^ (52 - e))
    (h2 : x * (2 : ℚ) ^ (52 - e) < (n : ℚ) + 1/2) :
    round_double x = (n : ℚ) / (2 : ℚ) ^ (52 - e) := by
  have hpos : 0 < -x := lt_of_lt_of_le (zpow_pos (by norm_num) e) hlo
  have hneg : x < 0 := by linarith
  apply round_double_eq x e n
  · rw [abs_of_neg hneg]
    exact hlo
  · rw [abs_of_neg hneg]
    exact hhi
  · left
    rw [abs_lt]
    constructor <;> linarith

/-- Zero is a double. -/
theorem round_double_zero : round_double 0 = 0 := by
  unfold round_double
  rw [if_pos rfl]

/-- `round_double_eq` for a positive `x` whose significand lies halfway between two
integers: the even one, `n`, is taken. -/
theorem round_double_pos_tie_eq (x : ℚ) (e n : Int) (hlo : (2 : ℚ) ^ e ≤ x)
    (hhi : x < (2 : ℚ) ^ (e + 1))
    (h : (x * (2 : ℚ) ^ (52 - e) - (n : ℚ)) ^ 2 = (1/2) ^ 2) (hev : n % 2 = 0) :
    round_double x = (n : ℚ) / (2 : ℚ) ^ (52 - e) := by
  have hpos : 0 < x := lt_of_lt_of_le (zpow_pos (by norm_num) e) hlo
  apply round_double_eq x e n
  · rw [abs_of_pos hpos]
    exact hlo
  · rw [abs_of_pos hpos]
    exact hhi
  · right
    refine ⟨?_, hev⟩
    have := (sq_eq_sq_iff_abs_eq_abs _ _).mp h
    rw [this, abs_of_pos (by norm_num : (0 : ℚ) < 1/2)]

/-- A number with a significand of at most 53 bits is a double: rounding leaves
`m * 2^k` unchanged when `|m| < 2^53`. -/
theorem round_double_of_dyadic (x : ℚ) (m k : Int) (hx : x = (m : ℚ) * (2 : ℚ) ^ k)
    (hlo : -9007199254740992 < m) (hhi : m < 9007199254740992) : round_double x = x := by
  by_cases hm : m = 0
  · rw [hx, hm]
    simp [round_double]
  have hnat : 0 < m.natAbs := Int.natAbs_pos.mpr hm
  have hne : m.natAbs ≠ 0 := Nat.pos_iff_ne_zero.mp hnat
  have hlt : m.natAbs < 2 ^ 53 := by omega
  have ht1 : 2 ^ Nat.log 2 m.natAbs ≤ m.natAbs := Nat.pow_log_le_self 2 hne
  have ht2 : m.natAbs < 2 ^ (Nat.log 2 m.natAbs + 1) :=
    Nat.lt_pow_succ_log_self (by norm_num) _
  have ht3 : Nat.log 2 m.natAbs < 53 := Nat.log_lt_of_lt_pow hne hlt
  generalize Nat.log 2 m.natAbs = t at ht1 ht2 ht3
  have habs : |(m : ℚ)| = (m.natAbs : ℚ) := by
    rw [Nat.cast_natAbs, Int.cast_abs]
  have h2k : (0 : ℚ) < (2 : ℚ) ^ k := zpow_pos (by norm_num) k
  have hxabs : |x| = (m.natAbs : ℚ) * (2 : ℚ) ^ k := by
    rw [hx, abs_mul, habs, abs_of_pos h2k]
  have hcast1 : ((2 : ℚ) ^ t) ≤ (m.natAbs : ℚ) := by exact_mod_cast ht1
  have hcast2 : (m.natAbs : ℚ) < (2 : ℚ) ^ (t + 1) := by exact_mod_cast ht2
  have two_ne : (2 : ℚ) ≠ 0 := by norm_num
  have hscale : x * (2 : ℚ) ^ (52 - ((t : Int) + k)) =
      ((m * 2 ^ (52 - t) : Int) : ℚ) := by
    rw [hx, mul_assoc, ← zpow_add₀ two_ne]
    have e : k + (52 - ((t : Int) + k)) = ((52 - t : Nat) : Int) := by omega
    rw [e, zpow_natCast]
    push_cast
    ring
  have key := round_double_eq x ((t : Int) + k) (m * 2 ^ (52 - t))
    (by
      rw [hxabs, zpow_add₀ two_ne, zpow_natCast]
      exact mul_le_mul_of_nonneg_right hcast1 (le_of_lt h2k))
    (by
      rw [hxabs]
      have e : (t : Int) + k + 1 = ((t + 1 : Nat) : Int) + k := by omega
      rw [e, zpow_add₀ two_ne, zpow_natCast]
      exact mul_lt_mul_of_pos_right hcast2 h2k)
    (by
      left
      rw [hscale, sub_self, abs_zero]
      norm_num)
  rw [key, ← hscale]
  have hp : (2 : ℚ) ^ (52 - ((t : Int) + k)) ≠ 0 := ne_of_gt (zpow_pos (by norm_num) _)
  field_simp

/-- An integer below `2^53` in absolute value is a double. -/
theorem round_double_of_int (x : ℚ) (m : Int) (hx : x = (m : ℚ))
    (hlo : -9007199254740992 < m) (hhi : m < 9007199254740992) : round_double x = x :=
  round_double_of_dyadic x m 0 (by rw [hx]; simp) hlo hhi

/-! ## Grids of force values in double arithmetic -/

/-- When the rounding changes none of the sums `axis += binwidth` the loop can make, the
loop in `double` arithmetic is the loop in exact arithmetic. -/
theorem grid_of_force_loop_double_eq (rnd : ℚ → ℚ) (evaluate : ℚ → ℚ) (max binwidth : ℚ) :
    ∀ (remaining : Nat) (axis : ℚ) (counter : Nat) (av fv : List ℚ),
      (∀ j : Nat, j < remaining →
        rnd (axis + (j : ℚ) * binwidth + binwidth) = axis + (j : ℚ) * binwidth + binwidth) →
      grid_of_force_loop_double rnd evaluate max binwidth remaining axis counter av fv =
        grid_of_force_loop evaluate max binwidth remaining axis counter av fv := by
  intro remaining
  induction remaining with
  | zero =>
    intro axis counter av fv _
    rfl
  | succ r ih =>
    intro axis counter av fv h
    unfold grid_of_force_loop_double grid_of_force_loop
    by_cases hc : axis < max
    · rw [if_pos hc, if_pos hc]
      have h0 := h 0 (Nat.succ_pos r)
      simp only [Nat.cast_zero, zero_mul, add_zero] at h0
      rw [h0]
      apply ih
      intro j hj
      have hj1 := h (j + 1) (Nat.succ_lt_succ hj)
      have e : axis + ((j + 1 : Nat) : ℚ) * binwidth + binwidth =
          axis + binwidth + (j : ℚ) * binwidth + binwidth := by
        push_cast
        ring
      rw [e] at hj1
      exact hj1
    · rw [if_neg hc, if_neg hc]

/-- Under `grid_arithmetic_exact`, `calc_grid_of_force_vals_double` returns what
`calc_grid_of_force_vals` returns in exact arithmetic. -/
theorem calc_grid_of_force_vals_double_eq (rnd : ℚ → ℚ)
    (evaluate_spline : Nat → Int → List ℚ → ℚ → ℚ)
    (ispec : InteractionClassSpec) (interaction_class_column_index : Int)
    (spline_coeffs : List ℚ) (index_among_defined : Nat) (binwidth : ℚ)
    (hex : grid_arithmetic_exact rnd (ispec.lower_cutoffs.getD index_among_defined 0)
      (ispec.upper_cutoffs.getD index_among_defined 0) binwidth) :
    calc_grid_of_force_vals_double rnd evaluate_spline ispec interaction_class_column_index
        spline_coeffs index_among_defined binwidth =
      calc_grid_of_force_vals evaluate_spline ispec interaction_class_column_index spline_coeffs
        index_among_defined binwidth := by
  obtain ⟨e1, e2, e3, e4, e5, e6⟩ := hex
  unfold calc_grid_of_force_vals_double calc_grid_of_force_vals
  simp only
  rw [e1, e2, e3, e4, e5, grid_of_force_loop_double_eq rnd _ _ _ _ _ _ _ _ e6]

/-- The loop in `double` arithmetic writes past the end of its vectors when the first
`remaining + 1` values of `axis` all lie below `max`. -/
theorem grid_of_force_loop_double_none (rnd : ℚ → ℚ) (evaluate : ℚ → ℚ) (max binwidth : ℚ) :
    ∀ (remaining : Nat) (axis : ℚ) (counter : Nat) (av fv : List ℚ),
      (∀ j : Nat, j ≤ remaining → (fun a => rnd (a + binwidth))^[j] axis < max) →
      grid_of_force_loop_double rnd evaluate max binwidth remaining axis counter av fv =
        none := by
  intro remaining
  induction remaining with
  | zero =>
    intro axis counter av fv h
    unfold grid_of_force_loop_double
    have h0 : axis < max := h 0 (le_refl 0)
    rw [if_pos h0]
  | succ r ih =>
    intro axis counter av fv h
    unfold grid_of_force_loop_double
    have h0 : axis < max := h 0 (Nat.zero_le _)
    rw [if_pos h0]
    apply ih
    intro j hj
    exact h (j + 1) (Nat.succ_le_succ hj)

/-- The loop of the derivative variant writes past the end of its vectors under the same
condition. -/
theorem grid_of_force_and_deriv_loop_double_none (rnd : ℚ → ℚ) (evaluate evaluate_deriv : ℚ → ℚ)
    (max binwidth : ℚ) :
    ∀ (remaining : Nat) (axis : ℚ) (counter : Nat) (av fv dv : List ℚ),
      (∀ j : Nat, j ≤ remaining → (fun a => rnd (a + binwidth))^[j] axis < max) →
      grid_of_force_and_deriv_loop_double rnd evaluate evaluate_deriv max binwidth remaining
        axis counter av fv dv = none := by
  intro remaining
  induction remaining with
  | zero =>
    intro axis counter av fv dv h
    unfold grid_of_force_and_deriv_loop_double
    have h0 : axis < max := h 0 (le_refl 0)
    rw [if_pos h0]
  | succ r ih =>
    intro axis counter av fv dv h
    unfold grid_of_force_and_deriv_loop_double
    have h0 : axis < max := h 0 (Nat.zero_le _)
    rw [if_pos h0]
    apply ih
    intro j hj
    exact h (j + 1) (Nat.succ_le_succ hj)

/-- In exact arithmetic, for an interaction with `lower <= upper` and a `binwidth > 0`,
`calc_grid_of_force_vals` returns `axis_vals` and `force_vals` of equal length; `axis_vals`
is strictly increasing and holds exactly the integer multiples `k * binwidth` with
`k > (int)(lower / binwidth)` and `k * binwidth < upper`, which for `lower >= 0` are exactly
the integer multiples of `binwidth` in the open interval `(lower, upper)`; `force_vals[j]`
is the spline evaluated at `axis_vals[j]`. -/
theorem calc_grid_of_force_vals_exact_points (evaluate_spline : Nat → Int → List ℚ → ℚ → ℚ)
    (ispec : InteractionClassSpec) (interaction_class_column_index : Int)
    (spline_coeffs : List ℚ) (index_among_defined : Nat) (binwidth : ℚ)
    (hle : ispec.lower_cutoffs.getD index_among_defined 0 ≤
      ispec.upper_cutoffs.getD index_among_defined 0)
    (hbw : 0 < binwidth) :
    ∃ axis_vals force_vals : List ℚ,
      calc_grid_of_force_vals evaluate_spline ispec interaction_class_column_index spline_coeffs
          index_among_defined binwidth = some (axis_vals, force_vals) ∧
      axis_vals.length = force_vals.length ∧
      force_vals = axis_vals.map
        (evaluate_spline index_among_defined interaction_class_column_index spline_coeffs) ∧
      axis_vals.Pairwise (fun a b => a < b) ∧
      (∀ x : ℚ, x ∈ axis_vals ↔
        ∃ k : Int, int_cast (ispec.lower_cutoffs.getD index_among_defined 0 / binwidth) < k ∧
          x = (k : ℚ) * binwidth ∧ x < ispec.upper_cutoffs.getD index_among_defined 0) ∧
      (0 ≤ ispec.lower_cutoffs.getD index_among_defined 0 →
        ∀ x : ℚ, x ∈ axis_vals ↔
          ∃ k : Int, x = (k : ℚ) * binwidth ∧
            ispec.lower_cutoffs.getD index_among_defined 0 < x ∧
            x < ispec.upper_cutoffs.getD index_among_defined 0) := by
  obtain ⟨n, e, c1, c2, _⟩ := calc_grid_of_force_vals_eq evaluate_spline ispec
    interaction_class_column_index spline_coeffs index_among_defined binwidth hle hbw
  have hmem : ∀ x : ℚ, x ∈ (List.range n).map (fun j : Nat =>
      ((int_cast (ispec.lower_cutoffs.getD index_among_defined 0 / binwidth) + 1 + (j : Int)
        : Int) : ℚ) * binwidth) ↔
      ∃ k : Int, int_cast (ispec.lower_cutoffs.getD index_among_defined 0 / binwidth) < k ∧
        x = (k : ℚ) * binwidth ∧ x < ispec.upper_cutoffs.getD index_among_defined 0 := by
    intro x
    rw [List.mem_map]
    constructor
    · rintro ⟨j, hj, hx⟩
      have hj1 := List.mem_range.mp hj
      refine ⟨_, ?_, hx.symm, ?_⟩
      · omega
      · rw [← hx]
        exact c1 j hj1
    · rintro ⟨k, hk, hx, hlt⟩
      have hjz : ((k - int_cast (ispec.lower_cutoffs.getD index_among_defined 0 / binwidth) - 1
          ).toNat : Int) =
          k - int_cast (ispec.lower_cutoffs.getD index_among_defined 0 / binwidth) - 1 :=
        Int.toNat_of_nonneg (by omega)
      have hk2 : int_cast (ispec.lower_cutoffs.getD index_among_defined 0 / binwidth) + 1 +
          ((k - int_cast (ispec.lower_cutoffs.getD index_among_defined 0 / binwidth) - 1
            ).toNat : Int) = k := by
        rw [hjz]
        ring
      refine ⟨(k - int_cast (ispec.lower_cutoffs.getD index_among_defined 0 / binwidth) - 1
        ).toNat, ?_, ?_⟩
      · rw [List.mem_range]
        by_contra hge
        apply c2
        have h1 : (int_cast (ispec.lower_cutoffs.getD index_among_defined 0 / binwidth) + 1 +
            (n : Int) : Int) ≤ k := by omega
        have h2 : ((int_cast (ispec.lower_cutoffs.getD index_among_defined 0 / binwidth) + 1 +
            (n : Int) : Int) : ℚ) ≤ (k : ℚ) := by exact_mod_cast h1
        have h3 := mul_le_mul_of_nonneg_right h2 (le_of_lt hbw)
        rw [hx] at hlt
        linarith
      · beta_reduce
        rw [hk2, hx]
  refine ⟨_, _, e, by simp, rfl, ?_, hmem, fun hlo x => ?_⟩
  · rw [List.pairwise_map]
    refine List.Pairwise.imp ?_ (List.pairwise_lt_range n)
    intro a b hab
    have h1 : ((int_cast (ispec.lower_cutoffs.getD index_among_defined 0 / binwidth) + 1 +
        (a : Int) : Int) : ℚ) <
        ((int_cast (ispec.lower_cutoffs.getD index_among_defined 0 / binwidth) + 1 +
        (b : Int) : Int) : ℚ) := by
      have : (int_cast (ispec.lower_cutoffs.getD index_among_defined 0 / binwidth) + 1 +
        (a : Int) : Int) <
        (int_cast (ispec.lower_cutoffs.getD index_among_defined 0 / binwidth) + 1 +
        (b : Int) : Int) := by omega
      exact_mod_cast this
    exact mul_lt_mul_of_pos_right h1 hbw
  · rw [hmem x]
    have hq : 0 ≤ ispec.lower_cutoffs.getD index_among_defined 0 / binwidth :=
      div_nonneg hlo (le_of_lt hbw)
    rw [int_cast_of_nonneg _ hq]
    constructor
    · rintro ⟨k, hk, hx, hlt⟩
      refine ⟨k, hx, ?_, hlt⟩
      have := Int.floor_lt.mp hk
      rw [div_lt_iff₀ hbw] at this
      rw [hx]
      exact this
    · rintro ⟨k, hx, hlo2, hlt⟩
      refine ⟨k, ?_, hx, hlt⟩
      rw [Int.floor_lt, div_lt_iff₀ hbw, ← hx]
      exact hlo2

/-- In exact arithmetic, for `lower <= upper` and `binwidth > 0` the loops of
`calc_grid_of_force_vals`
and of `calc_grid_of_force_and_deriv_vals` end without a write past the end of their
vectors (both functions return a result), and the number `n` of grid points they write
is at most `num_entries = (int)((upper - lower) / binwidth + 1.0)`, whatever the sign of
the lower cutoff. -/
theorem calc_grid_writes_in_bounds_exact
    (evaluate_spline evaluate_spline_deriv : Nat → Int → List ℚ → ℚ → ℚ)
    (ispec : InteractionClassSpec) (interaction_class_column_index : Int)
    (spline_coeffs : List ℚ) (index_among_defined : Nat) (binwidth : ℚ)
    (hle : ispec.lower_cutoffs.getD index_among_defined 0 ≤
      ispec.upper_cutoffs.getD index_among_defined 0)
    (hbw : 0 < binwidth) :
    ∃ (n : Nat) (axis_vals force_vals deriv_vals : List ℚ),
      calc_grid_of_force_vals evaluate_spline ispec interaction_class_column_index spline_coeffs
          index_among_defined binwidth = some (axis_vals.take n, force_vals.take n) ∧
      calc_grid_of_force_and_deriv_vals evaluate_spline evaluate_spline_deriv ispec
          interaction_class_column_index spline_coeffs index_among_defined binwidth =
        some (axis_vals, force_vals, deriv_vals) ∧
      (axis_vals.take n).length = n ∧
      n ≤ (int_cast ((ispec.upper_cutoffs.getD index_among_defined 0 -
        ispec.lower_cutoffs.getD index_among_defined 0) / binwidth + 1)).toNat := by
  obtain ⟨n, av, fv, dv, e1, e2, l1, _, hn, _⟩ := calc_grid_of_force_and_deriv_vals_prefix
    evaluate_spline evaluate_spline_deriv ispec interaction_class_column_index spline_coeffs
    index_among_defined binwidth hle hbw
  refine ⟨n, av, fv, dv, e2, e1, ?_, ?_⟩
  · rw [List.length_take]
    exact Nat.min_eq_left hn
  · rw [← l1]
    exact hn

/-- The entry count, the start point and the values of `axis` of the grid loop in `double`
arithmetic for the cutoffs 4.3 and 4.6 and the bin width 0.1: three entries are allocated,
and the four values `axis` takes from the start point on all lie below the upper cutoff. -/
theorem example_overflow_grid_values :
    (int_cast (round_double (round_double (round_double
      (example_overflow_grid_class.upper_cutoffs.getD 0 0 -
        example_overflow_grid_class.lower_cutoffs.getD 0 0) / round_double (1 / 10)) + 1))).toNat =
      3 ∧
    ∀ j : Nat, j ≤ 3 → (fun a => round_double (a + round_double (1 / 10)))^[j]
        (round_double (((int_cast (round_double
          (example_overflow_grid_class.lower_cutoffs.getD 0 0 / round_double (1 / 10))) + 1
          : Int) : ℚ) * round_double (1 / 10))) <
      example_overflow_grid_class.upper_cutoffs.getD 0 0 := by
  have hl : round_double (43 / 10) = 4841369599423283 / 2 ^ 50 :=
    (round_double_pos_eq (43 / 10) 2 4841369599423283
      (by norm_num) (by norm_num) (by norm_num) (by norm_num)).trans (by norm_num)
  have hu : round_double (46 / 10) = 2589569785738035 / 2 ^ 49 :=
    (round_double_pos_eq (46 / 10) 2 5179139571476070
      (by norm_num) (by norm_num) (by norm_num) (by norm_num)).trans (by norm_num)
  have hb : round_double (1 / 10) = 3602879701896397 / 2 ^ 55 :=
    (round_double_pos_eq (1 / 10) (-4) 7205759403792794
      (by norm_num) (by norm_num) (by norm_num) (by norm_num)).trans (by norm_num)
  have h1 : round_double (2589569785738035 / 2 ^ 49 - 4841369599423283 / 2 ^ 50) =
      337769972052787 / 2 ^ 50 :=
    (round_double_pos_eq (2589569785738035 / 2 ^ 49 - 4841369599423283 / 2 ^ 50) (-2) 5404319552844592
      (by norm_num) (by norm_num) (by norm_num) (by norm_num)).trans (by norm_num)
  have h2 : round_double (337769972052787 / 2 ^ 50 / (3602879701896397 / 2 ^ 55)) =
      1688849860263935 / 2 ^ 49 :=
    (round_double_pos_eq (337769972052787 / 2 ^ 50 / (3602879701896397 / 2 ^ 55)) 1 6755399441055740
      (by norm_num) (by norm_num) (by norm_num) (by norm_num)).trans (by norm_num)
  have h3 : round_double (1688849860263935 / 2 ^ 49 + 1) = 2251799813685247 / 2 ^ 49 :=
    (round_double_pos_eq (1688849860263935 / 2 ^ 49 + 1) 1 9007199254740988
      (by norm_num) (by norm_num) (by norm_num) (by norm_num)).trans (by norm_num)
  have h4 : int_cast (2251799813685247 / 2 ^ 49) = 3 := by
    rw [int_cast_of_nonneg _ (by norm_num), Int.floor_eq_iff]
    norm_num
  have h5 : round_double (4841369599423283 / 2 ^ 50 / (3602879701896397 / 2 ^ 55)) =
      6051711999279103 / 2 ^ 47 :=
    (round_double_pos_eq (4841369599423283 / 2 ^ 50 / (3602879701896397 / 2 ^ 55)) 5 6051711999279103
      (by norm_num) (by norm_num) (by norm_num) (by norm_num)).trans (by norm_num)
  have h6 : int_cast (6051711999279103 / 2 ^ 47) = 42 := by
    rw [int_cast_of_nonneg _ (by norm_num), Int.floor_eq_iff]
    norm_num
  have h7 : round_double (43 * (3602879701896397 / 2 ^ 55)) = 4841369599423283 / 2 ^ 50 :=
    (round_double_pos_eq (43 * (3602879701896397 / 2 ^ 55)) 2 4841369599423283
      (by norm_num) (by norm_num) (by norm_num) (by norm_num)).trans (by norm_num)
  have s0 : round_double (4841369599423283 / 2 ^ 50 + 3602879701896397 / 2 ^ 55) =
      4953959590107545 / 2 ^ 50 :=
    (round_double_pos_eq (4841369599423283 / 2 ^ 50 + 3602879701896397 / 2 ^ 55) 2 4953959590107545
      (by norm_num) (by norm_num) (by norm_num) (by norm_num)).trans (by norm_num)
  have s1 : round_double (4953959590107545 / 2 ^ 50 + 3602879701896397 / 2 ^ 55) =
      5066549580791807 / 2 ^ 50 :=
    (round_double_pos_eq (4953959590107545 / 2 ^ 50 + 3602879701896397 / 2 ^ 55) 2 5066549580791807
      (by norm_num) (by norm_num) (by norm_num) (by norm_num)).trans (by norm_num)
  have s2 : round_double (5066549580791807 / 2 ^ 50 + 3602879701896397 / 2 ^ 55) =
      5179139571476069 / 2 ^ 50 :=
    (round_double_pos_eq (5066549580791807 / 2 ^ 50 + 3602879701896397 / 2 ^ 55) 2 5179139571476069
      (by norm_num) (by norm_num) (by norm_num) (by norm_num)).trans (by norm_num)
  have hL : example_overflow_grid_class.lower_cutoffs.getD 0 0 = 4841369599423283 / 2 ^ 50 := hl
  have hU : example_overflow_grid_class.upper_cutoffs.getD 0 0 = 2589569785738035 / 2 ^ 49 := hu
  have t3 : (3 : Int).toNat = 3 := rfl
  have c43 : (((42 + 1 : Int) : ℚ)) = 43 := by norm_num
  rw [hL, hU, hb, h1, h2, h3, h4, h5, h6, c43, h7]
  refine ⟨t3, ?_⟩
  intro j hj
  interval_cases j
  · simp only [Function.iterate_zero, id_eq]
    norm_num
  · simp only [Function.iterate_succ, Function.iterate_zero, Function.comp_apply, id_eq]
    rw [s0]
    norm_num
  · simp only [Function.iterate_succ, Function.iterate_zero, Function.comp_apply, id_eq]
    rw [s0, s1]
    norm_num
  · simp only [Function.iterate_succ, Function.iterate_zero, Function.comp_apply, id_eq]
    rw [s0, s1, s2]
    norm_num

/-- The operations of `calc_grid_of_force_vals` on the range `[0, 3]` with bin width 1 are
exact in `double` arithmetic. -/
theorem example_grid_arithmetic_exact :
    grid_arithmetic_exact round_double (example_grid_class.lower_cutoffs.getD 0 0)
      (example_grid_class.upper_cutoffs.getD 0 0) 1 := by
  have hl : example_grid_class.lower_cutoffs.getD 0 0 = 0 := rfl
  have hu : example_grid_class.upper_cutoffs.getD 0 0 = 3 := rfl
  have h4 : int_cast ((3 - 0) / 1 + 1 : ℚ) = 4 := by
    rw [int_cast_of_nonneg _ (by norm_num), Int.floor_eq_iff]
    norm_num
  have h0 : int_cast ((0 : ℚ) / 1) = 0 := by
    rw [int_cast_of_nonneg _ (by norm_num), Int.floor_eq_iff]
    norm_num
  unfold grid_arithmetic_exact
  rw [hl, hu, h4, h0]
  refine ⟨round_double_of_int _ 3 (by norm_num) (by norm_num) (by norm_num),
    round_double_of_int _ 3 (by norm_num) (by norm_num) (by norm_num),
    round_double_of_int _ 4 (by norm_num) (by norm_num) (by norm_num),
    round_double_of_int _ 0 (by norm_num) (by norm_num) (by norm_num),
    round_double_of_int _ 1 (by norm_num) (by norm_num) (by norm_num), ?_⟩
  intro j hj
  have hj4 : j < 4 := hj
  exact round_double_of_int _ ((j : Int) + 2) (by push_cast; ring) (by omega) (by omega)

/-! ## Cutoff adjustment in double arithmetic -/

/-- Under exact operations the new upper cutoff of the B-spline branch in `double`
arithmetic is the one of exact arithmetic. -/
theorem bspline_upper_double_eq (rnd : ℚ → ℚ) (ob upper : ℚ)
    (h1 : rnd (upper / ob) = upper / ob)
    (h2 : rnd (((int_cast (upper / ob) + 1 : Int) : ℚ) * ob) =
      ((int_cast (upper / ob) + 1 : Int) : ℚ) * ob) :
    bspline_upper_double rnd ob upper = bspline_upper ob upper := by
  unfold bspline_upper_double bspline_upper
  rw [h1, h2]

/-- Under `bspline_arithmetic_exact` the B-spline branch of `adjust_cutoffs_for_basis` in
`double` arithmetic returns what it returns in exact arithmetic. -/
theorem adjust_cutoffs_for_basis_double_bspline_eq (rnd : ℚ → ℚ) (s : InteractionClassSpec)
    (i : Nat) (hb : s.basis_type = kBSpline)
    (hex : bspline_arithmetic_exact rnd s.output_binwidth s.fm_binwidth
      (s.lower_cutoffs.getD i 0) (s.upper_cutoffs.getD i 0)) :
    adjust_cutoffs_for_basis_double rnd s i = adjust_cutoffs_for_basis s i := by
  obtain ⟨h1, h2, h3, h4, h5, h6⟩ := hex
  have hu := bspline_upper_double_eq rnd s.output_binwidth (s.upper_cutoffs.getD i 0) h1 h2
  have hl : bspline_lower_double rnd s.fm_binwidth
      (bspline_upper s.output_binwidth (s.upper_cutoffs.getD i 0)) (s.lower_cutoffs.getD i 0) =
      bspline_lower s.fm_binwidth
        (bspline_upper s.output_binwidth (s.upper_cutoffs.getD i 0))
        (s.lower_cutoffs.getD i 0) := by
    unfold bspline_lower_double bspline_lower
    rw [h3, h4, h5, h6]
  have hne : ¬ s.basis_type = kLinearSpline := by
    rw [hb]
    decide
  unfold adjust_cutoffs_for_basis_double adjust_cutoffs_for_basis
  rw [if_neg hne, if_pos hb, if_neg hne, if_pos hb]
  simp only [hu, hl]

/-- The new upper cutoff the B-spline branch stores in `double` arithmetic. -/
theorem adjust_cutoffs_for_basis_double_bspline_getD (rnd : ℚ → ℚ) (s : InteractionClassSpec)
    (i : Nat) (hb : s.basis_type = kBSpline) (hiu : i < s.upper_cutoffs.length) :
    (adjust_cutoffs_for_basis_double rnd s i).upper_cutoffs.getD i 0 =
      bspline_upper_double rnd s.output_binwidth (s.upper_cutoffs.getD i 0) := by
  have hne : ¬ s.basis_type = kLinearSpline := by
    rw [hb]
    decide
  unfold adjust_cutoffs_for_basis_double
  rw [if_neg hne, if_pos hb]
  exact getD_set_eq _ _ _ _ hiu

/-- The members the B-spline branch in `double` arithmetic leaves alone. -/
theorem adjust_cutoffs_for_basis_double_bspline_frame (rnd : ℚ → ℚ) (s : InteractionClassSpec)
    (i : Nat) (hb : s.basis_type = kBSpline) :
    (adjust_cutoffs_for_basis_double rnd s i).basis_type = s.basis_type ∧
    (adjust_cutoffs_for_basis_double rnd s i).class_type = s.class_type ∧
    (adjust_cutoffs_for_basis_double rnd s i).output_binwidth = s.output_binwidth ∧
    (adjust_cutoffs_for_basis_double rnd s i).n_defined = s.n_defined ∧
    (adjust_cutoffs_for_basis_double rnd s i).defined_to_matched_intrxn_index_map =
      s.defined_to_matched_intrxn_index_map := by
  have hne : ¬ s.basis_type = kLinearSpline := by
    rw [hb]
    decide
  unfold adjust_cutoffs_for_basis_double
  rw [if_neg hne, if_pos hb]
  exact ⟨rfl, rfl, rfl, rfl, rfl⟩

/-- For a pair-nonbonded B-spline class `adjust_cutoffs_for_type` runs neither of its
branches, in `double` arithmetic as in exact arithmetic. -/
theorem adjust_cutoffs_for_type_double_bspline_nonbonded (rnd : ℚ → ℚ) (eps : ℚ)
    (s : InteractionClassSpec) (i : Nat) (hb : s.basis_type = kBSpline)
    (ht : s.class_type = kPairNonbonded) :
    adjust_cutoffs_for_type_double rnd eps s i = s := by
  unfold adjust_cutoffs_for_type_double
  have h1 : ¬ (s.basis_type = kLinearSpline ∧ s.class_type = kPairNonbonded ∧
      |rnd (rnd (s.upper_cutoffs.getD i 0 - s.cutoff) - s.fm_binwidth)| < eps) := by
    rintro ⟨h, _⟩
    rw [hb] at h
    exact absurd h (by decide)
  simp only [if_neg h1]
  have h2 : ¬ (s.class_type = kDihedralBonded ∧ s.class_subtype = 0) := by
    rintro ⟨h, _⟩
    rw [ht] at h
    exact absurd h (by decide)
  rw [if_neg h2]

/-- The loop of the check in `double` arithmetic fails exactly when one of the visited
indices fails the test, and otherwise returns normally. -/
theorem check_nonbonded_loop_double_spec (rnd : ℚ → ℚ) (VERYSMALL : ℚ)
    (ispec : InteractionClassSpec) (cutoff : ℚ) (l : List Nat) :
    ((∃ e, check_nonbonded_loop_double rnd VERYSMALL ispec cutoff l = Except.error e) ↔
      ∃ i, i ∈ l ∧ exceeds_nonbonded_cutoff_double rnd VERYSMALL ispec cutoff i) ∧
    (check_nonbonded_loop_double rnd VERYSMALL ispec cutoff l = Except.ok () ↔
      ∀ i, i ∈ l → ¬ exceeds_nonbonded_cutoff_double rnd VERYSMALL ispec cutoff i) := by
  induction l with
  | nil =>
    constructor
    · constructor
      · rintro ⟨e, h⟩
        simp [check_nonbonded_loop_double] at h
      · rintro ⟨i, hi, _⟩
        exact absurd hi (List.not_mem_nil i)
    · constructor
      · intro _ i hi
        exact absurd hi (List.not_mem_nil i)
      · intro _
        rfl
  | cons a rest ih =>
    unfold check_nonbonded_loop_double
    by_cases h : exceeds_nonbonded_cutoff_double rnd VERYSMALL ispec cutoff a
    · have h' := h
      unfold exceeds_nonbonded_cutoff_double at h'
      rw [if_pos h']
      constructor
      · constructor
        · intro _
          exact ⟨a, List.mem_cons_self a rest, h⟩
        · intro _
          exact ⟨_, rfl⟩
      · constructor
        · intro hok
          simp at hok
        · intro hall
          exact absurd h (hall a (List.mem_cons_self a rest))
    · have h' := h
      unfold exceeds_nonbonded_cutoff_double at h'
      rw [if_neg h']
      constructor
      · rw [ih.1]
        constructor
        · rintro ⟨i, hi, hx⟩
          exact ⟨i, List.mem_cons_of_mem _ hi, hx⟩
        · rintro ⟨i, hi, hx⟩
          rcases List.mem_cons.mp hi with e | hi
          · rw [e] at hx
            exact absurd hx h
          · exact ⟨i, hi, hx⟩
      · rw [ih.2]
        constructor
        · intro hx i hi
          rcases List.mem_cons.mp hi with e | hi
          · rw [e]
            exact h
          · exact hx i hi
        · intro hx i hi
          exact hx i (List.mem_cons_of_mem _ hi)

/-- In exact arithmetic, for a B-spline class with positive bin widths and a declared range
`0 <= lower <= upper`, `adjust_cutoffs_for_basis` sets `upper_cutoffs[i]` to the smallest
integer multiple of `output_binwidth` strictly greater than the declared upper bound, and
`lower_cutoffs[i]` to `new_upper - n * fm_binwidth` for a positive integer `n` with
`new_lower < lower <= new_lower + fm_binwidth`. -/
theorem adjust_cutoffs_for_basis_bspline_exact_snap (s : InteractionClassSpec) (i : Nat)
    (hb : s.basis_type = kBSpline)
    (hob : 0 < s.output_binwidth) (hfm : 0 < s.fm_binwidth)
    (hil : i < s.lower_cutoffs.length) (hiu : i < s.upper_cutoffs.length)
    (hlo : 0 ≤ s.lower_cutoffs.getD i 0)
    (hle : s.lower_cutoffs.getD i 0 ≤ s.upper_cutoffs.getD i 0) :
    (∃ k : ℤ, (adjust_cutoffs_for_basis s i).upper_cutoffs.getD i 0 =
        (k : ℚ) * s.output_binwidth ∧
      s.upper_cutoffs.getD i 0 < (k : ℚ) * s.output_binwidth ∧
      ∀ m : ℤ, s.upper_cutoffs.getD i 0 < (m : ℚ) * s.output_binwidth →
        (k : ℚ) * s.output_binwidth ≤ (m : ℚ) * s.output_binwidth) ∧
    (∃ n : ℤ, 0 < n ∧
      (adjust_cutoffs_for_basis s i).lower_cutoffs.getD i 0 =
        (adjust_cutoffs_for_basis s i).upper_cutoffs.getD i 0 - (n : ℚ) * s.fm_binwidth ∧
      (adjust_cutoffs_for_basis s i).lower_cutoffs.getD i 0 < s.lower_cutoffs.getD i 0 ∧
      s.lower_cutoffs.getD i 0 ≤
        (adjust_cutoffs_for_basis s i).lower_cutoffs.getD i 0 + s.fm_binwidth) ∧
    (adjust_cutoffs_for_basis s i).lower_cutoffs.getD i 0 < s.lower_cutoffs.getD i 0 ∧
    s.upper_cutoffs.getD i 0 < (adjust_cutoffs_for_basis s i).upper_cutoffs.getD i 0 := by
  obtain ⟨hu, hl⟩ := adjust_cutoffs_for_basis_bspline_getD s i hb hil hiu
  obtain ⟨e1, e2, e3⟩ := bspline_upper_spec s.output_binwidth (s.upper_cutoffs.getD i 0) hob
    (le_trans hlo hle)
  obtain ⟨f1, f2, f3, f4⟩ := bspline_lower_spec s.fm_binwidth
    (bspline_upper s.output_binwidth (s.upper_cutoffs.getD i 0)) (s.lower_cutoffs.getD i 0) hfm
    (le_trans hle (le_of_lt e2))
  rw [hu, hl]
  refine ⟨⟨_, e1, ?_, ?_⟩, ⟨_, f2, f1, f3, f4⟩, f3, e2⟩
  · rw [← e1]
    exact e2
  · intro m hm
    rw [← e1]
    exact e3 m hm

/-- The adjusted upper cutoffs of `example_tenth_class` and `example_tenth_wide_class` in
`double` arithmetic, and the bounds of the cutoff check with `VERYSMALL` 0 and `1e-14`. -/
theorem example_tenth_values :
    bspline_upper_double round_double (round_double (1 / 10)) 10 = 1421448632388813 / 2 ^ 47 ∧
    round_double (round_double (10 + round_double (1 / 10)) + 0) = 5685794529555251 / 2 ^ 49 ∧
    bspline_upper_double round_double (round_double (1 / 10)) (311 / 2) = 1368672074255565 / 2 ^ 43 ∧
    round_double (round_double (311 / 2 + round_double (1 / 10)) +
      round_double (1 / 100000000000000)) = 5474688297022259 / 2 ^ 45 := by
  have ab : round_double (1 / 10) = 3602879701896397 / 2 ^ 55 :=
    (round_double_pos_eq (1 / 10) (-4) 7205759403792794
      (by norm_num) (by norm_num) (by norm_num) (by norm_num)).trans (by norm_num)
  have a1 : round_double (10 / (3602879701896397 / 2 ^ 55)) = 100 :=
    (round_double_pos_eq (10 / (3602879701896397 / 2 ^ 55)) 6 7036874417766400
      (by norm_num) (by norm_num) (by norm_num) (by norm_num)).trans (by norm_num)
  have a2 : int_cast (100) = 100 := by
    rw [int_cast_of_nonneg _ (by norm_num), Int.floor_eq_iff]
    norm_num
  have a3 : round_double (101 * (3602879701896397 / 2 ^ 55)) = 1421448632388813 / 2 ^ 47 :=
    (round_double_pos_eq (101 * (3602879701896397 / 2 ^ 55)) 3 5685794529555252
      (by norm_num) (by norm_num) (by norm_num) (by norm_num)).trans (by norm_num)
  have a4 : round_double (10 + 3602879701896397 / 2 ^ 55) = 5685794529555251 / 2 ^ 49 :=
    (round_double_pos_eq (10 + 3602879701896397 / 2 ^ 55) 3 5685794529555251
      (by norm_num) (by norm_num) (by norm_num) (by norm_num)).trans (by norm_num)
  have a5 : round_double (5685794529555251 / 2 ^ 49 + 0) = 5685794529555251 / 2 ^ 49 :=
    (round_double_pos_eq (5685794529555251 / 2 ^ 49 + 0) 3 5685794529555251
      (by norm_num) (by norm_num) (by norm_num) (by norm_num)).trans (by norm_num)
  have wb : round_double (1 / 10) = 3602879701896397 / 2 ^ 55 :=
    (round_double_pos_eq (1 / 10) (-4) 7205759403792794
      (by norm_num) (by norm_num) (by norm_num) (by norm_num)).trans (by norm_num)
  have w1 : round_double (311 / 2 / (3602879701896397 / 2 ^ 55)) = 1555 :=
    (round_double_pos_eq (311 / 2 / (3602879701896397 / 2 ^ 55)) 10 6838962324766720
      (by norm_num) (by norm_num) (by norm_num) (by norm_num)).trans (by norm_num)
  have w2 : int_cast (1555) = 1555 := by
    rw [int_cast_of_nonneg _ (by norm_num), Int.floor_eq_iff]
    norm_num
  have w3 : round_double (1556 * (3602879701896397 / 2 ^ 55)) = 1368672074255565 / 2 ^ 43 :=
    (round_double_pos_eq (1556 * (3602879701896397 / 2 ^ 55)) 7 5474688297022260
      (by norm_num) (by norm_num) (by norm_num) (by norm_num)).trans (by norm_num)
  have w4 : round_double (311 / 2 + 3602879701896397 / 2 ^ 55) = 5474688297022259 / 2 ^ 45 :=
    (round_double_pos_eq (311 / 2 + 3602879701896397 / 2 ^ 55) 7 5474688297022259
      (by norm_num) (by norm_num) (by norm_num) (by norm_num)).trans (by norm_num)
  have wv : round_double (1 / 100000000000000) = 6338253001141147 / 2 ^ 99 :=
    (round_double_pos_eq (1 / 100000000000000) (-47) 6338253001141147
      (by norm_num) (by norm_num) (by norm_num) (by norm_num)).trans (by norm_num)
  have w5 : round_double (5474688297022259 / 2 ^ 45 + 6338253001141147 / 2 ^ 99) =
      5474688297022259 / 2 ^ 45 :=
    (round_double_pos_eq (5474688297022259 / 2 ^ 45 + 6338253001141147 / 2 ^ 99) 7 5474688297022259
      (by norm_num) (by norm_num) (by norm_num) (by norm_num)).trans (by norm_num)
  have c1 : (((100 + 1 : Int) : ℚ)) = 101 := by norm_num
  have c2 : (((1555 + 1 : Int) : ℚ)) = 1556 := by norm_num
  unfold bspline_upper_double
  rw [ab, a1, a2, c1, a3, a4, a5, w1, w2, c2, w3, w4, wv, w5]
  exact ⟨rfl, rfl, rfl, rfl⟩

/-- Every operation of the B-spline branch on the declared range `[0, 10]` with both bin
widths `1/2` is exact in `double` arithmetic. -/
theorem example_bspline_arithmetic_exact :
    bspline_arithmetic_exact round_double example_bspline_class.output_binwidth
      example_bspline_class.fm_binwidth (example_bspline_class.lower_cutoffs.getD 0 0)
      (example_bspline_class.upper_cutoffs.getD 0 0) := by
  have hl : example_bspline_class.lower_cutoffs.getD 0 0 = 0 := rfl
  have hu : example_bspline_class.upper_cutoffs.getD 0 0 = 10 := rfl
  have hob : example_bspline_class.output_binwidth = 1 / 2 := rfl
  have hfm : example_bspline_class.fm_binwidth = 1 / 2 := rfl
  have h20 : int_cast ((10 : ℚ) / (1 / 2)) = 20 := by
    rw [int_cast_of_nonneg _ (by norm_num), Int.floor_eq_iff]
    norm_num
  have hbu : bspline_upper (1 / 2) 10 = 21 / 2 := by
    unfold bspline_upper
    rw [h20]
    norm_num
  have h21 : int_cast ((21 / 2 - 0 : ℚ) / (1 / 2)) = 21 := by
    rw [int_cast_of_nonneg _ (by norm_num), Int.floor_eq_iff]
    norm_num
  unfold bspline_arithmetic_exact
  rw [hl, hu, hob, hfm, hbu, h20, h21]
  exact ⟨round_double_of_int _ 20 (by norm_num) (by norm_num) (by norm_num),
    round_double_of_dyadic _ 21 (-1) (by norm_num) (by norm_num) (by norm_num),
    round_double_of_dyadic _ 21 (-1) (by norm_num) (by norm_num) (by norm_num),
    round_double_of_int _ 21 (by norm_num) (by norm_num) (by norm_num),
    round_double_of_int _ 11 (by norm_num) (by norm_num) (by norm_num),
    round_double_of_dyadic _ (-1) (-1) (by norm_num) (by norm_num) (by norm_num)⟩

/-- The operations behind the new upper cutoff of `example_bspline_nonbonded_class` and
the sum `cutoff + output_binwidth` are exact in `double` arithmetic, and adding the double
nearest to one millionth does not round below that sum. -/
theorem example_bspline_nonbonded_exact :
    round_double (example_bspline_nonbonded_class.upper_cutoffs.getD 0 0 /
        example_bspline_nonbonded_class.output_binwidth) =
      example_bspline_nonbonded_class.upper_cutoffs.getD 0 0 /
        example_bspline_nonbonded_class.output_binwidth ∧
    round_double (((int_cast (example_bspline_nonbonded_class.upper_cutoffs.getD 0 0 /
        example_bspline_nonbonded_class.output_binwidth) + 1 : Int) : ℚ) *
        example_bspline_nonbonded_class.output_binwidth) =
      ((int_cast (example_bspline_nonbonded_class.upper_cutoffs.getD 0 0 /
        example_bspline_nonbonded_class.output_binwidth) + 1 : Int) : ℚ) *
        example_bspline_nonbonded_class.output_binwidth ∧
    round_double (10 + example_bspline_nonbonded_class.output_binwidth) =
      10 + example_bspline_nonbonded_class.output_binwidth ∧
    10 + example_bspline_nonbonded_class.output_binwidth ≤
      round_double (10 + example_bspline_nonbonded_class.output_binwidth +
        round_double (1 / 1000000)) := by
  have hu : example_bspline_nonbonded_class.upper_cutoffs.getD 0 0 = 19 / 2 := rfl
  have hob : example_bspline_nonbonded_class.output_binwidth = 1 / 2 := rfl
  have h19 : int_cast ((19 / 2 : ℚ) / (1 / 2)) = 19 := by
    rw [int_cast_of_nonneg _ (by norm_num), Int.floor_eq_iff]
    norm_num
  have hv : round_double (1 / 1000000) = 4722366482869645 / 2 ^ 72 :=
    (round_double_pos_eq (1 / 1000000) (-20) 4722366482869645
      (by norm_num) (by norm_num) (by norm_num) (by norm_num)).trans (by norm_num)
  have hs : round_double (10 + 1 / 2 + 4722366482869645 / 2 ^ 72) = 5910975073873729 / 2 ^ 49 :=
    (round_double_pos_eq (10 + 1 / 2 + 4722366482869645 / 2 ^ 72) 3 5910975073873729
      (by norm_num) (by norm_num) (by norm_num) (by norm_num)).trans (by norm_num)
  rw [hu, hob, h19, hv, hs]
  exact ⟨round_double_of_int _ 19 (by norm_num) (by norm_num) (by norm_num),
    round_double_of_int _ 10 (by norm_num) (by norm_num) (by norm_num),
    round_double_of_dyadic _ 21 (-1) (by norm_num) (by norm_num) (by norm_num),
    by norm_num⟩

/-! ## The bootstrapping standard error in double arithmetic -/

/-- The sums of the inner loop in `double` arithmetic for a master value and two
estimates. -/
theorem bootstrapping_sums_double_two (rnd : ℚ → ℚ) (m a b : ℚ) :
    bootstrapping_sums_double rnd [m] [[a], [b]] 2 0 =
      (rnd (rnd (m + a) + b), rnd (rnd (rnd (m * m) + rnd (a * a)) + rnd (b * b))) := by
  rfl

/-- In exact real arithmetic with the exact real square root, in
`calculate_bootstrapping_standard_error`,
for every grid point and every number `n >= 0` of bootstrap estimates the radicand
`squared - sum * sum / (n + 1)` is non-negative, the value returned for the grid point is
`sqrt (V / (n + 1))` with `V` the population variance of the `n + 1` values (master value
and estimates), and it is 0 when the `n + 1` values are all equal. -/
theorem calculate_bootstrapping_standard_error_exact_spec (master_vals : List ℝ)
    (vals : List (List ℝ)) (n : Nat) :
    (∀ i : Nat, 0 ≤ bootstrapping_radicand master_vals vals n i) ∧
    calculate_bootstrapping_standard_error Real.sqrt master_vals vals n =
      (List.range master_vals.length).map (fun i =>
        Real.sqrt (population_variance (bootstrapping_sample master_vals vals n i) /
          ((n + 1 : Nat) : ℝ))) ∧
    (∀ i : Nat, i < master_vals.length →
      (∀ x : ℝ, x ∈ bootstrapping_sample master_vals vals n i → x = master_vals.getD i 0) →
      (calculate_bootstrapping_standard_error Real.sqrt master_vals vals n).getD i 1 = 0) := by
  have hpos : (0 : ℝ) < ((n + 1 : Nat) : ℝ) := by exact_mod_cast Nat.succ_pos n
  refine ⟨fun i => (bootstrapping_radicand_eq master_vals vals n i).2.1, ?_, ?_⟩
  · unfold calculate_bootstrapping_standard_error
    apply List.map_congr_left
    intro i _
    rw [(bootstrapping_radicand_eq master_vals vals n i).1]
    have e : population_variance (bootstrapping_sample master_vals vals n i) /
        ((n + 1 : Nat) : ℝ) =
        ((n + 1 : Nat) : ℝ) * population_variance (bootstrapping_sample master_vals vals n i) /
          ((n + 1 : Nat) : ℝ) ^ 2 := by
      field_simp
      ring
    rw [e, Real.sqrt_div' _ (sq_nonneg _), Real.sqrt_sq (le_of_lt hpos)]
  · intro i hi hall
    have hzero : bootstrapping_radicand master_vals vals n i = 0 := by
      apply le_antisymm _ (bootstrapping_radicand_eq master_vals vals n i).2.1
      refine le_trans ((bootstrapping_radicand_eq master_vals vals n i).2.2
        (master_vals.getD i 0)) (le_of_eq ?_)
      apply List.sum_eq_zero
      intro y hy
      obtain ⟨x, hx, rfl⟩ := List.mem_map.mp hy
      rw [hall x hx, sub_self]
      norm_num
    unfold calculate_bootstrapping_standard_error
    rw [List.getD_eq_getElem?_getD, List.getElem?_map, List.getElem?_range hi]
    simp only [Option.map_some', Option.getD_some]
    rw [hzero, Real.sqrt_zero, zero_div]

/-! ## Geometry: the particle folded into the box in double arithmetic -/

/-- Under exact operations one coordinate of `get_minimum_image` in `double` arithmetic is
the one of exact arithmetic. -/
theorem get_minimum_image_component_double_eq (rnd : ℚ → ℚ) (x h : ℚ)
    (hex : min_image_arithmetic_exact rnd x h) :
    get_minimum_image_component_double rnd x h = get_minimum_image_component x h := by
  obtain ⟨h1, h2, h3⟩ := hex
  unfold get_minimum_image_component_double get_minimum_image_component
  rw [h1, h2, h3]

/-- Under exact operations on the three coordinates of particle `l`,
`get_minimum_image` in `double` arithmetic returns what it returns in exact arithmetic. -/
theorem get_minimum_image_double_eq (rnd : ℚ → ℚ) (l : Nat) (x : Nat → Vec3 ℚ)
    (half : Vec3 ℚ)
    (e0 : min_image_arithmetic_exact rnd (x l).c0 half.c0)
    (e1 : min_image_arithmetic_exact rnd (x l).c1 half.c1)
    (e2 : min_image_arithmetic_exact rnd (x l).c2 half.c2) :
    get_minimum_image_double rnd l x half = get_minimum_image l x half := by
  unfold get_minimum_image_double get_minimum_image Vec3.map2
  rw [get_minimum_image_component_double_eq rnd _ _ e0,
    get_minimum_image_component_double_eq rnd _ _ e1,
    get_minimum_image_component_double_eq rnd _ _ e2]

/-- The operations of `get_minimum_image` on particle 1 of `example_outside_positions`
with half box lengths 10 are exact in `double` arithmetic. -/
theorem example_outside_exact :
    min_image_arithmetic_exact round_double (example_outside_positions 1).c0
      (example_half_lengths : Vec3 ℚ).c0 ∧
    min_image_arithmetic_exact round_double (example_outside_positions 1).c1
      (example_half_lengths : Vec3 ℚ).c1 ∧
    min_image_arithmetic_exact round_double (example_outside_positions 1).c2
      (example_half_lengths : Vec3 ℚ).c2 := by
  have x0 : (example_outside_positions 1 : Vec3 ℚ).c0 = -1 := rfl
  have x1 : (example_outside_positions 1 : Vec3 ℚ).c1 = 25 := rfl
  have x2 : (example_outside_positions 1 : Vec3 ℚ).c2 = 7 := rfl
  have g0 : (example_half_lengths : Vec3 ℚ).c0 = 10 := rfl
  have g1 : (example_half_lengths : Vec3 ℚ).c1 = 10 := rfl
  have g2 : (example_half_lengths : Vec3 ℚ).c2 = 10 := rfl
  unfold min_image_arithmetic_exact
  rw [x0, x1, x2, g0, g1, g2]
  exact ⟨⟨round_double_of_int _ 20 (by norm_num) (by norm_num) (by norm_num),
      round_double_of_int _ 19 (by norm_num) (by norm_num) (by norm_num),
      round_double_of_int _ (-21) (by norm_num) (by norm_num) (by norm_num)⟩,
    ⟨round_double_of_int _ 20 (by norm_num) (by norm_num) (by norm_num),
      round_double_of_int _ 45 (by norm_num) (by norm_num) (by norm_num),
      round_double_of_int _ 5 (by norm_num) (by norm_num) (by norm_num)⟩,
    ⟨round_double_of_int _ 20 (by norm_num) (by norm_num) (by norm_num),
      round_double_of_int _ 27 (by norm_num) (by norm_num) (by norm_num),
      round_double_of_int _ (-13) (by norm_num) (by norm_num) (by norm_num)⟩⟩

/-- In exact arithmetic, when every coordinate `x_i` of particle `l` lies in
`[-2 h_i, 4 h_i)`, `get_minimum_image` leaves every coordinate of the particle in
`[0, 2 h_i)`, has changed each by an integer multiple of `2 h_i` only, has changed no
other particle, and a second call changes nothing. -/
theorem get_minimum_image_exact_spec {K : Type} [LinearOrderedField K] (l : Nat)
    (x : Nat → Vec3 K) (half : Vec3 K)
    (h0 : -(2 * half.c0) ≤ (x l).c0 ∧ (x l).c0 < 4 * half.c0)
    (h1 : -(2 * half.c1) ≤ (x l).c1 ∧ (x l).c1 < 4 * half.c1)
    (h2 : -(2 * half.c2) ≤ (x l).c2 ∧ (x l).c2 < 4 * half.c2) :
    ((0 ≤ (get_minimum_image l x half l).c0 ∧ (get_minimum_image l x half l).c0 < 2 * half.c0) ∧
     (0 ≤ (get_minimum_image l x half l).c1 ∧ (get_minimum_image l x half l).c1 < 2 * half.c1) ∧
     (0 ≤ (get_minimum_image l x half l).c2 ∧
       (get_minimum_image l x half l).c2 < 2 * half.c2)) ∧
    (∃ n0 n1 n2 : Int,
      (get_minimum_image l x half l).c0 = (x l).c0 + (n0 : K) * (2 * half.c0) ∧
      (get_minimum_image l x half l).c1 = (x l).c1 + (n1 : K) * (2 * half.c1) ∧
      (get_minimum_image l x half l).c2 = (x l).c2 + (n2 : K) * (2 * half.c2)) ∧
    (∀ j : Nat, j ≠ l → get_minimum_image l x half j = x j) ∧
    get_minimum_image l (get_minimum_image l x half) half = get_minimum_image l x half := by
  obtain ⟨r0, ⟨n0, e0⟩, i0⟩ := get_minimum_image_component_spec (x l).c0 half.c0 h0.1 h0.2
  obtain ⟨r1, ⟨n1, e1⟩, i1⟩ := get_minimum_image_component_spec (x l).c1 half.c1 h1.1 h1.2
  obtain ⟨r2, ⟨n2, e2⟩, i2⟩ := get_minimum_image_component_spec (x l).c2 half.c2 h2.1 h2.2
  have hs := get_minimum_image_self l x half
  refine ⟨?_, ⟨n0, n1, n2, ?_⟩, fun j hj => get_minimum_image_other l x half j hj, ?_⟩
  · rw [hs]
    exact ⟨r0, r1, r2⟩
  · rw [hs]
    exact ⟨e0, e1, e2⟩
  · have hy : get_minimum_image l (get_minimum_image l x half) half =
        Function.update (get_minimum_image l x half) l
          (Vec3.map2 get_minimum_image_component (get_minimum_image l x half l) half) := rfl
    rw [hy, hs]
    have hv : Vec3.map2 get_minimum_image_component
        (Vec3.map2 get_minimum_image_component (x l) half) half =
        get_minimum_image l x half l := by
      rw [hs]
      unfold Vec3.map2
      simp only [i0, i1, i2]
    rw [hv]
    exact Function.update_eq_self l _

/-! ## Geometry: division by zero -/

/-- A quotient by a nonzero divisor is the finite quotient. -/
theorem ieee_div_of_ne_zero {K : Type} [LinearOrderedField K] (x y : K) (h : y ≠ 0) :
    ieee_div x y = DoubleValue.finite (x / y) := by
  unfold ieee_div
  rw [if_neg h]

/-- A vector of the real space whose dot product with itself is zero has zero
components. -/
theorem dot_product_self_eq_zero (d : Vec3 ℝ) (h : dot_product d d = 0) :
    d.c0 = 0 ∧ d.c1 = 0 ∧ d.c2 = 0 := by
  unfold dot_product at h
  have h0 := mul_self_nonneg d.c0
  have h1 := mul_self_nonneg d.c1
  have h2 := mul_self_nonneg d.c2
  refine ⟨?_, ?_, ?_⟩
  · exact mul_self_eq_zero.mp (by linarith)
  · exact mul_self_eq_zero.mp (by linarith)
  · exact mul_self_eq_zero.mp (by linarith)

/-- The dot product of a real vector with itself is nonnegative. -/
theorem dot_product_self_nonneg (d : Vec3 ℝ) : 0 ≤ dot_product d d := by
  unfold dot_product
  have h0 := mul_self_nonneg d.c0
  have h1 := mul_self_nonneg d.c1
  have h2 := mul_self_nonneg d.c2
  linarith

/-- When both squared separations from the vertex are nonzero and at most `cutoff2`,
the division of the cosine has a nonzero divisor and `angle_cos_theta_ieee` is the finite
value `angle_cos_theta`. -/
theorem angle_cos_theta_ieee_finite (m : MathEnv ℝ) (hs : m.sqrt = Real.sqrt)
    (particle_ids : List Nat) (particle_positions : Nat → Vec3 ℝ) (half : Vec3 ℝ)
    (cutoff2 : ℝ)
    (h20 : dot_product
        (subtract_min_image_vectors [particle_ids.getD 2 0, particle_ids.getD 0 0]
          particle_positions half)
        (subtract_min_image_vectors [particle_ids.getD 2 0, particle_ids.getD 0 0]
          particle_positions half) ≠ 0)
    (c20 : dot_product
        (subtract_min_image_vectors [particle_ids.getD 2 0, particle_ids.getD 0 0]
          particle_positions half)
        (subtract_min_image_vectors [particle_ids.getD 2 0, particle_ids.getD 0 0]
          particle_positions half) ≤ cutoff2)
    (h21 : dot_product
        (subtract_min_image_vectors [particle_ids.getD 2 0, particle_ids.getD 1 0]
          particle_positions half)
        (subtract_min_image_vectors [particle_ids.getD 2 0, particle_ids.getD 1 0]
          particle_positions half) ≠ 0)
    (c21 : dot_product
        (subtract_min_image_vectors [particle_ids.getD 2 0, particle_ids.getD 1 0]
          particle_positions half)
        (subtract_min_image_vectors [particle_ids.getD 2 0, particle_ids.getD 1 0]
          particle_positions half) ≤ cutoff2) :
    angle_cos_theta_ieee m particle_ids particle_positions half cutoff2 =
      DoubleValue.finite (angle_cos_theta m particle_ids particle_positions half cutoff2) := by
  unfold angle_cos_theta_ieee angle_cos_theta
  simp only
  rw [conditionally_calc_squared_distance_and_derivatives_eq,
    conditionally_calc_squared_distance_and_derivatives_eq,
    if_neg (not_lt.mpr c20), if_neg (not_lt.mpr c21), hs]
  have p20 := Real.sqrt_pos.mpr (lt_of_le_of_ne (dot_product_self_nonneg _) (Ne.symm h20))
  have p21 := Real.sqrt_pos.mpr (lt_of_le_of_ne (dot_product_self_nonneg _) (Ne.symm h21))
  rw [ieee_div_of_ne_zero _ _ (by positivity)]
  rfl

/-- A nonzero cross product `a × b` needs a nonzero `b`. -/
theorem ne_zero_of_cross_product_ne_zero (a b : Vec3 ℝ)
    (h : cross_product a b ≠ Vec3.zero) : b ≠ Vec3.zero := by
  intro hb
  apply h
  rw [hb]
  simp [cross_product, Vec3.zero]

/-- When the two plane normals are nonzero, no division of the dihedral computation has
a zero divisor and `dihedral_param_val_ieee` is the finite value the field model
computes from `dihedral_cos_theta` and `dihedral_sign`. -/
theorem dihedral_param_val_ieee_finite (m : MathEnv ℝ) (hs : m.sqrt = Real.sqrt)
    (disp03 disp23 disp12 : Vec3 ℝ)
    (hb : cross_product disp03 disp23 ≠ Vec3.zero)
    (hc : cross_product disp12 disp23 ≠ Vec3.zero) :
    dihedral_param_val_ieee m disp03 disp23 disp12 =
      DoubleValue.finite
        (if dihedral_sign m disp03 disp23 disp12 < 0 then
          - (m.acos (check_cos m (dihedral_cos_theta m disp03 disp23 disp12)) *
            m.DEGREES_PER_RADIAN)
        else
          m.acos (check_cos m (dihedral_cos_theta m disp03 disp23 disp12)) *
            m.DEGREES_PER_RADIAN) := by
  have sb := Real.sqrt_pos.mpr (dot_product_self_pos _ hb)
  have sc := Real.sqrt_pos.mpr (dot_product_self_pos _ hc)
  have s23 := Real.sqrt_pos.mpr
    (dot_product_self_pos _ (ne_zero_of_cross_product_ne_zero disp03 disp23 hb))
  unfold dihedral_param_val_ieee dihedral_sign dihedral_cos_theta
  simp only
  rw [hs, ieee_div_of_ne_zero _ _ (ne_of_gt sb), ieee_div_of_ne_zero _ _ (ne_of_gt sc),
    ieee_div_of_ne_zero _ _ (ne_of_gt s23)]
  simp only [ieee_mul, check_cos_ieee, acos_degrees_ieee, ieee_lt_zero]
  by_cases hlt : -dot_product (cross_product disp03 disp23) disp12 *
      (1 / Real.sqrt (dot_product (cross_product disp03 disp23) (cross_product disp03 disp23))) *
      (1 / Real.sqrt (dot_product disp23 disp23)) < 0
  · rw [if_pos (by simpa using hlt), if_pos hlt]
    rfl
  · rw [if_neg (by simpa using hlt), if_neg hlt]

/-! ## Claims -/

/-- C1: when the matched map numbers the matched interactions `1..n_to_force_match` in
increasing defined-index order, `setup_indices_in_fm_matrix` yields a column vector of
length `n_to_force_match + 1` whose entry 0 is 0; every `m` in `1..n_to_force_match` is
the matched index of some defined interaction, and for the defined interaction `i` with
matched index `m` the difference `entry[m] - entry[m-1]` is
`floor((upper - lower)/fm_binwidth + 0.5) + 1` for a linear-spline basis and that value
plus `bspline_k - 2` for a B-spline basis. -/
theorem setup_indices_in_fm_matrix_spec (s : InteractionClassSpec)
    (h : matched_map_numbered s) :
    (setup_indices_in_fm_matrix s).interaction_column_indices.length = s.n_to_force_match + 1 ∧
    (setup_indices_in_fm_matrix s).interaction_column_indices.getD 0 0 = 0 ∧
    (∀ m, 1 ≤ m → m ≤ s.n_to_force_match →
      ∃ i, i < s.n_defined ∧ s.defined_to_matched_intrxn_index_map.getD i 0 = m) ∧
    ∀ i m, i < s.n_defined → s.defined_to_matched_intrxn_index_map.getD i 0 = m → m ≠ 0 →
      (s.basis_type = kLinearSpline →
        (setup_indices_in_fm_matrix s).interaction_column_indices.getD m 0 -
          (setup_indices_in_fm_matrix s).interaction_column_indices.getD (m - 1) 0 =
          ⌊(s.upper_cutoffs.getD i 0 - s.lower_cutoffs.getD i 0) / s.fm_binwidth + 1/2⌋ + 1) ∧
      (s.basis_type = kBSpline →
        (setup_indices_in_fm_matrix s).interaction_column_indices.getD m 0 -
          (setup_indices_in_fm_matrix s).interaction_column_indices.getD (m - 1) 0 =
          ⌊(s.upper_cutoffs.getD i 0 - s.lower_cutoffs.getD i 0) / s.fm_binwidth + 1/2⌋ + 1 +
            s.bspline_k - 2) := by
  refine ⟨setup_indices_in_fm_matrix_length s, ?_, ?_, ?_⟩
  · rw [setup_indices_in_fm_matrix_getD s 0 (Nat.zero_le _) (Nat.zero_le _)]
    simp
  · intro m h1 hN
    have hmem : m ∈ List.range' 1 s.n_to_force_match := by
      rw [List.mem_range'_1]
      omega
    rw [← h] at hmem
    obtain ⟨i, hi, hgi⟩ := List.mem_map.mp hmem
    exact ⟨i, matched_indices_lt s _ i hi, hgi⟩
  · intro i m hi hmi hm0
    rw [← hmi] at hm0
    obtain ⟨hc, hcN, rest, hr⟩ := matched_map_numbered_at s h i hi hm0
    have hdiff : (setup_indices_in_fm_matrix s).interaction_column_indices.getD m 0 -
        (setup_indices_in_fm_matrix s).interaction_column_indices.getD (m - 1) 0 =
        basis_count s i := by
      rw [← hmi, hc, Nat.add_sub_cancel,
        setup_indices_in_fm_matrix_getD s _ (by rw [hr]; simp) hcN,
        setup_indices_in_fm_matrix_getD s _ (by rw [hr]; simp) (by omega), hr]
      have e1 : List.take ((matched_indices s i).length + 1) (matched_indices s i ++ i :: rest) =
          matched_indices s i ++ [i] := by
        rw [List.take_append_eq_append_take]
        simp
      rw [e1, List.take_left]
      simp
    constructor
    · intro hb
      rw [hdiff]
      simp [basis_count, grid_i, hb]
    · intro hb
      rw [hdiff]
      simp [basis_count, grid_i, hb]

/-- C1, the scenario of the spec: linear spline, lower 0.0, upper 10.0, `fm_binwidth`
0.5 gives `interaction_column_indices = [0, 21]`. -/
theorem setup_indices_in_fm_matrix_spec_witness :
    matched_map_numbered example_linear_class ∧
    (setup_indices_in_fm_matrix example_linear_class).interaction_column_indices = [0, 21] ∧
    (setup_indices_in_fm_matrix example_linear_class).interaction_column_indices.getD 1 0 -
      (setup_indices_in_fm_matrix example_linear_class).interaction_column_indices.getD (1 - 1) 0 =
      ⌊(example_linear_class.upper_cutoffs.getD 0 0 - example_linear_class.lower_cutoffs.getD 0 0) /
        example_linear_class.fm_binwidth + 1/2⌋ + 1 := by
  have hnum : matched_map_numbered example_linear_class := by decide
  refine ⟨hnum, ?_, ?_⟩
  · simp [setup_indices_in_fm_matrix, setup_indices_step, grid_i, example_linear_class,
      List.range_succ]
    norm_num [Int.floor_eq_iff]
  · exact ((setup_indices_in_fm_matrix_spec example_linear_class hnum).2.2.2 0 1
      (by decide) (by decide) (by decide)).1 rfl

/-- C9, as stated, fails: for `output_binwidth` 0.3, `fm_binwidth` 0.5 and the declared
range `[0.3, 1.0]` the linear-spline adjustment leaves the upper cutoff at 0.8, which is
not an integer multiple of `fm_binwidth`. -/
theorem adjust_cutoffs_for_basis_linear_upper_offgrid :
    example_offgrid_class.basis_type = kLinearSpline ∧
    0 < example_offgrid_class.output_binwidth ∧ 0 < example_offgrid_class.fm_binwidth ∧
    (adjust_cutoffs_for_basis example_offgrid_class 0).upper_cutoffs.getD 0 0 = 4/5 ∧
    ¬ ∃ n : ℤ, (adjust_cutoffs_for_basis example_offgrid_class 0).upper_cutoffs.getD 0 0 =
        (n : ℚ) * example_offgrid_class.fm_binwidth := by
  have hval : (adjust_cutoffs_for_basis example_offgrid_class 0).upper_cutoffs.getD 0 0 = 4/5 := by
    rw [(adjust_cutoffs_for_basis_linear_getD example_offgrid_class 0 rfl
      (by decide) (by decide)).2]
    have h1 : linear_lower (3/10) (3/10) = 3/10 := by
      have hf : ⌊(3/10 : ℚ) / (3/10) + 1/2⌋ = 1 := by
        rw [Int.floor_eq_iff]
        norm_num
      unfold linear_lower
      simp only [hf]
      norm_num
    have h2 : linear_upper (1/2) (3/10) 1 = 4/5 := by
      have hf : ⌊((1 : ℚ) - 3/10) / (1/2) + 1/2⌋ = 1 := by
        rw [Int.floor_eq_iff]
        norm_num
      unfold linear_upper
      rw [hf]
      norm_num
    show linear_upper (1/2) (linear_lower (3/10) (3/10)) 1 = 4/5
    rw [h1, h2]
  refine ⟨rfl, by norm_num [example_offgrid_class], by norm_num [example_offgrid_class],
    hval, ?_⟩
  rintro ⟨n, hn⟩
  rw [hval] at hn
  have h5 : (5 : ℚ) * n = 8 := by
    have : example_offgrid_class.fm_binwidth = 1/2 := rfl
    rw [this] at hn
    linarith
  have h5' : (5 : ℤ) * n = 8 := by exact_mod_cast h5
  omega

/-- C9 (amended): for a linear-spline class with positive bin widths,
`adjust_cutoffs_for_basis` leaves `lower_cutoffs[i] >= 0`, equal to the integer multiple
of `output_binwidth` nearest the declared lower bound (0 if that multiple is negative),
and leaves `upper_cutoffs[i]` equal to the new lower cutoff plus an integer multiple of
`fm_binwidth`, within `fm_binwidth / 2` of the declared upper bound. -/
theorem adjust_cutoffs_for_basis_linear_spec (s : InteractionClassSpec) (i : Nat)
    (hb : s.basis_type = kLinearSpline)
    (hob : 0 < s.output_binwidth) (hfm : 0 < s.fm_binwidth)
    (hil : i < s.lower_cutoffs.length) (hiu : i < s.upper_cutoffs.length) :
    0 ≤ (adjust_cutoffs_for_basis s i).lower_cutoffs.getD i 0 ∧
    (∃ n : ℤ,
      (∀ m : ℤ, |(n : ℚ) * s.output_binwidth - s.lower_cutoffs.getD i 0| ≤
        |(m : ℚ) * s.output_binwidth - s.lower_cutoffs.getD i 0|) ∧
      (adjust_cutoffs_for_basis s i).lower_cutoffs.getD i 0 =
        if (n : ℚ) * s.output_binwidth < 0 then 0 else (n : ℚ) * s.output_binwidth) ∧
    (∃ k : ℤ, (adjust_cutoffs_for_basis s i).upper_cutoffs.getD i 0 =
      (adjust_cutoffs_for_basis s i).lower_cutoffs.getD i 0 + (k : ℚ) * s.fm_binwidth) ∧
    |(adjust_cutoffs_for_basis s i).upper_cutoffs.getD i 0 - s.upper_cutoffs.getD i 0| ≤
      s.fm_binwidth / 2 := by
  obtain ⟨hl, hu⟩ := adjust_cutoffs_for_basis_linear_getD s i hb hil hiu
  rw [hl, hu]
  refine ⟨?_, ⟨⌊s.lower_cutoffs.getD i 0 / s.output_binwidth + 1/2⌋,
    round_mul_nearest _ _ hob, rfl⟩, ⟨_, rfl⟩, ?_⟩
  · unfold linear_lower
    simp only
    split
    · exact le_refl _
    · linarith
  · obtain ⟨h1, h2⟩ := round_mul_bounds s.fm_binwidth
      (s.upper_cutoffs.getD i 0 - linear_lower s.output_binwidth (s.lower_cutoffs.getD i 0)) hfm
    unfold linear_upper
    rw [abs_le]
    constructor <;> linarith

/-- C9 (amended), instance: `output_binwidth` 0.3, `fm_binwidth` 0.5, declared range
`[0.3, 1.0]`. -/
theorem adjust_cutoffs_for_basis_linear_spec_witness :
    0 ≤ (adjust_cutoffs_for_basis example_offgrid_class 0).lower_cutoffs.getD 0 0 ∧
    |(adjust_cutoffs_for_basis example_offgrid_class 0).upper_cutoffs.getD 0 0 -
      example_offgrid_class.upper_cutoffs.getD 0 0| ≤ example_offgrid_class.fm_binwidth / 2 :=
  have h := adjust_cutoffs_for_basis_linear_spec example_offgrid_class 0 rfl
    (by norm_num [example_offgrid_class]) (by norm_num [example_offgrid_class])
    (by decide) (by decide)
  ⟨h.1, h.2.2.2⟩

/-- C10 (amended): for a B-spline class with positive bin widths and a declared range
`0 <= lower <= upper` on which no operation of the B-spline branch is changed by the
rounding of `double` arithmetic (`bspline_arithmetic_exact`), `adjust_cutoffs_for_basis`
sets `upper_cutoffs[i]` to the smallest integer multiple of `output_binwidth` strictly
greater than the declared upper bound, and `lower_cutoffs[i]` to
`new_upper - n * fm_binwidth` for a positive integer `n` with
`new_lower < lower <= new_lower + fm_binwidth`; the adjusted interval strictly contains
the declared one. -/
theorem adjust_cutoffs_for_basis_double_bspline_spec (rnd : ℚ → ℚ) (s : InteractionClassSpec)
    (i : Nat) (hb : s.basis_type = kBSpline)
    (hob : 0 < s.output_binwidth) (hfm : 0 < s.fm_binwidth)
    (hil : i < s.lower_cutoffs.length) (hiu : i < s.upper_cutoffs.length)
    (hlo : 0 ≤ s.lower_cutoffs.getD i 0)
    (hle : s.lower_cutoffs.getD i 0 ≤ s.upper_cutoffs.getD i 0)
    (hex : bspline_arithmetic_exact rnd s.output_binwidth s.fm_binwidth
      (s.lower_cutoffs.getD i 0) (s.upper_cutoffs.getD i 0)) :
    (∃ k : ℤ, (adjust_cutoffs_for_basis_double rnd s i).upper_cutoffs.getD i 0 =
        (k : ℚ) * s.output_binwidth ∧
      s.upper_cutoffs.getD i 0 < (k : ℚ) * s.output_binwidth ∧
      ∀ m : ℤ, s.upper_cutoffs.getD i 0 < (m : ℚ) * s.output_binwidth →
        (k : ℚ) * s.output_binwidth ≤ (m : ℚ) * s.output_binwidth) ∧
    (∃ n : ℤ, 0 < n ∧
      (adjust_cutoffs_for_basis_double rnd s i).lower_cutoffs.getD i 0 =
        (adjust_cutoffs_for_basis_double rnd s i).upper_cutoffs.getD i 0 -
          (n : ℚ) * s.fm_binwidth ∧
      (adjust_cutoffs_for_basis_double rnd s i).lower_cutoffs.getD i 0 <
        s.lower_cutoffs.getD i 0 ∧
      s.lower_cutoffs.getD i 0 ≤
        (adjust_cutoffs_for_basis_double rnd s i).lower_cutoffs.getD i 0 + s.fm_binwidth) ∧
    (adjust_cutoffs_for_basis_double rnd s i).lower_cutoffs.getD i 0 <
      s.lower_cutoffs.getD i 0 ∧
    s.upper_cutoffs.getD i 0 <
      (adjust_cutoffs_for_basis_double rnd s i).upper_cutoffs.getD i 0 := by
  rw [adjust_cutoffs_for_basis_double_bspline_eq rnd s i hb hex]
  exact adjust_cutoffs_for_basis_bspline_exact_snap s i hb hob hfm hil hiu hlo hle

/-- C10 (amended), instance in `double` arithmetic: `bspline_k` 4, both bin widths 0.5,
declared range `[0, 10]`; every operation is exact. -/
theorem adjust_cutoffs_for_basis_double_bspline_spec_witness :
    (adjust_cutoffs_for_basis_double round_double example_bspline_class 0).lower_cutoffs.getD
        0 0 < example_bspline_class.lower_cutoffs.getD 0 0 ∧
    example_bspline_class.upper_cutoffs.getD 0 0 <
      (adjust_cutoffs_for_basis_double round_double example_bspline_class
        0).upper_cutoffs.getD 0 0 :=
  (adjust_cutoffs_for_basis_double_bspline_spec round_double example_bspline_class 0 rfl
    (by norm_num [example_bspline_class]) (by norm_num [example_bspline_class])
    (by decide) (by decide) (by norm_num [example_bspline_class])
    (by norm_num [example_bspline_class]) example_bspline_arithmetic_exact).2.2

/-- C10 (refuted as stated), instance in `double` arithmetic: `output_binwidth` 0.01 and
the declared range `[0, 0.29]`. The quotient `0.29 / 0.01` rounds to `28.999999999999996`,
the cast gives 28, and `29 * 0.01` rounds to the double `0.29` itself: the new upper cutoff
equals the declared upper bound and is not strictly greater. -/
theorem adjust_cutoffs_for_basis_double_upper_not_raised :
    example_hundredth_class.basis_type = kBSpline ∧
    0 < example_hundredth_class.output_binwidth ∧
    0 < example_hundredth_class.fm_binwidth ∧
    0 ≤ example_hundredth_class.lower_cutoffs.getD 0 0 ∧
    example_hundredth_class.lower_cutoffs.getD 0 0 ≤
      example_hundredth_class.upper_cutoffs.getD 0 0 ∧
    (adjust_cutoffs_for_basis_double round_double example_hundredth_class 0).upper_cutoffs.getD
        0 0 = example_hundredth_class.upper_cutoffs.getD 0 0 := by
  have hu : round_double (29 / 100) = 5224175567749775 / 2 ^ 54 :=
    (round_double_pos_eq (29 / 100) (-2) 5224175567749775
      (by norm_num) (by norm_num) (by norm_num) (by norm_num)).trans (by norm_num)
  have hb : round_double (1 / 100) = 5764607523034235 / 2 ^ 59 :=
    (round_double_pos_eq (1 / 100) (-7) 5764607523034235
      (by norm_num) (by norm_num) (by norm_num) (by norm_num)).trans (by norm_num)
  have h1 : round_double (5224175567749775 / 2 ^ 54 / (5764607523034235 / 2 ^ 59)) =
      8162774324609023 / 2 ^ 48 :=
    (round_double_pos_eq (5224175567749775 / 2 ^ 54 / (5764607523034235 / 2 ^ 59)) 4 8162774324609023
      (by norm_num) (by norm_num) (by norm_num) (by norm_num)).trans (by norm_num)
  have h2 : int_cast (8162774324609023 / 2 ^ 48) = 28 := by
    rw [int_cast_of_nonneg _ (by norm_num), Int.floor_eq_iff]
    norm_num
  have h3 : round_double (29 * (5764607523034235 / 2 ^ 59)) = 5224175567749775 / 2 ^ 54 :=
    (round_double_pos_eq (29 * (5764607523034235 / 2 ^ 59)) (-2) 5224175567749775
      (by norm_num) (by norm_num) (by norm_num) (by norm_num)).trans (by norm_num)
  have hU : example_hundredth_class.upper_cutoffs.getD 0 0 = 5224175567749775 / 2 ^ 54 := hu
  have hB : example_hundredth_class.output_binwidth = 5764607523034235 / 2 ^ 59 := hb
  have hL : example_hundredth_class.lower_cutoffs.getD 0 0 = 0 := rfl
  have hF : example_hundredth_class.fm_binwidth = 1 / 2 := rfl
  have c29 : (((28 + 1 : Int) : ℚ)) = 29 := by norm_num
  refine ⟨rfl, ?_, ?_, ?_, ?_, ?_⟩
  · rw [hB]
    norm_num
  · rw [hF]
    norm_num
  · rw [hL]
  · rw [hL, hU]
    norm_num
  · rw [adjust_cutoffs_for_basis_double_bspline_getD round_double example_hundredth_class 0 rfl
      (by decide)]
    unfold bspline_upper_double
    rw [hU, hB, h1, h2, c29, h3]

/-- C5: `read_interaction_class_ranges` ends in the fatal exit if and only if one of the
records it reads has a mode other than `none`, `fm`, `tab`, `fm+tab`; the diagnostic is
the "not recognized" message for that record, and at the exit neither index map has an
entry assigned for that record and `interaction_column_indices` is as it was. -/
theorem read_interaction_class_ranges_fatal_iff (eps : ℚ) (s : InteractionClassSpec)
    (range_in : List RangeLine) :
    ((∃ e, read_interaction_class_ranges eps s range_in = Except.error e) ↔
      ∃ l, l ∈ range_in.take s.n_defined ∧
        ¬ (l.mode = "none" ∨ l.mode = "fm" ∨ l.mode = "tab" ∨ l.mode = "fm+tab")) ∧
    ∀ e, read_interaction_class_ranges eps s range_in = Except.error e →
      ∃ i l, (range_in.take s.n_defined)[i]? = some l ∧
        ¬ (l.mode = "none" ∨ l.mode = "fm" ∨ l.mode = "tab" ∨ l.mode = "fm+tab") ∧
        e.1 = "Interaction mode " ++ l.mode ++ " is not recognized\n" ∧
        e.2.defined_to_matched_intrxn_index_map.getD i 0 =
          s.defined_to_matched_intrxn_index_map.getD i 0 ∧
        e.2.defined_to_tabulated_intrxn_index_map.getD i 0 =
          s.defined_to_tabulated_intrxn_index_map.getD i 0 ∧
        e.2.interaction_column_indices = s.interaction_column_indices := by
  have key : ∀ e, read_interaction_class_ranges eps s range_in = Except.error e →
      ∃ i l, (range_in.take s.n_defined)[i]? = some l ∧
        ¬ (l.mode = "none" ∨ l.mode = "fm" ∨ l.mode = "tab" ∨ l.mode = "fm+tab") ∧
        e.1 = "Interaction mode " ++ l.mode ++ " is not recognized\n" ∧
        e.2.defined_to_matched_intrxn_index_map.getD i 0 =
          s.defined_to_matched_intrxn_index_map.getD i 0 ∧
        e.2.defined_to_tabulated_intrxn_index_map.getD i 0 =
          s.defined_to_tabulated_intrxn_index_map.getD i 0 ∧
        e.2.interaction_column_indices = s.interaction_column_indices := by
    intro e h
    unfold read_interaction_class_ranges at h
    split at h
    · rename_i e0 heq
      have ee : e0 = e := Except.error.inj h
      subst ee
      obtain ⟨t, l, a, hl, hf, ca, fa, he⟩ := read_range_loop_error eps _ _ 0 e0 heq
      rw [Nat.zero_add] at fa he
      obtain ⟨c0, m0, t0, _⟩ := store_range_frame a.spec t l
      refine ⟨t, l, hl, ?_, ?_, ?_, ?_, ?_⟩
      · intro hmode
        rw [(mode_recognized_iff l.mode).mpr hmode] at hf
        exact absurd hf (by simp)
      · rw [he]
      · rw [he]
        show (store_range a.spec t l).defined_to_matched_intrxn_index_map.getD t 0 = _
        rw [m0]
        exact fa.2.2.1
      · rw [he]
        show (store_range a.spec t l).defined_to_tabulated_intrxn_index_map.getD t 0 = _
        rw [t0]
        exact fa.2.2.2
      · rw [he]
        exact c0.2.2.2.2.2.2.2.1.trans ca.2.2.2.2.2.2.2.1
    · exact absurd h (by simp)
  refine ⟨⟨?_, ?_⟩, key⟩
  · rintro ⟨e, h⟩
    obtain ⟨i, l, hl, hmode, _⟩ := key e h
    exact ⟨l, List.getElem?_mem hl, hmode⟩
  · rintro ⟨l, hl, hmode⟩
    by_cases hall : ∀ l', l' ∈ range_in.take s.n_defined → mode_recognized l'.mode = true
    · exact absurd ((mode_recognized_iff l.mode).mp (hall l hl)) hmode
    · cases hres : read_interaction_class_ranges eps s range_in with
      | error e => exact ⟨e, rfl⟩
      | ok s' =>
        exfalso
        unfold read_interaction_class_ranges at hres
        split at hres
        · exact absurd hres (by simp)
        · rename_i st heq
          exact hall (read_range_loop_frame eps _ _ st 0 heq).2.2.2.1

/-- C6: after `read_interaction_class_ranges` completes on the zero-initialised maps of
`setup_for_defined_interactions`, the nonzero entries of
`defined_to_matched_intrxn_index_map`, read in increasing defined index, are exactly
`1, 2, ..., n_to_force_match`, those of `defined_to_tabulated_intrxn_index_map` are
exactly `1, 2, ..., n_tabulated`, and both maps still have `n_defined` entries. -/
theorem read_interaction_class_ranges_numbering (eps : ℚ) (s0 s' : InteractionClassSpec)
    (range_in : List RangeLine)
    (h : read_interaction_class_ranges eps (setup_for_defined_interactions s0) range_in =
      Except.ok s') :
    s'.defined_to_matched_intrxn_index_map.filter (fun x => x ≠ 0) =
      List.range' 1 s'.n_to_force_match ∧
    s'.defined_to_tabulated_intrxn_index_map.filter (fun x => x ≠ 0) =
      List.range' 1 s'.n_tabulated ∧
    s'.defined_to_matched_intrxn_index_map.length = s'.n_defined ∧
    s'.defined_to_tabulated_intrxn_index_map.length = s'.n_defined := by
  obtain ⟨c, n1, n2, _, hm, hz, _⟩ := read_after_setup eps s0 s' range_in h
  have a1 := numbering_filter s'.defined_to_matched_intrxn_index_map
    (range_in.take s0.n_defined) "fm" (fun t l hl => (hm t l hl).1) (fun j hj => (hz j hj).1)
    s'.defined_to_matched_intrxn_index_map.length
  have a2 := numbering_filter s'.defined_to_tabulated_intrxn_index_map
    (range_in.take s0.n_defined) "tab" (fun t l hl => (hm t l hl).2) (fun j hj => (hz j hj).2)
    s'.defined_to_tabulated_intrxn_index_map.length
  have l1 : s'.defined_to_matched_intrxn_index_map.length = s0.n_defined := by
    rw [c.2.2.2.2.2.2.2.2.2.2.2.1]
    simp [setup_for_defined_interactions]
  have l2 : s'.defined_to_tabulated_intrxn_index_map.length = s0.n_defined := by
    rw [c.2.2.2.2.2.2.2.2.2.2.2.2]
    simp [setup_for_defined_interactions]
  have hnd : s'.n_defined = s0.n_defined := c.2.2.2.2.2.2.1
  rw [List.take_length] at a1 a2
  rw [l1, List.take_of_length_le (by simp)] at a1
  rw [l2, List.take_of_length_le (by simp)] at a2
  rw [n1, n2, hnd]
  exact ⟨a1, a2, l1, l2⟩

/-- C6, instance: three records `fm`, `tab`, `none` give the maps `[1, 0, 0]` and
`[0, 1, 0]` with one matched and one tabulated interaction. -/
theorem read_interaction_class_ranges_numbering_witness :
    read_interaction_class_ranges (1/1000000)
      (setup_for_defined_interactions example_three_class) example_three_ranges =
      Except.ok example_three_result ∧
    example_three_result.defined_to_matched_intrxn_index_map = [1, 0, 0] ∧
    example_three_result.defined_to_tabulated_intrxn_index_map = [0, 1, 0] ∧
    example_three_result.defined_to_matched_intrxn_index_map.filter (fun x => x ≠ 0) =
      List.range' 1 example_three_result.n_to_force_match ∧
    example_three_result.defined_to_tabulated_intrxn_index_map.filter (fun x => x ≠ 0) =
      List.range' 1 example_three_result.n_tabulated :=
  have h := read_interaction_class_ranges_numbering (1/1000000) example_three_class
    example_three_result example_three_ranges example_three_read
  ⟨example_three_read, rfl, rfl, h.1, h.2.1⟩

/-- C7, as stated, fails for the linear-spline basis: with both bin widths 0.5 the
record `0 0.1 fm` (so `0 <= lower < upper`) is matched, and its adjusted cutoffs are
both 0. -/
theorem read_interaction_class_ranges_linear_collapse :
    read_interaction_class_ranges (1/1000000)
      (setup_for_defined_interactions example_narrow_class)
      [{ lower := 0, upper := 1/10, mode := "fm" }] = Except.ok example_narrow_result ∧
    example_narrow_class.basis_type = kLinearSpline ∧
    0 < example_narrow_class.fm_binwidth ∧ 0 < example_narrow_class.output_binwidth ∧
    (0 : ℚ) ≤ 0 ∧ (0 : ℚ) < 1/10 ∧
    example_narrow_result.defined_to_matched_intrxn_index_map.getD 0 0 ≠ 0 ∧
    ¬ (example_narrow_result.lower_cutoffs.getD 0 0 <
        example_narrow_result.upper_cutoffs.getD 0 0) := by
  refine ⟨example_narrow_read, rfl, ?_, ?_, le_refl _, by norm_num, by decide, ?_⟩
  · norm_num [example_narrow_class]
  · norm_num [example_narrow_class]
  · simp [example_narrow_result]

/-- C7 (amended): for a record declared with `0 <= lower < upper` and positive bin
widths whose interaction is matched after `read_interaction_class_ranges`, the adjusted
cutoffs satisfy `lower_cutoffs[i] < upper_cutoffs[i]` for the B-spline basis; for the
linear-spline basis they do when `upper - lower >= output_binwidth/2 + 3*fm_binwidth/2`,
and `upper - lower >= output_binwidth/2 + fm_binwidth/2` suffices for a class that is
not pair-nonbonded. -/
theorem read_interaction_class_ranges_cutoffs_ordered (eps : ℚ) (s0 s' : InteractionClassSpec)
    (range_in : List RangeLine)
    (h : read_interaction_class_ranges eps (setup_for_defined_interactions s0) range_in =
      Except.ok s')
    (hob : 0 < s0.output_binwidth) (hfm : 0 < s0.fm_binwidth) (t : Nat)
    (hm : s'.defined_to_matched_intrxn_index_map.getD t 0 ≠ 0)
    (hdecl : ∀ l, (range_in.take s0.n_defined)[t]? = some l → 0 ≤ l.lower ∧ l.lower < l.upper) :
    (s0.basis_type = kBSpline → s'.lower_cutoffs.getD t 0 < s'.upper_cutoffs.getD t 0) ∧
    (s0.basis_type = kLinearSpline →
      ∀ l, (range_in.take s0.n_defined)[t]? = some l →
        ((s0.class_type ≠ kPairNonbonded ∧
            l.lower + s0.output_binwidth / 2 + s0.fm_binwidth / 2 ≤ l.upper) ∨
          l.lower + s0.output_binwidth / 2 + 3 * s0.fm_binwidth / 2 ≤ l.upper) →
        s'.lower_cutoffs.getD t 0 < s'.upper_cutoffs.getD t 0) := by
  obtain ⟨l, hl, _, hbs, hlin⟩ := read_matched_cutoffs eps s0 s' range_in h t hm
  obtain ⟨h0, hlt⟩ := hdecl l hl
  constructor
  · intro hb
    obtain ⟨eu, el⟩ := hbs hb
    obtain ⟨c1, c2⟩ := bspline_adjust_contains s0.output_binwidth s0.fm_binwidth l.lower l.upper
      hob hfm h0 (le_of_lt hlt)
    rw [eu, el]
    linarith
  · intro hb l' hl' hwide
    have e : l' = l := Option.some.inj (hl'.symm.trans hl)
    subst e
    obtain ⟨el, eu⟩ := hlin hb
    have g1 := linear_lower_le s0.output_binwidth l'.lower hob h0
    have g2 := linear_upper_gt s0.fm_binwidth (linear_lower s0.output_binwidth l'.lower)
      l'.upper hfm
    have hn1 : (if s0.class_type = kPairNonbonded ∧
        |linear_upper s0.fm_binwidth (linear_lower s0.output_binwidth l'.lower) l'.upper -
          s0.cutoff - s0.fm_binwidth| < eps then s0.fm_binwidth else 0) ≤ s0.fm_binwidth := by
      split
      · exact le_refl _
      · exact le_of_lt hfm
    have hn2 : s0.class_type ≠ kPairNonbonded → (if s0.class_type = kPairNonbonded ∧
        |linear_upper s0.fm_binwidth (linear_lower s0.output_binwidth l'.lower) l'.upper -
          s0.cutoff - s0.fm_binwidth| < eps then s0.fm_binwidth else 0) = 0 := by
      intro hnp
      rw [if_neg (fun hh => hnp hh.1)]
    rw [el, eu]
    rcases hwide with ⟨hnp, hw⟩ | hw
    · rw [hn2 hnp]
      linarith
    · linarith

/-- C7 (amended), instance: the `fm` record `0 10` of `example_three_ranges`, bin
widths 1. -/
theorem read_interaction_class_ranges_cutoffs_ordered_witness :
    example_three_result.defined_to_matched_intrxn_index_map.getD 0 0 ≠ 0 ∧
    example_three_result.lower_cutoffs.getD 0 0 < example_three_result.upper_cutoffs.getD 0 0 :=
  ⟨by decide,
    (read_interaction_class_ranges_cutoffs_ordered (1/1000000) example_three_class
      example_three_result example_three_ranges example_three_read
      (by norm_num [example_three_class]) (by norm_num [example_three_class]) 0 (by decide)
      (by
        intro l hl
        have e : l = { lower := 0, upper := 10, mode := "fm" } := by
          simpa [example_three_ranges, example_three_class] using hl.symm
        rw [e]
        norm_num)).2 rfl { lower := 0, upper := 10, mode := "fm" }
      (by simp [example_three_ranges, example_three_class])
      (Or.inl ⟨by decide, by norm_num [example_three_class]⟩)⟩

/-- C3, failing input: the record `0 10.2 fm+tab` passes the validity test, yet the
interaction is not matched: its matched index stays 0, `n_to_force_match` stays 0 and
its cutoffs are the declared bounds, not snapped to the grid. -/
theorem read_interaction_class_ranges_fm_tab_not_matched :
    read_interaction_class_ranges (1/1000000)
      (setup_for_defined_interactions example_narrow_class)
      [{ lower := 0, upper := 51/5, mode := "fm+tab" }] = Except.ok example_fm_tab_result ∧
    mode_recognized "fm+tab" = true ∧
    example_fm_tab_result.defined_to_matched_intrxn_index_map.getD 0 0 = 0 ∧
    example_fm_tab_result.n_to_force_match = 0 ∧
    example_fm_tab_result.lower_cutoffs.getD 0 0 = 0 ∧
    example_fm_tab_result.upper_cutoffs.getD 0 0 = 51/5 :=
  ⟨example_fm_tab_read, by decide, by decide, rfl, rfl, rfl⟩

/-- C4, failing input: the record `0 10.2 fm+tab` passes the validity test, yet the
interaction is not tabulated: its tabulated index stays 0 and `n_tabulated` stays 0. -/
theorem read_interaction_class_ranges_fm_tab_not_tabulated :
    read_interaction_class_ranges (1/1000000)
      (setup_for_defined_interactions example_narrow_class)
      [{ lower := 0, upper := 51/5, mode := "fm+tab" }] = Except.ok example_fm_tab_result ∧
    mode_recognized "fm+tab" = true ∧
    example_fm_tab_result.defined_to_tabulated_intrxn_index_map.getD 0 0 = 0 ∧
    example_fm_tab_result.n_tabulated = 0 :=
  ⟨example_fm_tab_read, by decide, by decide, rfl⟩

/-- C2, as stated, fails: with `output_binwidth` 0.5 the record `0 10 fm` of the B-spline
scenario (`bspline_k` 4, `fm_binwidth` 0.5) is adjusted to `[-0.5, 10.5]`, and the
column vector is `[0, 25]`, not `[0, 23]`. -/
theorem bspline_scenario_not_23 :
    read_interaction_class_ranges (1/1000000)
      (setup_for_defined_interactions (bspline_scenario_class (1/2) 10))
      [{ lower := 0, upper := 10, mode := "fm" }] = Except.ok example_bspline_result ∧
    (setup_indices_in_fm_matrix example_bspline_result).interaction_column_indices = [0, 25] ∧
    (setup_indices_in_fm_matrix example_bspline_result).interaction_column_indices ≠ [0, 23] := by
  refine ⟨example_bspline_read, example_bspline_columns, ?_⟩
  rw [example_bspline_columns]
  decide

/-- C2 (amended): for a pair-nonbonded class with a B-spline basis, `bspline_k = 4`,
`fm_binwidth = 0.5` and any positive `output_binwidth`, the single range line
`0.0 10.0 fm`, processed by `read_interaction_class_ranges` (with its cutoff adjustment)
and then `setup_indices_in_fm_matrix`, yields `interaction_column_indices = [0, c]` with
`c = floor(new_upper / 0.5) + 4 >= 24`, where `new_upper` is the adjusted upper cutoff. -/
theorem bspline_scenario_columns (eps ob cutoff : ℚ) (hob : 0 < ob) :
    ∃ s', read_interaction_class_ranges eps
        (setup_for_defined_interactions (bspline_scenario_class ob cutoff))
        [{ lower := 0, upper := 10, mode := "fm" }] = Except.ok s' ∧
      (setup_indices_in_fm_matrix s').interaction_column_indices =
        [0, ⌊bspline_upper ob 10 / (1/2)⌋ + 4] ∧
      24 ≤ ⌊bspline_upper ob 10 / (1/2)⌋ + 4 := by
  obtain ⟨s', h⟩ := read_interaction_class_ranges_total eps
    (setup_for_defined_interactions (bspline_scenario_class ob cutoff))
    [{ lower := 0, upper := 10, mode := "fm" }] (by
      intro l hl
      have e : l = { lower := 0, upper := 10, mode := "fm" } := by
        simpa [setup_for_defined_interactions, bspline_scenario_class] using hl
      rw [e]
      decide)
  obtain ⟨c, hN, _, _, hmaps, _, _⟩ := read_after_setup eps _ s' _ h
  have hN1 : s'.n_to_force_match = 1 := by
    rw [hN]
    simp [count_mode, bspline_scenario_class]
  have hm0 : s'.defined_to_matched_intrxn_index_map.getD 0 0 = 1 := by
    have := (hmaps 0 { lower := 0, upper := 10, mode := "fm" }
      (by simp [bspline_scenario_class])).1
    rw [this]
    simp [count_mode, bspline_scenario_class]
  obtain ⟨l, hl, _, hbs, _⟩ := read_matched_cutoffs eps _ s' _ h 0 (by rw [hm0]; decide)
  have el : l = { lower := 0, upper := 10, mode := "fm" } := by
    simpa [bspline_scenario_class] using hl.symm
  subst el
  obtain ⟨eu, elo⟩ := hbs rfl
  have hnd : ¬ ((bspline_scenario_class ob cutoff).class_type = kDihedralBonded ∧
      (bspline_scenario_class ob cutoff).class_subtype = 0) := by
    simp [bspline_scenario_class]
  rw [if_neg hnd, sub_zero] at eu elo
  have hU : (10 : ℚ) < bspline_upper ob 10 :=
    (bspline_upper_spec ob 10 hob (by norm_num)).2.1
  have hob' : (bspline_scenario_class ob cutoff).output_binwidth = ob := rfl
  have hfm' : (bspline_scenario_class ob cutoff).fm_binwidth = 1/2 := rfl
  simp only [hob', hfm'] at eu elo
  obtain ⟨k1, k2, k3, _, _, _, k7, _⟩ := c
  have hbt : s'.basis_type = kBSpline := k1
  have hk : s'.bspline_k = 4 := k2
  have hfm : s'.fm_binwidth = 1/2 := k3
  have hn : s'.n_defined = 1 := k7
  have hmi : matched_indices s' s'.n_defined = [0] := by
    rw [hn]
    show matched_indices s' (0 + 1) = [0]
    rw [matched_indices_succ, if_pos (by rw [hm0]; decide)]
    rfl
  have hcount : basis_count s' 0 = ⌊bspline_upper ob 10 / (1/2)⌋ + 4 := by
    unfold basis_count grid_i
    rw [if_pos hbt, hk, hfm, eu, elo,
      bspline_grid (1/2) (bspline_upper ob 10) 0 (by norm_num) (by linarith), sub_zero]
    ring
  have g0 := setup_indices_in_fm_matrix_getD s' 0 (Nat.zero_le _) (Nat.zero_le _)
  have g1 := setup_indices_in_fm_matrix_getD s' 1 (by rw [hmi]; simp) (by rw [hN1])
  rw [hmi] at g0 g1
  simp only [List.take_zero, List.map_nil, List.sum_nil] at g0
  have t1 : List.take 1 [0] = [0] := rfl
  rw [t1] at g1
  simp only [List.map_cons, List.map_nil, List.sum_cons, List.sum_nil, add_zero] at g1
  have hlen := setup_indices_in_fm_matrix_length s'
  rw [hN1] at hlen
  obtain ⟨x, y, hxy⟩ := List.length_eq_two.mp hlen
  rw [hxy] at g0 g1
  simp only [List.getD_cons_zero, List.getD_cons_succ] at g0 g1
  refine ⟨s', h, ?_, ?_⟩
  · rw [hxy, g0, g1, hcount]
  · have h20 : (20 : ℚ) < bspline_upper ob 10 / (1/2) := by
      rw [lt_div_iff₀ (by norm_num)]
      linarith
    have : (20 : ℤ) ≤ ⌊bspline_upper ob 10 / (1/2)⌋ := by
      rw [Int.le_floor]
      exact_mod_cast le_of_lt h20
    omega

/-- C2 (amended), instance: `output_binwidth` 0.5, where `c` is 25. -/
theorem bspline_scenario_columns_witness :
    (0 : ℚ) < 1/2 ∧ ⌊bspline_upper (1/2) 10 / (1/2)⌋ + 4 = 25 ∧
    ∃ s', read_interaction_class_ranges (1/1000000)
        (setup_for_defined_interactions (bspline_scenario_class (1/2) 10))
        [{ lower := 0, upper := 10, mode := "fm" }] = Except.ok s' ∧
      (setup_indices_in_fm_matrix s').interaction_column_indices =
        [0, ⌊bspline_upper (1/2) 10 / (1/2)⌋ + 4] ∧
      24 ≤ ⌊bspline_upper (1/2) 10 / (1/2)⌋ + 4 :=
  ⟨by norm_num, bspline_scenario_half,
    bspline_scenario_columns (1/1000000) (1/2) 10 (by norm_num)⟩

/-- C8, as stated, fails for the linear-spline basis: with `output_binwidth` 1 and
`fm_binwidth` 0.1 the two `fm` records `0 2` and `0.6 0.65` (both `0 <= lower < upper`,
`bspline_k = 4`) give `interaction_column_indices = [0, 21, 19]`, which decreases. -/
theorem setup_after_read_decreasing :
    read_interaction_class_ranges (1/1000000)
      (setup_for_defined_interactions example_coarse_class) example_coarse_ranges =
      Except.ok example_coarse_result ∧
    (∀ l, l ∈ example_coarse_ranges → 0 ≤ l.lower ∧ l.lower < l.upper) ∧
    0 < example_coarse_class.fm_binwidth ∧ 0 < example_coarse_class.output_binwidth ∧
    2 ≤ example_coarse_class.bspline_k ∧
    (setup_indices_in_fm_matrix example_coarse_result).interaction_column_indices =
      [0, 21, 19] ∧
    (setup_indices_in_fm_matrix example_coarse_result).interaction_column_indices.getD 2 0 <
      (setup_indices_in_fm_matrix example_coarse_result).interaction_column_indices.getD 1 0 := by
  refine ⟨example_coarse_read, ?_, ?_, ?_, by decide, example_coarse_columns, ?_⟩
  · intro l hl
    simp only [example_coarse_ranges, List.mem_cons, List.mem_singleton, List.not_mem_nil,
      or_false] at hl
    rcases hl with e | e <;> rw [e] <;> norm_num
  · norm_num [example_coarse_class]
  · norm_num [example_coarse_class]
  · rw [example_coarse_columns]
    decide

/-- C8 (amended): for range lines whose `fm` records are declared with
`0 <= lower < upper` (positive bin widths, `bspline_k >= 2`), after
`read_interaction_class_ranges` followed by `setup_indices_in_fm_matrix`,
`get_num_basis_func()` equals the sum of the per-interaction basis-function counts of
the class, and `interaction_column_indices` is non-decreasing for a B-spline basis, and
for a linear-spline basis when every `fm` record satisfies
`lower + output_binwidth/2 <= upper + fm_binwidth/2`. -/
theorem setup_after_read_columns (eps : ℚ) (s0 s' : InteractionClassSpec)
    (range_in : List RangeLine)
    (h : read_interaction_class_ranges eps (setup_for_defined_interactions s0) range_in =
      Except.ok s')
    (hob : 0 < s0.output_binwidth) (hfm : 0 < s0.fm_binwidth) (hk : 2 ≤ s0.bspline_k)
    (hdecl : ∀ l, l ∈ range_in.take s0.n_defined → l.mode = "fm" →
      0 ≤ l.lower ∧ l.lower < l.upper) :
    get_num_basis_func (setup_indices_in_fm_matrix s') =
      ((matched_indices s' s'.n_defined).map (basis_count s')).sum ∧
    ((s0.basis_type = kBSpline ∨ (s0.basis_type = kLinearSpline ∧
        ∀ l, l ∈ range_in.take s0.n_defined → l.mode = "fm" →
          l.lower + s0.output_binwidth / 2 ≤ l.upper + s0.fm_binwidth / 2)) →
      ∀ j, j < s'.n_to_force_match →
        (setup_indices_in_fm_matrix s').interaction_column_indices.getD j 0 ≤
          (setup_indices_in_fm_matrix s').interaction_column_indices.getD (j + 1) 0) := by
  have hnum := read_matched_map_numbered eps s0 s' range_in h
  have hlen := matched_indices_length s' hnum
  constructor
  · show (setup_indices_in_fm_matrix s').interaction_column_indices.getD s'.n_to_force_match 0 = _
    rw [setup_indices_in_fm_matrix_getD s' s'.n_to_force_match (by omega) (le_refl _),
      List.take_of_length_le (by omega)]
  · intro hbasis j hj
    obtain ⟨i, _, hmi, hstep⟩ := setup_indices_in_fm_matrix_step s' hnum j hj
    have hc := read_basis_count_nonneg eps s0 s' range_in h hob hfm hk hdecl hbasis i hmi
    rw [hstep]
    omega

/-- C8 (amended), instance: the three records of `example_three_ranges` with both bin
widths 1 give the column vector `[0, 11]`. -/
theorem setup_after_read_columns_witness :
    get_num_basis_func (setup_indices_in_fm_matrix example_three_result) =
      ((matched_indices example_three_result example_three_result.n_defined).map
        (basis_count example_three_result)).sum ∧
    ∀ j, j < example_three_result.n_to_force_match →
      (setup_indices_in_fm_matrix example_three_result).interaction_column_indices.getD j 0 ≤
        (setup_indices_in_fm_matrix example_three_result).interaction_column_indices.getD
          (j + 1) 0 := by
  have hmem : ∀ l, l ∈ example_three_ranges.take example_three_class.n_defined →
      l.mode = "fm" → l = { lower := 0, upper := 10, mode := "fm" } := by
    intro l hl hm
    simp only [example_three_ranges, example_three_class, List.take_succ_cons, List.take_zero,
      List.mem_cons, List.mem_singleton, List.not_mem_nil, or_false] at hl
    rcases hl with e | e | e
    · exact e
    · rw [e] at hm
      exact absurd hm (by decide)
    · rw [e] at hm
      exact absurd hm (by decide)
  have key := setup_after_read_columns (1/1000000) example_three_class example_three_result
    example_three_ranges example_three_read (by norm_num [example_three_class])
    (by norm_num [example_three_class]) (by decide)
    (by
      intro l hl hm
      rw [hmem l hl hm]
      norm_num)
  refine ⟨key.1, key.2 (Or.inr ⟨rfl, ?_⟩)⟩
  intro l hl hm
  rw [hmem l hl hm]
  norm_num [example_three_class]

/-- C11: for a linear-spline or B-spline class with a positive `fm_binwidth`, after
`adjust_cutoffs_for_basis` the quotient `(upper - lower) / fm_binwidth` of index `i` is an
integer and the bin count `floor((upper - lower)/fm_binwidth + 0.5) + 1` equals that
quotient plus 1; the same holds after the following `adjust_cutoffs_for_type`, whose
dihedral shift lowers both cutoffs by 180 and leaves the width and the bin count as they
were. -/
theorem adjust_cutoffs_grid_exact (eps : ℚ) (s : InteractionClassSpec) (i : Nat)
    (hb : s.basis_type = kLinearSpline ∨ s.basis_type = kBSpline)
    (hfm : 0 < s.fm_binwidth)
    (hil : i < s.lower_cutoffs.length) (hiu : i < s.upper_cutoffs.length) :
    (∃ n : ℤ, ((adjust_cutoffs_for_basis s i).upper_cutoffs.getD i 0 -
        (adjust_cutoffs_for_basis s i).lower_cutoffs.getD i 0) / s.fm_binwidth = (n : ℚ)) ∧
    ((grid_i (adjust_cutoffs_for_basis s i) i : ℚ) =
      ((adjust_cutoffs_for_basis s i).upper_cutoffs.getD i 0 -
        (adjust_cutoffs_for_basis s i).lower_cutoffs.getD i 0) / s.fm_binwidth + 1) ∧
    (∃ n : ℤ, ((adjust_cutoffs_for_type eps (adjust_cutoffs_for_basis s i) i).upper_cutoffs.getD
          i 0 -
        (adjust_cutoffs_for_type eps (adjust_cutoffs_for_basis s i) i).lower_cutoffs.getD i 0) /
          s.fm_binwidth = (n : ℚ)) ∧
    ((grid_i (adjust_cutoffs_for_type eps (adjust_cutoffs_for_basis s i) i) i : ℚ) =
      ((adjust_cutoffs_for_type eps (adjust_cutoffs_for_basis s i) i).upper_cutoffs.getD i 0 -
        (adjust_cutoffs_for_type eps (adjust_cutoffs_for_basis s i) i).lower_cutoffs.getD i 0) /
          s.fm_binwidth + 1) ∧
    (s.class_type = kDihedralBonded ∧ s.class_subtype = 0 →
      (adjust_cutoffs_for_type eps (adjust_cutoffs_for_basis s i) i).lower_cutoffs.getD i 0 =
        (adjust_cutoffs_for_basis s i).lower_cutoffs.getD i 0 - 180 ∧
      (adjust_cutoffs_for_type eps (adjust_cutoffs_for_basis s i) i).upper_cutoffs.getD i 0 =
        (adjust_cutoffs_for_basis s i).upper_cutoffs.getD i 0 - 180 ∧
      grid_i (adjust_cutoffs_for_type eps (adjust_cutoffs_for_basis s i) i) i =
        grid_i (adjust_cutoffs_for_basis s i) i) := by
  obtain ⟨cb, _, _, _⟩ := adjust_cutoffs_for_basis_frame s i
  obtain ⟨ct, _, _, _⟩ := adjust_cutoffs_for_type_frame eps (adjust_cutoffs_for_basis s i) i
  have fb : (adjust_cutoffs_for_basis s i).fm_binwidth = s.fm_binwidth := cb.2.2.1
  have ft : (adjust_cutoffs_for_type eps (adjust_cutoffs_for_basis s i) i).fm_binwidth =
      (adjust_cutoffs_for_basis s i).fm_binwidth := ct.2.2.1
  have hil1 : i < (adjust_cutoffs_for_basis s i).lower_cutoffs.length := by
    rw [cb.2.2.2.2.2.2.2.2.2.1]
    exact hil
  have hiu1 : i < (adjust_cutoffs_for_basis s i).upper_cutoffs.length := by
    rw [cb.2.2.2.2.2.2.2.2.2.2.1]
    exact hiu
  obtain ⟨n, hn⟩ := adjust_cutoffs_for_basis_width s i hb hil hiu
  rw [← fb] at hn hfm
  obtain ⟨m, hm, hmn⟩ := adjust_cutoffs_for_type_width eps (adjust_cutoffs_for_basis s i) i
    hil1 hiu1 n hn
  obtain ⟨q1, g1⟩ := grid_i_of_width (adjust_cutoffs_for_basis s i) i n hfm hn
  rw [← ft] at hm hfm
  obtain ⟨q2, g2⟩ := grid_i_of_width (adjust_cutoffs_for_type eps (adjust_cutoffs_for_basis s i) i)
    i m hfm hm
  rw [ft, fb] at q2
  rw [fb] at q1
  refine ⟨⟨n, q1⟩, ?_, ⟨m, q2⟩, ?_, ?_⟩
  · rw [q1, g1]
    push_cast
    rfl
  · rw [q2, g2]
    push_cast
    rfl
  · intro hd
    obtain ⟨hl, hu⟩ := adjust_cutoffs_for_type_getD eps (adjust_cutoffs_for_basis s i) i hil1 hiu1
    have hc : (adjust_cutoffs_for_basis s i).class_type = s.class_type := cb.2.2.2.1
    have hs : (adjust_cutoffs_for_basis s i).class_subtype = s.class_subtype := cb.2.2.2.2.1
    have hd1 : (adjust_cutoffs_for_basis s i).class_type = kDihedralBonded ∧
        (adjust_cutoffs_for_basis s i).class_subtype = 0 := by
      rw [hc, hs]
      exact hd
    have hno : ¬ ((adjust_cutoffs_for_basis s i).basis_type = kLinearSpline ∧
        (adjust_cutoffs_for_basis s i).class_type = kPairNonbonded ∧
        |(adjust_cutoffs_for_basis s i).upper_cutoffs.getD i 0 -
          (adjust_cutoffs_for_basis s i).cutoff - (adjust_cutoffs_for_basis s i).fm_binwidth| <
          eps) := by
      intro hx
      rw [hd1.1] at hx
      exact absurd hx.2.1 (by decide)
    rw [if_pos hd1] at hl
    rw [if_pos hd1, if_neg hno] at hu
    refine ⟨hl, by rw [hu]; ring, ?_⟩
    rw [g1, g2, hmn (by rw [hd1.1]; decide)]

/-- C11, instance: a dihedral class of subtype 0 with both bin widths 1 and declared range
`[0, 360]`. -/
theorem adjust_cutoffs_grid_exact_witness :
    ((grid_i (adjust_cutoffs_for_basis example_dihedral_class 0) 0 : ℚ) =
      ((adjust_cutoffs_for_basis example_dihedral_class 0).upper_cutoffs.getD 0 0 -
        (adjust_cutoffs_for_basis example_dihedral_class 0).lower_cutoffs.getD 0 0) /
          example_dihedral_class.fm_binwidth + 1) ∧
    grid_i (adjust_cutoffs_for_type (1/1000000)
        (adjust_cutoffs_for_basis example_dihedral_class 0) 0) 0 =
      grid_i (adjust_cutoffs_for_basis example_dihedral_class 0) 0 :=
  have h := adjust_cutoffs_grid_exact (1/1000000) example_dihedral_class 0 (Or.inl rfl)
    (by norm_num [example_dihedral_class]) (by decide) (by decide)
  ⟨h.2.1, (h.2.2.2.2 ⟨rfl, rfl⟩).2.2⟩

/-- C12 (refuted as stated), instance: a B-spline pair-nonbonded class with cutoff 10 and
both bin widths 0.5 whose interaction is declared on `[0, 10]`. After
`adjust_cutoffs_for_basis` the upper cutoff is 10.5, equal to `cutoff + fm_binwidth`, and
`adjust_cutoffs_for_type` leaves it at 10.5 instead of lowering it to 10. -/
theorem adjust_cutoffs_for_type_bspline_not_lowered :
    example_bspline_class.class_type = kPairNonbonded ∧
    (adjust_cutoffs_for_basis example_bspline_class 0).upper_cutoffs.getD 0 0 =
      example_bspline_class.cutoff + example_bspline_class.fm_binwidth ∧
    (adjust_cutoffs_for_type (1/1000000)
      (adjust_cutoffs_for_basis example_bspline_class 0) 0).upper_cutoffs.getD 0 0 = 21/2 ∧
    (adjust_cutoffs_for_type (1/1000000)
      (adjust_cutoffs_for_basis example_bspline_class 0) 0).upper_cutoffs.getD 0 0 ≠
      (adjust_cutoffs_for_basis example_bspline_class 0).upper_cutoffs.getD 0 0 -
        example_bspline_class.fm_binwidth := by
  have hu : (adjust_cutoffs_for_basis example_bspline_class 0).upper_cutoffs.getD 0 0 = 21/2 := by
    simp [adjust_cutoffs_for_basis, example_bspline_class, bspline_upper, int_cast]
    norm_num
  have ht : (adjust_cutoffs_for_type (1/1000000)
      (adjust_cutoffs_for_basis example_bspline_class 0) 0).upper_cutoffs.getD 0 0 = 21/2 := by
    rw [← hu]
    simp [adjust_cutoffs_for_type, adjust_cutoffs_for_basis, example_bspline_class]
  refine ⟨rfl, ?_, ht, ?_⟩
  · rw [hu]
    norm_num [example_bspline_class]
  · rw [ht, hu]
    norm_num [example_bspline_class]

/-- C12 (amended): for a pair-nonbonded class, `adjust_cutoffs_for_type` lowers
`upper_cutoffs[i]` by exactly `fm_binwidth` when the basis is a linear spline and the upper
cutoff is within `VERYSMALL_F` of `cutoff + fm_binwidth`; in every other case, which
includes every B-spline class, it leaves the upper cutoff unchanged. The lower cutoffs
and the other upper cutoffs are never changed. -/
theorem adjust_cutoffs_for_type_pair_nonbonded (eps : ℚ) (s : InteractionClassSpec) (i : Nat)
    (hc : s.class_type = kPairNonbonded) (hiu : i < s.upper_cutoffs.length) :
    (s.basis_type = kLinearSpline ∧
        |s.upper_cutoffs.getD i 0 - s.cutoff - s.fm_binwidth| < eps →
      (adjust_cutoffs_for_type eps s i).upper_cutoffs.getD i 0 =
        s.upper_cutoffs.getD i 0 - s.fm_binwidth) ∧
    (¬ (s.basis_type = kLinearSpline ∧
        |s.upper_cutoffs.getD i 0 - s.cutoff - s.fm_binwidth| < eps) →
      (adjust_cutoffs_for_type eps s i).upper_cutoffs = s.upper_cutoffs) ∧
    (adjust_cutoffs_for_type eps s i).lower_cutoffs = s.lower_cutoffs ∧
    ∀ j, j ≠ i → (adjust_cutoffs_for_type eps s i).upper_cutoffs.getD j 0 =
      s.upper_cutoffs.getD j 0 := by
  have hd : ¬ (s.class_type = kDihedralBonded ∧ s.class_subtype = 0) := by
    rw [hc]
    simp
  refine ⟨?_, ?_, ?_, ?_⟩
  · intro h
    have h1 : s.basis_type = kLinearSpline ∧ s.class_type = kPairNonbonded ∧
        |s.upper_cutoffs.getD i 0 - s.cutoff - s.fm_binwidth| < eps := ⟨h.1, hc, h.2⟩
    unfold adjust_cutoffs_for_type
    simp only [if_pos h1, if_neg hd]
    exact getD_set_eq _ _ _ _ hiu
  · intro h
    have h1 : ¬ (s.basis_type = kLinearSpline ∧ s.class_type = kPairNonbonded ∧
        |s.upper_cutoffs.getD i 0 - s.cutoff - s.fm_binwidth| < eps) :=
      fun hx => h ⟨hx.1, hx.2.2⟩
    unfold adjust_cutoffs_for_type
    simp only [if_neg h1, if_neg hd]
  · unfold adjust_cutoffs_for_type
    simp only
    split <;> simp only [if_neg hd]
  · intro j hj
    exact ((adjust_cutoffs_for_type_frame eps s i).2.2.2 j hj).2.1

/-- C12 (amended), instance: a linear-spline pair-nonbonded class with cutoff 10 and
`fm_binwidth` 0.5 whose upper cutoff is 10.5 has it lowered to 10. -/
theorem adjust_cutoffs_for_type_pair_nonbonded_witness :
    (adjust_cutoffs_for_type (1/1000000) example_edge_class 0).upper_cutoffs.getD 0 0 =
      example_edge_class.upper_cutoffs.getD 0 0 - example_edge_class.fm_binwidth ∧
    (adjust_cutoffs_for_type (1/1000000) example_edge_class 0).lower_cutoffs =
      example_edge_class.lower_cutoffs :=
  have h := adjust_cutoffs_for_type_pair_nonbonded (1/1000000) example_edge_class 0 rfl
    (by decide)
  ⟨h.1 ⟨rfl, by norm_num [example_edge_class, example_linear_class]⟩, h.2.2.1⟩

/-- C13: `adjust_cutoffs_for_type` lowers both `lower_cutoffs[i]` and `upper_cutoffs[i]` by
exactly 180 if and only if the class is dihedral with `class_subtype` 0, and then
`upper - lower` is unchanged; for a pair-bonded, angular or density class and for a
dihedral class with a nonzero subtype it changes neither cutoff array. -/
theorem adjust_cutoffs_for_type_dihedral_iff (eps : ℚ) (s : InteractionClassSpec) (i : Nat)
    (hil : i < s.lower_cutoffs.length) (hiu : i < s.upper_cutoffs.length) :
    (((adjust_cutoffs_for_type eps s i).lower_cutoffs.getD i 0 =
          s.lower_cutoffs.getD i 0 - 180 ∧
        (adjust_cutoffs_for_type eps s i).upper_cutoffs.getD i 0 =
          s.upper_cutoffs.getD i 0 - 180) ↔
      (s.class_type = kDihedralBonded ∧ s.class_subtype = 0)) ∧
    (s.class_type = kDihedralBonded ∧ s.class_subtype = 0 →
      (adjust_cutoffs_for_type eps s i).upper_cutoffs.getD i 0 -
          (adjust_cutoffs_for_type eps s i).lower_cutoffs.getD i 0 =
        s.upper_cutoffs.getD i 0 - s.lower_cutoffs.getD i 0) ∧
    (s.class_type = kPairBonded ∨ s.class_type = kAngularBonded ∨ s.class_type = kDensity ∨
        (s.class_type = kDihedralBonded ∧ s.class_subtype ≠ 0) →
      (adjust_cutoffs_for_type eps s i).lower_cutoffs = s.lower_cutoffs ∧
      (adjust_cutoffs_for_type eps s i).upper_cutoffs = s.upper_cutoffs) := by
  obtain ⟨hl, hu⟩ := adjust_cutoffs_for_type_getD eps s i hil hiu
  have key : s.class_type = kDihedralBonded ∧ s.class_subtype = 0 →
      (adjust_cutoffs_for_type eps s i).lower_cutoffs.getD i 0 =
          s.lower_cutoffs.getD i 0 - 180 ∧
        (adjust_cutoffs_for_type eps s i).upper_cutoffs.getD i 0 =
          s.upper_cutoffs.getD i 0 - 180 := by
    intro hd
    have hno : ¬ (s.basis_type = kLinearSpline ∧ s.class_type = kPairNonbonded ∧
        |s.upper_cutoffs.getD i 0 - s.cutoff - s.fm_binwidth| < eps) := by
      intro hx
      rw [hd.1] at hx
      exact absurd hx.2.1 (by decide)
    rw [if_pos hd] at hl
    rw [if_pos hd, if_neg hno] at hu
    exact ⟨hl, by rw [hu]; ring⟩
  refine ⟨⟨?_, key⟩, ?_, ?_⟩
  · intro h
    by_contra hd
    rw [if_neg hd] at hl
    have := h.1
    rw [hl] at this
    linarith
  · intro hd
    obtain ⟨a, b⟩ := key hd
    rw [a, b]
    ring
  · intro hc
    have hno : ¬ (s.basis_type = kLinearSpline ∧ s.class_type = kPairNonbonded ∧
        |s.upper_cutoffs.getD i 0 - s.cutoff - s.fm_binwidth| < eps) := by
      intro hx
      rcases hc with h | h | h | h
      · rw [h] at hx
        exact absurd hx.2.1 (by decide)
      · rw [h] at hx
        exact absurd hx.2.1 (by decide)
      · rw [h] at hx
        exact absurd hx.2.1 (by decide)
      · rw [h.1] at hx
        exact absurd hx.2.1 (by decide)
    have hd : ¬ (s.class_type = kDihedralBonded ∧ s.class_subtype = 0) := by
      intro hx
      rcases hc with h | h | h | h
      · rw [h] at hx
        exact absurd hx.1 (by decide)
      · rw [h] at hx
        exact absurd hx.1 (by decide)
      · rw [h] at hx
        exact absurd hx.1 (by decide)
      · exact h.2 hx.2
    unfold adjust_cutoffs_for_type
    simp only [if_neg hno, if_neg hd, and_self]

/-- C13, instance: the dihedral class of subtype 0 with declared range `[0, 360]`. -/
theorem adjust_cutoffs_for_type_dihedral_iff_witness :
    (adjust_cutoffs_for_type (1/1000000) example_dihedral_class 0).upper_cutoffs.getD 0 0 -
        (adjust_cutoffs_for_type (1/1000000) example_dihedral_class 0).lower_cutoffs.getD 0 0 =
      example_dihedral_class.upper_cutoffs.getD 0 0 -
        example_dihedral_class.lower_cutoffs.getD 0 0 :=
  (adjust_cutoffs_for_type_dihedral_iff (1/1000000) example_dihedral_class 0 (by decide)
    (by decide)).2.1 ⟨rfl, rfl⟩

/-- C14: `check_nonbonded_interaction_range_cutoffs` takes the fatal exit if and only if
some defined interaction `i < n_defined` with a nonzero matched index has
`upper_cutoffs[i] > cutoff + output_binwidth + VERYSMALL`, and returns normally
otherwise; in particular a class none of whose interactions is matched never takes the
exit, whatever its cutoffs. -/
theorem check_nonbonded_interaction_range_cutoffs_fatal_iff (VERYSMALL : ℚ)
    (ispec : InteractionClassSpec) (cutoff : ℚ) :
    ((∃ e, check_nonbonded_interaction_range_cutoffs VERYSMALL ispec cutoff = Except.error e) ↔
      ∃ i, i < ispec.n_defined ∧ ispec.defined_to_matched_intrxn_index_map.getD i 0 ≠ 0 ∧
        ispec.upper_cutoffs.getD i 0 > cutoff + ispec.output_binwidth + VERYSMALL) ∧
    (check_nonbonded_interaction_range_cutoffs VERYSMALL ispec cutoff = Except.ok () ↔
      ¬ ∃ i, i < ispec.n_defined ∧ ispec.defined_to_matched_intrxn_index_map.getD i 0 ≠ 0 ∧
        ispec.upper_cutoffs.getD i 0 > cutoff + ispec.output_binwidth + VERYSMALL) ∧
    ((∀ i, i < ispec.n_defined → ispec.defined_to_matched_intrxn_index_map.getD i 0 = 0) →
      check_nonbonded_interaction_range_cutoffs VERYSMALL ispec cutoff = Except.ok ()) := by
  obtain ⟨h1, h2⟩ := check_nonbonded_loop_spec VERYSMALL ispec cutoff (List.range ispec.n_defined)
  unfold check_nonbonded_interaction_range_cutoffs
  refine ⟨?_, ?_, ?_⟩
  · rw [h1]
    constructor
    · rintro ⟨i, hi, hc⟩
      exact ⟨i, List.mem_range.mp hi, hc⟩
    · rintro ⟨i, hi, hc⟩
      exact ⟨i, List.mem_range.mpr hi, hc⟩
  · rw [h2]
    constructor
    · rintro hx ⟨i, hi, hc⟩
      exact hx i (List.mem_range.mpr hi) hc
    · intro hx i hi hc
      exact hx ⟨i, List.mem_range.mp hi, hc⟩
  · intro hz
    rw [h2]
    intro i hi hc
    exact hc.1 (hz i (List.mem_range.mp hi))

/-- C15: with incoming line count `L`, `read_table` takes the format-error exit if and
only if the name on the header line differs from `get_table_name()`, and the exit then
names line `L + 1`; when the names agree it takes the consistency-error exit if and only
if the count on the header differs from `n_tabulated`, again naming line `L + 1`; when
name and count agree and the count is 0 it returns `L + 1` having read the header line
only. -/
theorem read_table_header_spec (index_of_types : List Int → Nat) (st : TableState)
    (stream : List TableLine) (L : Int) :
    ((∃ n, read_table index_of_types st stream L = Except.error (TableError.format_error n)) ↔
      (stream.headD default).parameter_name ≠ get_table_name st.spec) ∧
    ((stream.headD default).parameter_name ≠ get_table_name st.spec →
      read_table index_of_types st stream L = Except.error (TableError.format_error (L + 1))) ∧
    ((stream.headD default).parameter_name = get_table_name st.spec →
      ((∃ n, read_table index_of_types st stream L =
          Except.error (TableError.data_consistency_error n)) ↔
        (stream.headD default).count ≠ (st.spec.n_tabulated : Int))) ∧
    ((stream.headD default).parameter_name = get_table_name st.spec →
      (stream.headD default).count ≠ (st.spec.n_tabulated : Int) →
      read_table index_of_types st stream L =
        Except.error (TableError.data_consistency_error (L + 1))) ∧
    ((stream.headD default).parameter_name = get_table_name st.spec →
      (stream.headD default).count = (st.spec.n_tabulated : Int) →
      (stream.headD default).count = 0 →
      read_table index_of_types st stream L =
        Except.ok ({ st with external_table_spline_binwidth := (stream.headD default).binwidth },
          stream.tail, L + 1)) := by
  unfold read_table report_tabulated_interaction_format_error
    report_tabulated_interaction_data_consistency_error
  simp only
  by_cases hn : (stream.headD default).parameter_name ≠ get_table_name st.spec
  · rw [if_pos hn]
    refine ⟨⟨fun _ => hn, fun _ => ⟨_, rfl⟩⟩, fun _ => rfl, fun h => absurd h hn,
      fun h => absurd h hn, fun h => absurd h hn⟩
  · rw [if_neg hn]
    by_cases hc : (stream.headD default).count ≠ (st.spec.n_tabulated : Int)
    · rw [if_pos hc]
      refine ⟨⟨?_, fun h => absurd h hn⟩, fun h => absurd h hn,
        fun _ => ⟨fun _ => hc, fun _ => ⟨_, rfl⟩⟩, fun _ _ => rfl, fun _ h => absurd h hc⟩
      rintro ⟨n, h⟩
      simp at h
    · rw [if_neg hc]
      refine ⟨⟨?_, fun h => absurd h hn⟩, fun h => absurd h hn, fun _ => ⟨?_, fun h => absurd h hc⟩,
        fun _ h => absurd h hc, ?_⟩
      · rintro ⟨n, h⟩
        split at h <;> simp at h
      · rintro ⟨n, h⟩
        split at h <;> simp at h
      · intro _ _ h0
        rw [if_pos (le_of_eq h0)]

/-- C15, instance: a header `short_range 3 0.05` read at incoming line count 7 by a
pair-nonbonded class with `n_tabulated` 2 ends in the consistency error naming line 8. -/
theorem read_table_header_spec_witness :
    read_table (fun _ => 0) example_table_state [example_table_header] 7 =
      Except.error (TableError.data_consistency_error 8) :=
  (read_table_header_spec (fun _ => 0) example_table_state [example_table_header] 7).2.2.2.1
    rfl (by decide)

/-- C16: `conditionally_calc_squared_distance_and_derivatives` returns false exactly when
the squared length of the folded displacement from particle `ids[0]` to particle `ids[1]`
is strictly greater than `cutoff2`; when it returns true `param_val` is that squared
length, `derivatives[0]` is twice the folded displacement and the other entries of
`derivatives` are unchanged; when it returns false `param_val` and `derivatives` are
unchanged. -/
theorem conditionally_calc_squared_distance_and_derivatives_spec {K : Type}
    [LinearOrderedField K] (particle_ids : List Nat) (particle_positions : Nat → Vec3 K)
    (half : Vec3 K) (cutoff2 param_val : K) (derivatives : Nat → Vec3 K) :
    ((conditionally_calc_squared_distance_and_derivatives particle_ids particle_positions half
        cutoff2 param_val derivatives).1 = false ↔
      dot_product (subtract_min_image_vectors particle_ids particle_positions half)
        (subtract_min_image_vectors particle_ids particle_positions half) > cutoff2) ∧
    ((conditionally_calc_squared_distance_and_derivatives particle_ids particle_positions half
        cutoff2 param_val derivatives).1 = true →
      (conditionally_calc_squared_distance_and_derivatives particle_ids particle_positions half
          cutoff2 param_val derivatives).2.1 =
        dot_product (subtract_min_image_vectors particle_ids particle_positions half)
          (subtract_min_image_vectors particle_ids particle_positions half) ∧
      (conditionally_calc_squared_distance_and_derivatives particle_ids particle_positions half
          cutoff2 param_val derivatives).2.2 0 =
        Vec3.map (fun d => 2 * d)
          (subtract_min_image_vectors particle_ids particle_positions half) ∧
      ∀ j, j ≠ 0 →
        (conditionally_calc_squared_distance_and_derivatives particle_ids particle_positions
          half cutoff2 param_val derivatives).2.2 j = derivatives j) ∧
    ((conditionally_calc_squared_distance_and_derivatives particle_ids particle_positions half
        cutoff2 param_val derivatives).1 = false →
      (conditionally_calc_squared_distance_and_derivatives particle_ids particle_positions half
          cutoff2 param_val derivatives).2.1 = param_val ∧
      (conditionally_calc_squared_distance_and_derivatives particle_ids particle_positions half
          cutoff2 param_val derivatives).2.2 = derivatives) := by
  rw [conditionally_calc_squared_distance_and_derivatives_eq]
  split
  · rename_i h
    refine ⟨⟨fun _ => h, fun _ => rfl⟩, fun hx => absurd hx (by simp), fun _ => ⟨rfl, rfl⟩⟩
  · rename_i h
    refine ⟨⟨fun hx => absurd hx (by simp), fun hx => absurd hx h⟩, fun _ => ⟨rfl, ?_, ?_⟩,
      fun hx => absurd hx (by simp)⟩
    · exact Function.update_same (0 : Nat) _ derivatives
    · intro j hj
      exact Function.update_noteq hj _ derivatives

/-- C16, instance: particles 0 and 1 of `example_positions` are at squared distance 1;
with `cutoff2 = 1` the call returns true (equality passes) and stores 1. -/
theorem conditionally_calc_squared_distance_and_derivatives_spec_witness :
    (conditionally_calc_squared_distance_and_derivatives [0, 1] example_positions
        example_half_lengths (1 : ℚ) 0 (fun _ => Vec3.zero)).1 = true ∧
    (conditionally_calc_squared_distance_and_derivatives [0, 1] example_positions
        example_half_lengths (1 : ℚ) 0 (fun _ => Vec3.zero)).2.1 =
      dot_product (subtract_min_image_vectors [0, 1] example_positions example_half_lengths)
        (subtract_min_image_vectors [0, 1] example_positions example_half_lengths) :=
  have h := conditionally_calc_squared_distance_and_derivatives_spec [0, 1] example_positions
    example_half_lengths (1 : ℚ) 0 (fun _ => Vec3.zero)
  have hflag : (conditionally_calc_squared_distance_and_derivatives [0, 1] example_positions
      example_half_lengths (1 : ℚ) 0 (fun _ => Vec3.zero)).1 = true :=
    eq_true_of_ne_false (fun hf => absurd (h.1.mp hf) (by
      norm_num [dot_product, subtract_min_image_vectors, Vec3.map2, min_image_component,
        example_positions, example_half_lengths]))
  ⟨hflag, (h.2.1 hflag).1⟩

/-- C17: `conditionally_calc_angle_and_derivatives` returns true if and only if the
squared lengths of the folded displacements from particle `ids[2]` to particle `ids[0]`
and from particle `ids[2]` to particle `ids[1]` are both at most `cutoff2`; when it
returns false `param_val` and `derivatives` are unchanged. -/
theorem conditionally_calc_angle_and_derivatives_spec {K : Type} [LinearOrderedField K]
    (m : MathEnv K) (particle_ids : List Nat) (particle_positions : Nat → Vec3 K)
    (half : Vec3 K) (cutoff2 param_val : K) (derivatives : Nat → Vec3 K) :
    ((conditionally_calc_angle_and_derivatives m particle_ids particle_positions half cutoff2
        param_val derivatives).1 = true ↔
      dot_product
          (subtract_min_image_vectors [particle_ids.getD 2 0, particle_ids.getD 0 0]
            particle_positions half)
          (subtract_min_image_vectors [particle_ids.getD 2 0, particle_ids.getD 0 0]
            particle_positions half) ≤ cutoff2 ∧
        dot_product
          (subtract_min_image_vectors [particle_ids.getD 2 0, particle_ids.getD 1 0]
            particle_positions half)
          (subtract_min_image_vectors [particle_ids.getD 2 0, particle_ids.getD 1 0]
            particle_positions half) ≤ cutoff2) ∧
    ((conditionally_calc_angle_and_derivatives m particle_ids particle_positions half cutoff2
        param_val derivatives).1 = false →
      (conditionally_calc_angle_and_derivatives m particle_ids particle_positions half cutoff2
          param_val derivatives).2.1 = param_val ∧
      (conditionally_calc_angle_and_derivatives m particle_ids particle_positions half cutoff2
          param_val derivatives).2.2 = derivatives) := by
  constructor
  · rw [conditionally_calc_angle_and_derivatives_flag, Bool.and_eq_true,
      conditionally_calc_squared_distance_and_derivatives_flag,
      conditionally_calc_squared_distance_and_derivatives_flag]
  · unfold conditionally_calc_angle_and_derivatives
    simp only
    split
    · intro _
      exact ⟨rfl, rfl⟩
    · intro hx
      exact absurd hx (by simp)

/-- C17, instance: with vertex particle 3 and end particles 0 and 2 of
`example_positions`, both squared separations from the vertex are 1, the squared
separation of the two end particles is 2, and with `cutoff2 = 1` the call returns true. -/
theorem conditionally_calc_angle_and_derivatives_spec_witness :
    (conditionally_calc_angle_and_derivatives
        (⟨Real.sqrt, Real.arccos, Real.sin, Real.exp, 180 / Real.pi, 1 / 1000000⟩ : MathEnv ℝ)
        [0, 2, 3] example_positions example_half_lengths 1 0 (fun _ => Vec3.zero)).1 = true ∧
    dot_product (subtract_min_image_vectors [0, 2] example_positions example_half_lengths)
        (subtract_min_image_vectors [0, 2] example_positions example_half_lengths) > (1 : ℝ) :=
  ⟨(conditionally_calc_angle_and_derivatives_spec
      (⟨Real.sqrt, Real.arccos, Real.sin, Real.exp, 180 / Real.pi, 1 / 1000000⟩ : MathEnv ℝ)
      [0, 2, 3] example_positions example_half_lengths 1 0 (fun _ => Vec3.zero)).1.mpr
    (by
      norm_num [dot_product, subtract_min_image_vectors, Vec3.map2, min_image_component,
        example_positions, example_half_lengths]),
   by
      norm_num [dot_product, subtract_min_image_vectors, Vec3.map2, min_image_component,
        example_positions, example_half_lengths]⟩

/-- C18: with exact real `sqrt`, `acos`, `sin` and `DEGREES_PER_RADIAN = 180 / π` and with
`VERYSMALL_F` in `(0, 1)`, on every input on which
`conditionally_calc_angle_and_derivatives` returns true and neither end particle is at
zero folded separation from the vertex particle, the division of the cosine has a nonzero
divisor, so the cosine passed to `acos` is the finite value `angle_cos_theta`; it lies in
`[-1 + VERYSMALL_F, 1 - VERYSMALL_F]`; hence the angle in degrees is strictly between 0 and
180 and the sine of the angle is at least `sqrt(1 - (1 - VERYSMALL_F)^2) > 0`; the value
`conditionally_calc_angle_and_derivatives` stores in `param_val` is that angle, and so is
the value `conditionally_calc_angle_and_intermediates` stores when it returns true. -/
theorem conditionally_calc_angle_cos_clamped_nondegenerate (m : MathEnv ℝ)
    (hm : exact_reals m) (h0 : 0 < m.VERYSMALL_F) (h1 : m.VERYSMALL_F < 1)
    (particle_ids : List Nat) (particle_positions : Nat → Vec3 ℝ) (half : Vec3 ℝ)
    (cutoff2 param_val : ℝ) (derivatives : Nat → Vec3 ℝ) (a : AngleIntermediates ℝ)
    (hret : (conditionally_calc_angle_and_derivatives m particle_ids particle_positions half
      cutoff2 param_val derivatives).1 = true)
    (h20 : dot_product
        (subtract_min_image_vectors [particle_ids.getD 2 0, particle_ids.getD 0 0]
          particle_positions half)
        (subtract_min_image_vectors [particle_ids.getD 2 0, particle_ids.getD 0 0]
          particle_positions half) ≠ 0)
    (h21 : dot_product
        (subtract_min_image_vectors [particle_ids.getD 2 0, particle_ids.getD 1 0]
          particle_positions half)
        (subtract_min_image_vectors [particle_ids.getD 2 0, particle_ids.getD 1 0]
          particle_positions half) ≠ 0) :
    angle_cos_theta_ieee m particle_ids particle_positions half cutoff2 =
      DoubleValue.finite (angle_cos_theta m particle_ids particle_positions half cutoff2) ∧
    (-1 + m.VERYSMALL_F ≤ angle_cos_theta m particle_ids particle_positions half cutoff2 ∧
      angle_cos_theta m particle_ids particle_positions half cutoff2 ≤ 1 - m.VERYSMALL_F) ∧
    (0 < m.acos (angle_cos_theta m particle_ids particle_positions half cutoff2) *
        m.DEGREES_PER_RADIAN ∧
      m.acos (angle_cos_theta m particle_ids particle_positions half cutoff2) *
        m.DEGREES_PER_RADIAN < 180) ∧
    (Real.sqrt (1 - (1 - m.VERYSMALL_F) ^ 2) ≤
        m.sin (m.acos (angle_cos_theta m particle_ids particle_positions half cutoff2)) ∧
      0 < Real.sqrt (1 - (1 - m.VERYSMALL_F) ^ 2)) ∧
    (conditionally_calc_angle_and_derivatives m particle_ids particle_positions half cutoff2
        param_val derivatives).2.1 =
      m.acos (angle_cos_theta m particle_ids particle_positions half cutoff2) *
        m.DEGREES_PER_RADIAN ∧
    ((conditionally_calc_angle_and_intermediates m particle_ids particle_positions half cutoff2
        a).1 = true →
      (conditionally_calc_angle_and_intermediates m particle_ids particle_positions half
          cutoff2 a).2.param_val =
        m.acos (angle_cos_theta m particle_ids particle_positions half cutoff2) *
          m.DEGREES_PER_RADIAN) := by
  obtain ⟨hsqrt, hacos, hsin, _, hdeg⟩ := hm
  have hc := hret
  rw [conditionally_calc_angle_and_derivatives_flag, Bool.and_eq_true,
    conditionally_calc_squared_distance_and_derivatives_flag,
    conditionally_calc_squared_distance_and_derivatives_flag] at hc
  have hb : -1 + m.VERYSMALL_F ≤ angle_cos_theta m particle_ids particle_positions half cutoff2 ∧
      angle_cos_theta m particle_ids particle_positions half cutoff2 ≤ 1 - m.VERYSMALL_F := by
    unfold angle_cos_theta
    exact check_cos_bounds m _ (le_of_lt h1)
  refine ⟨?_, hb, ?_, ?_, ?_, ?_⟩
  · exact angle_cos_theta_ieee_finite m hsqrt particle_ids particle_positions half cutoff2
      h20 hc.1 h21 hc.2
  · rw [hacos, hdeg]
    exact arccos_degrees_bounds _ _ h0 hb.1 hb.2
  · rw [hacos, hsin]
    exact sin_arccos_lower _ _ h0 h1 hb.1 hb.2
  · exact conditionally_calc_angle_and_derivatives_value m particle_ids particle_positions half
      cutoff2 param_val derivatives hret
  · exact conditionally_calc_angle_and_intermediates_value m particle_ids particle_positions
      half cutoff2 a

/-- C18, instance: the angle at particle 3 of `example_positions` between particles 0
and 2, with `VERYSMALL_F` one millionth and `cutoff2 = 1`: both separations from the
vertex are 1. -/
theorem conditionally_calc_angle_cos_clamped_nondegenerate_witness :
    angle_cos_theta_ieee
        (⟨Real.sqrt, Real.arccos, Real.sin, Real.exp, 180 / Real.pi, 1 / 1000000⟩ : MathEnv ℝ)
        [0, 2, 3] example_positions example_half_lengths 1 =
      DoubleValue.finite (angle_cos_theta
        (⟨Real.sqrt, Real.arccos, Real.sin, Real.exp, 180 / Real.pi, 1 / 1000000⟩ : MathEnv ℝ)
        [0, 2, 3] example_positions example_half_lengths 1) ∧
    0 < Real.arccos (angle_cos_theta
        (⟨Real.sqrt, Real.arccos, Real.sin, Real.exp, 180 / Real.pi, 1 / 1000000⟩ : MathEnv ℝ)
        [0, 2, 3] example_positions example_half_lengths 1) * (180 / Real.pi) ∧
    Real.arccos (angle_cos_theta
        (⟨Real.sqrt, Real.arccos, Real.sin, Real.exp, 180 / Real.pi, 1 / 1000000⟩ : MathEnv ℝ)
        [0, 2, 3] example_positions example_half_lengths 1) * (180 / Real.pi) < 180 :=
  have h := conditionally_calc_angle_cos_clamped_nondegenerate
    (⟨Real.sqrt, Real.arccos, Real.sin, Real.exp, 180 / Real.pi, 1 / 1000000⟩ : MathEnv ℝ)
    (by unfold exact_reals; exact ⟨rfl, rfl, rfl, rfl, rfl⟩) (by norm_num) (by norm_num)
    [0, 2, 3] example_positions example_half_lengths 1 0 (fun _ => Vec3.zero)
    ⟨fun _ => Vec3.zero, fun _ => Vec3.zero, fun _ => Vec3.zero, 0, 0, 0⟩
    (by
      rw [conditionally_calc_angle_and_derivatives_flag, Bool.and_eq_true,
        conditionally_calc_squared_distance_and_derivatives_flag,
        conditionally_calc_squared_distance_and_derivatives_flag]
      norm_num [dot_product, subtract_min_image_vectors, Vec3.map2, min_image_component,
        example_positions, example_half_lengths])
    (by
      norm_num [dot_product, subtract_min_image_vectors, Vec3.map2, min_image_component,
        example_positions, example_half_lengths])
    (by
      norm_num [dot_product, subtract_min_image_vectors, Vec3.map2, min_image_component,
        example_positions, example_half_lengths])
  ⟨h.1, h.2.2.1⟩

/-- C18, counterexample to the claim as stated: particle 0 of
`example_coincident_positions` lies on the vertex particle 2. With `cutoff2 = 1`
`conditionally_calc_angle_and_derivatives` returns true, the cosine is the quotient of 0
by `4 * 0 * 1`, a NaN, and `check_cos` returns it unchanged, so the argument of `acos` is
not in the clamp interval. -/
theorem conditionally_calc_angle_cos_nan :
    (conditionally_calc_angle_and_derivatives
        (⟨Real.sqrt, Real.arccos, Real.sin, Real.exp, 180 / Real.pi, 1 / 1000000⟩ : MathEnv ℝ)
        [0, 1, 2] example_coincident_positions example_half_lengths 1 0
        (fun _ => Vec3.zero)).1 = true ∧
    angle_cos_theta_ieee
        (⟨Real.sqrt, Real.arccos, Real.sin, Real.exp, 180 / Real.pi, 1 / 1000000⟩ : MathEnv ℝ)
        [0, 1, 2] example_coincident_positions example_half_lengths 1 = DoubleValue.nan := by
  constructor
  · rw [conditionally_calc_angle_and_derivatives_flag, Bool.and_eq_true,
      conditionally_calc_squared_distance_and_derivatives_flag,
      conditionally_calc_squared_distance_and_derivatives_flag]
    norm_num [dot_product, subtract_min_image_vectors, Vec3.map2, min_image_component,
      example_coincident_positions, example_half_lengths]
  · unfold angle_cos_theta_ieee
    simp only
    rw [conditionally_calc_squared_distance_and_derivatives_eq,
      conditionally_calc_squared_distance_and_derivatives_eq]
    norm_num [dot_product, subtract_min_image_vectors, Vec3.map2, Vec3.map,
      min_image_component, example_coincident_positions, example_half_lengths, ieee_div,
      check_cos_ieee]

/-- C19: `conditionally_calc_dihedral_and_derivatives` returns true for all positions and
every `cutoff2`, and its result does not depend on `cutoff2`. With exact real `sqrt`, `acos`
and `DEGREES_PER_RADIAN = 180 / π` and with `VERYSMALL_F` in `(0, 1)`, whenever the two
plane normals `pb = disp03 × disp23` and `pc = disp12 × disp23` are nonzero no division of
the function has a zero divisor, the value stored in `param_val` is finite, and it
satisfies `-180 < param_val < 180`. -/
theorem conditionally_calc_dihedral_and_derivatives_range_nondegenerate (m : MathEnv ℝ)
    (hm : exact_reals m) (h0 : 0 < m.VERYSMALL_F) (h1 : m.VERYSMALL_F < 1)
    (particle_ids : List Nat) (particle_positions : Nat → Vec3 ℝ) (half : Vec3 ℝ)
    (cutoff2 param_val : ℝ) (derivatives : Nat → Vec3 ℝ) :
    (conditionally_calc_dihedral_and_derivatives m particle_ids particle_positions half cutoff2
        param_val derivatives).1 = true ∧
    (∀ c2 : ℝ,
      conditionally_calc_dihedral_and_derivatives m particle_ids particle_positions half c2
          param_val derivatives =
        conditionally_calc_dihedral_and_derivatives m particle_ids particle_positions half
          cutoff2 param_val derivatives) ∧
    (cross_product
        (subtract_min_image_vectors [particle_ids.getD 3 0, particle_ids.getD 0 0]
          particle_positions half)
        (subtract_min_image_vectors [particle_ids.getD 3 0, particle_ids.getD 2 0]
          particle_positions half) ≠ Vec3.zero →
      cross_product
        (subtract_min_image_vectors [particle_ids.getD 2 0, particle_ids.getD 1 0]
          particle_positions half)
        (subtract_min_image_vectors [particle_ids.getD 3 0, particle_ids.getD 2 0]
          particle_positions half) ≠ Vec3.zero →
      conditionally_calc_dihedral_param_val_ieee m particle_ids particle_positions half =
        DoubleValue.finite
          (conditionally_calc_dihedral_and_derivatives m particle_ids particle_positions half
            cutoff2 param_val derivatives).2.1 ∧
      -180 < (conditionally_calc_dihedral_and_derivatives m particle_ids particle_positions
        half cutoff2 param_val derivatives).2.1 ∧
      (conditionally_calc_dihedral_and_derivatives m particle_ids particle_positions half
        cutoff2 param_val derivatives).2.1 < 180) := by
  obtain ⟨hsqrt, hacos, _, _, hdeg⟩ := hm
  obtain ⟨hflag, hval⟩ := conditionally_calc_dihedral_and_derivatives_value m particle_ids
    particle_positions half cutoff2 param_val derivatives
  refine ⟨hflag, fun _ => rfl, fun hb hc => ⟨?_, ?_⟩⟩
  · rw [hval]
    exact dihedral_param_val_ieee_finite m hsqrt _ _ _ hb hc
  · rw [hval, hacos, hdeg]
    obtain ⟨b1, b2⟩ := check_cos_bounds m (dihedral_cos_theta m
      (subtract_min_image_vectors [particle_ids.getD 3 0, particle_ids.getD 0 0]
        particle_positions half)
      (subtract_min_image_vectors [particle_ids.getD 3 0, particle_ids.getD 2 0]
        particle_positions half)
      (subtract_min_image_vectors [particle_ids.getD 2 0, particle_ids.getD 1 0]
        particle_positions half)) (le_of_lt h1)
    obtain ⟨a1, a2⟩ := arccos_degrees_bounds _ _ h0 b1 b2
    split
    · constructor <;> linarith
    · constructor <;> linarith

/-- C19, instance: the dihedral of the four particles of `example_positions`, whose two
plane normals are `(0, 0, -1)`, with `VERYSMALL_F` one millionth and `cutoff2 = 0`. -/
theorem conditionally_calc_dihedral_and_derivatives_range_nondegenerate_witness :
    conditionally_calc_dihedral_param_val_ieee
        (⟨Real.sqrt, Real.arccos, Real.sin, Real.exp, 180 / Real.pi, 1 / 1000000⟩ : MathEnv ℝ)
        [0, 1, 2, 3] example_positions example_half_lengths =
      DoubleValue.finite (conditionally_calc_dihedral_and_derivatives
        (⟨Real.sqrt, Real.arccos, Real.sin, Real.exp, 180 / Real.pi, 1 / 1000000⟩ : MathEnv ℝ)
        [0, 1, 2, 3] example_positions example_half_lengths 0 0 (fun _ => Vec3.zero)).2.1 ∧
    -180 < (conditionally_calc_dihedral_and_derivatives
        (⟨Real.sqrt, Real.arccos, Real.sin, Real.exp, 180 / Real.pi, 1 / 1000000⟩ : MathEnv ℝ)
        [0, 1, 2, 3] example_positions example_half_lengths 0 0 (fun _ => Vec3.zero)).2.1 ∧
    (conditionally_calc_dihedral_and_derivatives
        (⟨Real.sqrt, Real.arccos, Real.sin, Real.exp, 180 / Real.pi, 1 / 1000000⟩ : MathEnv ℝ)
        [0, 1, 2, 3] example_positions example_half_lengths 0 0 (fun _ => Vec3.zero)).2.1 < 180 :=
  (conditionally_calc_dihedral_and_derivatives_range_nondegenerate
    (⟨Real.sqrt, Real.arccos, Real.sin, Real.exp, 180 / Real.pi, 1 / 1000000⟩ : MathEnv ℝ)
    (by unfold exact_reals; exact ⟨rfl, rfl, rfl, rfl, rfl⟩) (by norm_num) (by norm_num)
    [0, 1, 2, 3] example_positions example_half_lengths 0 0 (fun _ => Vec3.zero)).2.2
    (by
      norm_num [cross_product, subtract_min_image_vectors, Vec3.map2, Vec3.zero,
        min_image_component, example_positions, example_half_lengths])
    (by
      norm_num [cross_product, subtract_min_image_vectors, Vec3.map2, Vec3.zero,
        min_image_component, example_positions, example_half_lengths])

/-- C19, counterexample to the claim as stated: the four particles of
`example_collinear_positions` lie on one line, so the normal `pb` is zero, `rpb1` is
`1 / sqrt(0)`, an infinity, and `cos_theta = 0 * rpb1 * rpc1` is a NaN that `check_cos`
returns unchanged. The function returns true and the value it stores in `param_val` is a
NaN, which is not in `(-180, 180]`. -/
theorem conditionally_calc_dihedral_param_val_nan :
    (conditionally_calc_dihedral_and_derivatives
        (⟨Real.sqrt, Real.arccos, Real.sin, Real.exp, 180 / Real.pi, 1 / 1000000⟩ : MathEnv ℝ)
        [0, 1, 2, 3] example_collinear_positions example_half_lengths 0 0
        (fun _ => Vec3.zero)).1 = true ∧
    conditionally_calc_dihedral_param_val_ieee
        (⟨Real.sqrt, Real.arccos, Real.sin, Real.exp, 180 / Real.pi, 1 / 1000000⟩ : MathEnv ℝ)
        [0, 1, 2, 3] example_collinear_positions example_half_lengths = DoubleValue.nan := by
  constructor
  · rfl
  · unfold conditionally_calc_dihedral_param_val_ieee dihedral_param_val_ieee
    norm_num [dot_product, cross_product, subtract_min_image_vectors, Vec3.map2, Vec3.map,
      min_image_component, example_collinear_positions, example_half_lengths, ieee_div,
      ieee_mul, check_cos_ieee, acos_degrees_ieee, ieee_lt_zero, ieee_neg]

/-- C20: with exact real `sqrt`, `acos` and `DEGREES_PER_RADIAN = 180 / π` and with
`VERYSMALL_F` in `(0, 1)`, for four coplanar positions none of whose three displacements
is folded and whose two plane normals `pb = disp03 x disp23`, `pc = disp12 x disp23` are
nonzero, the cosine before the clamp is exactly 1 or -1; `calc_dihedral` then returns
`arccos(1 - VERYSMALL_F)` respectively `arccos(-1 + VERYSMALL_F)` in degrees, which is
within `arccos(1 - VERYSMALL_F)` degrees of 0 respectively of 180, and
`conditionally_calc_dihedral_and_derivatives` stores the same value. -/
theorem calc_dihedral_coplanar (m : MathEnv ℝ) (hm : exact_reals m)
    (h0 : 0 < m.VERYSMALL_F) (h1 : m.VERYSMALL_F < 1)
    (particle_ids : List Nat) (particle_positions : Nat → Vec3 ℝ) (half : Vec3 ℝ)
    (cutoff2 param_val : ℝ) (derivatives : Nat → Vec3 ℝ)
    (hw03 : no_wrap (particle_positions (particle_ids.getD 3 0))
      (particle_positions (particle_ids.getD 0 0)) half)
    (hw23 : no_wrap (particle_positions (particle_ids.getD 3 0))
      (particle_positions (particle_ids.getD 2 0)) half)
    (hw12 : no_wrap (particle_positions (particle_ids.getD 2 0))
      (particle_positions (particle_ids.getD 1 0)) half)
    (hcop : coplanar (particle_positions (particle_ids.getD 0 0))
      (particle_positions (particle_ids.getD 1 0)) (particle_positions (particle_ids.getD 2 0))
      (particle_positions (particle_ids.getD 3 0)))
    (hpb : cross_product
        (Vec3.sub (particle_positions (particle_ids.getD 0 0))
          (particle_positions (particle_ids.getD 3 0)))
        (Vec3.sub (particle_positions (particle_ids.getD 2 0))
          (particle_positions (particle_ids.getD 3 0))) ≠ Vec3.zero)
    (hpc : cross_product
        (Vec3.sub (particle_positions (particle_ids.getD 1 0))
          (particle_positions (particle_ids.getD 2 0)))
        (Vec3.sub (particle_positions (particle_ids.getD 2 0))
          (particle_positions (particle_ids.getD 3 0))) ≠ Vec3.zero) :
    ((dihedral_cos_theta m
          (Vec3.sub (particle_positions (particle_ids.getD 0 0))
            (particle_positions (particle_ids.getD 3 0)))
          (Vec3.sub (particle_positions (particle_ids.getD 2 0))
            (particle_positions (particle_ids.getD 3 0)))
          (Vec3.sub (particle_positions (particle_ids.getD 1 0))
            (particle_positions (particle_ids.getD 2 0))) = 1 ∧
        calc_dihedral m particle_ids particle_positions half =
          Real.arccos (1 - m.VERYSMALL_F) * (180 / Real.pi) ∧
        |calc_dihedral m particle_ids particle_positions half - 0| ≤
          Real.arccos (1 - m.VERYSMALL_F) * (180 / Real.pi)) ∨
      (dihedral_cos_theta m
          (Vec3.sub (particle_positions (particle_ids.getD 0 0))
            (particle_positions (particle_ids.getD 3 0)))
          (Vec3.sub (particle_positions (particle_ids.getD 2 0))
            (particle_positions (particle_ids.getD 3 0)))
          (Vec3.sub (particle_positions (particle_ids.getD 1 0))
            (particle_positions (particle_ids.getD 2 0))) = -1 ∧
        calc_dihedral m particle_ids particle_positions half =
          Real.arccos (-1 + m.VERYSMALL_F) * (180 / Real.pi) ∧
        |calc_dihedral m particle_ids particle_positions half - 180| ≤
          Real.arccos (1 - m.VERYSMALL_F) * (180 / Real.pi))) ∧
    (conditionally_calc_dihedral_and_derivatives m particle_ids particle_positions half cutoff2
        param_val derivatives).1 = true ∧
    (conditionally_calc_dihedral_and_derivatives m particle_ids particle_positions half cutoff2
        param_val derivatives).2.1 = calc_dihedral m particle_ids particle_positions half := by
  obtain ⟨hsqrt, hacos, _, _, hdeg⟩ := hm
  obtain ⟨hflag, hval⟩ := conditionally_calc_dihedral_and_derivatives_value m particle_ids
    particle_positions half cutoff2 param_val derivatives
  have hcalc := calc_dihedral_value m particle_ids particle_positions half cutoff2 param_val
    derivatives
  refine ⟨?_, hflag, hcalc.symm⟩
  rw [hcalc, hval, subtract_min_image_vectors_no_wrap _ _ _ _ hw03,
    subtract_min_image_vectors_no_wrap _ _ _ _ hw23,
    subtract_min_image_vectors_no_wrap _ _ _ _ hw12]
  have hT : dot_product
      (cross_product
        (Vec3.sub (particle_positions (particle_ids.getD 0 0))
          (particle_positions (particle_ids.getD 3 0)))
        (Vec3.sub (particle_positions (particle_ids.getD 2 0))
          (particle_positions (particle_ids.getD 3 0))))
      (Vec3.sub (particle_positions (particle_ids.getD 1 0))
        (particle_positions (particle_ids.getD 2 0))) = 0 := by
    unfold coplanar at hcop
    unfold dot_product cross_product Vec3.sub Vec3.map2 at hcop ⊢
    simp only at hcop ⊢
    linarith
  obtain ⟨hcos, hsign⟩ := dihedral_cos_theta_coplanar m hsqrt _ _ _ hT hpb hpc
  obtain ⟨cc1, cc2, _⟩ := check_cos_cases m (dihedral_cos_theta m
    (Vec3.sub (particle_positions (particle_ids.getD 0 0))
      (particle_positions (particle_ids.getD 3 0)))
    (Vec3.sub (particle_positions (particle_ids.getD 2 0))
      (particle_positions (particle_ids.getD 3 0)))
    (Vec3.sub (particle_positions (particle_ids.getD 1 0))
      (particle_positions (particle_ids.getD 2 0)))) (le_of_lt h1)
  have hmargin : 0 ≤ Real.arccos (1 - m.VERYSMALL_F) * (180 / Real.pi) :=
    mul_nonneg (Real.arccos_nonneg _) (le_of_lt (div_pos (by norm_num) Real.pi_pos))
  rw [hsign, if_neg (lt_irrefl _), hacos, hdeg]
  rcases hcos with hc | hc
  · left
    refine ⟨hc, ?_, ?_⟩
    · rw [cc1 (by rw [hc]; linarith)]
    · rw [cc1 (by rw [hc]; linarith), sub_zero, abs_of_nonneg hmargin]
  · right
    have hneg : Real.arccos (-1 + m.VERYSMALL_F) = Real.pi - Real.arccos (1 - m.VERYSMALL_F) := by
      rw [← Real.arccos_neg]
      congr 1
      ring
    refine ⟨hc, ?_, ?_⟩
    · rw [cc2 (by rw [hc]; linarith)]
    · rw [cc2 (by rw [hc]; linarith), hneg]
      have hpi : Real.pi ≠ 0 := ne_of_gt Real.pi_pos
      have e : (Real.pi - Real.arccos (1 - m.VERYSMALL_F)) * (180 / Real.pi) - 180 =
          -(Real.arccos (1 - m.VERYSMALL_F) * (180 / Real.pi)) := by
        field_simp
        ring
      rw [e, abs_neg, abs_of_nonneg hmargin]

/-- C20, instance: the four particles of `example_positions` are the corners of a unit
square in the plane `z = 0`, visited so that both normals are `(0, 0, -1)`; with
`VERYSMALL_F` one millionth `calc_dihedral` returns `arccos(1 - 1/1000000)` in degrees. -/
theorem calc_dihedral_coplanar_witness :
    calc_dihedral
        (⟨Real.sqrt, Real.arccos, Real.sin, Real.exp, 180 / Real.pi, 1 / 1000000⟩ : MathEnv ℝ)
        [0, 1, 2, 3] example_positions example_half_lengths =
      Real.arccos (1 - 1 / 1000000) * (180 / Real.pi) := by
  have key := (calc_dihedral_coplanar
    (⟨Real.sqrt, Real.arccos, Real.sin, Real.exp, 180 / Real.pi, 1 / 1000000⟩ : MathEnv ℝ)
    (by unfold exact_reals; exact ⟨rfl, rfl, rfl, rfl, rfl⟩) (by norm_num) (by norm_num)
    [0, 1, 2, 3] example_positions example_half_lengths 0 0 (fun _ => Vec3.zero)
    (by norm_num [no_wrap, example_positions, example_half_lengths])
    (by norm_num [no_wrap, example_positions, example_half_lengths])
    (by norm_num [no_wrap, example_positions, example_half_lengths])
    (by norm_num [coplanar, dot_product, cross_product, Vec3.sub, Vec3.map2, example_positions])
    (by
      intro h
      have h2 := congrArg Vec3.c2 h
      norm_num [cross_product, Vec3.sub, Vec3.map2, Vec3.zero, example_positions] at h2)
    (by
      intro h
      have h2 := congrArg Vec3.c2 h
      norm_num [cross_product, Vec3.sub, Vec3.map2, Vec3.zero, example_positions] at h2)).1
  rcases key with ⟨_, h, _⟩ | ⟨hc, _, _⟩
  · exact h
  · exfalso
    norm_num [dihedral_cos_theta, dot_product, cross_product, Vec3.sub, Vec3.map2,
      example_positions] at hc

/-- C21: with exact real `sqrt`, `acos` and `DEGREES_PER_RADIAN = 180 / π` and with
`VERYSMALL_F` in `(0, 1)`, for folded displacements with `pb = disp03 x disp23` and
`disp23` nonzero, the value `calc_dihedral` returns is negative if and only if
`sign = -dot(pb, disp12) * rpb1 * rrbc < 0`, which holds if and only if
`dot(pb, disp12) > 0`; its absolute value is the arccosine of the clamped cosine, in
degrees; `conditionally_calc_dihedral_and_derivatives` stores the same value. -/
theorem calc_dihedral_sign (m : MathEnv ℝ) (hm : exact_reals m)
    (h0 : 0 < m.VERYSMALL_F) (h1 : m.VERYSMALL_F < 1)
    (particle_ids : List Nat) (particle_positions : Nat → Vec3 ℝ) (half : Vec3 ℝ)
    (cutoff2 param_val : ℝ) (derivatives : Nat → Vec3 ℝ)
    (hpb : cross_product
        (subtract_min_image_vectors [particle_ids.getD 3 0, particle_ids.getD 0 0]
          particle_positions half)
        (subtract_min_image_vectors [particle_ids.getD 3 0, particle_ids.getD 2 0]
          particle_positions half) ≠ Vec3.zero)
    (hd23 : subtract_min_image_vectors [particle_ids.getD 3 0, particle_ids.getD 2 0]
      particle_positions half ≠ Vec3.zero) :
    (calc_dihedral m particle_ids particle_positions half < 0 ↔
      dihedral_sign m
        (subtract_min_image_vectors [particle_ids.getD 3 0, particle_ids.getD 0 0]
          particle_positions half)
        (subtract_min_image_vectors [particle_ids.getD 3 0, particle_ids.getD 2 0]
          particle_positions half)
        (subtract_min_image_vectors [particle_ids.getD 2 0, particle_ids.getD 1 0]
          particle_positions half) < 0) ∧
    (dihedral_sign m
        (subtract_min_image_vectors [particle_ids.getD 3 0, particle_ids.getD 0 0]
          particle_positions half)
        (subtract_min_image_vectors [particle_ids.getD 3 0, particle_ids.getD 2 0]
          particle_positions half)
        (subtract_min_image_vectors [particle_ids.getD 2 0, particle_ids.getD 1 0]
          particle_positions half) < 0 ↔
      dot_product
        (cross_product
          (subtract_min_image_vectors [particle_ids.getD 3 0, particle_ids.getD 0 0]
            particle_positions half)
          (subtract_min_image_vectors [particle_ids.getD 3 0, particle_ids.getD 2 0]
            particle_positions half))
        (subtract_min_image_vectors [particle_ids.getD 2 0, particle_ids.getD 1 0]
          particle_positions half) > 0) ∧
    |calc_dihedral m particle_ids particle_positions half| =
      m.acos (check_cos m (dihedral_cos_theta m
        (subtract_min_image_vectors [particle_ids.getD 3 0, particle_ids.getD 0 0]
          particle_positions half)
        (subtract_min_image_vectors [particle_ids.getD 3 0, particle_ids.getD 2 0]
          particle_positions half)
        (subtract_min_image_vectors [particle_ids.getD 2 0, particle_ids.getD 1 0]
          particle_positions half))) * m.DEGREES_PER_RADIAN ∧
    (conditionally_calc_dihedral_and_derivatives m particle_ids particle_positions half cutoff2
        param_val derivatives).2.1 = calc_dihedral m particle_ids particle_positions half := by
  obtain ⟨hsqrt, hacos, _, _, hdeg⟩ := hm
  obtain ⟨_, hval⟩ := conditionally_calc_dihedral_and_derivatives_value m particle_ids
    particle_positions half cutoff2 param_val derivatives
  have hcalc := calc_dihedral_value m particle_ids particle_positions half cutoff2 param_val
    derivatives
  obtain ⟨b1, b2⟩ := check_cos_bounds m (dihedral_cos_theta m
    (subtract_min_image_vectors [particle_ids.getD 3 0, particle_ids.getD 0 0]
      particle_positions half)
    (subtract_min_image_vectors [particle_ids.getD 3 0, particle_ids.getD 2 0]
      particle_positions half)
    (subtract_min_image_vectors [particle_ids.getD 2 0, particle_ids.getD 1 0]
      particle_positions half)) (le_of_lt h1)
  obtain ⟨a1, _⟩ := arccos_degrees_bounds _ _ h0 b1 b2
  rw [← hacos, ← hdeg] at a1
  have hb2 := dot_product_self_pos _ hpb
  have hd2 := dot_product_self_pos _ hd23
  refine ⟨?_, ?_, ?_, hcalc.symm⟩
  · rw [hcalc, hval]
    split
    · rename_i hs
      exact ⟨fun _ => hs, fun _ => by linarith⟩
    · rename_i hs
      exact ⟨fun hx => absurd hx (by linarith), fun hx => absurd hx hs⟩
  · unfold dihedral_sign
    simp only
    rw [hsqrt]
    have s1 := Real.sqrt_pos.mpr hb2
    have s2 := Real.sqrt_pos.mpr hd2
    have p1 : 0 < 1 / Real.sqrt (dot_product
        (cross_product
          (subtract_min_image_vectors [particle_ids.getD 3 0, particle_ids.getD 0 0]
            particle_positions half)
          (subtract_min_image_vectors [particle_ids.getD 3 0, particle_ids.getD 2 0]
            particle_positions half))
        (cross_product
          (subtract_min_image_vectors [particle_ids.getD 3 0, particle_ids.getD 0 0]
            particle_positions half)
          (subtract_min_image_vectors [particle_ids.getD 3 0, particle_ids.getD 2 0]
            particle_positions half))) := one_div_pos.mpr s1
    have p2 : 0 < 1 / Real.sqrt (dot_product
        (subtract_min_image_vectors [particle_ids.getD 3 0, particle_ids.getD 2 0]
          particle_positions half)
        (subtract_min_image_vectors [particle_ids.getD 3 0, particle_ids.getD 2 0]
          particle_positions half)) := one_div_pos.mpr s2
    have p3 := mul_pos p1 p2
    rw [mul_assoc]
    constructor
    · intro hx
      by_contra hn
      have := mul_nonneg (neg_nonneg.mpr (not_lt.mp hn)) (le_of_lt p3)
      linarith
    · intro hx
      exact mul_neg_of_neg_of_pos (neg_neg_of_pos hx) p3
  · rw [hcalc, hval]
    split
    · rw [abs_neg, abs_of_pos a1]
    · rw [abs_of_pos a1]

/-- C21, instance: for `example_twisted_positions` the normal `pb` is `(0, 0, -1)` and
`disp12` is `(0, 0, -1)`, so `dot(pb, disp12) = 1 > 0` and the dihedral is negative. -/
theorem calc_dihedral_sign_witness :
    calc_dihedral
        (⟨Real.sqrt, Real.arccos, Real.sin, Real.exp, 180 / Real.pi, 1 / 1000000⟩ : MathEnv ℝ)
        [0, 1, 2, 3] example_twisted_positions example_half_lengths < 0 :=
  have h := calc_dihedral_sign
    (⟨Real.sqrt, Real.arccos, Real.sin, Real.exp, 180 / Real.pi, 1 / 1000000⟩ : MathEnv ℝ)
    (by unfold exact_reals; exact ⟨rfl, rfl, rfl, rfl, rfl⟩) (by norm_num) (by norm_num)
    [0, 1, 2, 3] example_twisted_positions example_half_lengths 0 0 (fun _ => Vec3.zero)
    (by
      intro hx
      have h2 := congrArg Vec3.c2 hx
      norm_num [cross_product, subtract_min_image_vectors, Vec3.map2, min_image_component,
        Vec3.zero, example_twisted_positions, example_half_lengths] at h2)
    (by
      intro hx
      have h2 := congrArg Vec3.c0 hx
      norm_num [subtract_min_image_vectors, Vec3.map2, min_image_component,
        Vec3.zero, example_twisted_positions, example_half_lengths] at h2)
  h.1.mpr (h.2.1.mpr (by
    norm_num [dot_product, cross_product, subtract_min_image_vectors, Vec3.map2,
      min_image_component, example_twisted_positions, example_half_lengths]))

/-- C22 (refuted as stated), instance: with half box length 1 the difference 5 folds to
3, and folding 3 again gives 1. -/
theorem min_image_component_not_idempotent :
    Vec3.map2 min_image_component
        (Vec3.map2 min_image_component ({ c0 := 5, c1 := 0, c2 := 0 } : Vec3 ℚ)
          { c0 := 1, c1 := 1, c2 := 1 })
        { c0 := 1, c1 := 1, c2 := 1 } = { c0 := 1, c1 := 0, c2 := 0 } ∧
    Vec3.map2 min_image_component ({ c0 := 5, c1 := 0, c2 := 0 } : Vec3 ℚ)
        { c0 := 1, c1 := 1, c2 := 1 } = { c0 := 3, c1 := 0, c2 := 0 } ∧
    Vec3.map2 min_image_component
        (Vec3.map2 min_image_component ({ c0 := 5, c1 := 0, c2 := 0 } : Vec3 ℚ)
          { c0 := 1, c1 := 1, c2 := 1 })
        { c0 := 1, c1 := 1, c2 := 1 } ≠
      Vec3.map2 min_image_component ({ c0 := 5, c1 := 0, c2 := 0 } : Vec3 ℚ)
        { c0 := 1, c1 := 1, c2 := 1 } := by
  refine ⟨?_, ?_, ?_⟩
  · norm_num [Vec3.map2, min_image_component]
  · norm_num [Vec3.map2, min_image_component]
  · norm_num [Vec3.map2, min_image_component]

/-- C22 (amended): for positive half box lengths, the coordinate-wise fold used by
`subtract_min_image_vectors` (`d > h`: `d - 2h`; `d < -h`: `d + 2h`; otherwise `d`) maps a
coordinate to a fixed point of the fold if and only if `|d| <= 3h`; hence for every
displacement `d` with `|d_i| <= 3 h_i` in each coordinate, folding the folded vector
returns it unchanged, and every coordinate of the folded vector is within `[-h_i, h_i]`. -/
theorem min_image_component_idempotent {K : Type} [LinearOrderedField K] (d half : Vec3 K)
    (h0 : 0 < half.c0) (h1 : 0 < half.c1) (h2 : 0 < half.c2) :
    (∀ x h : K, 0 < h →
      (min_image_component (min_image_component x h) h = min_image_component x h ↔
        |x| ≤ 3 * h)) ∧
    (|d.c0| ≤ 3 * half.c0 → |d.c1| ≤ 3 * half.c1 → |d.c2| ≤ 3 * half.c2 →
      Vec3.map2 min_image_component (Vec3.map2 min_image_component d half) half =
        Vec3.map2 min_image_component d half ∧
      |(Vec3.map2 min_image_component d half).c0| ≤ half.c0 ∧
      |(Vec3.map2 min_image_component d half).c1| ≤ half.c1 ∧
      |(Vec3.map2 min_image_component d half).c2| ≤ half.c2) := by
  refine ⟨fun x h hh => min_image_component_idem_iff x h hh, fun b0 b1 b2 => ?_⟩
  have i0 := (min_image_component_idem_iff d.c0 half.c0 h0).mpr b0
  have i1 := (min_image_component_idem_iff d.c1 half.c1 h1).mpr b1
  have i2 := (min_image_component_idem_iff d.c2 half.c2 h2).mpr b2
  refine ⟨?_, (min_image_component_range _ _ b0).1, (min_image_component_range _ _ b1).1,
    (min_image_component_range _ _ b2).1⟩
  unfold Vec3.map2
  simp only
  rw [i0, i1, i2]

/-- C22 (amended), instance: with half box lengths 1 the displacement `(5/2, -3, 0)`
folds to `(1/2, -1, 0)`, which folds to itself. -/
theorem min_image_component_idempotent_witness :
    Vec3.map2 min_image_component
        (Vec3.map2 min_image_component ({ c0 := 5/2, c1 := -3, c2 := 0 } : Vec3 ℚ)
          { c0 := 1, c1 := 1, c2 := 1 })
        { c0 := 1, c1 := 1, c2 := 1 } =
      Vec3.map2 min_image_component ({ c0 := 5/2, c1 := -3, c2 := 0 } : Vec3 ℚ)
        { c0 := 1, c1 := 1, c2 := 1 } :=
  ((min_image_component_idempotent ({ c0 := 5/2, c1 := -3, c2 := 0 } : Vec3 ℚ)
    { c0 := 1, c1 := 1, c2 := 1 } (by norm_num) (by norm_num) (by norm_num)).2
    (by norm_num [abs_le]) (by norm_num [abs_le]) (by norm_num [abs_le])).1

/-- C23: for two positions with every coordinate in the primary box `[0, 2 h_i)`,
`h_i > 0`, every coordinate of the displacement `subtract_min_image_vectors` computes lies
in `[-h_i, h_i]` and is no larger in absolute value than any periodic replica
`(p1_i - p0_i) + 2 k h_i` of the coordinate difference, `k` an integer. -/
theorem subtract_min_image_vectors_nearest {K : Type} [LinearOrderedField K]
    (particle_ids : List Nat) (particle_positions : Nat → Vec3 K) (half : Vec3 K)
    (h0 : 0 < half.c0) (h1 : 0 < half.c1) (h2 : 0 < half.c2)
    (ha0 : 0 ≤ (particle_positions (particle_ids.getD 0 0)).c0 ∧
      (particle_positions (particle_ids.getD 0 0)).c0 < 2 * half.c0)
    (ha1 : 0 ≤ (particle_positions (particle_ids.getD 0 0)).c1 ∧
      (particle_positions (particle_ids.getD 0 0)).c1 < 2 * half.c1)
    (ha2 : 0 ≤ (particle_positions (particle_ids.getD 0 0)).c2 ∧
      (particle_positions (particle_ids.getD 0 0)).c2 < 2 * half.c2)
    (hb0 : 0 ≤ (particle_positions (particle_ids.getD 1 0)).c0 ∧
      (particle_positions (particle_ids.getD 1 0)).c0 < 2 * half.c0)
    (hb1 : 0 ≤ (particle_positions (particle_ids.getD 1 0)).c1 ∧
      (particle_positions (particle_ids.getD 1 0)).c1 < 2 * half.c1)
    (hb2 : 0 ≤ (particle_positions (particle_ids.getD 1 0)).c2 ∧
      (particle_positions (particle_ids.getD 1 0)).c2 < 2 * half.c2) :
    (-half.c0 ≤ (subtract_min_image_vectors particle_ids particle_positions half).c0 ∧
      (subtract_min_image_vectors particle_ids particle_positions half).c0 ≤ half.c0 ∧
      ∀ k : ℤ, |(subtract_min_image_vectors particle_ids particle_positions half).c0| ≤
        |((particle_positions (particle_ids.getD 1 0)).c0 -
          (particle_positions (particle_ids.getD 0 0)).c0) + 2 * (k : K) * half.c0|) ∧
    (-half.c1 ≤ (subtract_min_image_vectors particle_ids particle_positions half).c1 ∧
      (subtract_min_image_vectors particle_ids particle_positions half).c1 ≤ half.c1 ∧
      ∀ k : ℤ, |(subtract_min_image_vectors particle_ids particle_positions half).c1| ≤
        |((particle_positions (particle_ids.getD 1 0)).c1 -
          (particle_positions (particle_ids.getD 0 0)).c1) + 2 * (k : K) * half.c1|) ∧
    (-half.c2 ≤ (subtract_min_image_vectors particle_ids particle_positions half).c2 ∧
      (subtract_min_image_vectors particle_ids particle_positions half).c2 ≤ half.c2 ∧
      ∀ k : ℤ, |(subtract_min_image_vectors particle_ids particle_positions half).c2| ≤
        |((particle_positions (particle_ids.getD 1 0)).c2 -
          (particle_positions (particle_ids.getD 0 0)).c2) + 2 * (k : K) * half.c2|) :=
  ⟨min_image_component_nearest _ _ _ h0 ha0.1 ha0.2 hb0.1 hb0.2,
    min_image_component_nearest _ _ _ h1 ha1.1 ha1.2 hb1.1 hb1.2,
    min_image_component_nearest _ _ _ h2 ha2.1 ha2.2 hb2.1 hb2.2⟩

/-- C23, instance: particles 0 and 1 of `example_positions` in a box of half lengths 10. -/
theorem subtract_min_image_vectors_nearest_witness :
    -(10 : ℚ) ≤ (subtract_min_image_vectors [0, 1] example_positions
        (example_half_lengths : Vec3 ℚ)).c0 ∧
    (subtract_min_image_vectors [0, 1] example_positions
        (example_half_lengths : Vec3 ℚ)).c0 ≤ 10 :=
  have h := subtract_min_image_vectors_nearest [0, 1] example_positions
    (example_half_lengths : Vec3 ℚ)
    (by norm_num [example_half_lengths]) (by norm_num [example_half_lengths])
    (by norm_num [example_half_lengths])
    (by norm_num [example_positions, example_half_lengths])
    (by norm_num [example_positions, example_half_lengths])
    (by norm_num [example_positions, example_half_lengths])
    (by norm_num [example_positions, example_half_lengths])
    (by norm_num [example_positions, example_half_lengths])
    (by norm_num [example_positions, example_half_lengths])
  ⟨h.1.1, h.1.2.1⟩

/-- C24: for every translation `t` applied to all positions, and for every `cutoff2`,
`conditionally_calc_angle_and_derivatives` returns the same flag, the same angle and the
same derivatives as for the original positions, and `calc_angle` stores the same value
(exact arithmetic, same box half lengths, same incoming contents of the locals, any value
of the macro `MAXFLOAT`). -/
theorem conditionally_calc_angle_and_derivatives_translate {K : Type} [LinearOrderedField K]
    (m : MathEnv K) (MAXFLOAT : K) (particle_ids : List Nat) (particle_positions : Nat → Vec3 K)
    (t half : Vec3 K) (cutoff2 param_val : K) (derivatives : Nat → Vec3 K)
    (rr2_20 rr2_21 : K) (dist_derivs_20 dist_derivs_21 : Nat → Vec3 K) :
    conditionally_calc_angle_and_derivatives m particle_ids
        (fun i => Vec3.add (particle_positions i) t) half cutoff2 param_val derivatives =
      conditionally_calc_angle_and_derivatives m particle_ids particle_positions half cutoff2
        param_val derivatives ∧
    calc_angle m MAXFLOAT particle_ids (fun i => Vec3.add (particle_positions i) t) half rr2_20 rr2_21
        dist_derivs_20 dist_derivs_21 =
      calc_angle m MAXFLOAT particle_ids particle_positions half rr2_20 rr2_21 dist_derivs_20
        dist_derivs_21 := by
  constructor
  · rw [conditionally_calc_angle_and_derivatives_eq, conditionally_calc_angle_and_derivatives_eq,
      subtract_min_image_vectors_translate, subtract_min_image_vectors_translate]
  · unfold calc_angle
    simp only
    rw [conditionally_calc_squared_distance_and_derivatives_translate,
      conditionally_calc_squared_distance_and_derivatives_translate]

/-- C24, instance: the three particles 0, 2, 3 of `example_positions` moved by
`(1, 2, 3)`, with `cutoff2 = 1`. -/
theorem conditionally_calc_angle_and_derivatives_translate_witness :
    conditionally_calc_angle_and_derivatives
        (⟨Real.sqrt, Real.arccos, Real.sin, Real.exp, 180 / Real.pi, 1 / 1000000⟩ : MathEnv ℝ)
        [0, 2, 3] (fun i => Vec3.add (example_positions i) { c0 := 1, c1 := 2, c2 := 3 })
        example_half_lengths 1 0 (fun _ => Vec3.zero) =
      conditionally_calc_angle_and_derivatives
        (⟨Real.sqrt, Real.arccos, Real.sin, Real.exp, 180 / Real.pi, 1 / 1000000⟩ : MathEnv ℝ)
        [0, 2, 3] example_positions example_half_lengths 1 0 (fun _ => Vec3.zero) :=
  (conditionally_calc_angle_and_derivatives_translate
    (⟨Real.sqrt, Real.arccos, Real.sin, Real.exp, 180 / Real.pi, 1 / 1000000⟩ : MathEnv ℝ)
    340282346638528859811704183484516925440 [0, 2, 3] example_positions { c0 := 1, c1 := 2, c2 := 3 } example_half_lengths 1 0
    (fun _ => Vec3.zero) 0 0 (fun _ => Vec3.zero) (fun _ => Vec3.zero)).1

/-- C25: for box half lengths that are not negative, every three positions and every
`cutoff2`, `conditionally_calc_angle_and_derivatives` applied to the positions reflected
through the origin returns the same flag and the same angle as for the original
positions; when the flag is true `derivatives[0]` and `derivatives[1]` are the negatives
of the original ones, and the other entries of `derivatives` are the same. -/
theorem conditionally_calc_angle_and_derivatives_reflect {K : Type} [LinearOrderedField K]
    (m : MathEnv K) (particle_ids : List Nat) (particle_positions : Nat → Vec3 K)
    (half : Vec3 K) (cutoff2 param_val : K) (derivatives : Nat → Vec3 K)
    (h0 : 0 ≤ half.c0) (h1 : 0 ≤ half.c1) (h2 : 0 ≤ half.c2) :
    (conditionally_calc_angle_and_derivatives m particle_ids
        (fun i => Vec3.neg (particle_positions i)) half cutoff2 param_val derivatives).1 =
      (conditionally_calc_angle_and_derivatives m particle_ids particle_positions half cutoff2
        param_val derivatives).1 ∧
    (conditionally_calc_angle_and_derivatives m particle_ids
        (fun i => Vec3.neg (particle_positions i)) half cutoff2 param_val derivatives).2.1 =
      (conditionally_calc_angle_and_derivatives m particle_ids particle_positions half cutoff2
        param_val derivatives).2.1 ∧
    ((conditionally_calc_angle_and_derivatives m particle_ids particle_positions half cutoff2
        param_val derivatives).1 = true →
      (conditionally_calc_angle_and_derivatives m particle_ids
          (fun i => Vec3.neg (particle_positions i)) half cutoff2 param_val derivatives).2.2 0 =
        Vec3.neg ((conditionally_calc_angle_and_derivatives m particle_ids particle_positions
          half cutoff2 param_val derivatives).2.2 0) ∧
      (conditionally_calc_angle_and_derivatives m particle_ids
          (fun i => Vec3.neg (particle_positions i)) half cutoff2 param_val derivatives).2.2 1 =
        Vec3.neg ((conditionally_calc_angle_and_derivatives m particle_ids particle_positions
          half cutoff2 param_val derivatives).2.2 1)) ∧
    (∀ j, 2 ≤ j →
      (conditionally_calc_angle_and_derivatives m particle_ids
          (fun i => Vec3.neg (particle_positions i)) half cutoff2 param_val derivatives).2.2 j =
        (conditionally_calc_angle_and_derivatives m particle_ids particle_positions half
          cutoff2 param_val derivatives).2.2 j) := by
  rw [conditionally_calc_angle_and_derivatives_eq, conditionally_calc_angle_and_derivatives_eq,
    subtract_min_image_vectors_reflect _ _ _ h0 h1 h2,
    subtract_min_image_vectors_reflect _ _ _ h0 h1 h2]
  exact angle_from_displacements_neg m _ _ cutoff2 param_val derivatives

/-- C25, instance: the three particles 0, 2, 3 of `example_positions` reflected through
the origin, with half box lengths 10 and `cutoff2 = 1`. -/
theorem conditionally_calc_angle_and_derivatives_reflect_witness :
    (conditionally_calc_angle_and_derivatives
        (⟨Real.sqrt, Real.arccos, Real.sin, Real.exp, 180 / Real.pi, 1 / 1000000⟩ : MathEnv ℝ)
        [0, 2, 3] (fun i => Vec3.neg (example_positions i)) example_half_lengths 1 0
        (fun _ => Vec3.zero)).2.1 =
      (conditionally_calc_angle_and_derivatives
        (⟨Real.sqrt, Real.arccos, Real.sin, Real.exp, 180 / Real.pi, 1 / 1000000⟩ : MathEnv ℝ)
        [0, 2, 3] example_positions example_half_lengths 1 0 (fun _ => Vec3.zero)).2.1 :=
  (conditionally_calc_angle_and_derivatives_reflect
    (⟨Real.sqrt, Real.arccos, Real.sin, Real.exp, 180 / Real.pi, 1 / 1000000⟩ : MathEnv ℝ)
    [0, 2, 3] example_positions example_half_lengths 1 0 (fun _ => Vec3.zero)
    (by norm_num [example_half_lengths]) (by norm_num [example_half_lengths])
    (by norm_num [example_half_lengths])).2.1

/-- C26 (failing input): two configurations whose squared separations from the vertex,
`4 * 10^40` and `10^42`, exceed `3.40282347e+38`, the value of `MAXFLOAT` in the `<cmath>`
of glibc, and so exceed every smaller value of the macro, the fallback `1.0E10` of
`geometry.cpp` among them. With `cutoff2 = 10^43` the conditional function returns true on
both, storing the arccosine of 0 on one and of 3/5 on the other, in degrees; both
squared-distance calls of `calc_angle` fail, so `calc_angle` stores on both the one value
determined by what its uninitialised locals held, and cannot agree with the conditional
function on both. -/
theorem calc_angle_beyond_maxfloat (MAXFLOAT : ℝ)
    (hM : MAXFLOAT ≤ 340282346638528859811704183484516925440) :
    (conditionally_calc_angle_and_derivatives
        (⟨Real.sqrt, Real.arccos, Real.sin, Real.exp, 180 / Real.pi, 1 / 1000000⟩ : MathEnv ℝ)
        [0, 1, 2] example_far_positions_a example_large_half_lengths
          10000000000000000000000000000000000000000000 0
        (fun _ => Vec3.zero)).1 = true ∧
    (conditionally_calc_angle_and_derivatives
        (⟨Real.sqrt, Real.arccos, Real.sin, Real.exp, 180 / Real.pi, 1 / 1000000⟩ : MathEnv ℝ)
        [0, 1, 2] example_far_positions_b example_large_half_lengths
          10000000000000000000000000000000000000000000 0
        (fun _ => Vec3.zero)).1 = true ∧
    ∀ (rr2_20 rr2_21 : ℝ) (dist_derivs_20 dist_derivs_21 : Nat → Vec3 ℝ),
      calc_angle
          (⟨Real.sqrt, Real.arccos, Real.sin, Real.exp, 180 / Real.pi, 1 / 1000000⟩ : MathEnv ℝ)
          MAXFLOAT [0, 1, 2] example_far_positions_a example_large_half_lengths rr2_20 rr2_21
          dist_derivs_20 dist_derivs_21 =
        calc_angle
          (⟨Real.sqrt, Real.arccos, Real.sin, Real.exp, 180 / Real.pi, 1 / 1000000⟩ : MathEnv ℝ)
          MAXFLOAT [0, 1, 2] example_far_positions_b example_large_half_lengths rr2_20 rr2_21
          dist_derivs_20 dist_derivs_21 ∧
      ¬ (calc_angle
          (⟨Real.sqrt, Real.arccos, Real.sin, Real.exp, 180 / Real.pi, 1 / 1000000⟩ : MathEnv ℝ)
          MAXFLOAT [0, 1, 2] example_far_positions_a example_large_half_lengths rr2_20 rr2_21
          dist_derivs_20 dist_derivs_21 =
        (conditionally_calc_angle_and_derivatives
          (⟨Real.sqrt, Real.arccos, Real.sin, Real.exp, 180 / Real.pi, 1 / 1000000⟩ : MathEnv ℝ)
          [0, 1, 2] example_far_positions_a example_large_half_lengths
          10000000000000000000000000000000000000000000 0
          (fun _ => Vec3.zero)).2.1 ∧
        calc_angle
          (⟨Real.sqrt, Real.arccos, Real.sin, Real.exp, 180 / Real.pi, 1 / 1000000⟩ : MathEnv ℝ)
          MAXFLOAT [0, 1, 2] example_far_positions_b example_large_half_lengths rr2_20 rr2_21
          dist_derivs_20 dist_derivs_21 =
        (conditionally_calc_angle_and_derivatives
          (⟨Real.sqrt, Real.arccos, Real.sin, Real.exp, 180 / Real.pi, 1 / 1000000⟩ : MathEnv ℝ)
          [0, 1, 2] example_far_positions_b example_large_half_lengths
          10000000000000000000000000000000000000000000 0
          (fun _ => Vec3.zero)).2.1) := by
  have hs1 : Real.sqrt 40000000000000000000000000000000000000000 = 200000000000000000000 := by
    rw [show (40000000000000000000000000000000000000000 : ℝ) = 200000000000000000000 ^ 2 by norm_num]
    exact Real.sqrt_sq (by norm_num)
  have hs2 : Real.sqrt 1000000000000000000000000000000000000000000 = 1000000000000000000000 := by
    rw [show (1000000000000000000000000000000000000000000 : ℝ) = 1000000000000000000000 ^ 2 by norm_num]
    exact Real.sqrt_sq (by norm_num)
  have da20 : subtract_min_image_vectors [([0, 1, 2] : List Nat).getD 2 0, [0, 1, 2].getD 0 0]
      example_far_positions_a (example_large_half_lengths : Vec3 ℝ) =
      { c0 := 200000000000000000000, c1 := 0, c2 := 0 } := by
    norm_num [subtract_min_image_vectors, Vec3.map2, min_image_component,
      example_far_positions_a, example_large_half_lengths]
  have da21 : subtract_min_image_vectors [([0, 1, 2] : List Nat).getD 2 0, [0, 1, 2].getD 1 0]
      example_far_positions_a (example_large_half_lengths : Vec3 ℝ) =
      { c0 := 0, c1 := 200000000000000000000, c2 := 0 } := by
    norm_num [subtract_min_image_vectors, Vec3.map2, min_image_component,
      example_far_positions_a, example_large_half_lengths]
  have db20 : subtract_min_image_vectors [([0, 1, 2] : List Nat).getD 2 0, [0, 1, 2].getD 0 0]
      example_far_positions_b (example_large_half_lengths : Vec3 ℝ) =
      { c0 := 200000000000000000000, c1 := 0, c2 := 0 } := by
    norm_num [subtract_min_image_vectors, Vec3.map2, min_image_component,
      example_far_positions_b, example_large_half_lengths]
  have db21 : subtract_min_image_vectors [([0, 1, 2] : List Nat).getD 2 0, [0, 1, 2].getD 1 0]
      example_far_positions_b (example_large_half_lengths : Vec3 ℝ) =
      { c0 := 600000000000000000000, c1 := 800000000000000000000, c2 := 0 } := by
    norm_num [subtract_min_image_vectors, Vec3.map2, min_image_component,
      example_far_positions_b, example_large_half_lengths]
  have fa : conditionally_calc_angle_and_derivatives
      (⟨Real.sqrt, Real.arccos, Real.sin, Real.exp, 180 / Real.pi, 1 / 1000000⟩ : MathEnv ℝ)
      [0, 1, 2] example_far_positions_a example_large_half_lengths
          10000000000000000000000000000000000000000000 0
      (fun _ => Vec3.zero) =
      angle_from_displacements
        (⟨Real.sqrt, Real.arccos, Real.sin, Real.exp, 180 / Real.pi, 1 / 1000000⟩ : MathEnv ℝ)
        { c0 := 200000000000000000000, c1 := 0, c2 := 0 } { c0 := 0, c1 := 200000000000000000000, c2 := 0 } 10000000000000000000000000000000000000000000 0
        (fun _ => Vec3.zero) := by
    rw [conditionally_calc_angle_and_derivatives_eq, da20, da21]
  have fb : conditionally_calc_angle_and_derivatives
      (⟨Real.sqrt, Real.arccos, Real.sin, Real.exp, 180 / Real.pi, 1 / 1000000⟩ : MathEnv ℝ)
      [0, 1, 2] example_far_positions_b example_large_half_lengths
          10000000000000000000000000000000000000000000 0
      (fun _ => Vec3.zero) =
      angle_from_displacements
        (⟨Real.sqrt, Real.arccos, Real.sin, Real.exp, 180 / Real.pi, 1 / 1000000⟩ : MathEnv ℝ)
        { c0 := 200000000000000000000, c1 := 0, c2 := 0 } { c0 := 600000000000000000000, c1 := 800000000000000000000, c2 := 0 }
        10000000000000000000000000000000000000000000 0 (fun _ => Vec3.zero) := by
    rw [conditionally_calc_angle_and_derivatives_eq, db20, db21]
  have ca : check_cos
      (⟨Real.sqrt, Real.arccos, Real.sin, Real.exp, 180 / Real.pi, 1 / 1000000⟩ : MathEnv ℝ)
      0 = 0 := by
    norm_num [check_cos]
  have cb : check_cos
      (⟨Real.sqrt, Real.arccos, Real.sin, Real.exp, 180 / Real.pi, 1 / 1000000⟩ : MathEnv ℝ)
      (3/5) = 3/5 := by
    norm_num [check_cos]
  have va : (angle_from_displacements
      (⟨Real.sqrt, Real.arccos, Real.sin, Real.exp, 180 / Real.pi, 1 / 1000000⟩ : MathEnv ℝ)
      { c0 := 200000000000000000000, c1 := 0, c2 := 0 } { c0 := 0, c1 := 200000000000000000000, c2 := 0 } 10000000000000000000000000000000000000000000 0
      (fun _ => Vec3.zero)).1 = true ∧
      (angle_from_displacements
      (⟨Real.sqrt, Real.arccos, Real.sin, Real.exp, 180 / Real.pi, 1 / 1000000⟩ : MathEnv ℝ)
      { c0 := 200000000000000000000, c1 := 0, c2 := 0 } { c0 := 0, c1 := 200000000000000000000, c2 := 0 } 10000000000000000000000000000000000000000000 0
      (fun _ => Vec3.zero)).2.1 = Real.arccos 0 * (180 / Real.pi) := by
    unfold angle_from_displacements
    simp only
    rw [if_neg (by norm_num [dot_product])]
    refine ⟨rfl, ?_⟩
    simp only
    have e : dot_product (Vec3.map (fun d => 2 * d) ({ c0 := 200000000000000000000, c1 := 0, c2 := 0 } : Vec3 ℝ))
        (Vec3.map (fun d => 2 * d) { c0 := 0, c1 := 200000000000000000000, c2 := 0 }) /
        (4 * Real.sqrt (dot_product ({ c0 := 200000000000000000000, c1 := 0, c2 := 0 } : Vec3 ℝ)
          { c0 := 200000000000000000000, c1 := 0, c2 := 0 }) *
          Real.sqrt (dot_product ({ c0 := 0, c1 := 200000000000000000000, c2 := 0 } : Vec3 ℝ)
            { c0 := 0, c1 := 200000000000000000000, c2 := 0 })) = 0 := by
      norm_num [dot_product, Vec3.map]
    rw [e, ca]
  have vb : (angle_from_displacements
      (⟨Real.sqrt, Real.arccos, Real.sin, Real.exp, 180 / Real.pi, 1 / 1000000⟩ : MathEnv ℝ)
      { c0 := 200000000000000000000, c1 := 0, c2 := 0 } { c0 := 600000000000000000000, c1 := 800000000000000000000, c2 := 0 }
      10000000000000000000000000000000000000000000 0 (fun _ => Vec3.zero)).1 = true ∧
      (angle_from_displacements
      (⟨Real.sqrt, Real.arccos, Real.sin, Real.exp, 180 / Real.pi, 1 / 1000000⟩ : MathEnv ℝ)
      { c0 := 200000000000000000000, c1 := 0, c2 := 0 } { c0 := 600000000000000000000, c1 := 800000000000000000000, c2 := 0 }
      10000000000000000000000000000000000000000000 0 (fun _ => Vec3.zero)).2.1 = Real.arccos (3/5) * (180 / Real.pi) := by
    unfold angle_from_displacements
    simp only
    rw [if_neg (by norm_num [dot_product])]
    refine ⟨rfl, ?_⟩
    simp only
    have e : dot_product (Vec3.map (fun d => 2 * d) ({ c0 := 200000000000000000000, c1 := 0, c2 := 0 } : Vec3 ℝ))
        (Vec3.map (fun d => 2 * d) { c0 := 600000000000000000000, c1 := 800000000000000000000, c2 := 0 }) /
        (4 * Real.sqrt (dot_product ({ c0 := 200000000000000000000, c1 := 0, c2 := 0 } : Vec3 ℝ)
          { c0 := 200000000000000000000, c1 := 0, c2 := 0 }) *
          Real.sqrt (dot_product ({ c0 := 600000000000000000000, c1 := 800000000000000000000, c2 := 0 } : Vec3 ℝ)
            { c0 := 600000000000000000000, c1 := 800000000000000000000, c2 := 0 })) = 3/5 := by
      norm_num [dot_product, Vec3.map, hs1, hs2]
    rw [e, cb]
  have ka : ∀ (rr2_20 rr2_21 : ℝ) (dist_derivs_20 dist_derivs_21 : Nat → Vec3 ℝ),
      calc_angle
        (⟨Real.sqrt, Real.arccos, Real.sin, Real.exp, 180 / Real.pi, 1 / 1000000⟩ : MathEnv ℝ)
        MAXFLOAT [0, 1, 2] example_far_positions_a example_large_half_lengths rr2_20 rr2_21
        dist_derivs_20 dist_derivs_21 =
      Real.arccos (check_cos
        (⟨Real.sqrt, Real.arccos, Real.sin, Real.exp, 180 / Real.pi, 1 / 1000000⟩ : MathEnv ℝ)
        (dot_product (dist_derivs_20 0) (dist_derivs_21 0) /
          (4 * Real.sqrt rr2_20 * Real.sqrt rr2_21))) * (180 / Real.pi) := by
    intro rr2_20 rr2_21 dist_derivs_20 dist_derivs_21
    unfold calc_angle
    simp only
    rw [conditionally_calc_squared_distance_and_derivatives_eq,
      conditionally_calc_squared_distance_and_derivatives_eq, da20, da21,
      if_pos (by norm_num [dot_product]; linarith), if_pos (by norm_num [dot_product]; linarith)]
  have kb : ∀ (rr2_20 rr2_21 : ℝ) (dist_derivs_20 dist_derivs_21 : Nat → Vec3 ℝ),
      calc_angle
        (⟨Real.sqrt, Real.arccos, Real.sin, Real.exp, 180 / Real.pi, 1 / 1000000⟩ : MathEnv ℝ)
        MAXFLOAT [0, 1, 2] example_far_positions_b example_large_half_lengths rr2_20 rr2_21
        dist_derivs_20 dist_derivs_21 =
      Real.arccos (check_cos
        (⟨Real.sqrt, Real.arccos, Real.sin, Real.exp, 180 / Real.pi, 1 / 1000000⟩ : MathEnv ℝ)
        (dot_product (dist_derivs_20 0) (dist_derivs_21 0) /
          (4 * Real.sqrt rr2_20 * Real.sqrt rr2_21))) * (180 / Real.pi) := by
    intro rr2_20 rr2_21 dist_derivs_20 dist_derivs_21
    unfold calc_angle
    simp only
    rw [conditionally_calc_squared_distance_and_derivatives_eq,
      conditionally_calc_squared_distance_and_derivatives_eq, db20, db21,
      if_pos (by norm_num [dot_product]; linarith), if_pos (by norm_num [dot_product]; linarith)]
  have hne : Real.arccos 0 * (180 / Real.pi) ≠ Real.arccos (3/5) * (180 / Real.pi) := by
    intro h
    have hpos : (0 : ℝ) < 180 / Real.pi := div_pos (by norm_num) Real.pi_pos
    have h2 := mul_right_cancel₀ (ne_of_gt hpos) h
    have h3 := Real.arccos_inj (by norm_num) (by norm_num) (by norm_num) (by norm_num) |>.mp h2
    norm_num at h3
  rw [fa, fb]
  refine ⟨va.1, vb.1, fun rr2_20 rr2_21 dist_derivs_20 dist_derivs_21 => ⟨?_, ?_⟩⟩
  · rw [ka, kb]
  · rintro ⟨h1, h2⟩
    rw [ka, va.2] at h1
    rw [kb, vb.2] at h2
    exact hne (h1.symm.trans h2)

/-- C26 (failing input), with `MAXFLOAT = 3.40282347e+38F`, which is `2^128 - 2^104`:
with zeros in the uninitialised locals of `calc_angle`, it disagrees with
`conditionally_calc_angle_and_derivatives` on one of the two configurations. -/
theorem calc_angle_beyond_maxfloat_witness :
    ¬ (calc_angle
        (⟨Real.sqrt, Real.arccos, Real.sin, Real.exp, 180 / Real.pi, 1 / 1000000⟩ : MathEnv ℝ)
        340282346638528859811704183484516925440 [0, 1, 2] example_far_positions_a
        example_large_half_lengths 0 0 (fun _ => Vec3.zero) (fun _ => Vec3.zero) =
      (conditionally_calc_angle_and_derivatives
        (⟨Real.sqrt, Real.arccos, Real.sin, Real.exp, 180 / Real.pi, 1 / 1000000⟩ : MathEnv ℝ)
        [0, 1, 2] example_far_positions_a example_large_half_lengths
        10000000000000000000000000000000000000000000 0 (fun _ => Vec3.zero)).2.1 ∧
      calc_angle
        (⟨Real.sqrt, Real.arccos, Real.sin, Real.exp, 180 / Real.pi, 1 / 1000000⟩ : MathEnv ℝ)
        340282346638528859811704183484516925440 [0, 1, 2] example_far_positions_b
        example_large_half_lengths 0 0 (fun _ => Vec3.zero) (fun _ => Vec3.zero) =
      (conditionally_calc_angle_and_derivatives
        (⟨Real.sqrt, Real.arccos, Real.sin, Real.exp, 180 / Real.pi, 1 / 1000000⟩ : MathEnv ℝ)
        [0, 1, 2] example_far_positions_b example_large_half_lengths
        10000000000000000000000000000000000000000000 0 (fun _ => Vec3.zero)).2.1) :=
  ((calc_angle_beyond_maxfloat 340282346638528859811704183484516925440 (le_refl _)).2.2
    0 0 (fun _ => Vec3.zero) (fun _ => Vec3.zero)).2

/-- C27: whenever `conditionally_calc_squared_distance_and_derivatives` returns true,
`calc_squared_distance` stores the value it stores; whenever
`conditionally_calc_distance_and_derivatives` returns true, `calc_distance` stores the
value it stores, which is the square root of the squared distance; `calc_dihedral` stores
the value `conditionally_calc_dihedral_and_derivatives` stores, for all positions and box
half lengths. -/
theorem calc_functions_agree {K : Type} [LinearOrderedField K] (m : MathEnv K)
    (particle_ids : List Nat) (particle_positions : Nat → Vec3 K) (half : Vec3 K)
    (cutoff2 param_val : K) (derivatives : Nat → Vec3 K) :
    ((conditionally_calc_squared_distance_and_derivatives particle_ids particle_positions half
        cutoff2 param_val derivatives).1 = true →
      calc_squared_distance particle_ids particle_positions half =
        (conditionally_calc_squared_distance_and_derivatives particle_ids particle_positions
          half cutoff2 param_val derivatives).2.1) ∧
    ((conditionally_calc_distance_and_derivatives m particle_ids particle_positions half
        cutoff2 param_val derivatives).1 = true →
      calc_distance m particle_ids particle_positions half =
        (conditionally_calc_distance_and_derivatives m particle_ids particle_positions half
          cutoff2 param_val derivatives).2.1) ∧
    calc_distance m particle_ids particle_positions half =
      m.sqrt (calc_squared_distance particle_ids particle_positions half) ∧
    calc_dihedral m particle_ids particle_positions half =
      (conditionally_calc_dihedral_and_derivatives m particle_ids particle_positions half
        cutoff2 param_val derivatives).2.1 := by
  have hsq : calc_squared_distance particle_ids particle_positions half =
      dot_product (subtract_min_image_vectors particle_ids particle_positions half)
        (subtract_min_image_vectors particle_ids particle_positions half) := rfl
  refine ⟨?_, ?_, rfl, rfl⟩
  · rw [hsq, conditionally_calc_squared_distance_and_derivatives_eq]
    split
    · intro hx
      exact absurd hx (by simp)
    · intro _
      rfl
  · unfold conditionally_calc_distance_and_derivatives calc_distance
    simp only
    rw [hsq, conditionally_calc_squared_distance_and_derivatives_eq]
    split
    · intro hx
      exact absurd hx (by simp)
    · intro _
      rfl

/-- C27, instance: particles 0 and 1 of `example_positions` with `cutoff2 = 1`. -/
theorem calc_functions_agree_witness :
    calc_squared_distance [0, 1] example_positions (example_half_lengths : Vec3 ℝ) =
      (conditionally_calc_squared_distance_and_derivatives [0, 1] example_positions
        (example_half_lengths : Vec3 ℝ) 1 0 (fun _ => Vec3.zero)).2.1 :=
  (calc_functions_agree
    (⟨Real.sqrt, Real.arccos, Real.sin, Real.exp, 180 / Real.pi, 1 / 1000000⟩ : MathEnv ℝ)
    [0, 1] example_positions example_half_lengths 1 0 (fun _ => Vec3.zero)).1
    ((conditionally_calc_squared_distance_and_derivatives_flag [0, 1] example_positions
      (example_half_lengths : Vec3 ℝ) 1 0 (fun _ => Vec3.zero)).mpr (by
        norm_num [dot_product, subtract_min_image_vectors, Vec3.map2, min_image_component,
          example_positions, example_half_lengths]))

/-- C28 (amended): for an interaction with `lower <= upper` and a `binwidth > 0` on which
no operation of the function is changed by the rounding of `double` arithmetic
(`grid_arithmetic_exact`), `calc_grid_of_force_vals` returns `axis_vals` and `force_vals`
of equal length; `axis_vals` is strictly increasing and holds exactly the integer multiples
`k * binwidth` with `k > (int)(lower / binwidth)` and `k * binwidth < upper`, which for
`lower >= 0` are exactly the integer multiples of `binwidth` in the open interval
`(lower, upper)`; `force_vals[j]` is the spline evaluated at `axis_vals[j]`. -/
theorem calc_grid_of_force_vals_double_spec (rnd : ℚ → ℚ)
    (evaluate_spline : Nat → Int → List ℚ → ℚ → ℚ)
    (ispec : InteractionClassSpec) (interaction_class_column_index : Int)
    (spline_coeffs : List ℚ) (index_among_defined : Nat) (binwidth : ℚ)
    (hle : ispec.lower_cutoffs.getD index_among_defined 0 ≤
      ispec.upper_cutoffs.getD index_among_defined 0)
    (hbw : 0 < binwidth)
    (hex : grid_arithmetic_exact rnd (ispec.lower_cutoffs.getD index_among_defined 0)
      (ispec.upper_cutoffs.getD index_among_defined 0) binwidth) :
    ∃ axis_vals force_vals : List ℚ,
      calc_grid_of_force_vals_double rnd evaluate_spline ispec interaction_class_column_index
          spline_coeffs index_among_defined binwidth = some (axis_vals, force_vals) ∧
      axis_vals.length = force_vals.length ∧
      force_vals = axis_vals.map
        (evaluate_spline index_among_defined interaction_class_column_index spline_coeffs) ∧
      axis_vals.Pairwise (fun a b => a < b) ∧
      (∀ x : ℚ, x ∈ axis_vals ↔
        ∃ k : Int, int_cast (ispec.lower_cutoffs.getD index_among_defined 0 / binwidth) < k ∧
          x = (k : ℚ) * binwidth ∧ x < ispec.upper_cutoffs.getD index_among_defined 0) ∧
      (0 ≤ ispec.lower_cutoffs.getD index_among_defined 0 →
        ∀ x : ℚ, x ∈ axis_vals ↔
          ∃ k : Int, x = (k : ℚ) * binwidth ∧
            ispec.lower_cutoffs.getD index_among_defined 0 < x ∧
            x < ispec.upper_cutoffs.getD index_among_defined 0) := by
  rw [calc_grid_of_force_vals_double_eq rnd evaluate_spline ispec interaction_class_column_index
    spline_coeffs index_among_defined binwidth hex]
  exact calc_grid_of_force_vals_exact_points evaluate_spline ispec
    interaction_class_column_index spline_coeffs index_among_defined binwidth hle hbw

/-- C28 (amended), instance: range `[0, 3]` and `binwidth` 1 with the rounding of
`double` arithmetic. -/
theorem calc_grid_of_force_vals_double_spec_witness :
    ∃ axis_vals force_vals : List ℚ,
      calc_grid_of_force_vals_double round_double example_evaluate_spline example_grid_class 0
          [] 0 1 = some (axis_vals, force_vals) ∧
      axis_vals.length = force_vals.length :=
  (calc_grid_of_force_vals_double_spec round_double example_evaluate_spline example_grid_class
    0 [] 0 1 (by norm_num [example_grid_class]) (by norm_num)
    example_grid_arithmetic_exact).imp
    (fun _ h => h.imp (fun _ h2 => ⟨h2.1, h2.2.1⟩))

/-- C28 (refuted as stated), instance: range `[0, 3]`, `binwidth` 1, in `double`
arithmetic. The function returns the grid points 1 and 2 with the spline values there; 0
is an integer multiple of the bin width in `[lower, upper)` and is not among the grid
points. -/
theorem calc_grid_of_force_vals_double_skips_lower :
    calc_grid_of_force_vals_double round_double example_evaluate_spline example_grid_class 0
        [] 0 1 = some ([1, 2], [3, 5]) ∧
    (0 : ℚ) = ((0 : Int) : ℚ) * 1 ∧
    example_grid_class.lower_cutoffs.getD 0 0 ≤ 0 ∧
    (0 : ℚ) < example_grid_class.upper_cutoffs.getD 0 0 ∧
    (0 : ℚ) ∉ [(1 : ℚ), 2] := by
  refine ⟨?_, by norm_num, by norm_num [example_grid_class],
    by norm_num [example_grid_class], by norm_num⟩
  rw [calc_grid_of_force_vals_double_eq round_double example_evaluate_spline example_grid_class
    0 [] 0 1 example_grid_arithmetic_exact]
  exact example_grid_force_vals

/-- C29 (failing input): range `[0, 3]`, `binwidth` 1. `calc_grid_of_force_vals` returns
`axis_vals = [1, 2]` and `force_vals` of length 2, while
`calc_grid_of_force_and_deriv_vals`, which never resizes its vectors, returns the three
vectors with the 4 allocated entries each, the last two entries 0. -/
theorem calc_grid_of_force_and_deriv_vals_not_resized :
    calc_grid_of_force_vals example_evaluate_spline example_grid_class 0 [] 0 1 =
      some ([1, 2], [3, 5]) ∧
    calc_grid_of_force_and_deriv_vals example_evaluate_spline example_evaluate_spline_deriv
        example_grid_class 0 [] 0 1 =
      some ([1, 2, 0, 0], [3, 5, 0, 0], [2, 2, 0, 0]) ∧
    ([1, 2, 0, 0] : List ℚ).length ≠ ([1, 2] : List ℚ).length := by
  refine ⟨example_grid_force_vals, ?_, by decide⟩
  have h4 : int_cast (4 : ℚ) = 4 := by
    rw [int_cast_of_nonneg _ (by norm_num), Int.floor_eq_iff]
    norm_num
  have h0 : int_cast (0 : ℚ) = 0 := by
    rw [int_cast_of_nonneg _ (by norm_num), Int.floor_eq_iff]
    norm_num
  have e1 : (example_grid_class.upper_cutoffs.getD 0 0 -
      example_grid_class.lower_cutoffs.getD 0 0) / 1 + 1 = (4 : ℚ) := by
    norm_num [example_grid_class]
  have e2 : example_grid_class.lower_cutoffs.getD 0 0 / 1 = (0 : ℚ) := by
    norm_num [example_grid_class]
  have e3 : example_grid_class.upper_cutoffs.getD 0 0 = (3 : ℚ) := by
    norm_num [example_grid_class]
  have t4 : (4 : Int).toNat = 4 := rfl
  unfold calc_grid_of_force_and_deriv_vals
  simp only
  rw [e1, e2, e3, h4, h0, t4]
  norm_num [grid_of_force_and_deriv_loop, example_evaluate_spline,
    example_evaluate_spline_deriv, List.replicate_succ]

/-- C30 (failing): for a three-body class with `class_subtype > 0` whose column loop runs
(subtype 3, or a B-spline or linear-spline basis), lines 293-309 of
`read_all_interaction_ranges` write past the end of `interaction_column_indices`: the
vector is allocated with `n_defined` entries and the loop writes the indices
`1 .. n_defined`. Had the vector `n_defined + 1` entries, the same loop would leave entry
`i` equal to `i * c` for `i = 0 .. n_defined`. -/
theorem three_body_column_indices_out_of_bounds (s : InteractionClassSpec)
    (hsub : 0 < s.class_subtype)
    (hloop : s.class_subtype = 3 ∨ s.basis_type = kBSpline ∨ s.basis_type = kLinearSpline) :
    three_body_column_indices s = none ∧
    ∀ c : Int, ∃ v, three_body_column_loop c (List.range' 1 s.n_defined)
        ((List.replicate (s.n_defined + 1) 0).set 0 0) = some v ∧
      v.length = s.n_defined + 1 ∧ ∀ i, i ≤ s.n_defined → v.getD i 0 = (i : Int) * c := by
  constructor
  · unfold three_body_column_indices
    rw [if_pos hsub]
    cases hw : vector_write (List.replicate s.n_defined 0) 0 0 with
    | none => rfl
    | some v =>
      simp only
      have hl := vector_write_length _ _ _ _ hw
      rw [List.length_replicate] at hl
      have hn : 0 < s.n_defined := by
        unfold vector_write at hw
        split at hw
        · rename_i h
          rw [List.length_replicate] at h
          exact h
        · exact absurd hw (by simp)
      have hfail : ∀ c : Int, three_body_column_loop c (List.range' 1 s.n_defined) v = none :=
        fun c => three_body_column_loop_none c _ v
          ⟨s.n_defined, by rw [List.mem_range'_1]; omega, by omega⟩
      rcases hloop with h | h | h
      · rw [if_pos h]
        exact hfail _
      · by_cases h3 : s.class_subtype = 3
        · rw [if_pos h3]
          exact hfail _
        · rw [if_neg h3, if_pos h]
          exact hfail _
      · by_cases h3 : s.class_subtype = 3
        · rw [if_pos h3]
          exact hfail _
        · rw [if_neg h3, if_neg (by rw [h]; decide), if_pos h]
          exact hfail _
  · intro c
    obtain ⟨v, h1, h2, h3⟩ := three_body_column_loop_some c s.n_defined 1
      ((List.replicate (s.n_defined + 1) 0).set 0 0)
      (by rw [List.length_set, List.length_replicate]; omega)
    refine ⟨v, h1, by rw [h2, List.length_set, List.length_replicate], fun i hi => ?_⟩
    rw [h3 i]
    by_cases h0 : i = 0
    · rw [h0, if_neg (by omega), getD_set_eq _ _ _ _ (by rw [List.length_replicate]; omega)]
      simp
    · rw [if_pos (by omega)]

/-- C30 (failing), instance: two defined three-body interactions, subtype 1, linear
spline: the vector has 2 entries and the loop writes index 2. -/
theorem three_body_column_indices_out_of_bounds_witness :
    three_body_column_indices example_three_body_class = none :=
  (three_body_column_indices_out_of_bounds example_three_body_class (by decide)
    (Or.inr (Or.inr rfl))).1

/-- C34 (amended): when every coordinate `x_i` of particle `l` lies in `[-2 h_i, 4 h_i)`
and the operations on it are not changed by the rounding of `double` arithmetic
(`min_image_arithmetic_exact`), `get_minimum_image` leaves every coordinate of the particle
in `[0, 2 h_i)`, has changed each by an integer multiple of `2 h_i` only, has changed no
other particle, and a second call changes nothing. -/
theorem get_minimum_image_double_spec (rnd : ℚ → ℚ) (l : Nat) (x : Nat → Vec3 ℚ)
    (half : Vec3 ℚ)
    (h0 : -(2 * half.c0) ≤ (x l).c0 ∧ (x l).c0 < 4 * half.c0)
    (h1 : -(2 * half.c1) ≤ (x l).c1 ∧ (x l).c1 < 4 * half.c1)
    (h2 : -(2 * half.c2) ≤ (x l).c2 ∧ (x l).c2 < 4 * half.c2)
    (e0 : min_image_arithmetic_exact rnd (x l).c0 half.c0)
    (e1 : min_image_arithmetic_exact rnd (x l).c1 half.c1)
    (e2 : min_image_arithmetic_exact rnd (x l).c2 half.c2) :
    ((0 ≤ (get_minimum_image_double rnd l x half l).c0 ∧
       (get_minimum_image_double rnd l x half l).c0 < 2 * half.c0) ∧
     (0 ≤ (get_minimum_image_double rnd l x half l).c1 ∧
       (get_minimum_image_double rnd l x half l).c1 < 2 * half.c1) ∧
     (0 ≤ (get_minimum_image_double rnd l x half l).c2 ∧
       (get_minimum_image_double rnd l x half l).c2 < 2 * half.c2)) ∧
    (∃ n0 n1 n2 : Int,
      (get_minimum_image_double rnd l x half l).c0 = (x l).c0 + (n0 : ℚ) * (2 * half.c0) ∧
      (get_minimum_image_double rnd l x half l).c1 = (x l).c1 + (n1 : ℚ) * (2 * half.c1) ∧
      (get_minimum_image_double rnd l x half l).c2 = (x l).c2 + (n2 : ℚ) * (2 * half.c2)) ∧
    (∀ j : Nat, j ≠ l → get_minimum_image_double rnd l x half j = x j) ∧
    get_minimum_image_double rnd l (get_minimum_image_double rnd l x half) half =
      get_minimum_image_double rnd l x half := by
  have hd := get_minimum_image_double_eq rnd l x half e0 e1 e2
  obtain ⟨r, s, o, i⟩ := get_minimum_image_exact_spec l x half h0 h1 h2
  have hsecond : get_minimum_image_double rnd l (get_minimum_image l x half) half =
      get_minimum_image l (get_minimum_image l x half) half := by
    have idem : ∀ (c h : ℚ), 0 ≤ c → c < rnd (2 * h) →
        get_minimum_image_component_double rnd c h = c := by
      intro c h hc hlt
      unfold get_minimum_image_component_double
      rw [if_neg (not_lt.mpr hc), if_neg (not_le.mpr hlt)]
    have hs := get_minimum_image_self l x half
    have hy : get_minimum_image_double rnd l (get_minimum_image l x half) half =
        Function.update (get_minimum_image l x half) l
          (Vec3.map2 (get_minimum_image_component_double rnd)
            (get_minimum_image l x half l) half) := rfl
    rw [hy, i]
    have hv : Vec3.map2 (get_minimum_image_component_double rnd)
        (get_minimum_image l x half l) half = get_minimum_image l x half l := by
      unfold Vec3.map2
      rw [idem _ _ r.1.1 (by rw [e0.1]; exact r.1.2),
        idem _ _ r.2.1.1 (by rw [e1.1]; exact r.2.1.2),
        idem _ _ r.2.2.1 (by rw [e2.1]; exact r.2.2.2)]
    rw [hv]
    exact Function.update_eq_self l _
  rw [hd]
  refine ⟨r, s, o, ?_⟩
  rw [hsecond]
  exact i

/-- C34 (amended), instance in `double` arithmetic: particle 1 at `(-1, 25, 7)` in a box
of half lengths 10 is moved to `(19, 5, 7)`. -/
theorem get_minimum_image_double_spec_witness :
    ((0 ≤ (get_minimum_image_double round_double 1 example_outside_positions
        example_half_lengths 1).c0 ∧
      (get_minimum_image_double round_double 1 example_outside_positions
        example_half_lengths 1).c0 < 2 * (example_half_lengths : Vec3 ℚ).c0) ∧
     (0 ≤ (get_minimum_image_double round_double 1 example_outside_positions
        example_half_lengths 1).c1 ∧
      (get_minimum_image_double round_double 1 example_outside_positions
        example_half_lengths 1).c1 < 2 * (example_half_lengths : Vec3 ℚ).c1) ∧
     (0 ≤ (get_minimum_image_double round_double 1 example_outside_positions
        example_half_lengths 1).c2 ∧
      (get_minimum_image_double round_double 1 example_outside_positions
        example_half_lengths 1).c2 < 2 * (example_half_lengths : Vec3 ℚ).c2)) ∧
    get_minimum_image_double round_double 1
        (get_minimum_image_double round_double 1 example_outside_positions
          example_half_lengths) example_half_lengths =
      get_minimum_image_double round_double 1 example_outside_positions
        example_half_lengths :=
  have h := get_minimum_image_double_spec round_double 1 example_outside_positions
    (example_half_lengths : Vec3 ℚ)
    (by norm_num [example_outside_positions, example_half_lengths])
    (by norm_num [example_outside_positions, example_half_lengths])
    (by norm_num [example_outside_positions, example_half_lengths])
    example_outside_exact.1 example_outside_exact.2.1 example_outside_exact.2.2
  ⟨h.1, h.2.2.2⟩

/-- C34 (refuted as stated), instance in `double` arithmetic: half box lengths 10 and the
first coordinate `-2^-54` of particle 1, inside `[-2h, 4h)`. The sum `x + 2h` rounds to
`20 = 2h`, outside `[0, 2h)`, and a second call moves the coordinate on to 0. -/
theorem get_minimum_image_double_reaches_box_length :
    (-(2 * (example_half_lengths : Vec3 ℚ).c0) ≤ (example_below_zero_positions 1).c0 ∧
      (example_below_zero_positions 1).c0 < 4 * (example_half_lengths : Vec3 ℚ).c0) ∧
    (get_minimum_image_double round_double 1 example_below_zero_positions
      example_half_lengths 1).c0 = 2 * (example_half_lengths : Vec3 ℚ).c0 ∧
    (get_minimum_image_double round_double 1
      (get_minimum_image_double round_double 1 example_below_zero_positions
        example_half_lengths) example_half_lengths 1).c0 = 0 := by
  have h1 : round_double (-(1 / 2 ^ 54) + 20) = 20 :=
    (round_double_pos_eq (-(1 / 2 ^ 54) + 20) 4 5629499534213120
      (by norm_num) (by norm_num) (by norm_num) (by norm_num)).trans (by norm_num)
  have h20 : round_double (2 * 10) = 20 :=
    (round_double_of_int _ 20 (by norm_num) (by norm_num) (by norm_num)).trans (by norm_num)
  have hx : (example_below_zero_positions 1).c0 = -(1 / 2 ^ 54) := rfl
  have hh : (example_half_lengths : Vec3 ℚ).c0 = 10 := rfl
  have first : (get_minimum_image_double round_double 1 example_below_zero_positions
      example_half_lengths 1).c0 = 20 := by
    unfold get_minimum_image_double
    rw [Function.update_same]
    unfold Vec3.map2
    simp only
    rw [hx, hh]
    unfold get_minimum_image_component_double
    rw [if_pos (by norm_num), h20, h1]
  refine ⟨?_, ?_, ?_⟩
  · rw [hx, hh]
    norm_num
  · rw [first, hh]
    norm_num
  · have hy : (get_minimum_image_double round_double 1
        (get_minimum_image_double round_double 1 example_below_zero_positions
          example_half_lengths) example_half_lengths 1).c0 =
        get_minimum_image_component_double round_double
          (get_minimum_image_double round_double 1 example_below_zero_positions
            example_half_lengths 1).c0 (example_half_lengths : Vec3 ℚ).c0 := by
      unfold get_minimum_image_double
      rw [Function.update_same, Function.update_same]
      rfl
    rw [hy, first, hh]
    unfold get_minimum_image_component_double
    rw [if_neg (by norm_num), h20, if_pos (by norm_num)]
    have hz : (20 : ℚ) - 20 = 0 := by norm_num
    rw [hz, round_double_zero]

/-- C31: with the exact real square root and `cutoff >= 0`, a call of
`conditionally_calc_sw_angle_and_intermediates` that passes the cutoff test has
`rr1 - cutoff <= 0` and `rr2 - cutoff <= 0`, and a denominator is zero exactly when the
squared distance equals `cutoff * cutoff`: the test lets the distance `cutoff` itself
through. -/
theorem conditionally_calc_sw_angle_and_intermediates_denominators (m : MathEnv ℝ)
    (hm : exact_reals m) (particle_ids : List Nat) (particle_positions : Nat → Vec3 ℝ)
    (half : Vec3 ℝ) (cutoff gamma : ℝ) (a : SwAngleIntermediates ℝ) (hc : 0 ≤ cutoff)
    (h : (conditionally_calc_sw_angle_and_intermediates m particle_ids particle_positions half
      cutoff gamma a).1 = true) :
    ((conditionally_calc_sw_angle_and_intermediates m particle_ids particle_positions half
        cutoff gamma a).2.angle.rr_20 - cutoff ≤ 0 ∧
     ((conditionally_calc_sw_angle_and_intermediates m particle_ids particle_positions half
        cutoff gamma a).2.angle.rr_20 - cutoff = 0 ↔
      dot_product
        (subtract_min_image_vectors [particle_ids.getD 2 0, particle_ids.getD 0 0]
          particle_positions half)
        (subtract_min_image_vectors [particle_ids.getD 2 0, particle_ids.getD 0 0]
          particle_positions half) = cutoff * cutoff)) ∧
    ((conditionally_calc_sw_angle_and_intermediates m particle_ids particle_positions half
        cutoff gamma a).2.angle.rr_21 - cutoff ≤ 0 ∧
     ((conditionally_calc_sw_angle_and_intermediates m particle_ids particle_positions half
        cutoff gamma a).2.angle.rr_21 - cutoff = 0 ↔
      dot_product
        (subtract_min_image_vectors [particle_ids.getD 2 0, particle_ids.getD 1 0]
          particle_positions half)
        (subtract_min_image_vectors [particle_ids.getD 2 0, particle_ids.getD 1 0]
          particle_positions half) = cutoff * cutoff)) := by
  have key : ∀ x : ℝ, 0 ≤ x → x ≤ cutoff * cutoff →
      Real.sqrt x - cutoff ≤ 0 ∧ (Real.sqrt x - cutoff = 0 ↔ x = cutoff * cutoff) := by
    intro x hx hle
    have h1 : Real.sqrt x ≤ cutoff := by
      rw [← Real.sqrt_mul_self hc]
      exact Real.sqrt_le_sqrt hle
    refine ⟨by linarith, ⟨fun h0 => ?_, fun h0 => ?_⟩⟩
    · have e : Real.sqrt x = cutoff := by linarith
      rw [← e]
      exact (Real.mul_self_sqrt hx).symm
    · rw [h0, Real.sqrt_mul_self hc, sub_self]
  have hnn : ∀ v : Vec3 ℝ, 0 ≤ dot_product v v := by
    intro v
    unfold dot_product
    nlinarith [mul_self_nonneg v.c0, mul_self_nonneg v.c1, mul_self_nonneg v.c2]
  have hflag : (conditionally_calc_angle_and_intermediates m particle_ids particle_positions
      half (cutoff * cutoff) a.angle).1 = true := by
    unfold conditionally_calc_sw_angle_and_intermediates at h
    simp only at h
    by_cases hf : (conditionally_calc_angle_and_intermediates m particle_ids particle_positions
      half (cutoff * cutoff) a.angle).1 = false
    · rw [if_pos hf] at h
      simp at h
    · simpa using hf
  have hres : (conditionally_calc_sw_angle_and_intermediates m particle_ids particle_positions
      half cutoff gamma a).2.angle =
      (conditionally_calc_angle_and_intermediates m particle_ids particle_positions
        half (cutoff * cutoff) a.angle).2 := by
    unfold conditionally_calc_sw_angle_and_intermediates
    simp only
    rw [if_neg (by rw [hflag]; simp)]
  obtain ⟨⟨r1, l1⟩, ⟨r2, l2⟩⟩ := conditionally_calc_angle_and_intermediates_distances m
    particle_ids particle_positions half (cutoff * cutoff) a.angle hflag
  rw [hres, r1, r2, hm.1]
  exact ⟨key _ (hnn _) l1, key _ (hnn _) l2⟩

/-- C31 (failing input): with cutoff 1 and both neighbours at distance exactly 1 from the
central particle the call passes the cutoff test and both denominators `rr1 - cutoff` and
`rr2 - cutoff` are zero. -/
theorem conditionally_calc_sw_angle_and_intermediates_denominators_witness :
    (conditionally_calc_sw_angle_and_intermediates
      (⟨Real.sqrt, Real.arccos, Real.sin, Real.exp, 180 / Real.pi, 1 / 1000000⟩ : MathEnv ℝ)
      [0, 2, 3] example_positions example_half_lengths 1 1 example_sw_intermediates).1 = true ∧
    (conditionally_calc_sw_angle_and_intermediates
      (⟨Real.sqrt, Real.arccos, Real.sin, Real.exp, 180 / Real.pi, 1 / 1000000⟩ : MathEnv ℝ)
      [0, 2, 3] example_positions example_half_lengths 1 1
      example_sw_intermediates).2.angle.rr_20 - 1 = 0 ∧
    (conditionally_calc_sw_angle_and_intermediates
      (⟨Real.sqrt, Real.arccos, Real.sin, Real.exp, 180 / Real.pi, 1 / 1000000⟩ : MathEnv ℝ)
      [0, 2, 3] example_positions example_half_lengths 1 1
      example_sw_intermediates).2.angle.rr_21 - 1 = 0 :=
  have hflag : (conditionally_calc_sw_angle_and_intermediates
      (⟨Real.sqrt, Real.arccos, Real.sin, Real.exp, 180 / Real.pi, 1 / 1000000⟩ : MathEnv ℝ)
      [0, 2, 3] example_positions example_half_lengths 1 1 example_sw_intermediates).1 =
      true := by
    norm_num [conditionally_calc_sw_angle_and_intermediates,
      conditionally_calc_angle_and_intermediates,
      conditionally_calc_squared_distance_and_derivatives, subtract_min_image_vectors,
      min_image_component, example_positions, example_half_lengths, example_sw_intermediates,
      Vec3.map2, Vec3.map]
  ⟨hflag,
   (conditionally_calc_sw_angle_and_intermediates_denominators
      (⟨Real.sqrt, Real.arccos, Real.sin, Real.exp, 180 / Real.pi, 1 / 1000000⟩ : MathEnv ℝ)
      (by unfold exact_reals; exact ⟨rfl, rfl, rfl, rfl, rfl⟩)
      [0, 2, 3] example_positions example_half_lengths 1 1 example_sw_intermediates
      (by norm_num) hflag).1.2.mpr
     (by norm_num [dot_product, subtract_min_image_vectors, min_image_component,
       example_positions, example_half_lengths, Vec3.map2]),
   (conditionally_calc_sw_angle_and_intermediates_denominators
      (⟨Real.sqrt, Real.arccos, Real.sin, Real.exp, 180 / Real.pi, 1 / 1000000⟩ : MathEnv ℝ)
      (by unfold exact_reals; exact ⟨rfl, rfl, rfl, rfl, rfl⟩)
      [0, 2, 3] example_positions example_half_lengths 1 1 example_sw_intermediates
      (by norm_num) hflag).2.2.mpr
     (by norm_num [dot_product, subtract_min_image_vectors, min_image_component,
       example_positions, example_half_lengths, Vec3.map2])⟩

/-- C36 (failing input): cutoffs 4.3 and 4.6 with bin width 0.1, in `double` arithmetic.
The entry count `int((upper - lower) / binwidth + 1.0)` is 3, since the difference rounds
to `0.2999999999999998`, and the loop makes four passes, at `4.3`, `4.3999999999999995`,
`4.499999999999999` and `4.599999999999999`, all below `4.6`: `calc_grid_of_force_vals` and
`calc_grid_of_force_and_deriv_vals` write entry 3 of vectors with 3 entries. -/
theorem calc_grid_of_force_vals_double_overflow :
    (int_cast (round_double (round_double (round_double
      (example_overflow_grid_class.upper_cutoffs.getD 0 0 -
        example_overflow_grid_class.lower_cutoffs.getD 0 0) / round_double (1 / 10)) + 1))).toNat =
      3 ∧
    calc_grid_of_force_vals_double round_double example_evaluate_spline
      example_overflow_grid_class 0 [] 0 (round_double (1 / 10)) = none ∧
    calc_grid_of_force_and_deriv_vals_double round_double example_evaluate_spline
      example_evaluate_spline_deriv example_overflow_grid_class 0 [] 0 (round_double (1 / 10)) =
      none := by
  obtain ⟨hn, hlt⟩ := example_overflow_grid_values
  refine ⟨hn, ?_, ?_⟩
  · unfold calc_grid_of_force_vals_double
    simp only
    rw [hn, grid_of_force_loop_double_none round_double _ _ _ 3 _ _ _ _ hlt]
  · unfold calc_grid_of_force_and_deriv_vals_double
    simp only
    rw [hn, grid_of_force_and_deriv_loop_double_none round_double _ _ _ _ 3 _ _ _ _ _ hlt]

/-- C40 (amended): in a pair-nonbonded B-spline class with `output_binwidth > 0`, an
interaction whose declared upper bound satisfies `0 <= upper <= cutoff` and for which the
quotient and the product of the new upper cutoff and the sum `cutoff + output_binwidth`
are not changed by the rounding of `double` arithmetic, and adding `VERYSMALL >= 0` does
not round below that sum, has after `adjust_cutoffs_for_basis` and `adjust_cutoffs_for_type`
an upper cutoff of at most `cutoff + output_binwidth`; the test of
`check_nonbonded_interaction_range_cutoffs` does not fire on it, and the check returns
normally when it fires on no other interaction of the class. -/
theorem bspline_nonbonded_upper_within_cutoff_double (rnd : ℚ → ℚ) (VERYSMALL_F VERYSMALL : ℚ)
    (s : InteractionClassSpec) (cutoff : ℚ) (i : Nat)
    (hb : s.basis_type = kBSpline) (ht : s.class_type = kPairNonbonded)
    (hob : 0 < s.output_binwidth)
    (hiu : i < s.upper_cutoffs.length)
    (h0 : 0 ≤ s.upper_cutoffs.getD i 0) (hc : s.upper_cutoffs.getD i 0 ≤ cutoff)
    (hq : rnd (s.upper_cutoffs.getD i 0 / s.output_binwidth) =
      s.upper_cutoffs.getD i 0 / s.output_binwidth)
    (hp : rnd (((int_cast (s.upper_cutoffs.getD i 0 / s.output_binwidth) + 1 : Int) : ℚ) *
        s.output_binwidth) =
      ((int_cast (s.upper_cutoffs.getD i 0 / s.output_binwidth) + 1 : Int) : ℚ) *
        s.output_binwidth)
    (hs : rnd (cutoff + s.output_binwidth) = cutoff + s.output_binwidth)
    (hv : cutoff + s.output_binwidth ≤ rnd (cutoff + s.output_binwidth + VERYSMALL)) :
    (adjust_cutoffs_for_type_double rnd VERYSMALL_F (adjust_cutoffs_for_basis_double rnd s i)
        i).upper_cutoffs.getD i 0 ≤ cutoff +
      (adjust_cutoffs_for_type_double rnd VERYSMALL_F (adjust_cutoffs_for_basis_double rnd s i)
        i).output_binwidth ∧
    ¬ exceeds_nonbonded_cutoff_double rnd VERYSMALL
      (adjust_cutoffs_for_type_double rnd VERYSMALL_F (adjust_cutoffs_for_basis_double rnd s i)
        i) cutoff i ∧
    ((∀ j : Nat, j ≠ i → ¬ exceeds_nonbonded_cutoff_double rnd VERYSMALL
        (adjust_cutoffs_for_type_double rnd VERYSMALL_F
          (adjust_cutoffs_for_basis_double rnd s i) i) cutoff j) →
      check_nonbonded_interaction_range_cutoffs_double rnd VERYSMALL
        (adjust_cutoffs_for_type_double rnd VERYSMALL_F
          (adjust_cutoffs_for_basis_double rnd s i) i) cutoff = Except.ok ()) := by
  obtain ⟨f1, f2, f3, _, _⟩ := adjust_cutoffs_for_basis_double_bspline_frame rnd s i hb
  have htype : adjust_cutoffs_for_type_double rnd VERYSMALL_F
      (adjust_cutoffs_for_basis_double rnd s i) i = adjust_cutoffs_for_basis_double rnd s i :=
    adjust_cutoffs_for_type_double_bspline_nonbonded rnd VERYSMALL_F _ i (f1.trans hb)
      (f2.trans ht)
  rw [htype]
  have hup : (adjust_cutoffs_for_basis_double rnd s i).upper_cutoffs.getD i 0 =
      bspline_upper s.output_binwidth (s.upper_cutoffs.getD i 0) := by
    rw [adjust_cutoffs_for_basis_double_bspline_getD rnd s i hb hiu,
      bspline_upper_double_eq rnd _ _ hq hp]
  have hbound : bspline_upper s.output_binwidth (s.upper_cutoffs.getD i 0) ≤
      cutoff + s.output_binwidth := by
    rw [(bspline_upper_spec s.output_binwidth (s.upper_cutoffs.getD i 0) hob h0).1]
    have hf : ((⌊s.upper_cutoffs.getD i 0 / s.output_binwidth⌋ : Int) : ℚ) ≤
        s.upper_cutoffs.getD i 0 / s.output_binwidth := Int.floor_le _
    have hm : ((⌊s.upper_cutoffs.getD i 0 / s.output_binwidth⌋ : Int) : ℚ) *
        s.output_binwidth ≤ s.upper_cutoffs.getD i 0 := by
      have := mul_le_mul_of_nonneg_right hf (le_of_lt hob)
      rwa [div_mul_cancel₀ _ (ne_of_gt hob)] at this
    push_cast
    linarith
  have hnot : ¬ exceeds_nonbonded_cutoff_double rnd VERYSMALL
      (adjust_cutoffs_for_basis_double rnd s i) cutoff i := by
    unfold exceeds_nonbonded_cutoff_double
    rintro ⟨_, hgt⟩
    rw [hup, f3, hs] at hgt
    linarith
  refine ⟨?_, hnot, ?_⟩
  · rw [hup, f3]
    exact hbound
  · intro hothers
    unfold check_nonbonded_interaction_range_cutoffs_double
    rw [(check_nonbonded_loop_double_spec rnd VERYSMALL _ cutoff _).2]
    intro j _
    by_cases hj : j = i
    · rw [hj]
      exact hnot
    · exact hothers j hj

/-- C40 (amended), instance in `double` arithmetic: the declared upper bound 9.5 under the
cutoff 10 with `output_binwidth` 0.5 and `VERYSMALL` one millionth; the adjusted upper
cutoff is 10. -/
theorem bspline_nonbonded_upper_within_cutoff_double_witness :
    (adjust_cutoffs_for_type_double round_double (1/1000000)
        (adjust_cutoffs_for_basis_double round_double example_bspline_nonbonded_class 0)
        0).upper_cutoffs.getD 0 0 ≤
      10 + (adjust_cutoffs_for_type_double round_double (1/1000000)
        (adjust_cutoffs_for_basis_double round_double example_bspline_nonbonded_class 0)
        0).output_binwidth ∧
    ¬ exceeds_nonbonded_cutoff_double round_double (round_double (1/1000000))
      (adjust_cutoffs_for_type_double round_double (1/1000000)
        (adjust_cutoffs_for_basis_double round_double example_bspline_nonbonded_class 0) 0)
      10 0 :=
  have h := bspline_nonbonded_upper_within_cutoff_double round_double (1/1000000)
    (round_double (1/1000000)) example_bspline_nonbonded_class 10 0 rfl rfl
    (by norm_num [example_bspline_nonbonded_class, example_bspline_class])
    (by decide)
    (by norm_num [example_bspline_nonbonded_class])
    (by norm_num [example_bspline_nonbonded_class])
    example_bspline_nonbonded_exact.1 example_bspline_nonbonded_exact.2.1
    example_bspline_nonbonded_exact.2.2.1 example_bspline_nonbonded_exact.2.2.2
  ⟨h.1, h.2.1⟩

/-- C40 (refuted as stated), instances in `double` arithmetic with `output_binwidth` 0.1.
For the declared upper bound 10 under the cutoff 10 the adjusted upper cutoff is
`101 * 0.1 = 10.100000000000001`, above `10 + 0.1 = 10.1`, and with `VERYSMALL` 0 the check
ends in the fatal exit. For the declared upper bound 155.5 under the cutoff 155.5 the
adjusted upper cutoff `155.60000000000002` is above `155.5 + 0.1 + 1e-14 = 155.6`, and the
test fires with `VERYSMALL` `1e-14`. -/
theorem bspline_nonbonded_check_fires_double :
    example_tenth_class.upper_cutoffs.getD 0 0 ≤ 10 ∧
    exceeds_nonbonded_cutoff_double round_double 0
      (adjust_cutoffs_for_type_double round_double (1/1000000)
        (adjust_cutoffs_for_basis_double round_double example_tenth_class 0) 0) 10 0 ∧
    (∃ e, check_nonbonded_interaction_range_cutoffs_double round_double 0
      (adjust_cutoffs_for_type_double round_double (1/1000000)
        (adjust_cutoffs_for_basis_double round_double example_tenth_class 0) 0) 10 =
      Except.error e) ∧
    example_tenth_wide_class.upper_cutoffs.getD 0 0 ≤ 311 / 2 ∧
    exceeds_nonbonded_cutoff_double round_double (round_double (1 / 100000000000000))
      (adjust_cutoffs_for_type_double round_double (1/1000000)
        (adjust_cutoffs_for_basis_double round_double example_tenth_wide_class 0) 0)
      (311 / 2) 0 := by
  obtain ⟨v1, v2, v3, v4⟩ := example_tenth_values
  have t1 : adjust_cutoffs_for_type_double round_double (1/1000000)
      (adjust_cutoffs_for_basis_double round_double example_tenth_class 0) 0 =
      adjust_cutoffs_for_basis_double round_double example_tenth_class 0 :=
    adjust_cutoffs_for_type_double_bspline_nonbonded round_double _ _ 0
      (adjust_cutoffs_for_basis_double_bspline_frame round_double example_tenth_class 0 rfl).1
      (adjust_cutoffs_for_basis_double_bspline_frame round_double example_tenth_class 0 rfl).2.1
  have t2 : adjust_cutoffs_for_type_double round_double (1/1000000)
      (adjust_cutoffs_for_basis_double round_double example_tenth_wide_class 0) 0 =
      adjust_cutoffs_for_basis_double round_double example_tenth_wide_class 0 :=
    adjust_cutoffs_for_type_double_bspline_nonbonded round_double _ _ 0
      (adjust_cutoffs_for_basis_double_bspline_frame round_double example_tenth_wide_class 0
        rfl).1
      (adjust_cutoffs_for_basis_double_bspline_frame round_double example_tenth_wide_class 0
        rfl).2.1
  have u1 : (adjust_cutoffs_for_basis_double round_double example_tenth_class
      0).upper_cutoffs.getD 0 0 = bspline_upper_double round_double (round_double (1 / 10)) 10 :=
    adjust_cutoffs_for_basis_double_bspline_getD round_double example_tenth_class 0 rfl
      (by decide)
  have u2 : (adjust_cutoffs_for_basis_double round_double example_tenth_wide_class
      0).upper_cutoffs.getD 0 0 =
      bspline_upper_double round_double (round_double (1 / 10)) (311 / 2) :=
    adjust_cutoffs_for_basis_double_bspline_getD round_double example_tenth_wide_class 0 rfl
      (by decide)
  have o1 : (adjust_cutoffs_for_basis_double round_double example_tenth_class
      0).output_binwidth = round_double (1 / 10) :=
    (adjust_cutoffs_for_basis_double_bspline_frame round_double example_tenth_class 0 rfl).2.2.1
  have o2 : (adjust_cutoffs_for_basis_double round_double example_tenth_wide_class
      0).output_binwidth = round_double (1 / 10) :=
    (adjust_cutoffs_for_basis_double_bspline_frame round_double example_tenth_wide_class 0
      rfl).2.2.1
  have m1 : (adjust_cutoffs_for_basis_double round_double example_tenth_class
      0).defined_to_matched_intrxn_index_map = [1] :=
    (adjust_cutoffs_for_basis_double_bspline_frame round_double example_tenth_class 0
      rfl).2.2.2.2
  have m2 : (adjust_cutoffs_for_basis_double round_double example_tenth_wide_class
      0).defined_to_matched_intrxn_index_map = [1] :=
    (adjust_cutoffs_for_basis_double_bspline_frame round_double example_tenth_wide_class 0
      rfl).2.2.2.2
  have e1 : exceeds_nonbonded_cutoff_double round_double 0
      (adjust_cutoffs_for_basis_double round_double example_tenth_class 0) 10 0 := by
    unfold exceeds_nonbonded_cutoff_double
    rw [m1, u1, o1, v1, v2]
    constructor
    · decide
    · norm_num
  have e2 : exceeds_nonbonded_cutoff_double round_double (round_double (1 / 100000000000000))
      (adjust_cutoffs_for_basis_double round_double example_tenth_wide_class 0) (311 / 2) 0 := by
    unfold exceeds_nonbonded_cutoff_double
    rw [m2, u2, o2, v3, v4]
    constructor
    · decide
    · norm_num
  rw [t1, t2]
  refine ⟨by norm_num [example_tenth_class], e1, ?_,
    by norm_num [example_tenth_wide_class, example_tenth_class], e2⟩
  unfold check_nonbonded_interaction_range_cutoffs_double
  rw [(check_nonbonded_loop_double_spec round_double 0 _ 10 _).1]
  refine ⟨0, ?_, e1⟩
  rw [(adjust_cutoffs_for_basis_double_bspline_frame round_double example_tenth_class 0
    rfl).2.2.2.1]
  decide

/-- C37 (failing input): the master value 0.1 and the two bootstrap estimates 0.1 and 0.1,
in `double` arithmetic. `squared` is `0.030000000000000006`, `sum` is
`0.30000000000000004`, `sum * sum / 3` rounds to `0.03000000000000001`, and the radicand
`squared - sum * sum / 3` is `-2^-58`, about `-3.5e-18`: negative, although the three
values are equal. -/
theorem bootstrapping_radicand_double_negative :
    bootstrapping_radicand_double round_double [round_double (1 / 10)]
      [[round_double (1 / 10)], [round_double (1 / 10)]] 2 0 = (-1 / 2 ^ 58) ∧
    bootstrapping_radicand_double round_double [round_double (1 / 10)]
      [[round_double (1 / 10)], [round_double (1 / 10)]] 2 0 < 0 := by
  have hd : round_double (1 / 10) = 3602879701896397 / 2 ^ 55 :=
    (round_double_pos_eq (1 / 10) (-4) 7205759403792794
      (by norm_num) (by norm_num) (by norm_num) (by norm_num)).trans (by norm_num)
  have h1 : round_double (3602879701896397 / 2 ^ 55 * (3602879701896397 / 2 ^ 55)) =
      1441151880758559 / 2 ^ 57 :=
    (round_double_pos_eq (3602879701896397 / 2 ^ 55 * (3602879701896397 / 2 ^ 55)) (-7) 5764607523034236
      (by norm_num) (by norm_num) (by norm_num) (by norm_num)).trans (by norm_num)
  have h2 : round_double (3602879701896397 / 2 ^ 55 + 3602879701896397 / 2 ^ 55) =
      3602879701896397 / 2 ^ 54 :=
    (round_double_pos_eq (3602879701896397 / 2 ^ 55 + 3602879701896397 / 2 ^ 55) (-3) 7205759403792794
      (by norm_num) (by norm_num) (by norm_num) (by norm_num)).trans (by norm_num)
  have h3 : round_double (3602879701896397 / 2 ^ 54 + 3602879701896397 / 2 ^ 55) =
      1351079888211149 / 2 ^ 52 :=
    (round_double_pos_tie_eq (3602879701896397 / 2 ^ 54 + 3602879701896397 / 2 ^ 55) (-2) 5404319552844596
      (by norm_num) (by norm_num) (by norm_num) (by decide)).trans (by norm_num)
  have h4 : round_double (1441151880758559 / 2 ^ 57 + 1441151880758559 / 2 ^ 57) =
      1441151880758559 / 2 ^ 56 :=
    (round_double_pos_eq (1441151880758559 / 2 ^ 57 + 1441151880758559 / 2 ^ 57) (-6) 5764607523034236
      (by norm_num) (by norm_num) (by norm_num) (by norm_num)).trans (by norm_num)
  have h5 : round_double (1441151880758559 / 2 ^ 56 + 1441151880758559 / 2 ^ 57) =
      4323455642275677 / 2 ^ 57 :=
    (round_double_pos_eq (1441151880758559 / 2 ^ 56 + 1441151880758559 / 2 ^ 57) (-6) 8646911284551354
      (by norm_num) (by norm_num) (by norm_num) (by norm_num)).trans (by norm_num)
  have h6 : round_double (1351079888211149 / 2 ^ 52 * (1351079888211149 / 2 ^ 52)) =
      1621295865853379 / 2 ^ 54 :=
    (round_double_pos_eq (1351079888211149 / 2 ^ 52 * (1351079888211149 / 2 ^ 52)) (-4) 6485183463413516
      (by norm_num) (by norm_num) (by norm_num) (by norm_num)).trans (by norm_num)
  have h7 : round_double (1621295865853379 / 2 ^ 54 / 3) = 8646911284551355 / 2 ^ 58 :=
    (round_double_pos_eq (1621295865853379 / 2 ^ 54 / 3) (-6) 8646911284551355
      (by norm_num) (by norm_num) (by norm_num) (by norm_num)).trans (by norm_num)
  have h8 : round_double (4323455642275677 / 2 ^ 57 - 8646911284551355 / 2 ^ 58) = (-1 / 2 ^ 58) :=
    (round_double_neg_eq (4323455642275677 / 2 ^ 57 - 8646911284551355 / 2 ^ 58) (-58) (-4503599627370496)
      (by norm_num) (by norm_num) (by norm_num) (by norm_num)).trans (by norm_num)
  have hsums : bootstrapping_sums_double round_double [round_double (1 / 10)]
      [[round_double (1 / 10)], [round_double (1 / 10)]] 2 0 =
      (1351079888211149 / 2 ^ 52, 4323455642275677 / 2 ^ 57) := by
    rw [bootstrapping_sums_double_two, hd, h1, h2, h3, h4, h5]
  have hval : bootstrapping_radicand_double round_double [round_double (1 / 10)]
      [[round_double (1 / 10)], [round_double (1 / 10)]] 2 0 = (-1 / 2 ^ 58) := by
    unfold bootstrapping_radicand_double
    rw [hsums]
    have c3 : (((2 + 1 : Nat) : ℚ)) = 3 := by norm_num
    simp only
    rw [c3, h6, h7, h8]
  refine ⟨hval, ?_⟩
  rw [hval]
  norm_num

/-- C32 (failing input): `write_one_param_bspline_file` reads the solution vector at
`interaction_column_indices[m - 1] + k`, without `interaction_class_column_index`: its
positions are those of `write_one_param_linear_spline_file` shifted down by the first
column of the class. For a class whose block starts at column 4, with the interaction on
the columns 4, 5, 6, it prints the entries 0, 1, 2 of the solution vector, while the linear
writer prints the entries 4, 5, 6. -/
theorem write_one_param_bspline_file_ignores_class_column :
    (∀ (icomp : InteractionClassComputer) (d : Nat),
      bspline_coefficient_positions icomp d =
        (linear_spline_columns icomp d).map
          (fun i => i - icomp.interaction_class_column_index)) ∧
    bspline_coefficient_positions example_second_class_computer 0 = [0, 1, 2] ∧
    linear_spline_columns example_second_class_computer 0 = [4, 5, 6] ∧
    (write_one_param_bspline_file example_second_class_computer example_matrix
      0).coefficients = [10, 11, 12] ∧
    (write_one_param_linear_spline_file example_second_class_computer example_matrix 0).map
      (fun f => f.b_file.map Prod.snd) = some [14, 15, 16] := by
  refine ⟨bspline_coefficient_positions_eq, ?_, ?_, ?_, ?_⟩
  · simp [bspline_coefficient_positions, example_second_class_computer, List.range_succ]
  · simp [linear_spline_columns, example_second_class_computer, List.range_succ]
  · simp [write_one_param_bspline_file, bspline_coefficient_positions,
      example_second_class_computer, example_matrix, List.range_succ]
  · simp [write_one_param_linear_spline_file, linear_spline_columns,
      example_second_class_computer, example_matrix, List.range_succ]

/-- C33 (failing input): in `write_interaction_data_to_file` a class of `icomp_list` with
a matched interaction and a basis type that is neither B-spline nor linear spline ends the
output in the fatal exit "Unrecognized basis type."; the three-body block has no such
exit: for a three-body class of subtype 3 with such a basis type and one matched
interaction the function returns normally, having printed one solution entry to
`tb_out`. -/
theorem write_interaction_data_to_file_unrecognized_basis :
    (∀ (icomp_list : List InteractionClassComputer)
        (three_body_nonbonded_computer : InteractionClassComputer) (mat : MATRIX_DATA),
      (∃ icomp, icomp ∈ icomp_list ∧
        (∃ i, i < icomp.ispec.defined_to_matched_intrxn_index_map.length ∧
          icomp.ispec.defined_to_matched_intrxn_index_map.getD i 0 ≠ 0) ∧
        icomp.ispec.basis_type ≠ kBSpline ∧ icomp.ispec.basis_type ≠ kLinearSpline) →
      ∃ made, write_interaction_data_to_file icomp_list three_body_nonbonded_computer mat =
        Except.error ("Unrecognized basis type.", made)) ∧
    write_interaction_data_to_file [example_other_basis_computer]
        example_three_body_other_computer example_matrix =
      Except.error ("Unrecognized basis type.", [OutputCall.one_param_table_files 0 0]) ∧
    write_interaction_data_to_file [] example_three_body_other_computer example_matrix =
      Except.ok [OutputCall.fprintf_tb_out true 14] := by
  refine ⟨?_, ?_, ?_⟩
  · intro icomp_list tb mat h
    obtain ⟨made, hm⟩ := write_interaction_classes_unrecognized mat icomp_list 0 [] h
    refine ⟨made, ?_⟩
    unfold write_interaction_data_to_file
    rw [hm]
  · simp [write_interaction_data_to_file, write_interaction_classes, write_class_interactions,
      example_other_basis_computer, example_linear_class, example_matrix, List.range_succ]
  · simp [write_interaction_data_to_file, write_interaction_classes,
      write_three_body_interactions, example_three_body_other_computer, example_linear_class,
      example_matrix, List.range_succ]

/-- C35 (failing input): with the master coefficients `[1]` and the two bootstrap
estimates `[5]` and `[7]` on the grid points 1 and 2,
`write_bootstrapping_one_param_table_files` hands the master force values `[1, 2]` to the
MSCGFM writer, but the LAMMPS table holds the force values `[5, 10]` of estimate 0 and the
potential integrated from them, not the table of the master solution. -/
theorem write_bootstrapping_one_param_table_files_lammps_estimate :
    write_bootstrapping_one_param_table_files example_coefficient_spline
        example_integrate_force (fun p => p) 'n' example_table_computer [1] [[5], [7]] 0 2 0 =
      some { full_output := false, axis_vals := [1, 2], master_force_vals := [1, 2],
             force_vals := [[5, 10], [7, 14]],
             lammps_table := [(1, 1, 50, 5), (2, 2, 100, 10)] } ∧
    write_LAMMPS_table_output_file (fun p => p) 'n' [1, 2]
        (example_integrate_force [1, 2] [1, 2]) [1, 2] = [(1, 1, 10, 1), (2, 2, 20, 2)] := by
  have hl : example_table_computer.ispec.lower_cutoffs.getD 0 0 = 0 := by
    simp [example_table_computer, example_grid_class]
  have hu : example_table_computer.ispec.upper_cutoffs.getD 0 0 = 3 := by
    simp [example_table_computer, example_grid_class]
  have hb : example_table_computer.ispec.output_binwidth = 1 := rfl
  have g : ∀ coeffs : List ℚ, calc_grid_of_force_vals example_coefficient_spline
      example_table_computer.ispec example_table_computer.interaction_class_column_index
      coeffs 0 1 = some ([1, 2], [coeffs.getD 0 0 * 1, coeffs.getD 0 0 * 2]) := by
    intro coeffs
    exact grid_zero_three example_coefficient_spline _ _ coeffs 0 hl hu
  constructor
  · unfold write_bootstrapping_one_param_table_files
    rw [hb, g]
    simp only
    have hr : List.range 2 = [0, 1] := rfl
    rw [hr]
    unfold bootstrap_estimates_loop
    rw [hb, g]
    simp only
    unfold bootstrap_estimates_loop
    rw [hb, g]
    simp only
    unfold bootstrap_estimates_loop
    norm_num [write_LAMMPS_table_output_file, example_integrate_force, List.range_succ]
  · norm_num [write_LAMMPS_table_output_file, example_integrate_force, List.range_succ]

/-- C38: the abscissas `write_one_param_linear_spline_file` writes for an interaction with
`n` basis functions (`n` at most `2^32`). In the right-hand-side file the abscissa of
coefficient `j` is `lower_cutoffs + j * fm_binwidth`; in the `.b` file the bin number
subtracts `interaction_column_indices[m]` instead of `interaction_column_indices[m - 1]`,
which in `unsigned` arithmetic is `2^32 - n + j`, so the abscissa there is
`lower_cutoffs + (2^32 - n + j) * fm_binwidth`. -/
theorem write_one_param_linear_spline_file_abscissas (icomp : InteractionClassComputer)
    (mat : MATRIX_DATA) (d : Nat)
    (hflag : icomp.output_spline_coeffs_flag = 1)
    (hrhs : mat.output_normal_equations_rhs_flag = 1)
    (hn : icomp.ispec.interaction_column_indices.getD
        (icomp.ispec.defined_to_matched_intrxn_index_map.getD d 0) 0 -
      icomp.ispec.interaction_column_indices.getD
        (icomp.ispec.defined_to_matched_intrxn_index_map.getD d 0 - 1) 0 ≤ 4294967296) :
    write_one_param_linear_spline_file icomp mat d =
      some
        { b_file :=
            (List.range (icomp.ispec.interaction_column_indices.getD
                (icomp.ispec.defined_to_matched_intrxn_index_map.getD d 0) 0 -
              icomp.ispec.interaction_column_indices.getD
                (icomp.ispec.defined_to_matched_intrxn_index_map.getD d 0 - 1) 0).toNat).map
              (fun (j : Nat) =>
                (icomp.ispec.lower_cutoffs.getD d 0 + icomp.ispec.fm_binwidth *
                  (((4294967296 - (icomp.ispec.interaction_column_indices.getD
                      (icomp.ispec.defined_to_matched_intrxn_index_map.getD d 0) 0 -
                    icomp.ispec.interaction_column_indices.getD
                      (icomp.ispec.defined_to_matched_intrxn_index_map.getD d 0 - 1) 0) +
                    (j : Int) : Int)) : ℚ),
                 mat.fm_solution.getD (icomp.interaction_class_column_index +
                   icomp.ispec.interaction_column_indices.getD
                     (icomp.ispec.defined_to_matched_intrxn_index_map.getD d 0 - 1) 0 +
                   (j : Int)).toNat 0)),
          dense_fm_normal_rhs_vector_file := some
            ((List.range (icomp.ispec.interaction_column_indices.getD
                (icomp.ispec.defined_to_matched_intrxn_index_map.getD d 0) 0 -
              icomp.ispec.interaction_column_indices.getD
                (icomp.ispec.defined_to_matched_intrxn_index_map.getD d 0 - 1) 0).toNat).map
              (fun (j : Nat) =>
                (icomp.ispec.lower_cutoffs.getD d 0 + icomp.ispec.fm_binwidth * (j : ℚ),
                 mat.dense_fm_normal_rhs_vector.getD (icomp.interaction_class_column_index +
                   icomp.ispec.interaction_column_indices.getD
                     (icomp.ispec.defined_to_matched_intrxn_index_map.getD d 0 - 1) 0 +
                   (j : Int)).toNat 0))) } := by
  generalize hm : icomp.ispec.defined_to_matched_intrxn_index_map.getD d 0 = m at hn ⊢
  generalize hb : icomp.ispec.interaction_column_indices.getD m 0 = b at hn ⊢
  generalize ha : icomp.ispec.interaction_column_indices.getD (m - 1) 0 = a at hn ⊢
  unfold write_one_param_linear_spline_file linear_spline_columns
  rw [if_pos hflag]
  simp only [hrhs, if_true, hm, hb, ha, List.map_map]
  have e : icomp.interaction_class_column_index + b -
      (icomp.interaction_class_column_index + a) = b - a := by ring
  rw [e]
  have hlt : ∀ k : Nat, k ∈ List.range (b - a).toNat → (k : Int) < b - a := by
    intro k hk
    have h1 : k < (b - a).toNat := List.mem_range.mp hk
    omega
  congr 2
  · apply List.map_congr_left
    intro k hk
    simp only [Function.comp_apply]
    rw [unsigned_bin_number_b _ _ _ _ (hlt k hk) hn]
  · congr 1
    apply List.map_congr_left
    intro k hk
    simp only [Function.comp_apply]
    rw [unsigned_bin_number_rhs _ _ _ _ (hlt k hk) hn]
    norm_cast

/-- C38 (failing input): three coefficients on the grid of width `1/2` from the lower
cutoff 1. The right-hand-side file has the abscissas `1, 3/2, 2`; the `.b` file has
`1 + (2^32 - 3 + j) / 2`. -/
theorem write_one_param_linear_spline_file_abscissas_witness :
    write_one_param_linear_spline_file example_second_class_computer example_matrix 0 =
      some { b_file := [(4294967295 / 2, 14), (2147483648, 15), (4294967297 / 2, 16)],
             dense_fm_normal_rhs_vector_file := some [(1, 24), (3 / 2, 25), (2, 26)] } := by
  rw [write_one_param_linear_spline_file_abscissas example_second_class_computer
    example_matrix 0 rfl rfl
    (by norm_num [example_second_class_computer, example_linear_class])]
  have t3 : (3 : Int).toNat = 3 := rfl
  have t4 : (4 : Int).toNat = 4 := rfl
  have t5 : (5 : Int).toNat = 5 := rfl
  have t6 : (6 : Int).toNat = 6 := rfl
  norm_num [example_second_class_computer, example_linear_class, example_matrix,
    List.range_succ, t3, t4, t5, t6]

/-- C39 (failing input): the table `write_two_param_bspline_interaction_file` writes does
not depend on its argument `index_among_defined`; it is computed for the scratch index
`icomp->index_among_defined_intrxns`. Called for interaction 1 (range `[0, 2]`) while the
scratch index holds 0 (range `[0, 3]`), it prints the coefficient record of interaction 1
with the table of interaction 0. -/
theorem write_two_param_bspline_interaction_file_scratch_index :
    (∀ (evaluate_spline evaluate_spline_deriv : Nat → Int → List ℚ → ℚ → ℚ)
        (icomp : InteractionClassComputer) (mat : MATRIX_DATA) (d1 d2 : Nat),
      (write_two_param_bspline_interaction_file evaluate_spline evaluate_spline_deriv icomp mat
          d1).table =
        (write_two_param_bspline_interaction_file evaluate_spline evaluate_spline_deriv icomp
          mat d2).table) ∧
    write_two_param_bspline_interaction_file example_evaluate_spline
        example_evaluate_spline_deriv example_two_param_computer example_matrix 1 =
      { coefficient_record :=
          { bspline_k := 4, n_to_print_minus_bspline_k := 0, lower_cutoff := 0,
            upper_cutoff := 2, coefficients := [12, 13] },
        table := some [(1, 3, 2), (2, 5, 2), (0, 0, 0), (0, 0, 0)] } ∧
    calc_grid_of_force_and_deriv_vals example_evaluate_spline example_evaluate_spline_deriv
        example_two_param_computer.ispec 0 example_matrix.fm_solution 1 1 =
      some ([1, 0, 0], [3, 0, 0], [2, 0, 0]) := by
  have hl0 : example_two_param_computer.ispec.lower_cutoffs.getD 0 0 = 0 := by
    simp [example_two_param_computer]
  have hu0 : example_two_param_computer.ispec.upper_cutoffs.getD 0 0 = 3 := by
    simp [example_two_param_computer]
  have hl1 : example_two_param_computer.ispec.lower_cutoffs.getD 1 0 = 0 := by
    simp [example_two_param_computer]
  have hu1 : example_two_param_computer.ispec.upper_cutoffs.getD 1 0 = 2 := by
    simp [example_two_param_computer]
  refine ⟨fun _ _ _ _ _ _ => rfl, ?_, ?_⟩
  · have g := (grid_deriv_zero_upper example_evaluate_spline example_evaluate_spline_deriv
      example_two_param_computer.ispec example_two_param_computer.interaction_class_column_index
      example_matrix.fm_solution 0 hl0).1 hu0
    have hb : example_two_param_computer.ispec.output_binwidth = 1 := rfl
    have hs : example_two_param_computer.index_among_defined_intrxns = 0 := rfl
    unfold write_two_param_bspline_interaction_file
    rw [hb, hs, g]
    have t2 : (2 : Int).toNat = 2 := rfl
    have t3 : (3 : Int).toNat = 3 := rfl
    norm_num [example_two_param_computer, example_bspline_class, example_matrix,
      example_evaluate_spline, example_evaluate_spline_deriv, List.range_succ, t2, t3]
  · have g := (grid_deriv_zero_upper example_evaluate_spline example_evaluate_spline_deriv
      example_two_param_computer.ispec 0 example_matrix.fm_solution 1 hl1).2 hu1
    rw [g]
    norm_num [example_evaluate_spline, example_evaluate_spline_deriv]

end MSCG
